import Mathlib

/-!
# Space Shooter: the game simulation of `src/main.cpp`

A shallow embedding of the frame loop of `main` (lines 463-1524): the grid of
typed cells, the hit-effect pool, the HUD values, the lifecycle state and the
clocks, followed by the properties of the simulation that are proved about it.

Conventions of the embedding.

* `int` variables are `Int` (`lives`, `score`, `level`, `bossMoveCounter`,
  `selectedMenuItem`); row, column and slot indices, which the source keeps
  non-negative by its own guards, are `Nat`.
* `grid[ROWS][COLS]` is an array of cell codes read with `Grid.get` and
  written with `Grid.set`; only the cells with `r < ROWS` and `c < COLS` belong
  to the program.  The array is stored as one number, three bits per cell, so
  that long runs of the simulation stay cheap to evaluate; `Grid.get_set` and
  `Grid.get_cleared` are the array laws everything else relies on.
* An `sf::Clock` is the time elapsed since its last `restart()`, in
  microseconds (the unit `sf::Time` stores).  A frame first advances every
  clock by the time `dt` that passed since the previous frame; no time passes
  inside a frame.  Thresholds written as `float` seconds in the source
  (`0.833f`, `2.0f`, ...) are the same decimal values in microseconds.
* `Keyboard::isKeyPressed`, `rand()` and the window's close event are inputs
  of the frame.
* Code that the source repeats verbatim (the hit-effect activation loop, the
  life-loss block, the level-up / victory check) is one definition here.
-/

namespace SpaceShooter

/-! ## Constants (lines 9-21, 41, 59) -/

abbrev ROWS : Nat := 23
abbrev COLS : Nat := 15

abbrev STATE_MENU : Nat := 0
abbrev STATE_PLAYING : Nat := 1
abbrev STATE_INSTRUCTIONS : Nat := 2
abbrev STATE_GAME_OVER : Nat := 3
abbrev STATE_LEVEL_UP : Nat := 4
abbrev STATE_VICTORY : Nat := 5
abbrev STATE_PAUSED : Nat := 6

abbrev MAX_LEVEL : Int := 5
abbrev MAX_HIT_EFFECTS : Nat := 50

/-! Cell codes (comment at line 55: `0 = Empty, 1 = Spaceship, 2 = Meteor,
3 = Bullet, 4 = Enemy, 5 = Boss, 6 = Boss Bullet`). -/

abbrev EMPTY : Nat := 0
abbrev SPACESHIP : Nat := 1
abbrev METEOR : Nat := 2
abbrev BULLET : Nat := 3
abbrev ENEMY : Nat := 4
abbrev BOSS : Nat := 5
abbrev BOSS_BULLET : Nat := 6

/-! ## State and input -/

/-- The grid `int grid[ROWS][COLS]`: the number whose base-8 digit at position
`Nat.pair r c` is the code held by cell `(r, c)`. -/
abbrev Grid : Type := Nat

/-- Read `grid[r][c]`. -/
def Grid.get (g : Grid) (r c : Nat) : Nat :=
  g / 8 ^ Nat.pair r c % 8

/-- Assignment `grid[r][c] = v` (for a cell code `v`, which is below 8). -/
def Grid.set (g : Grid) (r c v : Nat) : Grid :=
  g - g.get r c * 8 ^ Nat.pair r c + v % 8 * 8 ^ Nat.pair r c

/-- The grid after the loops `grid[r][c] = 0` over all rows and columns. -/
def Grid.cleared : Grid := 0

/-- The variables of `main` that the frame loop reads and writes. -/
structure State where
  windowOpen : Bool
  currentState : Nat
  selectedMenuItem : Int
  lives : Int
  score : Int
  level : Int
  isInvincible : Bool
  levelUpBlinkState : Bool
  bossMoveCounter : Int
  grid : Grid
  hitEffectRow : Nat → Nat
  hitEffectCol : Nat → Nat
  hitEffectTimer : Nat → Nat
  hitEffectActive : Nat → Bool
  spaceshipCol : Nat
  nextSpawnTime : Int
  nextEnemySpawnTime : Int
  nextBossSpawnTime : Int
  invincibilityTimer : Nat
  levelUpTimer : Nat
  levelUpBlinkClock : Nat
  moveClock : Nat
  meteorSpawnClock : Nat
  meteorMoveClock : Nat
  enemySpawnClock : Nat
  enemyMoveClock : Nat
  bossSpawnClock : Nat
  bossMoveClock : Nat
  bossBulletMoveClock : Nat
  bulletMoveClock : Nat
  bulletFireClock : Nat
  hitEffectClock : Nat
  menuClock : Nat

/-- What one iteration of the loop reads from outside: the time since the
previous iteration, the close event, the keys held and the values `rand()`
returns at its six call sites of the Playing block. -/
structure Input where
  dt : Nat
  closed : Bool
  keyUp : Bool
  keyW : Bool
  keyDown : Bool
  keyS : Bool
  keyEnter : Bool
  keyEscape : Bool
  keyBackSpace : Bool
  keyP : Bool
  keyLeft : Bool
  keyA : Bool
  keyRight : Bool
  keyD : Bool
  keySpace : Bool
  randMeteorCol : Nat
  randMeteorNext : Nat
  randEnemyCol : Nat
  randEnemyNext : Nat
  randBossCol : Nat
  randBossNext : Nat

/-- No key held, no close event, every `rand()` returning 0. -/
def Input.idle (dt : Nat) : Input :=
  { dt := dt, closed := false, keyUp := false, keyW := false, keyDown := false,
    keyS := false, keyEnter := false, keyEscape := false, keyBackSpace := false,
    keyP := false, keyLeft := false, keyA := false, keyRight := false,
    keyD := false, keySpace := false, randMeteorCol := 0, randMeteorNext := 0,
    randEnemyCol := 0, randEnemyNext := 0, randBossCol := 0, randBossNext := 0 }

/-- Durations of the source, in microseconds. -/
abbrev menuCooldown : Nat := 200000
abbrev moveCooldown : Nat := 100000
abbrev bulletFireCooldown : Nat := 300000
abbrev HIT_EFFECT_DURATION : Nat := 300000
abbrev INVINCIBILITY_DURATION : Nat := 1000000

/-- The state when the loop is first entered (lines 36-68, 431-460); the three
arguments are the `rand()` results of lines 437, 442 and 448. -/
def initState (r1 r2 r3 : Nat) : State :=
  { windowOpen := true
    currentState := STATE_MENU
    selectedMenuItem := 0
    lives := 3
    score := 0
    level := 1
    isInvincible := false
    levelUpBlinkState := true
    bossMoveCounter := 0
    grid := (Grid.cleared).set (ROWS - 1) (COLS / 2) SPACESHIP
    hitEffectRow := fun _ => 0
    hitEffectCol := fun _ => 0
    hitEffectTimer := fun _ => 0
    hitEffectActive := fun _ => false
    spaceshipCol := COLS / 2
    nextSpawnTime := 1000000 + ((r1 % 3 : Nat) : Int) * 1000000
    nextEnemySpawnTime := 2000000 + ((r2 % 4 : Nat) : Int) * 1000000
    nextBossSpawnTime := 8000000 + ((r3 % 5 : Nat) : Int) * 1000000
    invincibilityTimer := 0
    levelUpTimer := 0
    levelUpBlinkClock := 0
    moveClock := 0
    meteorSpawnClock := 0
    meteorMoveClock := 0
    enemySpawnClock := 0
    enemyMoveClock := 0
    bossSpawnClock := 0
    bossMoveClock := 0
    bossBulletMoveClock := 0
    bulletMoveClock := 0
    bulletFireClock := 0
    hitEffectClock := 0
    menuClock := 0 }

/-- Every clock advances by the time between two frames. -/
def State.advanceClocks (s : State) (dt : Nat) : State :=
  { s with
    invincibilityTimer := s.invincibilityTimer + dt
    levelUpTimer := s.levelUpTimer + dt
    levelUpBlinkClock := s.levelUpBlinkClock + dt
    moveClock := s.moveClock + dt
    meteorSpawnClock := s.meteorSpawnClock + dt
    meteorMoveClock := s.meteorMoveClock + dt
    enemySpawnClock := s.enemySpawnClock + dt
    enemyMoveClock := s.enemyMoveClock + dt
    bossSpawnClock := s.bossSpawnClock + dt
    bossMoveClock := s.bossMoveClock + dt
    bossBulletMoveClock := s.bossBulletMoveClock + dt
    bulletMoveClock := s.bulletMoveClock + dt
    bulletFireClock := s.bulletFireClock + dt
    hitEffectClock := s.hitEffectClock + dt
    menuClock := s.menuClock + dt }

/-- Read `grid[r][c]` on the state. -/
def State.cell (s : State) (r c : Nat) : Nat := s.grid.get r c

/-- Assignment `grid[r][c] = v` on the state. -/
def State.setCell (s : State) (r c v : Nat) : State :=
  { s with grid := s.grid.set r c v }

/-- The cells in the order of `for (r = 0; r < ROWS; r++) for (c = 0; c < COLS; c++)`. -/
def scanTopDown : List (Nat × Nat) :=
  (List.range ROWS).flatMap (fun r => (List.range COLS).map (fun c => (r, c)))

/-- The cells in the order of `for (r = ROWS - 1; r >= 0; r--) for (c = 0; c < COLS; c++)`. -/
def scanBottomUp : List (Nat × Nat) :=
  (List.range ROWS).reverse.flatMap (fun r => (List.range COLS).map (fun c => (r, c)))

/-- The same record, rebuilt from its fields (`State.pack_eq`).  A loop body
that leaves the state alone returns the very state it was given; re-packing
after each iteration keeps the evaluation of a long loop from re-tracing all
the iterations before it. -/
def State.pack (s : State) : State :=
  match s with
  | ⟨x0, x1, x2, x3, x4, x5, x6, x7, x8, x9, x10,
      x11, x12, x13, x14, x15, x16, x17, x18, x19, x20, x21,
      x22, x23, x24, x25, x26, x27, x28, x29, x30, x31, x32⟩ =>
    ⟨x0, x1, x2, x3, x4, x5, x6, x7, x8, x9, x10,
      x11, x12, x13, x14, x15, x16, x17, x18, x19, x20, x21,
      x22, x23, x24, x25, x26, x27, x28, x29, x30, x31, x32⟩

/-- The nested loops `for (r ...) for (c ...) { body }` over the cells of
`cells`, in that order. -/
def forCells (cells : List (Nat × Nat)) (body : State → Nat × Nat → State)
    (s : State) : State :=
  cells.foldl (fun st p => (body st p).pack) s

/-- Assignment `a[i] = v` on one of the hit-effect arrays. -/
def setAt {α : Type} (a : Nat → α) (i : Nat) (v : α) : Nat → α :=
  fun j => if j = i then v else a j

/-! ## Blocks the source repeats -/

/-- The activation loop (lines 805-815 and its eight copies), resumed at slot
`i` with `n` slots still to visit: the first inactive slot takes the row, the
column and timer 0, and the loop breaks. -/
def triggerHitEffectFrom (s : State) (row col : Nat) : Nat → Nat → State
  | 0, _ => s
  | n + 1, i =>
    if s.hitEffectActive i = false then
      { s with
        hitEffectRow := setAt s.hitEffectRow i row
        hitEffectCol := setAt s.hitEffectCol i col
        hitEffectTimer := setAt s.hitEffectTimer i 0
        hitEffectActive := setAt s.hitEffectActive i true }
    else triggerHitEffectFrom s row col n (i + 1)

/-- The loop `for (int i = 0; i < MAX_HIT_EFFECTS; i++)` of lines 805-815. -/
def triggerHitEffect (s : State) (row col : Nat) : State :=
  triggerHitEffectFrom s row col MAX_HIT_EFFECTS 0

/-- The life-loss block (lines 785-795, 839-849 and their copies): `lives--`,
the invincibility flag and timer, and the Game Over check. -/
def loseLife (s : State) : State :=
  let s1 := { s with lives := s.lives - 1, isInvincible := true, invincibilityTimer := 0 }
  if s1.lives ≤ 0 then
    { s1 with currentState := STATE_GAME_OVER, selectedMenuItem := 0 }
  else s1

/-- The loops of lines 904-913: every cell holding a code in 2..6 becomes 0. -/
def clearEntities (g : Grid) : Grid :=
  scanTopDown.foldl
    (fun g1 p => if 2 ≤ g1.get p.1 p.2 ∧ g1.get p.1 p.2 ≤ 6 then g1.set p.1 p.2 EMPTY else g1) g

/-- The level-up / victory check (lines 897-930 and its three copies), run
after the points of a destruction have been added. -/
def checkLevelUp (s : State) : State :=
  let scoreNeeded := s.level * 10
  if s.level < MAX_LEVEL ∧ s.score ≥ scoreNeeded then
    { s with
      level := s.level + 1
      score := 0
      bossMoveCounter := 0
      grid := (((clearEntities s.grid).set (ROWS - 1) s.spaceshipCol EMPTY).set
                (ROWS - 1) (COLS / 2) SPACESHIP)
      spaceshipCol := COLS / 2
      currentState := STATE_LEVEL_UP
      levelUpTimer := 0
      levelUpBlinkClock := 0 }
  else if s.level ≥ MAX_LEVEL ∧ s.score ≥ scoreNeeded then
    { s with currentState := STATE_VICTORY, selectedMenuItem := 0 }
  else s

/-- The restart of the eight game clocks (lines 516-523). -/
def restartGameClocks (s : State) : State :=
  { s with
    meteorSpawnClock := 0, meteorMoveClock := 0, enemySpawnClock := 0,
    enemyMoveClock := 0, bossSpawnClock := 0, bossMoveClock := 0,
    bossBulletMoveClock := 0, bulletMoveClock := 0 }

/-- The "Start Game" block of the menu (lines 498-523), which the Game Over
menu repeats (lines 579-601). -/
def startGame (s : State) : State :=
  restartGameClocks
    { s with
      currentState := STATE_PLAYING
      lives := 3
      score := 0
      level := 1
      bossMoveCounter := 0
      grid := (Grid.cleared).set (ROWS - 1) (COLS / 2) SPACESHIP
      spaceshipCol := COLS / 2 }

/-! ## Per-cell steps of the five movers

Each loop body is `if (grid[r][c] == X) { ... }`.  The block between the braces
is the step of the entity found at `(r, c)` (`meteorStep`, `enemyStep`, ...);
the body with its guard is `meteorCell`, `enemyCell`, ... -/

/-- What the Meteor loop does with the meteor found at `(r, c)` (lines 766-817). -/
def meteorStep (s : State) (r c : Nat) : State :=
  if r = ROWS - 1 then s.setCell r c EMPTY
  else
    let s1 := s.setCell r c EMPTY
    if s1.cell (r + 1) c = EMPTY ∨ s1.cell (r + 1) c = METEOR then
      s1.setCell (r + 1) c METEOR
    else if s1.cell (r + 1) c = SPACESHIP then
      let s2 := if s1.isInvincible = false then loseLife s1 else s1
      s2.setCell (r + 1) c EMPTY
    else if s1.cell (r + 1) c = BULLET then
      triggerHitEffect (s1.setCell (r + 1) c EMPTY) (r + 1) c
    else s1

/-- Body of the Meteor loop at one cell (lines 764-818). -/
def meteorCell (s : State) (p : Nat × Nat) : State :=
  if s.cell p.1 p.2 = METEOR then meteorStep s p.1 p.2 else s

/-- What the Enemy loop does with the enemy found at `(r, c)` (lines 835-932). -/
def enemyStep (s : State) (r c : Nat) : State :=
  if r = ROWS - 1 then loseLife (s.setCell r c EMPTY)
  else
    let s1 := s.setCell r c EMPTY
    if s1.cell (r + 1) c = EMPTY ∨ s1.cell (r + 1) c = ENEMY then
      s1.setCell (r + 1) c ENEMY
    else if s1.cell (r + 1) c = SPACESHIP then
      let s2 := if s1.isInvincible = false then loseLife s1 else s1
      s2.setCell (r + 1) c EMPTY
    else if s1.cell (r + 1) c = BULLET then
      let s2 := { s1 with score := s1.score + 1 }
      checkLevelUp (triggerHitEffect (s2.setCell (r + 1) c EMPTY) (r + 1) c)
    else s1

/-- Body of the Enemy loop at one cell (lines 833-933). -/
def enemyCell (s : State) (p : Nat × Nat) : State :=
  if s.cell p.1 p.2 = ENEMY then enemyStep s p.1 p.2 else s

/-- What the Boss loop does with the boss found at `(r, c)` (lines 952-1053). -/
def bossStep (s : State) (r c : Nat) : State :=
  if r = ROWS - 1 then loseLife (s.setCell r c EMPTY)
  else
    let nextRow := r + 1
    let nextCell := s.cell nextRow c
    let s1 := s.setCell r c EMPTY
    if nextCell = EMPTY ∨ nextCell = BOSS ∨ nextCell = BOSS_BULLET ∨ nextCell = METEOR
        ∨ nextCell = ENEMY then
      s1.setCell nextRow c BOSS
    else if s1.cell (r + 1) c = SPACESHIP then
      let s2 := if s1.isInvincible = false then loseLife s1 else s1
      s2.setCell (r + 1) c EMPTY
    else if s1.cell (r + 1) c = BULLET then
      let s2 := { s1 with score := s1.score + 3 }
      checkLevelUp (triggerHitEffect (s2.setCell (r + 1) c EMPTY) (r + 1) c)
    else s1

/-- Body of the Boss loop at one cell (lines 950-1054). -/
def bossCell (s : State) (p : Nat × Nat) : State :=
  if s.cell p.1 p.2 = BOSS then bossStep s p.1 p.2 else s

/-- What the Boss Bullet loop does with the boss bullet found at `(r, c)`
(lines 1115-1163). -/
def bossBulletStep (s : State) (r c : Nat) : State :=
  if r = ROWS - 1 then s.setCell r c EMPTY
  else
    let s1 := s.setCell r c EMPTY
    if s1.cell (r + 1) c = SPACESHIP then
      let s2 := if s1.isInvincible = false then loseLife s1 else s1
      triggerHitEffect s2 (r + 1) c
    else if s1.cell (r + 1) c = METEOR ∨ s1.cell (r + 1) c = ENEMY then
      s1.setCell (r + 1) c BOSS_BULLET
    else if s1.cell (r + 1) c = EMPTY ∨ s1.cell (r + 1) c = BOSS_BULLET then
      s1.setCell (r + 1) c BOSS_BULLET
    else s1

/-- Body of the Boss Bullet loop at one cell (lines 1113-1164). -/
def bossBulletCell (s : State) (p : Nat × Nat) : State :=
  if s.cell p.1 p.2 = BOSS_BULLET then bossBulletStep s p.1 p.2 else s

/-- What the Player Bullet loop does with the bullet found at `(r, c)`
(lines 1180-1338). -/
def bulletStep (s : State) (r c : Nat) : State :=
  if r = 0 then s.setCell r c EMPTY
  else
    let s1 := s.setCell r c EMPTY
    if s1.cell (r - 1) c = EMPTY ∨ s1.cell (r - 1) c = BULLET then
      s1.setCell (r - 1) c BULLET
    else if s1.cell (r - 1) c = BOSS_BULLET then
      triggerHitEffect (s1.setCell (r - 1) c EMPTY) (r - 1) c
    else if s1.cell (r - 1) c = METEOR then
      triggerHitEffect (s1.setCell (r - 1) c EMPTY) (r - 1) c
    else if s1.cell (r - 1) c = ENEMY then
      let s2 := { s1 with score := s1.score + 1 }
      checkLevelUp (triggerHitEffect (s2.setCell (r - 1) c EMPTY) (r - 1) c)
    else if s1.cell (r - 1) c = BOSS then
      let s2 := { s1 with score := s1.score + 3 }
      checkLevelUp (triggerHitEffect (s2.setCell (r - 1) c EMPTY) (r - 1) c)
    else s1

/-- Body of the Player Bullet loop at one cell (lines 1178-1339). -/
def bulletCell (s : State) (p : Nat × Nat) : State :=
  if s.cell p.1 p.2 = BULLET then bulletStep s p.1 p.2 else s

/-- What the firing loop does with the boss found at `(r, c)` (lines 1085-1094). -/
def bossFireStep (s : State) (r c : Nat) : State :=
  if r < ROWS - 1 then
    let bulletRow := r + 1
    if bulletRow < ROWS ∧ s.cell bulletRow c = EMPTY then
      s.setCell bulletRow c BOSS_BULLET
    else s
  else s

/-- Body of the firing loop at one cell (lines 1083-1095). -/
def bossFireCell (s : State) (p : Nat × Nat) : State :=
  if s.cell p.1 p.2 = BOSS then bossFireStep s p.1 p.2 else s

/-! ## The Playing block (lines 645-1367) -/

/-- Pause input (lines 648-657). -/
def pauseInput (s : State) (inp : Input) : State :=
  if s.menuClock ≥ menuCooldown then
    if inp.keyP then
      { s with currentState := STATE_PAUSED, selectedMenuItem := 0, menuClock := 0 }
    else s
  else s

/-- Player movement (lines 660-686). -/
def playerMove (s : State) (inp : Input) : State :=
  if s.moveClock ≥ moveCooldown then
    if (inp.keyLeft || inp.keyA) ∧ s.spaceshipCol > 0 then
      let s1 := s.setCell (ROWS - 1) s.spaceshipCol EMPTY
      let s2 := { s1 with spaceshipCol := s1.spaceshipCol - 1 }
      { s2.setCell (ROWS - 1) s2.spaceshipCol SPACESHIP with moveClock := 0 }
    else if (inp.keyRight || inp.keyD) ∧ s.spaceshipCol < COLS - 1 then
      let s1 := s.setCell (ROWS - 1) s.spaceshipCol EMPTY
      let s2 := { s1 with spaceshipCol := s1.spaceshipCol + 1 }
      { s2.setCell (ROWS - 1) s2.spaceshipCol SPACESHIP with moveClock := 0 }
    else s
  else s

/-- Player shooting (lines 689-700). -/
def playerFire (s : State) (inp : Input) : State :=
  if inp.keySpace ∧ s.bulletFireClock ≥ bulletFireCooldown then
    let bulletRow := ROWS - 2
    let s1 := if s.cell bulletRow s.spaceshipCol = EMPTY then
        s.setCell bulletRow s.spaceshipCol BULLET else s
    { s1 with bulletFireClock := 0 }
  else s

/-- Meteor spawning (lines 703-714). -/
def meteorSpawn (s : State) (inp : Input) : State :=
  if (s.meteorSpawnClock : Int) ≥ s.nextSpawnTime then
    let randomCol := inp.randMeteorCol % COLS
    let s1 := if s.cell 0 randomCol = EMPTY then s.setCell 0 randomCol METEOR else s
    { s1 with
      meteorSpawnClock := 0
      nextSpawnTime := 1000000 + ((inp.randMeteorNext % 3 : Nat) : Int) * 1000000 }
  else s

/-- The next enemy spawn interval (lines 728-734): `baseTime` and `variance`
with their lower bounds, and `rand() % (int)variance` whole seconds. -/
def enemySpawnInterval (level : Int) (rnd : Nat) : Int :=
  let baseTime := 2500000 - level * 400000
  let variance := 3000000 - level * 400000
  let baseTime := if baseTime < 500000 then 500000 else baseTime
  let variance := if variance < 1000000 then 1000000 else variance
  baseTime + ((rnd : Int).tmod (variance.tdiv 1000000)) * 1000000

/-- Enemy spawning (lines 717-735). -/
def enemySpawn (s : State) (inp : Input) : State :=
  if (s.enemySpawnClock : Int) ≥ s.nextEnemySpawnTime then
    let randomCol := inp.randEnemyCol % COLS
    let s1 := if s.cell 0 randomCol = EMPTY then s.setCell 0 randomCol ENEMY else s
    { s1 with
      enemySpawnClock := 0
      nextEnemySpawnTime := enemySpawnInterval s1.level inp.randEnemyNext }
  else s

/-- The next boss spawn interval (lines 749-753). -/
def bossSpawnInterval (level : Int) (rnd : Nat) : Int :=
  let bossBaseTime := 10000000 - (level - 3) * 1500000
  let bossBaseTime := if bossBaseTime < 5000000 then 5000000 else bossBaseTime
  bossBaseTime + ((rnd % 4 : Nat) : Int) * 1000000

/-- Boss spawning (lines 738-754). -/
def bossSpawn (s : State) (inp : Input) : State :=
  if s.level ≥ 3 ∧ (s.bossSpawnClock : Int) ≥ s.nextBossSpawnTime then
    let randomCol := inp.randBossCol % COLS
    let s1 := if s.cell 0 randomCol = EMPTY then s.setCell 0 randomCol BOSS else s
    { s1 with
      bossSpawnClock := 0
      nextBossSpawnTime := bossSpawnInterval s1.level inp.randBossNext }
  else s

/-- Meteor movement (lines 757-822). -/
def meteorMove (s : State) : State :=
  if s.meteorMoveClock ≥ 833000 then
    { forCells scanBottomUp meteorCell s with meteorMoveClock := 0 }
  else s

/-- The value `enemyMoveSpeed` (line 825). -/
def enemyMoveSpeed (level : Int) : Int := 833000 - (level - 1) * 100000

/-- Enemy movement (lines 825-937). -/
def enemyMove (s : State) : State :=
  if (s.enemyMoveClock : Int) ≥ enemyMoveSpeed s.level then
    { forCells scanBottomUp enemyCell s with enemyMoveClock := 0 }
  else s

/-- The value `bossMoveSpeed` (lines 940-942). -/
def bossMoveSpeed (level : Int) : Int :=
  let speed := 800000 - (level - 3) * 100000
  if speed < 500000 then 500000 else speed

/-- The value `firingInterval` (lines 1062-1074); the `1.5` of the last branch is stored
in an `int`, hence 1. -/
def firingInterval (level : Int) : Int :=
  if level = 3 then 3 else if level = 4 then 2 else 1

/-- Boss firing (lines 1059-1101), run after the Boss loop. -/
def bossFire (s : State) : State :=
  let s1 := { s with bossMoveCounter := s.bossMoveCounter + 1 }
  let s2 := if s1.bossMoveCounter ≥ firingInterval s1.level then
      { forCells scanTopDown bossFireCell s1 with bossMoveCounter := 0 }
    else s1
  { s2 with bossMoveClock := 0 }

/-- Boss movement and firing (lines 943-1102), `speed` being the
`bossMoveSpeed` computed at line 940. -/
def bossMove (s : State) (speed : Int) : State :=
  if (s.bossMoveClock : Int) ≥ speed then bossFire (forCells scanBottomUp bossCell s)
  else s

/-- Boss bullet movement (lines 1105-1168), `speed` being `bossBulletSpeed`. -/
def bossBulletMove (s : State) (speed : Int) : State :=
  if (s.bossBulletMoveClock : Int) ≥ speed then
    { forCells scanBottomUp bossBulletCell s with bossBulletMoveClock := 0 }
  else s

/-- Player bullet movement (lines 1171-1343). -/
def bulletMove (s : State) : State :=
  if s.bulletMoveClock ≥ 50000 then
    { forCells scanTopDown bulletCell s with bulletMoveClock := 0 }
  else s

/-- Update of the hit effects (lines 1346-1358). -/
def updateHitEffects (s : State) : State :=
  let deltaTime := s.hitEffectClock
  { s with
    hitEffectTimer := fun i =>
      if i < MAX_HIT_EFFECTS ∧ s.hitEffectActive i = true then s.hitEffectTimer i + deltaTime
      else s.hitEffectTimer i
    hitEffectActive := fun i =>
      if i < MAX_HIT_EFFECTS ∧ s.hitEffectActive i = true
          ∧ s.hitEffectTimer i + deltaTime ≥ HIT_EFFECT_DURATION then false
      else s.hitEffectActive i
    hitEffectClock := 0 }

/-- Update of the invincibility status (lines 1361-1365). -/
def updateInvincibility (s : State) : State :=
  if s.isInvincible = true ∧ s.invincibilityTimer ≥ INVINCIBILITY_DURATION then
    { s with isInvincible := false }
  else s

/-- What the Playing block still runs once the Player Bullet loop is over. -/
def afterBulletMove (s : State) : State :=
  updateInvincibility (updateHitEffects s)

/-- What the Playing block still runs once the Enemy mover is over: the Boss
mover and the Boss Bullet mover at the speed computed from the level at that
point, then the Player Bullet mover and the two updates. -/
def afterEnemyMove (s : State) : State :=
  let speed := bossMoveSpeed s.level
  afterBulletMove (bulletMove (bossBulletMove (bossMove s speed) (speed / 2)))

/-- The Playing block (lines 645-1367). -/
def playingFrame (s : State) (inp : Input) : State :=
  let s1 := pauseInput s inp
  let s2 := playerMove s1 inp
  let s3 := playerFire s2 inp
  let s4 := meteorSpawn s3 inp
  let s5 := enemySpawn s4 inp
  let s6 := bossSpawn s5 inp
  let s7 := meteorMove s6
  afterEnemyMove (enemyMove s7)

/-! ## The menu-class blocks and the Level Up block -/

/-- The Menu block (lines 475-554). -/
def menuFrame (s : State) (inp : Input) : State :=
  if s.menuClock ≥ menuCooldown then
    if inp.keyUp || inp.keyW then
      { s with selectedMenuItem := (s.selectedMenuItem - 1 + 4).tmod 4, menuClock := 0 }
    else if inp.keyDown || inp.keyS then
      { s with selectedMenuItem := (s.selectedMenuItem + 1).tmod 4, menuClock := 0 }
    else if inp.keyEnter then
      let s1 :=
        if s.selectedMenuItem = 0 then startGame s
        else if s.selectedMenuItem = 2 then { s with currentState := STATE_INSTRUCTIONS }
        else if s.selectedMenuItem = 3 then { s with windowOpen := false }
        else s
      { s1 with menuClock := 0 }
    else s
  else s

/-- The Game Over block (lines 556-629). -/
def gameOverFrame (s : State) (inp : Input) : State :=
  if s.menuClock ≥ menuCooldown then
    if inp.keyUp || inp.keyW then
      { s with selectedMenuItem := (s.selectedMenuItem - 1 + 2).tmod 2, menuClock := 0 }
    else if inp.keyDown || inp.keyS then
      { s with selectedMenuItem := (s.selectedMenuItem + 1).tmod 2, menuClock := 0 }
    else if inp.keyEnter then
      let s1 :=
        if s.selectedMenuItem = 0 then startGame s
        else if s.selectedMenuItem = 1 then
          { s with currentState := STATE_MENU, selectedMenuItem := 0 }
        else s
      { s1 with menuClock := 0 }
    else s
  else s

/-- The Instructions block (lines 631-643). -/
def instructionsFrame (s : State) (inp : Input) : State :=
  if s.menuClock ≥ menuCooldown then
    if inp.keyEscape || inp.keyBackSpace then
      { s with currentState := STATE_MENU, selectedMenuItem := 0, menuClock := 0 }
    else s
  else s

/-- The Level Up block (lines 1370-1391). -/
def levelUpFrame (s : State) : State :=
  let s1 := if s.levelUpBlinkClock ≥ 300000 then
      { s with levelUpBlinkState := !s.levelUpBlinkState, levelUpBlinkClock := 0 }
    else s
  if s1.levelUpTimer ≥ 2000000 then
    { s1 with
      currentState := STATE_PLAYING
      meteorSpawnClock := 0, meteorMoveClock := 0, enemySpawnClock := 0,
      enemyMoveClock := 0, bossSpawnClock := 0, bossMoveClock := 0,
      bossBulletMoveClock := 0 }
  else s1

/-- The Victory block (lines 1394-1452); its restart also clears the
invincibility flag (line 1420). -/
def victoryFrame (s : State) (inp : Input) : State :=
  if s.menuClock ≥ menuCooldown then
    if inp.keyUp || inp.keyW then
      { s with selectedMenuItem := (s.selectedMenuItem - 1 + 2).tmod 2, menuClock := 0 }
    else if inp.keyDown || inp.keyS then
      { s with selectedMenuItem := (s.selectedMenuItem + 1).tmod 2, menuClock := 0 }
    else if inp.keyEnter then
      let s1 :=
        if s.selectedMenuItem = 0 then startGame { s with isInvincible := false }
        else if s.selectedMenuItem = 1 then
          { s with currentState := STATE_MENU, selectedMenuItem := 0 }
        else s
      { s1 with menuClock := 0 }
    else s
  else s

/-- The "Restart Level" block of the pause menu (lines 1481-1502): level and
lives are kept. -/
def restartLevel (s : State) : State :=
  restartGameClocks
    { s with
      currentState := STATE_PLAYING
      score := 0
      bossMoveCounter := 0
      isInvincible := false
      grid := (Grid.cleared).set (ROWS - 1) (COLS / 2) SPACESHIP
      spaceshipCol := COLS / 2 }

/-- The Paused block (lines 1455-1524). -/
def pausedFrame (s : State) (inp : Input) : State :=
  if s.menuClock ≥ menuCooldown then
    if inp.keyUp || inp.keyW then
      { s with selectedMenuItem := (s.selectedMenuItem - 1 + 3).tmod 3, menuClock := 0 }
    else if inp.keyDown || inp.keyS then
      { s with selectedMenuItem := (s.selectedMenuItem + 1).tmod 3, menuClock := 0 }
    else if inp.keyEnter then
      let s1 :=
        if s.selectedMenuItem = 0 then { s with currentState := STATE_PLAYING }
        else if s.selectedMenuItem = 1 then restartLevel s
        else if s.selectedMenuItem = 2 then
          { s with currentState := STATE_MENU, selectedMenuItem := 0 }
        else s
      { s1 with menuClock := 0 }
    else if inp.keyP then
      { s with currentState := STATE_PLAYING, menuClock := 0 }
    else s
  else s

/-! ## One iteration of the main loop -/

/-- The state machine of lines 475-1524, on the lifecycle state held when the
iteration starts. -/
def updateBlock (s : State) (inp : Input) : State :=
  if s.currentState = STATE_MENU then menuFrame s inp
  else if s.currentState = STATE_GAME_OVER then gameOverFrame s inp
  else if s.currentState = STATE_INSTRUCTIONS then instructionsFrame s inp
  else if s.currentState = STATE_PLAYING then playingFrame s inp
  else if s.currentState = STATE_LEVEL_UP then levelUpFrame s
  else if s.currentState = STATE_VICTORY then victoryFrame s inp
  else if s.currentState = STATE_PAUSED then pausedFrame s inp
  else s

/-- One iteration of `while (window.isOpen())` (lines 463-1842): the clocks
have advanced by `inp.dt`, the close event is drained, and the block of the
current lifecycle state runs. -/
def frame (s : State) (inp : Input) : State :=
  let s1 := s.advanceClocks inp.dt
  let s2 := if inp.closed then { s1 with windowOpen := false } else s1
  updateBlock s2 inp

/-- The states the program can be in at the start of a loop iteration: the
initial state, and the state a frame leaves while the window is open. -/
inductive Reachable : State → Prop
  | init (r1 r2 r3 : Nat) : Reachable (initState r1 r2 r3)
  | step (s : State) (inp : Input) : Reachable s → s.windowOpen = true →
      Reachable (frame s inp)

/-- The state after running the frames of `inps` in order. -/
def run (s : State) (inps : List Input) : State := inps.foldl frame s

/-! ## Inputs of the worked scenarios -/

/-- Enter held, the menu cooldown having elapsed. -/
def startInput : Input := { Input.idle 200000 with keyEnter := true }

/-- A frame 0.833 s after the previous one, no key held: every mover whose
cadence is at most 0.833 s ticks once.  When the meteor spawner is due it draws
column `col` and the next interval `1 + next % 3` seconds; the other draws are 0. -/
def tickInput (col next : Nat) : Input :=
  { Input.idle 833000 with randMeteorCol := col, randMeteorNext := next }

/-- A game lost with two lives gone in the last frame.  After Start, frames
follow each other 0.833 s apart.  Meteors spawn in frames 2 (column 7), 5
(column 14), 7 (column 8) and then every fourth frame (column 14); enemies
spawn in column 0 in frames 3, 6, 9, ...  Frame 23: the meteor of frame 2 steps
into the Player (lives 2).  Frame 24: Right is held, the Player moves to column
8.  Frame 25: the first enemy leaves the bottom row (lives 1).  Frame 28: the
meteor of frame 7 steps into the Player (lives 0, Game Over), and in the same
frame the second enemy leaves the bottom row (lives -1). -/
def lostGameInputs : List Input :=
  [startInput, tickInput 0 0, tickInput 7 1, tickInput 0 0, tickInput 0 0, tickInput 14 0,
    tickInput 0 0, tickInput 8 2] ++
  List.replicate 16 (tickInput 14 2) ++
  [{ tickInput 14 2 with keyRight := true }] ++ List.replicate 4 (tickInput 14 2)

/-- A frame of play 0.833 s after the previous one: Space is held when `fire`
is set, a due enemy spawner draws column `ecol`, a due meteor spawner draws
column 14 and the next interval 3 s. -/
def playInput (fire : Bool) (ecol : Nat) : Input :=
  { Input.idle 833000 with
    keySpace := fire, randMeteorCol := 14, randMeteorNext := 2, randEnemyCol := ecol }

/-- The frames of `lastLifeInputs` in which Space is held. -/
def shotFrames : List Nat := [1, 2, 3, 4, 6, 9, 12, 15, 18, 21]

/-- A game in which the tenth point and the loss of the last life fall into
one frame.  After Start, frames follow each other 0.833 s apart and enemies
spawn in frames 3, 6, 9, ...: in column 0 in frames 12, 15 and 18, in column 7
(the Player column) otherwise.  The ten bullets of `shotFrames` destroy the
ten enemies of column 7, the tenth in frame 40; the three enemies of column 0
leave the bottom row in frames 34, 37 and 40. -/
def lastLifeInputs : List Input :=
  startInput :: (List.range 43).map fun k =>
    playInput (shotFrames.contains (k + 1)) (if k + 1 = 12 ∨ k + 1 = 15 ∨ k + 1 = 18 then 0 else 7)

/-! ## Predicates used by the statements -/

/-- Well-formed grid: the Player column is on the board, every cell holds one
of the seven codes, the only cell that can hold the Player is
`(ROWS - 1, spaceshipCol)` and no Player Bullet sits in the bottom row. -/
def WF (s : State) : Prop :=
  s.spaceshipCol < COLS ∧
    ∀ r, r < ROWS → ∀ c, c < COLS →
      s.cell r c ≤ 6 ∧ (s.cell r c = SPACESHIP → r = ROWS - 1 ∧ c = s.spaceshipCol) ∧
        (s.cell r c = BULLET → r ≠ ROWS - 1)

instance (s : State) : Decidable (WF s) := by
  unfold WF; infer_instance

/-- The grid holds nothing but the Player at `(ROWS - 1, COLS / 2)`. -/
def CleanGrid (s : State) : Prop :=
  ∀ r, r < ROWS → ∀ c, c < COLS →
    s.cell r c = if r = ROWS - 1 ∧ c = COLS / 2 then SPACESHIP else EMPTY

instance (s : State) : Decidable (CleanGrid s) := by
  unfold CleanGrid; infer_instance

/-- Score and lifecycle agree: below the level's threshold, or at the last
level with the game no longer in play. -/
def ScoreOK (s : State) : Prop :=
  s.score < 10 * s.level ∨
    (5 ≤ s.level ∧ s.currentState ≠ STATE_PLAYING ∧ s.currentState ≠ STATE_PAUSED ∧
      s.currentState ≠ STATE_LEVEL_UP)

/-- The facts that hold between any two statements of the update block, for a
window flag `w` and a level `L` fixed beforehand: the window flag is `w`, the
level is at least `L` and within 1..5, lives are at most 3, the score is not
negative, Victory is only held with the last level's threshold reached, a Boss
on the grid means level 3 or more, and the grid is well formed. -/
def Mid (w : Bool) (L : Int) (s : State) : Prop :=
  s.windowOpen = w ∧ L ≤ s.level ∧ s.lives ≤ 3 ∧ 1 ≤ s.level ∧ s.level ≤ 5 ∧ 0 ≤ s.score ∧
    (s.currentState = STATE_VICTORY → 5 ≤ s.level ∧ 10 * s.level ≤ s.score) ∧
    (∀ r, r < ROWS → ∀ c, c < COLS → s.cell r c = BOSS → 3 ≤ s.level) ∧ WF s

/-- The invariant of the simulation at frame boundaries. -/
def Inv (s : State) : Prop :=
  Mid s.windowOpen 1 s ∧ ScoreOK s

instance (s : State) : Decidable (Inv s) := by
  unfold Inv Mid ScoreOK; infer_instance

/-! ## Outcomes of the mover steps -/

/-- The outcome of a level-up from level `L`: level `L + 1`, score 0, a grid
holding only the Player at `(ROWS - 1, COLS / 2)`, lifecycle LevelUp. -/
def LevelledUp (L : Int) (t : State) : Prop :=
  t.level = L + 1 ∧ t.score = 0 ∧ CleanGrid t ∧ t.currentState = STATE_LEVEL_UP

/-- A slot of the hit-effect arrays is inactive. -/
def FreeSlot (s : State) : Prop :=
  ∃ i, i < MAX_HIT_EFFECTS ∧ s.hitEffectActive i = false

/-- A slot that was inactive in `s` is active in `t`, at `(row, col)` with
timer 0. -/
def HitEffectAt (s t : State) (row col : Nat) : Prop :=
  ∃ i, i < MAX_HIT_EFFECTS ∧ s.hitEffectActive i = false ∧ t.hitEffectActive i = true ∧
    t.hitEffectRow i = row ∧ t.hitEffectCol i = col ∧ t.hitEffectTimer i = 0

/-- From `s` to `t` an entity of class `X` went from `(r, c)` to `(r2, c)`: the
source cell is Empty, the target cell holds `X`, every other cell, lives, score,
level, lifecycle state and the hit-effect arrays are as before. -/
def MovedTo (s t : State) (X r c r2 : Nat) : Prop :=
  t.cell r c = EMPTY ∧ t.cell r2 c = X ∧
    (∀ r3 c3, ¬(r3 = r ∧ c3 = c) → ¬(r3 = r2 ∧ c3 = c) → t.cell r3 c3 = s.cell r3 c3) ∧
    t.lives = s.lives ∧ t.score = s.score ∧ t.level = s.level ∧
    t.currentState = s.currentState ∧
    t.hitEffectActive = s.hitEffectActive ∧ t.hitEffectRow = s.hitEffectRow ∧
    t.hitEffectCol = s.hitEffectCol ∧ t.hitEffectTimer = s.hitEffectTimer

/-- From `s` to `t` the entities at `(r, c)` and `(r2, c)` destroyed each other:
both cells are Empty in `t`, and if `s` had an inactive hit-effect slot, a hit
effect is active in `t` at the target `(r2, c)`. -/
def Destroyed (s t : State) (r c r2 : Nat) : Prop :=
  t.cell r c = EMPTY ∧ t.cell r2 c = EMPTY ∧ (FreeSlot s → HitEffectAt s t r2 c)

/-- The step from `s` to `t` added `pts` points and then ran the progression
check: `t` is `checkLevelUp pre` for a state `pre` whose score is that of `s`
plus `pts`, with the level and lifecycle state of `s`. -/
def ScoredBy (s t : State) (pts : Int) : Prop :=
  ∃ pre, t = checkLevelUp pre ∧ pre.score = s.score + pts ∧ pre.level = s.level ∧
    pre.currentState = s.currentState

/-- The step from `s` to `t` added no points and ran no progression check:
score, level and lifecycle state are as before. -/
def Unscored (s t : State) : Prop :=
  t.score = s.score ∧ t.level = s.level ∧ t.currentState = s.currentState

/-- How a destruction worth `pts` points at the cells `(r, c)` and `(r2, c)` of
`s` relates to Victory in the resulting state `t`: Victory is set exactly when
the level is 5 and the score with the points added is at least 50, and then the
score keeps the points, the level stays 5 and the grid is that of `s` with the
two cells emptied. -/
def VictoryRule (s t : State) (r c r2 : Nat) (pts : Int) : Prop :=
  (t.currentState = STATE_VICTORY ↔ s.level = 5 ∧ 50 ≤ s.score + pts) ∧
    (t.currentState = STATE_VICTORY →
      t.score = s.score + pts ∧ t.level = 5 ∧ t.grid = (s.grid.set r c EMPTY).set r2 c EMPTY)

/-- What a block other than Playing can do: the lifecycle state stays, or
becomes Playing, Menu or Instructions; the level does not fall unless the grid
is left holding only the Player at `(ROWS - 1, COLS / 2)`. -/
def Quiet (s t : State) : Prop :=
  (t.currentState = s.currentState ∨ t.currentState = STATE_PLAYING ∨
      t.currentState = STATE_MENU ∨ t.currentState = STATE_INSTRUCTIONS) ∧
    (s.level ≤ t.level ∨ CleanGrid t)

/-- From `s` to `t` the entity at `(r, c)` was removed and nothing else
changed: the cell is Empty, every other cell, lives, score, level, lifecycle
state and the hit-effect arrays are as before. -/
def Vanished (s t : State) (r c : Nat) : Prop :=
  t.cell r c = EMPTY ∧ (∀ r3 c3, ¬(r3 = r ∧ c3 = c) → t.cell r3 c3 = s.cell r3 c3) ∧
    t.lives = s.lives ∧ t.score = s.score ∧ t.level = s.level ∧
    t.currentState = s.currentState ∧
    t.hitEffectActive = s.hitEffectActive ∧ t.hitEffectRow = s.hitEffectRow ∧
    t.hitEffectCol = s.hitEffectCol ∧ t.hitEffectTimer = s.hitEffectTimer

/-- From `s` to `t` one life was lost: lives is one less, the invincibility
flag is set and its timer restarted, the lifecycle is Game Over if lives is
then at most 0 and is unchanged otherwise. -/
def LifeLost (s t : State) : Prop :=
  t.lives = s.lives - 1 ∧ t.isInvincible = true ∧ t.invincibilityTimer = 0 ∧
    (t.lives ≤ 0 → t.currentState = STATE_GAME_OVER) ∧
    (0 < t.lives → t.currentState = s.currentState)

/-- From `s` to `t` lives, the invincibility flag and the lifecycle state are
unchanged. -/
def LifeKept (s t : State) : Prop :=
  t.lives = s.lives ∧ t.isInvincible = s.isInvincible ∧ t.currentState = s.currentState

/-- From `s` to `t` the mover at `(r, c)` ran into the Player: the source cell
is Empty, score and level are unchanged, a life is lost if the invincibility
flag was clear, and nothing is lost if it was set. -/
def HitPlayer (s t : State) (r c : Nat) : Prop :=
  t.cell r c = EMPTY ∧ t.score = s.score ∧ t.level = s.level ∧
    (s.isInvincible = false → LifeLost s t) ∧ (s.isInvincible = true → LifeKept s t)

/-- From `s` to `t` the entity in the bottom row at column `c` left the grid:
its cell is Empty, no other cell changed, score and level are unchanged and a
life is lost. -/
def Escaped (s t : State) (c : Nat) : Prop :=
  t.cell (ROWS - 1) c = EMPTY ∧
    (∀ r3 c3, ¬(r3 = ROWS - 1 ∧ c3 = c) → t.cell r3 c3 = s.cell r3 c3) ∧
    t.score = s.score ∧ t.level = s.level ∧ LifeLost s t

/-- Lives are `L` and the invincibility flag is set. -/
def Calm (L : Int) (t : State) : Prop := t.lives = L ∧ t.isInvincible = true

/-- From `s` to `t` a spawner drew column `c` for class `X`: the column is on
the board; if `(0, c)` was Empty it now holds `X` and no other cell changed; if
it was occupied the grid is unchanged; lives, score, level and lifecycle state
are unchanged. -/
def Spawned (s t : State) (X c : Nat) : Prop :=
  c < COLS ∧
    (s.cell 0 c = EMPTY →
      t.cell 0 c = X ∧ ∀ r3 c3, ¬(r3 = 0 ∧ c3 = c) → t.cell r3 c3 = s.cell r3 c3) ∧
    (s.cell 0 c ≠ EMPTY → t.grid = s.grid) ∧
    t.lives = s.lives ∧ t.score = s.score ∧ t.level = s.level ∧
    t.currentState = s.currentState

/-! ## The Boss mover tick -/

/-- The firing condition of line 1077 for the state `s` in which `bossFire`
starts: once incremented, the counter has reached the firing interval of the
level. -/
def BossFires (s : State) : Prop := firingInterval s.level ≤ s.bossMoveCounter + 1

instance (s : State) : Decidable (BossFires s) := by
  unfold BossFires; infer_instance

/-- One tick of the Boss mover: the body of the `if` of line 943, the Boss loop
followed by the firing block. -/
def bossTick (s : State) : State := bossFire (forCells scanBottomUp bossCell s)

/-- The state after `n` ticks of the Boss mover with nothing in between. -/
def bossTicks (s : State) : Nat → State
  | 0 => s
  | n + 1 => bossTick (bossTicks s n)

/-- The cells of the bottom row, in scan order. -/
def bottomRow : List (Nat × Nat) := (List.range COLS).map (fun c => (ROWS - 1, c))

/-- The cells above the bottom row, in the order of the bottom-up scan. -/
def upperRows : List (Nat × Nat) :=
  (List.range (ROWS - 1)).reverse.flatMap (fun r => (List.range COLS).map (fun c => (r, c)))

/-! ## Menu selections -/

/-- A frame in which a menu-class block runs its Enter branch: the menu
cooldown has elapsed once the clocks have advanced, Enter is held, and neither
Up/W nor Down/S, which the block tests first, is held. -/
def Selects (s : State) (inp : Input) : Prop :=
  menuCooldown ≤ s.menuClock + inp.dt ∧ inp.keyEnter = true ∧
    (inp.keyUp || inp.keyW) = false ∧ (inp.keyDown || inp.keyS) = false

/-- A new game: Playing, three lives, score 0, level 1, the grid holding only
the Player at `(ROWS - 1, COLS / 2)`. -/
def FreshGame (t : State) : Prop :=
  t.currentState = STATE_PLAYING ∧ t.lives = 3 ∧ t.score = 0 ∧ t.level = 1 ∧ CleanGrid t ∧
    t.spaceshipCol = COLS / 2

/-- Grid, lives, score, level and Player column of `t` are those of `s`. -/
def SameBoard (s t : State) : Prop :=
  t.grid = s.grid ∧ t.lives = s.lives ∧ t.score = s.score ∧ t.level = s.level ∧
    t.spaceshipCol = s.spaceshipCol

/-! ## The hit-effect pool -/

/-- The four assignments of lines 808-811 at slot `i`: row, column, timer 0,
active. -/
def activateSlot (s : State) (i row col : Nat) : State :=
  { s with
    hitEffectRow := setAt s.hitEffectRow i row
    hitEffectCol := setAt s.hitEffectCol i col
    hitEffectTimer := setAt s.hitEffectTimer i 0
    hitEffectActive := setAt s.hitEffectActive i true }

/-- The timers of the pool agree with the flags: an active slot is younger than
`HIT_EFFECT_DURATION`, an inactive one has never run or has run out. -/
def EffectsOK (s : State) : Prop :=
  ∀ i, i < MAX_HIT_EFFECTS →
    (s.hitEffectActive i = true → s.hitEffectTimer i < HIT_EFFECT_DURATION) ∧
    (s.hitEffectActive i = false →
      s.hitEffectTimer i = 0 ∨ HIT_EFFECT_DURATION ≤ s.hitEffectTimer i)

/-- The four hit-effect arrays of `t` are those of `s`. -/
def SamePool (s t : State) : Prop :=
  t.hitEffectActive = s.hitEffectActive ∧ t.hitEffectTimer = s.hitEffectTimer ∧
    t.hitEffectRow = s.hitEffectRow ∧ t.hitEffectCol = s.hitEffectCol

/-! ## Properties kept by the Playing block -/

/-- A property of states that every statement of the Playing block after the
pause input keeps: it only depends on the lifecycle state, the cursor, lives,
score, level, the hit-effect arrays and the Player column; it survives a move
of the Player to a column on the board or to the left; and it is kept by the
life-loss block, by added points, by the progression check, by the activation
loop and by the update of the pool. -/
structure Kept (P : State → Prop) : Prop where
  same : ∀ s t : State, P s → t.currentState = s.currentState →
    t.selectedMenuItem = s.selectedMenuItem → t.lives = s.lives → t.score = s.score →
    t.level = s.level → t.hitEffectActive = s.hitEffectActive →
    t.hitEffectRow = s.hitEffectRow → t.hitEffectCol = s.hitEffectCol →
    t.hitEffectTimer = s.hitEffectTimer → t.spaceshipCol = s.spaceshipCol → P t
  move : ∀ (s : State) (c : Nat), c < COLS ∨ c ≤ s.spaceshipCol → P s →
    P { s with spaceshipCol := c }
  lose : ∀ s : State, P s → P (loseLife s)
  gain : ∀ (s : State) (k : Int), 0 < k → P s → P { s with score := s.score + k }
  check : ∀ s : State, P s → P (checkLevelUp s)
  trigger : ∀ (s : State) (row col : Nat), P s → P (triggerHitEffect s row col)
  update : ∀ s : State, P s → P (updateHitEffects s)

/-- What the pause input leaves for the rest of the frame, `L`, `Lv` and `S`
being lives, level and score at the pause: the cursor is 0, and either nothing
has been lost or gained and the state is Paused below the level's threshold, or
a life was lost or a point gained and the state is Paused, Game Over, Level Up
or Victory. -/
def PausedOr (L Lv S : Int) (t : State) : Prop :=
  t.selectedMenuItem = 0 ∧ t.lives ≤ L ∧ Lv ≤ t.level ∧ (t.level = Lv → S ≤ t.score) ∧
    (((t.lives < L ∨ Lv < t.level ∨ S < t.score) ∧
        (t.currentState = STATE_PAUSED ∨ t.currentState = STATE_GAME_OVER ∨
          t.currentState = STATE_LEVEL_UP ∨ t.currentState = STATE_VICTORY)) ∨
      (t.currentState = STATE_PAUSED ∧ t.score < 10 * t.level))

/-! ## The Player Bullet mover tick -/

/-- Scan order of the top-down loops: row first, then column. -/
def Before (a b : Nat × Nat) : Prop := a.1 < b.1 ∨ (a.1 = b.1 ∧ a.2 < b.2)

/-- One tick of the Player Bullet mover: the body of the `if` of line 1171. -/
def bulletTick (s : State) : State :=
  { forCells scanTopDown bulletCell s with bulletMoveClock := 0 }

/-- The state after `n` ticks of the Player Bullet mover with nothing in between. -/
def bulletTicks (s : State) : Nat → State
  | 0 => s
  | n + 1 => bulletTick (bulletTicks s n)

/-- No cell of the board holds a Player Bullet. -/
def NoBullets (s : State) : Prop := ∀ r, r < ROWS → ∀ c, c < COLS → s.cell r c ≠ BULLET

instance (s : State) : Decidable (NoBullets s) := by
  unfold NoBullets; infer_instance

/-- State `t` is `s` with one Player Bullet added at `(r, p)`: every other
cell, lives, score, level, lifecycle state, Player column and the hit-effect
arrays are those of `s`. -/
def InFlight (s t : State) (r p : Nat) : Prop :=
  (∀ r2 c2, t.cell r2 c2 = if r2 = r ∧ c2 = p then BULLET else s.cell r2 c2) ∧
    t.lives = s.lives ∧ t.score = s.score ∧ t.level = s.level ∧
    t.currentState = s.currentState ∧ t.spaceshipCol = s.spaceshipCol ∧
    t.hitEffectActive = s.hitEffectActive ∧ t.hitEffectRow = s.hitEffectRow ∧
    t.hitEffectCol = s.hitEffectCol ∧ t.hitEffectTimer = s.hitEffectTimer

/-! ## The same blocks with every array access checked

Every read and write of `grid` goes through `Grid.getC` and `Grid.setC`, which
fail outside the array; index expressions are evaluated in `Int`, as the
source's `int`s are.  The activation loop checks its slot index against
`MAX_HIT_EFFECTS`. -/

/-- Checked read of `grid[r][c]`, the indices being the ints of the source:
`none` outside the array. -/
def Grid.getC (g : Grid) (r c : Int) : Option Nat :=
  if 0 ≤ r ∧ r < ROWS ∧ 0 ≤ c ∧ c < COLS then some (g.get r.toNat c.toNat) else none

/-- Checked assignment `grid[r][c] = v`: `none` outside the array. -/
def Grid.setC (g : Grid) (r c : Int) (v : Nat) : Option Grid :=
  if 0 ≤ r ∧ r < ROWS ∧ 0 ≤ c ∧ c < COLS then some (g.set r.toNat c.toNat v) else none

/-- Checked read of `grid[r][c]` on the state. -/
def State.cellC (s : State) (r c : Int) : Option Nat := s.grid.getC r c

/-- Checked assignment `grid[r][c] = v` on the state. -/
def State.setCellC (s : State) (r c : Int) (v : Nat) : Option State :=
  (s.grid.setC r c v).map fun g => { s with grid := g }

/-- The nested loops over the cells of `cells` with a body that can fail: the
first failure ends the run. -/
def loopC {α : Type} (cells : List (Nat × Nat)) (body : α → Nat × Nat → Option α)
    (a : α) : Option α :=
  match cells with
  | [] => some a
  | p :: rest => (body a p).bind fun a1 => loopC rest body a1

/-- The activation loop with the slot index checked against the array size. -/
def triggerHitEffectFromC (s : State) (row col : Nat) : Nat → Nat → Option State
  | 0, _ => some s
  | n + 1, i =>
    if i < MAX_HIT_EFFECTS then
      if s.hitEffectActive i = false then
        some { s with
          hitEffectRow := setAt s.hitEffectRow i row
          hitEffectCol := setAt s.hitEffectCol i col
          hitEffectTimer := setAt s.hitEffectTimer i 0
          hitEffectActive := setAt s.hitEffectActive i true }
      else triggerHitEffectFromC s row col n (i + 1)
    else none

/-- The loop of lines 805-815 with checked slots. -/
def triggerHitEffectC (s : State) (row col : Nat) : Option State :=
  triggerHitEffectFromC s row col MAX_HIT_EFFECTS 0

/-- The loops of lines 904-913 with checked accesses. -/
def clearEntitiesC (g : Grid) : Option Grid :=
  loopC scanTopDown
    (fun g1 p => (g1.getC p.1 p.2).bind fun x =>
      if 2 ≤ x ∧ x ≤ 6 then g1.setC p.1 p.2 EMPTY else some g1) g

/-- The level-up / victory check of lines 897-930 with checked accesses. -/
def checkLevelUpC (s : State) : Option State :=
  let scoreNeeded := s.level * 10
  if s.level < MAX_LEVEL ∧ s.score ≥ scoreNeeded then
    (clearEntitiesC s.grid).bind fun g =>
    (g.setC (ROWS - 1) s.spaceshipCol EMPTY).bind fun g1 =>
    (g1.setC (ROWS - 1) (COLS / 2 : Nat) SPACESHIP).map fun g2 =>
      { s with
        level := s.level + 1
        score := 0
        bossMoveCounter := 0
        grid := g2
        spaceshipCol := COLS / 2
        currentState := STATE_LEVEL_UP
        levelUpTimer := 0
        levelUpBlinkClock := 0 }
  else if s.level ≥ MAX_LEVEL ∧ s.score ≥ scoreNeeded then
    some { s with currentState := STATE_VICTORY, selectedMenuItem := 0 }
  else some s

/-- The Meteor step of lines 766-817 with checked accesses; `below` is the cell
`grid[r + 1][c]` the conditions read. -/
def meteorStepC (s : State) (r c : Nat) : Option State :=
  if r = ROWS - 1 then s.setCellC r c EMPTY
  else
    (s.setCellC r c EMPTY).bind fun s1 =>
    (s1.cellC (r + 1) c).bind fun below =>
      if below = EMPTY ∨ below = METEOR then s1.setCellC (r + 1) c METEOR
      else if below = SPACESHIP then
        (if s1.isInvincible = false then loseLife s1 else s1).setCellC (r + 1) c EMPTY
      else if below = BULLET then
        (s1.setCellC (r + 1) c EMPTY).bind fun s2 => triggerHitEffectC s2 (r + 1) c
      else some s1

/-- Body of the Meteor loop at one cell, with the read checked. -/
def meteorCellC (s : State) (p : Nat × Nat) : Option State :=
  (s.cellC p.1 p.2).bind fun x => if x = METEOR then meteorStepC s p.1 p.2 else some s

/-- The Enemy step of lines 835-932 with checked accesses. -/
def enemyStepC (s : State) (r c : Nat) : Option State :=
  if r = ROWS - 1 then (s.setCellC r c EMPTY).map loseLife
  else
    (s.setCellC r c EMPTY).bind fun s1 =>
    (s1.cellC (r + 1) c).bind fun below =>
      if below = EMPTY ∨ below = ENEMY then s1.setCellC (r + 1) c ENEMY
      else if below = SPACESHIP then
        (if s1.isInvincible = false then loseLife s1 else s1).setCellC (r + 1) c EMPTY
      else if below = BULLET then
        (State.setCellC { s1 with score := s1.score + 1 } (r + 1) c EMPTY).bind fun s2 =>
        (triggerHitEffectC s2 (r + 1) c).bind checkLevelUpC
      else some s1

/-- Body of the Enemy loop at one cell, with the read checked. -/
def enemyCellC (s : State) (p : Nat × Nat) : Option State :=
  (s.cellC p.1 p.2).bind fun x => if x = ENEMY then enemyStepC s p.1 p.2 else some s

/-- The Boss step of lines 952-1053 with checked accesses. -/
def bossStepC (s : State) (r c : Nat) : Option State :=
  if r = ROWS - 1 then (s.setCellC r c EMPTY).map loseLife
  else
    (s.cellC (r + 1) c).bind fun nextCell =>
    (s.setCellC r c EMPTY).bind fun s1 =>
      if nextCell = EMPTY ∨ nextCell = BOSS ∨ nextCell = BOSS_BULLET ∨ nextCell = METEOR
          ∨ nextCell = ENEMY then
        s1.setCellC (r + 1) c BOSS
      else
        (s1.cellC (r + 1) c).bind fun below =>
          if below = SPACESHIP then
            (if s1.isInvincible = false then loseLife s1 else s1).setCellC (r + 1) c EMPTY
          else if below = BULLET then
            (State.setCellC { s1 with score := s1.score + 3 } (r + 1) c EMPTY).bind fun s2 =>
            (triggerHitEffectC s2 (r + 1) c).bind checkLevelUpC
          else some s1

/-- Body of the Boss loop at one cell, with the read checked. -/
def bossCellC (s : State) (p : Nat × Nat) : Option State :=
  (s.cellC p.1 p.2).bind fun x => if x = BOSS then bossStepC s p.1 p.2 else some s

/-- The Boss Bullet step of lines 1115-1163 with checked accesses. -/
def bossBulletStepC (s : State) (r c : Nat) : Option State :=
  if r = ROWS - 1 then s.setCellC r c EMPTY
  else
    (s.setCellC r c EMPTY).bind fun s1 =>
    (s1.cellC (r + 1) c).bind fun below =>
      if below = SPACESHIP then
        triggerHitEffectC (if s1.isInvincible = false then loseLife s1 else s1) (r + 1) c
      else if below = METEOR ∨ below = ENEMY then s1.setCellC (r + 1) c BOSS_BULLET
      else if below = EMPTY ∨ below = BOSS_BULLET then s1.setCellC (r + 1) c BOSS_BULLET
      else some s1

/-- Body of the Boss Bullet loop at one cell, with the read checked. -/
def bossBulletCellC (s : State) (p : Nat × Nat) : Option State :=
  (s.cellC p.1 p.2).bind fun x => if x = BOSS_BULLET then bossBulletStepC s p.1 p.2 else some s

/-- The Player Bullet step of lines 1180-1338 with checked accesses; `above` is
the cell `grid[r - 1][c]` the conditions read. -/
def bulletStepC (s : State) (r c : Nat) : Option State :=
  if r = 0 then s.setCellC r c EMPTY
  else
    (s.setCellC r c EMPTY).bind fun s1 =>
    (s1.cellC (r - 1) c).bind fun above =>
      if above = EMPTY ∨ above = BULLET then s1.setCellC (r - 1) c BULLET
      else if above = BOSS_BULLET then
        (s1.setCellC (r - 1) c EMPTY).bind fun s2 => triggerHitEffectC s2 (r - 1) c
      else if above = METEOR then
        (s1.setCellC (r - 1) c EMPTY).bind fun s2 => triggerHitEffectC s2 (r - 1) c
      else if above = ENEMY then
        (State.setCellC { s1 with score := s1.score + 1 } (r - 1) c EMPTY).bind fun s2 =>
        (triggerHitEffectC s2 (r - 1) c).bind checkLevelUpC
      else if above = BOSS then
        (State.setCellC { s1 with score := s1.score + 3 } (r - 1) c EMPTY).bind fun s2 =>
        (triggerHitEffectC s2 (r - 1) c).bind checkLevelUpC
      else some s1

/-- Body of the Player Bullet loop at one cell, with the read checked. -/
def bulletCellC (s : State) (p : Nat × Nat) : Option State :=
  (s.cellC p.1 p.2).bind fun x => if x = BULLET then bulletStepC s p.1 p.2 else some s

/-- The firing step of lines 1085-1094 with checked accesses: the cell below is
read only when `bulletRow < ROWS`. -/
def bossFireStepC (s : State) (r c : Nat) : Option State :=
  if r < ROWS - 1 then
    if r + 1 < ROWS then
      (s.cellC (r + 1) c).bind fun x =>
        if x = EMPTY then s.setCellC (r + 1) c BOSS_BULLET else some s
    else some s
  else some s

/-- Body of the firing loop at one cell, with the read checked. -/
def bossFireCellC (s : State) (p : Nat × Nat) : Option State :=
  (s.cellC p.1 p.2).bind fun x => if x = BOSS then bossFireStepC s p.1 p.2 else some s

/-- Player movement (lines 660-686) with checked accesses. -/
def playerMoveC (s : State) (inp : Input) : Option State :=
  if s.moveClock ≥ moveCooldown then
    if (inp.keyLeft || inp.keyA) ∧ s.spaceshipCol > 0 then
      (s.setCellC (ROWS - 1) s.spaceshipCol EMPTY).bind fun s1 =>
      (State.setCellC { s1 with spaceshipCol := s1.spaceshipCol - 1 } (ROWS - 1)
        (s1.spaceshipCol - 1) SPACESHIP).map fun s3 => { s3 with moveClock := 0 }
    else if (inp.keyRight || inp.keyD) ∧ s.spaceshipCol < COLS - 1 then
      (s.setCellC (ROWS - 1) s.spaceshipCol EMPTY).bind fun s1 =>
      (State.setCellC { s1 with spaceshipCol := s1.spaceshipCol + 1 } (ROWS - 1)
        (s1.spaceshipCol + 1) SPACESHIP).map fun s3 => { s3 with moveClock := 0 }
    else some s
  else some s

/-- Player shooting (lines 689-700) with checked accesses: the cell is read
only when `bulletRow >= 0`. -/
def playerFireC (s : State) (inp : Input) : Option State :=
  if inp.keySpace ∧ s.bulletFireClock ≥ bulletFireCooldown then
    let bulletRow : Int := ROWS - 2
    (if bulletRow ≥ 0 then
        (s.cellC bulletRow s.spaceshipCol).bind fun x =>
          if x = EMPTY then s.setCellC bulletRow s.spaceshipCol BULLET else some s
      else some s).map fun s1 => { s1 with bulletFireClock := 0 }
  else some s

/-- Meteor spawning (lines 703-714) with checked accesses. -/
def meteorSpawnC (s : State) (inp : Input) : Option State :=
  if (s.meteorSpawnClock : Int) ≥ s.nextSpawnTime then
    let randomCol := inp.randMeteorCol % COLS
    ((s.cellC 0 randomCol).bind fun x =>
        if x = EMPTY then s.setCellC 0 randomCol METEOR else some s).map fun s1 =>
      { s1 with
        meteorSpawnClock := 0
        nextSpawnTime := 1000000 + ((inp.randMeteorNext % 3 : Nat) : Int) * 1000000 }
  else some s

/-- Enemy spawning (lines 717-735) with checked accesses. -/
def enemySpawnC (s : State) (inp : Input) : Option State :=
  if (s.enemySpawnClock : Int) ≥ s.nextEnemySpawnTime then
    let randomCol := inp.randEnemyCol % COLS
    ((s.cellC 0 randomCol).bind fun x =>
        if x = EMPTY then s.setCellC 0 randomCol ENEMY else some s).map fun s1 =>
      { s1 with
        enemySpawnClock := 0
        nextEnemySpawnTime := enemySpawnInterval s1.level inp.randEnemyNext }
  else some s

/-- Boss spawning (lines 738-754) with checked accesses. -/
def bossSpawnC (s : State) (inp : Input) : Option State :=
  if s.level ≥ 3 ∧ (s.bossSpawnClock : Int) ≥ s.nextBossSpawnTime then
    let randomCol := inp.randBossCol % COLS
    ((s.cellC 0 randomCol).bind fun x =>
        if x = EMPTY then s.setCellC 0 randomCol BOSS else some s).map fun s1 =>
      { s1 with
        bossSpawnClock := 0
        nextBossSpawnTime := bossSpawnInterval s1.level inp.randBossNext }
  else some s

/-- Meteor movement (lines 757-822) with checked accesses. -/
def meteorMoveC (s : State) : Option State :=
  if s.meteorMoveClock ≥ 833000 then
    (loopC scanBottomUp meteorCellC s).map fun t => { t with meteorMoveClock := 0 }
  else some s

/-- Enemy movement (lines 825-937) with checked accesses. -/
def enemyMoveC (s : State) : Option State :=
  if (s.enemyMoveClock : Int) ≥ enemyMoveSpeed s.level then
    (loopC scanBottomUp enemyCellC s).map fun t => { t with enemyMoveClock := 0 }
  else some s

/-- Boss firing (lines 1059-1101) with checked accesses. -/
def bossFireC (s : State) : Option State :=
  let s1 := { s with bossMoveCounter := s.bossMoveCounter + 1 }
  (if s1.bossMoveCounter ≥ firingInterval s1.level then
      (loopC scanTopDown bossFireCellC s1).map fun t => { t with bossMoveCounter := 0 }
    else some s1).map fun s2 => { s2 with bossMoveClock := 0 }

/-- Boss movement and firing (lines 943-1102) with checked accesses. -/
def bossMoveC (s : State) (speed : Int) : Option State :=
  if (s.bossMoveClock : Int) ≥ speed then (loopC scanBottomUp bossCellC s).bind bossFireC
  else some s

/-- Boss bullet movement (lines 1105-1168) with checked accesses. -/
def bossBulletMoveC (s : State) (speed : Int) : Option State :=
  if (s.bossBulletMoveClock : Int) ≥ speed then
    (loopC scanBottomUp bossBulletCellC s).map fun t => { t with bossBulletMoveClock := 0 }
  else some s

/-- Player bullet movement (lines 1171-1343) with checked accesses. -/
def bulletMoveC (s : State) : Option State :=
  if s.bulletMoveClock ≥ 50000 then
    (loopC scanTopDown bulletCellC s).map fun t => { t with bulletMoveClock := 0 }
  else some s

/-- What the Playing block runs after the Enemy mover, with checked accesses. -/
def afterEnemyMoveC (s : State) : Option State :=
  let speed := bossMoveSpeed s.level
  (bossMoveC s speed).bind fun s1 =>
  (bossBulletMoveC s1 (speed / 2)).bind fun s2 =>
  (bulletMoveC s2).map afterBulletMove

/-- The Playing block (lines 645-1367) with checked accesses. -/
def playingFrameC (s : State) (inp : Input) : Option State :=
  (playerMoveC (pauseInput s inp) inp).bind fun s2 =>
  (playerFireC s2 inp).bind fun s3 =>
  (meteorSpawnC s3 inp).bind fun s4 =>
  (enemySpawnC s4 inp).bind fun s5 =>
  (bossSpawnC s5 inp).bind fun s6 =>
  (meteorMoveC s6).bind fun s7 =>
  (enemyMoveC s7).bind afterEnemyMoveC

/-- The grid-clearing loops of lines 505-511 with checked assignments. -/
def clearGridC (g : Grid) : Option Grid :=
  loopC scanTopDown (fun g1 p => g1.setC p.1 p.2 EMPTY) g

/-- The "Start Game" block (lines 498-523) with checked accesses: the clearing
loops run checked, and the Player is put on the cleared grid. -/
def startGameC (s : State) : Option State :=
  (clearGridC s.grid).bind fun _ =>
  ((Grid.cleared).setC (ROWS - 1) (COLS / 2 : Nat) SPACESHIP).map fun g =>
    restartGameClocks
      { s with
        currentState := STATE_PLAYING
        lives := 3
        score := 0
        level := 1
        bossMoveCounter := 0
        grid := g
        spaceshipCol := COLS / 2 }

/-- The "Restart Level" block (lines 1481-1502) with checked accesses. -/
def restartLevelC (s : State) : Option State :=
  (clearGridC s.grid).bind fun _ =>
  ((Grid.cleared).setC (ROWS - 1) (COLS / 2 : Nat) SPACESHIP).map fun g =>
    restartGameClocks
      { s with
        currentState := STATE_PLAYING
        score := 0
        bossMoveCounter := 0
        isInvincible := false
        grid := g
        spaceshipCol := COLS / 2 }

/-- The Player column is on the board. -/
def OnBoard (s : State) : Prop := s.spaceshipCol < COLS

/-! ## The menu cursor and the Player's move -/

/-- The menu cursor lies within the menu of the lifecycle state: four items in
Menu, three in Paused, two in Game Over and in Victory. -/
def CursorOK (s : State) : Prop :=
  (s.currentState = STATE_MENU → 0 ≤ s.selectedMenuItem ∧ s.selectedMenuItem ≤ 3) ∧
    (s.currentState = STATE_PAUSED → 0 ≤ s.selectedMenuItem ∧ s.selectedMenuItem ≤ 2) ∧
    (s.currentState = STATE_GAME_OVER → 0 ≤ s.selectedMenuItem ∧ s.selectedMenuItem ≤ 1) ∧
    (s.currentState = STATE_VICTORY → 0 ≤ s.selectedMenuItem ∧ s.selectedMenuItem ≤ 1)

/-- From `s` to `t` the Player went to column `c2` of the bottom row: the cell
it left is Empty, the cell it entered holds the Player whatever it held before,
no other cell changed, and lives, score, level, lifecycle state and the
invincibility flag are as before. -/
def ShipMoved (s t : State) (c2 : Nat) : Prop :=
  t.spaceshipCol = c2 ∧ t.cell (ROWS - 1) c2 = SPACESHIP ∧
    t.cell (ROWS - 1) s.spaceshipCol = EMPTY ∧
    (∀ r3 c3, ¬(r3 = ROWS - 1 ∧ c3 = c2) → ¬(r3 = ROWS - 1 ∧ c3 = s.spaceshipCol) →
      t.cell r3 c3 = s.cell r3 c3) ∧
    t.lives = s.lives ∧ t.score = s.score ∧ t.level = s.level ∧
    t.currentState = s.currentState ∧ t.isInvincible = s.isInvincible

/-! ## The Enemy, Meteor and Player Bullet movers on a whole grid -/

/-- Scan order of the bottom-up loops: lower rows first, then column. -/
def After (a b : Nat × Nat) : Prop := b.1 < a.1 ∨ (a.1 = b.1 ∧ a.2 < b.2)

/-- One tick of the Enemy mover: the body of the `if` of line 826. -/
def enemyTick (s : State) : State :=
  { forCells scanBottomUp enemyCell s with enemyMoveClock := 0 }

/-- The state after `n` ticks of the Enemy mover with nothing in between. -/
def enemyTicks (s : State) : Nat → State
  | 0 => s
  | n + 1 => enemyTick (enemyTicks s n)

/-- No cell of the board holds an Enemy. -/
def NoEnemies (s : State) : Prop := ∀ r, r < ROWS → ∀ c, c < COLS → s.cell r c ≠ ENEMY

instance (s : State) : Decidable (NoEnemies s) := by
  unfold NoEnemies; infer_instance

/-- State `t` is `s` with one Enemy added at `(r, p)`: every other cell,
lives, score, level, lifecycle state, the invincibility flag and the hit-effect
arrays are those of `s`. -/
def EnemyAt (s t : State) (r p : Nat) : Prop :=
  (∀ r2 c2, t.cell r2 c2 = if r2 = r ∧ c2 = p then ENEMY else s.cell r2 c2) ∧
    t.lives = s.lives ∧ t.score = s.score ∧ t.level = s.level ∧
    t.currentState = s.currentState ∧ t.isInvincible = s.isInvincible ∧
    t.hitEffectActive = s.hitEffectActive ∧ t.hitEffectRow = s.hitEffectRow ∧
    t.hitEffectCol = s.hitEffectCol ∧ t.hitEffectTimer = s.hitEffectTimer

/-- One tick of the Meteor mover: the body of the `if` of line 757. -/
def meteorTick (s : State) : State :=
  { forCells scanBottomUp meteorCell s with meteorMoveClock := 0 }

/-- Every cell of the board is Empty or holds a Meteor. -/
def MeteorField (s : State) : Prop :=
  ∀ r, r < ROWS → ∀ c, c < COLS → s.cell r c = EMPTY ∨ s.cell r c = METEOR

instance (s : State) : Decidable (MeteorField s) := by
  unfold MeteorField; infer_instance

/-- Lives, score, level, lifecycle state, the invincibility flag and the
hit-effect arrays of `t` are those of `s`. -/
def SameHud (s t : State) : Prop :=
  t.lives = s.lives ∧ t.score = s.score ∧ t.level = s.level ∧
    t.currentState = s.currentState ∧ t.isInvincible = s.isInvincible ∧ SamePool s t

/-- The Meteor loop over a grid `s0` of Empty cells and Meteors, with the cells
of `done` visited: a visited cell holds what was above it if that cell is
visited too and is Empty otherwise; a cell yet to visit is as in `s0`. -/
def ShiftedDown (s0 : State) (done : List (Nat × Nat)) (s : State) : Prop :=
  (∀ r, r < ROWS → ∀ c, c < COLS →
    s.cell r c = if (r, c) ∈ done then
        (if 0 < r ∧ (r - 1, c) ∈ done then s0.cell (r - 1) c else EMPTY)
      else s0.cell r c) ∧ SameHud s0 s

/-- Above the bottom row every cell of the board is Empty or holds a Player
Bullet, and the bottom row holds no Player Bullet. -/
def BulletField (s : State) : Prop :=
  (∀ r, r < ROWS - 1 → ∀ c, c < COLS → s.cell r c = EMPTY ∨ s.cell r c = BULLET) ∧
    ∀ c, c < COLS → s.cell (ROWS - 1) c ≠ BULLET

instance (s : State) : Decidable (BulletField s) := by
  unfold BulletField; infer_instance

/-- The Player Bullet loop over a grid `s0`, with the cells of `done` visited:
a visited cell holds a Player Bullet if the cell below it is visited too and
held one, and otherwise what it held in `s0` with a Player Bullet taken away; a
cell yet to visit is as in `s0`. -/
def ShiftedUp (s0 : State) (done : List (Nat × Nat)) (s : State) : Prop :=
  (∀ r, r < ROWS → ∀ c, c < COLS →
    s.cell r c = if (r, c) ∈ done then
        (if (r + 1, c) ∈ done ∧ s0.cell (r + 1) c = BULLET then BULLET
          else if s0.cell r c = BULLET then EMPTY else s0.cell r c)
      else s0.cell r c) ∧ SameHud s0 s

/-! ## The Playing block with the steps onto a Boss Bullet as specified -/

/-- A Boss stands in column `c` strictly between the rows `r` and `b`. -/
def Covered (g : Grid) (r b c : Nat) : Prop := ∃ k, r < k ∧ k < b ∧ g.get k c = BOSS

/-- The order in which the entities of a column follow each other, `ok X r c`
saying which Meteors and Enemies (class `X`, at `(r, c)`) may stand above a Boss
Bullet of the bottom row with no Boss in between.  A Boss Bullet above the
bottom row has a Boss above it; a Player Bullet has no Boss Bullet and no Boss
below it except in the bottom row; a Meteor or an Enemy above a Boss Bullet has
a Boss in between, or the Boss Bullet is in the bottom row and `ok` holds. -/
def Cols (g : Grid) (ok : Nat → Nat → Nat → Prop) : Prop :=
  (∀ c, c < COLS → ∀ b, b < ROWS → g.get b c = BOSS_BULLET →
    (b = ROWS - 1 ∨ ∃ k, k < b ∧ g.get k c = BOSS) ∧
    (∀ p, p < b → g.get p c = BULLET → b = ROWS - 1) ∧
    (∀ r, r < b → g.get r c = METEOR ∨ g.get r c = ENEMY →
      Covered g r b c ∨ (b = ROWS - 1 ∧ ok (g.get r c) r c))) ∧
  (∀ c, c < COLS → ∀ k, k < ROWS → g.get k c = BOSS →
    ∀ p, p < k → g.get p c = BULLET → k = ROWS - 1)

/-- A freshly started game at level `level` with score `score`, an Enemy at
`(5, 3)` and a Player Bullet right below it at `(6, 3)`. -/
def duelState (level score : Int) : State :=
  { ((startGame (initState 0 0 0)).setCell 5 3 ENEMY).setCell 6 3 BULLET with
    level := level, score := score }

/-- A freshly started game with a Player Bullet at `(21, 7)`, right above the
Player. -/
def shotState : State := (startGame (initState 0 0 0)).setCell 21 7 BULLET

/-- A freshly started game with `top` at `(5, 3)` and `bottom` right below it
at `(6, 3)`. -/
def pairState (top bottom : Nat) : State :=
  ((startGame (initState 0 0 0)).setCell 5 3 top).setCell 6 3 bottom

/-- A freshly started game with an entity of class `X` at `(r, c)`. -/
def boardState (r c X : Nat) : State := (startGame (initState 0 0 0)).setCell r c X

/-- A freshly started game with a Meteor at `(21, 7)`, right above the Player,
the invincibility flag set and the Meteor mover due. -/
def shieldedState : State :=
  { boardState 21 7 METEOR with isInvincible := true, meteorMoveClock := 833000 }

/-- A freshly started game with a Boss at `(r, 7)`, at level `level` with the
firing counter at `counter`. -/
def bossState (r : Nat) (level counter : Int) : State :=
  { (startGame (initState 0 0 0)).setCell r 7 BOSS with
    level := level, bossMoveCounter := counter }

/-- A freshly started game one second later: the Meteor spawner is due. -/
def dueState : State := (startGame (initState 0 0 0)).advanceClocks 1000000

/-- A lost game: Game Over with lives -1, score 7, level 4, a Boss and a
Meteor on the grid and the Player column at 2. -/
def messyState : State :=
  { pairState BOSS METEOR with
    currentState := STATE_GAME_OVER, lives := -1, score := 7, level := 4, spaceshipCol := 2 }

/-- A paused game at level 2 with score 5 and two lives, an Enemy and a Player
Bullet on the grid, the cursor on Restart. -/
def pausedState : State :=
  { duelState 2 5 with currentState := STATE_PAUSED, selectedMenuItem := 1, lives := 2 }

/-- A freshly started game with slots 0 and 1 of the pool active. -/
def busyState : State :=
  { startGame (initState 0 0 0) with hitEffectActive := fun i => decide (i < 2) }

/-- A freshly started game at score `score` with an Enemy at `(0, 7)`, straight
above the Player, and the firing cooldown elapsed. -/
def aimState (score : Int) : State :=
  { boardState 0 7 ENEMY with score := score, bulletFireClock := bulletFireCooldown }

/-- A freshly started game 0.833 s later with an Enemy in the bottom row at
`(22, 6)`, beside the Player: the Player may move and the Enemy mover is due. -/
def besideState : State := (boardState 22 6 ENEMY).advanceClocks 833000

/-- A game held in Level Up for 1.5 s, at level 2 with an Enemy and a Player
Bullet on the grid. -/
def heldState : State :=
  { duelState 2 0 with currentState := STATE_LEVEL_UP, levelUpTimer := 1500000 }

/-- A grid of three Meteors, one of them in the bottom row, and nothing else. -/
def meteorState : State :=
  { initState 0 0 0 with
    grid := (((Grid.cleared).set 22 4 METEOR).set 21 4 METEOR).set 3 9 METEOR }

/-- A freshly started game with Player Bullets at `(0, 3)`, `(5, 3)` and
`(21, 7)`. -/
def volleyState : State := (shotState.setCell 0 3 BULLET).setCell 5 3 BULLET

/-- A state with all three spawners due, at level `level`: a freshly started
game twenty seconds later. -/
def spawnState (level : Int) : State :=
  { (startGame (initState 0 0 0)).advanceClocks 20000000 with level := level }

/-- The input of a frame in which the three spawners draw columns 19, 4 and 22
and the next-interval values 1, 3 and 6. -/
def spawnInput : Input :=
  { Input.idle 0 with
    randMeteorCol := 19, randMeteorNext := 1, randEnemyCol := 4, randEnemyNext := 3,
    randBossCol := 22, randBossNext := 6 }

/-! ## Array laws -/

theorem digit_form (a lo i j x : Nat) (hlo : lo < 8 ^ i) (hx : x < 8) :
    (8 ^ i * (8 * a + x) + lo) / 8 ^ j % 8 =
      if j = i then x else if j < i then lo / 8 ^ j % 8 else a / 8 ^ (j - i - 1) % 8 := by
  have hpos : ∀ n : Nat, 0 < 8 ^ n := fun n => Nat.pow_pos (by norm_num)
  rcases Nat.lt_trichotomy j i with h | h | h
  · obtain ⟨k, rfl⟩ : ∃ k, i = j + (k + 1) := ⟨i - j - 1, by omega⟩
    have e : 8 ^ (j + (k + 1)) * (8 * a + x) + lo = 8 ^ j * (8 * (8 ^ k * (8 * a + x))) + lo := by
      rw [pow_add, pow_succ]; ring
    rw [e, Nat.mul_add_div (hpos j), Nat.mul_add_mod]
    simp [show j ≠ j + (k + 1) by omega]
  · subst h
    rw [Nat.mul_add_div (hpos j), Nat.div_eq_of_lt hlo, Nat.add_zero, Nat.mul_add_mod,
      Nat.mod_eq_of_lt hx]
    simp
  · obtain ⟨k, rfl⟩ : ∃ k, j = i + (k + 1) := ⟨j - i - 1, by omega⟩
    have e : 8 ^ (i + (k + 1)) = 8 ^ i * (8 * 8 ^ k) := by rw [pow_add, pow_succ]; ring
    rw [e, ← Nat.div_div_eq_div_mul, Nat.mul_add_div (hpos i), Nat.div_eq_of_lt hlo,
      Nat.add_zero, ← Nat.div_div_eq_div_mul]
    have : (8 * a + x) / 8 = a := by omega
    rw [this]
    simp [show ¬ (i + (k + 1) = i) by omega, show ¬ (i + (k + 1) < i) by omega,
      show i + (k + 1) - i - 1 = k by omega]

theorem digit_swap (g A D V L : Nat) (hg : g = A + D + L) : g - D + V = A + V + L := by
  omega

theorem digit_split (g i : Nat) :
    g = 8 ^ i * (8 * (g / 8 ^ i / 8) + g / 8 ^ i % 8) + g % 8 ^ i := by
  have h1 := Nat.div_add_mod g (8 ^ i)
  have h2 := Nat.div_add_mod (g / 8 ^ i) 8
  rw [h2]; omega

theorem Grid.get_set (g : Grid) (r c v r2 c2 : Nat) :
    (Grid.set g r c v).get r2 c2 = if r2 = r ∧ c2 = c then v % 8 else g.get r2 c2 := by
  unfold Grid.set Grid.get
  set i := Nat.pair r c with hi
  set j := Nat.pair r2 c2 with hj
  have hlo : g % 8 ^ i < 8 ^ i := Nat.mod_lt _ (Nat.pow_pos (by norm_num))
  have hd : g / 8 ^ i % 8 < 8 := Nat.mod_lt _ (by norm_num)
  have hv : v % 8 < 8 := Nat.mod_lt _ (by norm_num)
  have hg := digit_split g i
  have hnew : g - g / 8 ^ i % 8 * 8 ^ i + v % 8 * 8 ^ i
      = 8 ^ i * (8 * (g / 8 ^ i / 8) + v % 8) + g % 8 ^ i := by
    have e2 : 8 ^ i * (8 * (g / 8 ^ i / 8) + g / 8 ^ i % 8)
        = 8 ^ i * (8 * (g / 8 ^ i / 8)) + g / 8 ^ i % 8 * 8 ^ i := by ring
    have e3 : 8 ^ i * (8 * (g / 8 ^ i / 8) + v % 8)
        = 8 ^ i * (8 * (g / 8 ^ i / 8)) + v % 8 * 8 ^ i := by ring
    rw [e3]
    rw [e2] at hg
    exact digit_swap _ _ _ _ _ hg
  have hij : j = i ↔ r2 = r ∧ c2 = c := by
    rw [hi, hj]; exact Nat.pair_eq_pair
  rw [hnew, digit_form _ _ _ _ _ hlo hv]
  by_cases h : j = i
  · simp [h, hij.mp h]
  · have h' : ¬ (r2 = r ∧ c2 = c) := fun hh => h (hij.mpr hh)
    rw [if_neg h, if_neg h']
    conv_rhs => rw [hg]
    rw [digit_form _ _ _ _ _ hlo hd, if_neg h]


theorem Grid.get_cleared (r c : Nat) : (Grid.cleared).get r c = 0 := by
  simp [Grid.get, Grid.cleared]

theorem cell_setCell (s : State) (r c v r2 c2 : Nat) :
    (s.setCell r c v).cell r2 c2 = if r2 = r ∧ c2 = c then v % 8 else s.cell r2 c2 := by
  simp [State.setCell, State.cell, Grid.get_set]

@[simp] theorem State.pack_eq (s : State) : s.pack = s := by
  cases s; rfl

theorem forCells_eq (cells : List (Nat × Nat)) (body : State → Nat × Nat → State)
    (s : State) : forCells cells body s = cells.foldl body s := by
  simp [forCells]

theorem mem_scanTopDown (p : Nat × Nat) : p ∈ scanTopDown ↔ p.1 < ROWS ∧ p.2 < COLS := by
  obtain ⟨r, c⟩ := p
  simp [scanTopDown, List.mem_flatMap]

theorem mem_scanBottomUp (p : Nat × Nat) : p ∈ scanBottomUp ↔ p.1 < ROWS ∧ p.2 < COLS := by
  obtain ⟨r, c⟩ := p
  simp [scanBottomUp, List.mem_flatMap]

/-- A property kept by the loop body at every cell of the list is kept by the
loop. -/
theorem foldl_keeps {α β : Type} (P : α → Prop) (f : α → β → α) (l : List β)
    (h : ∀ a b, b ∈ l → P a → P (f a b)) (a : α) (ha : P a) : P (l.foldl f a) := by
  induction l generalizing a with
  | nil => exact ha
  | cons b l ih =>
    simp only [List.foldl_cons]
    exact ih (fun a2 b2 hb hp => h a2 b2 (List.mem_cons_of_mem _ hb) hp) _
      (h a b (List.mem_cons_self _ _) ha)

/-! ## The invariant of the simulation -/

theorem triggerHitEffectFrom_eq (s : State) (row col n i : Nat) :
    ∃ a b c d, triggerHitEffectFrom s row col n i =
      { s with hitEffectRow := a, hitEffectCol := b, hitEffectTimer := c,
               hitEffectActive := d } := by
  induction n generalizing i with
  | zero => exact ⟨_, _, _, _, rfl⟩
  | succ n ih =>
    unfold triggerHitEffectFrom
    split
    · exact ⟨_, _, _, _, rfl⟩
    · exact ih (i + 1)

theorem triggerHitEffect_eq (s : State) (row col : Nat) :
    ∃ a b c d, triggerHitEffect s row col =
      { s with hitEffectRow := a, hitEffectCol := b, hitEffectTimer := c,
               hitEffectActive := d } :=
  triggerHitEffectFrom_eq s row col _ _

theorem mid_trigger {w : Bool} {L : Int} {s : State} (h : Mid w L s) (row col : Nat) :
    Mid w L (triggerHitEffect s row col) := by
  obtain ⟨a, b, c, d, e⟩ := triggerHitEffect_eq s row col
  rw [e]
  exact h

theorem mid_setCell {w : Bool} {L : Int} {s : State} (h : Mid w L s) (r c v : Nat)
    (hv : v ≤ 6) (h1 : v ≠ SPACESHIP) (h5 : v ≠ BOSS) (h3 : v = BULLET → r ≠ ROWS - 1) :
    Mid w L (s.setCell r c v) := by
  obtain ⟨hw, hL, hlives, hl1, hl5, hsc, hK, hB, hcol, hwf⟩ := h
  have hv8 : v % 8 = v := Nat.mod_eq_of_lt (by omega)
  refine ⟨hw, hL, hlives, hl1, hl5, hsc, hK, ?_, hcol, ?_⟩
  · intro r2 hr2 c2 hc2 hb
    rw [cell_setCell, hv8] at hb
    split at hb
    · exact absurd hb h5
    · exact hB r2 hr2 c2 hc2 hb
  · intro r2 hr2 c2 hc2
    rw [cell_setCell, hv8]
    split
    · rename_i hh
      refine ⟨hv, fun e => absurd e h1, fun e => ?_⟩
      rw [hh.1]; exact h3 e
    · exact hwf r2 hr2 c2 hc2

theorem clearFold_get (l : List (Nat × Nat)) (g : Grid) (r c : Nat) :
    (l.foldl (fun g1 p => if 2 ≤ g1.get p.1 p.2 ∧ g1.get p.1 p.2 ≤ 6 then g1.set p.1 p.2 EMPTY
        else g1) g).get r c
      = if (r, c) ∈ l ∧ 2 ≤ g.get r c ∧ g.get r c ≤ 6 then 0 else g.get r c := by
  induction l generalizing g with
  | nil => simp
  | cons p l ih =>
    obtain ⟨pr, pc⟩ := p
    simp only [List.foldl_cons, List.mem_cons, Prod.mk.injEq]
    rw [ih]
    by_cases hp : 2 ≤ g.get pr pc ∧ g.get pr pc ≤ 6
    · simp only [hp, and_self, if_true, Grid.get_set]
      by_cases he : r = pr ∧ c = pc
      · obtain ⟨rfl, rfl⟩ := he
        simp [hp]
      · simp [he]
    · simp only [hp, if_false]
      by_cases he : r = pr ∧ c = pc
      · obtain ⟨rfl, rfl⟩ := he
        simp [hp]
      · simp [he]

theorem clearEntities_get (g : Grid) (r c : Nat) :
    (clearEntities g).get r c
      = if (r < ROWS ∧ c < COLS) ∧ 2 ≤ g.get r c ∧ g.get r c ≤ 6 then 0 else g.get r c := by
  unfold clearEntities
  rw [clearFold_get]
  simp only [mem_scanTopDown]

theorem mid_setBoss {w : Bool} {L : Int} {s : State} (h : Mid w L s) (r c : Nat)
    (h3 : 3 ≤ s.level) : Mid w L (s.setCell r c BOSS) := by
  obtain ⟨hw, hL, hlives, hl1, hl5, hsc, hK, hB, hcol, hwf⟩ := h
  refine ⟨hw, hL, hlives, hl1, hl5, hsc, hK, fun _ _ _ _ _ => h3, hcol, ?_⟩
  intro r2 hr2 c2 hc2
  rw [cell_setCell]
  split
  · exact ⟨by decide, fun e => absurd e (by decide), fun e => absurd e (by decide)⟩
  · exact hwf r2 hr2 c2 hc2

theorem mid_loseLife {w : Bool} {L : Int} {s : State} (h : Mid w L s) :
    Mid w L (loseLife s) := by
  obtain ⟨hw, hL, hlives, hl1, hl5, hsc, hK, hB, hwf⟩ := h
  unfold loseLife
  dsimp only
  split
  · exact ⟨hw, hL, by show s.lives - 1 ≤ 3; omega, hl1, hl5, hsc, by intro e; simp at e,
      hB, hwf⟩
  · exact ⟨hw, hL, by show s.lives - 1 ≤ 3; omega, hl1, hl5, hsc, hK, hB, hwf⟩

theorem mid_addScore {w : Bool} {L : Int} {s : State} (h : Mid w L s) (k : Int) (hk : 0 ≤ k) :
    Mid w L { s with score := s.score + k } := by
  obtain ⟨hw, hL, hlives, hl1, hl5, hsc, hK, hB, hwf⟩ := h
  refine ⟨hw, hL, hlives, hl1, hl5, by show 0 ≤ s.score + k; omega, ?_, hB, hwf⟩
  intro e
  have := hK e
  exact ⟨this.1, by show 10 * s.level ≤ s.score + k; omega⟩

/-- The grid the level-up block leaves, read at a cell of the board. -/
theorem levelUpGrid_get {s : State} (hwf : WF s) (r c : Nat) (hr : r < ROWS) (hc : c < COLS) :
    (((clearEntities s.grid).set (ROWS - 1) s.spaceshipCol EMPTY).set (ROWS - 1) (COLS / 2)
        SPACESHIP).get r c = if r = ROWS - 1 ∧ c = COLS / 2 then SPACESHIP else EMPTY := by
  rw [Grid.get_set]
  split
  · rfl
  · rw [Grid.get_set]
    split
    · rfl
    · rename_i h1 h2
      rw [clearEntities_get]
      have h := hwf.2 r hr c hc
      simp only [State.cell] at h
      split
      · rfl
      · rename_i h3
        have : s.grid.get r c = 0 ∨ s.grid.get r c = 1 := by
          have := h.1
          simp only [hr, hc, and_self, true_and, not_and, not_le] at h3
          omega
        rcases this with e | e
        · exact e
        · exact absurd (h.2.1 e) h2

theorem mid_checkLevelUp {w : Bool} {L : Int} {s : State} (h : Mid w L s) :
    Mid w L (checkLevelUp s) := by
  obtain ⟨hw, hL, hlives, hl1, hl5, hsc, hK, hB, hwf⟩ := h
  unfold checkLevelUp
  dsimp only
  split
  · rename_i hc
    refine ⟨hw, by show L ≤ s.level + 1; omega, hlives, by show 1 ≤ s.level + 1; omega,
      by show s.level + 1 ≤ 5; have := hc.1; simp only [MAX_LEVEL] at this; omega, le_refl _,
      by intro e; simp at e, ?_, by show COLS / 2 < COLS; decide, ?_⟩
    · intro r hr c hc2 hb
      simp only [State.cell] at hb
      rw [levelUpGrid_get hwf r c hr hc2] at hb
      split at hb
      · exact absurd hb (by decide)
      · exact absurd hb (by decide)
    · intro r hr c hc2
      simp only [State.cell]
      rw [levelUpGrid_get hwf r c hr hc2]
      split
      · rename_i hh
        exact ⟨by decide, fun _ => hh, fun e => absurd e (by decide)⟩
      · exact ⟨by decide, fun e => absurd e (by decide), fun e => absurd e (by decide)⟩
  · split
    · rename_i hc
      refine ⟨hw, hL, hlives, hl1, hl5, hsc, fun _ => ?_, hB, hwf⟩
      have h1 := hc.1
      have h2 := hc.2
      simp only [MAX_LEVEL] at h1
      exact ⟨h1, by show 10 * s.level ≤ s.score; omega⟩
    · exact ⟨hw, hL, hlives, hl1, hl5, hsc, hK, hB, hwf⟩

theorem scoreOK_trigger {s : State} (h : ScoreOK s) (row col : Nat) :
    ScoreOK (triggerHitEffect s row col) := by
  obtain ⟨a, b, c, d, e⟩ := triggerHitEffect_eq s row col
  rw [e]
  exact h

theorem scoreOK_loseLife {s : State} (h : ScoreOK s) : ScoreOK (loseLife s) := by
  unfold loseLife
  dsimp only
  split
  · rcases h with h | h
    · exact Or.inl h
    · exact Or.inr ⟨h.1, by simp, by simp, by simp⟩
  · exact h

theorem scoreOK_checkLevelUp (s : State) (h1 : 1 ≤ s.level) : ScoreOK (checkLevelUp s) := by
  unfold checkLevelUp
  dsimp only
  split
  · left
    show (0 : Int) < 10 * (s.level + 1)
    omega
  · split
    · rename_i hc
      right
      have := hc.1
      simp only [MAX_LEVEL] at this
      exact ⟨this, by simp, by simp, by simp⟩
    · rename_i hc1 hc2
      left
      simp only [MAX_LEVEL, not_and, not_le] at hc1 hc2
      by_cases h5 : s.level < 5
      · have := hc1 h5; omega
      · have := hc2 (by omega); omega


/-- The pair `Mid` with `ScoreOK`: what every statement of the update block keeps. -/
theorem keep_setCell {w : Bool} {L : Int} {s : State} (h : Mid w L s ∧ ScoreOK s) (r c v : Nat)
    (hv : v ≤ 6) (h1 : v ≠ SPACESHIP) (h5 : v ≠ BOSS) (h3 : v = BULLET → r ≠ ROWS - 1) :
    Mid w L (s.setCell r c v) ∧ ScoreOK (s.setCell r c v) :=
  ⟨mid_setCell h.1 r c v hv h1 h5 h3, h.2⟩

theorem keep_put {w : Bool} {L : Int} {s : State} (h : Mid w L s ∧ ScoreOK s) (r c v : Nat)
    (hv : v ≤ 6) (h1 : v ≠ SPACESHIP) (h5 : v ≠ BOSS) (h3 : v ≠ BULLET) :
    Mid w L (s.setCell r c v) ∧ ScoreOK (s.setCell r c v) :=
  keep_setCell h r c v hv h1 h5 (fun e => absurd e h3)

theorem keep_loseLife {w : Bool} {L : Int} {s : State} (h : Mid w L s ∧ ScoreOK s) :
    Mid w L (loseLife s) ∧ ScoreOK (loseLife s) :=
  ⟨mid_loseLife h.1, scoreOK_loseLife h.2⟩

theorem keep_hit {w : Bool} {L : Int} {s : State} (h : Mid w L s ∧ ScoreOK s) :
    Mid w L (if s.isInvincible = false then loseLife s else s) ∧
      ScoreOK (if s.isInvincible = false then loseLife s else s) := by
  split
  · exact keep_loseLife h
  · exact h

theorem keep_trigger {w : Bool} {L : Int} {s : State} (h : Mid w L s ∧ ScoreOK s)
    (row col : Nat) :
    Mid w L (triggerHitEffect s row col) ∧ ScoreOK (triggerHitEffect s row col) :=
  ⟨mid_trigger h.1 row col, scoreOK_trigger h.2 row col⟩

theorem keep_scored {w : Bool} {L : Int} {s : State} (h : Mid w L s) (k : Int) (hk : 0 ≤ k)
    (r c row col : Nat) :
    Mid w L (checkLevelUp (triggerHitEffect
        (State.setCell { s with score := s.score + k } r c EMPTY) row col)) ∧
      ScoreOK (checkLevelUp (triggerHitEffect
        (State.setCell { s with score := s.score + k } r c EMPTY) row col)) := by
  have h1 := mid_trigger (mid_setCell (mid_addScore h k hk) r c EMPTY (by decide) (by decide)
    (by decide) (fun e => absurd e (by decide))) row col
  exact ⟨mid_checkLevelUp h1, scoreOK_checkLevelUp _ h1.2.2.2.1⟩

theorem keep_meteorStep {w : Bool} {L : Int} {s : State} (h : Mid w L s ∧ ScoreOK s)
    (r c : Nat) : Mid w L (meteorStep s r c) ∧ ScoreOK (meteorStep s r c) := by
  have h0 := keep_put h r c EMPTY (by decide) (by decide) (by decide) (by decide)
  unfold meteorStep
  dsimp only
  split
  · exact h0
  · split
    · exact keep_put h0 _ _ METEOR (by decide) (by decide) (by decide) (by decide)
    · split
      · exact keep_put (keep_hit h0) _ _ EMPTY (by decide) (by decide) (by decide) (by decide)
      · split
        · exact keep_trigger (keep_put h0 _ _ EMPTY (by decide) (by decide) (by decide) (by decide)) _ _
        · exact h0

theorem keep_enemyStep {w : Bool} {L : Int} {s : State} (h : Mid w L s ∧ ScoreOK s)
    (r c : Nat) : Mid w L (enemyStep s r c) ∧ ScoreOK (enemyStep s r c) := by
  have h0 := keep_put h r c EMPTY (by decide) (by decide) (by decide) (by decide)
  unfold enemyStep
  dsimp only
  split
  · exact keep_loseLife h0
  · split
    · exact keep_put h0 _ _ ENEMY (by decide) (by decide) (by decide) (by decide)
    · split
      · exact keep_put (keep_hit h0) _ _ EMPTY (by decide) (by decide) (by decide) (by decide)
      · split
        · exact keep_scored h0.1 1 (by decide) _ _ _ _
        · exact h0

theorem keep_bossStep {w : Bool} {L : Int} {s : State} (h : Mid w L s ∧ ScoreOK s)
    (r c : Nat) (hr : r < ROWS) (hc : c < COLS) (hb : s.cell r c = BOSS) :
    Mid w L (bossStep s r c) ∧ ScoreOK (bossStep s r c) := by
  have h0 := keep_put h r c EMPTY (by decide) (by decide) (by decide) (by decide)
  have h3 : 3 ≤ s.level := h.1.2.2.2.2.2.2.2.1 r hr c hc hb
  unfold bossStep
  dsimp only
  split
  · exact keep_loseLife h0
  · split
    · exact ⟨mid_setBoss h0.1 _ _ h3, h0.2⟩
    · split
      · exact keep_put (keep_hit h0) _ _ EMPTY (by decide) (by decide) (by decide) (by decide)
      · split
        · exact keep_scored h0.1 3 (by decide) _ _ _ _
        · exact h0

theorem keep_bossBulletStep {w : Bool} {L : Int} {s : State} (h : Mid w L s ∧ ScoreOK s)
    (r c : Nat) : Mid w L (bossBulletStep s r c) ∧ ScoreOK (bossBulletStep s r c) := by
  have h0 := keep_put h r c EMPTY (by decide) (by decide) (by decide) (by decide)
  unfold bossBulletStep
  dsimp only
  split
  · exact h0
  · split
    · exact keep_trigger (keep_hit h0) _ _
    · split
      · exact keep_put h0 _ _ BOSS_BULLET (by decide) (by decide) (by decide) (by decide)
      · split
        · exact keep_put h0 _ _ BOSS_BULLET (by decide) (by decide) (by decide) (by decide)
        · exact h0

theorem keep_bulletStep {w : Bool} {L : Int} {s : State} (h : Mid w L s ∧ ScoreOK s)
    (r c : Nat) (hr : r < ROWS) : Mid w L (bulletStep s r c) ∧ ScoreOK (bulletStep s r c) := by
  have h0 := keep_put h r c EMPTY (by decide) (by decide) (by decide) (by decide)
  unfold bulletStep
  dsimp only
  split
  · exact h0
  · split
    · exact keep_setCell h0 _ _ BULLET (by decide) (by decide) (by decide)
        (fun _ => by simp only [ROWS] at hr ⊢; omega)
    · split
      · exact keep_trigger (keep_put h0 _ _ EMPTY (by decide) (by decide) (by decide) (by decide)) _ _
      · split
        · exact keep_trigger (keep_put h0 _ _ EMPTY (by decide) (by decide) (by decide) (by decide)) _ _
        · split
          · exact keep_scored h0.1 1 (by decide) _ _ _ _
          · split
            · exact keep_scored h0.1 3 (by decide) _ _ _ _
            · exact h0

theorem keep_bossFireStep {w : Bool} {L : Int} {s : State} (h : Mid w L s ∧ ScoreOK s)
    (r c : Nat) : Mid w L (bossFireStep s r c) ∧ ScoreOK (bossFireStep s r c) := by
  unfold bossFireStep
  dsimp only
  split
  · split
    · exact keep_put h _ _ BOSS_BULLET (by decide) (by decide) (by decide) (by decide)
    · exact h
  · exact h


theorem keep_cells {w : Bool} {L : Int} (body : State → Nat × Nat → State)
    (cells : List (Nat × Nat))
    (hbody : ∀ s p, p ∈ cells → Mid w L s ∧ ScoreOK s → Mid w L (body s p) ∧ ScoreOK (body s p))
    {s : State} (h : Mid w L s ∧ ScoreOK s) :
    Mid w L (forCells cells body s) ∧ ScoreOK (forCells cells body s) := by
  rw [forCells_eq]
  exact foldl_keeps (fun s => Mid w L s ∧ ScoreOK s) body cells hbody s h

theorem keep_meteorCells {w : Bool} {L : Int} {s : State} (h : Mid w L s ∧ ScoreOK s) :
    Mid w L (forCells scanBottomUp meteorCell s) ∧
      ScoreOK (forCells scanBottomUp meteorCell s) := by
  refine keep_cells _ _ (fun s p _ hs => ?_) h
  unfold meteorCell
  split
  · exact keep_meteorStep hs _ _
  · exact hs

theorem keep_enemyCells {w : Bool} {L : Int} {s : State} (h : Mid w L s ∧ ScoreOK s) :
    Mid w L (forCells scanBottomUp enemyCell s) ∧
      ScoreOK (forCells scanBottomUp enemyCell s) := by
  refine keep_cells _ _ (fun s p _ hs => ?_) h
  unfold enemyCell
  split
  · exact keep_enemyStep hs _ _
  · exact hs

theorem keep_bossCells {w : Bool} {L : Int} {s : State} (h : Mid w L s ∧ ScoreOK s) :
    Mid w L (forCells scanBottomUp bossCell s) ∧
      ScoreOK (forCells scanBottomUp bossCell s) := by
  refine keep_cells _ _ (fun s p hp hs => ?_) h
  unfold bossCell
  split
  · rename_i hb
    exact keep_bossStep hs _ _ ((mem_scanBottomUp p).mp hp).1 ((mem_scanBottomUp p).mp hp).2 hb
  · exact hs

theorem keep_bossBulletCells {w : Bool} {L : Int} {s : State} (h : Mid w L s ∧ ScoreOK s) :
    Mid w L (forCells scanBottomUp bossBulletCell s) ∧
      ScoreOK (forCells scanBottomUp bossBulletCell s) := by
  refine keep_cells _ _ (fun s p _ hs => ?_) h
  unfold bossBulletCell
  split
  · exact keep_bossBulletStep hs _ _
  · exact hs

theorem keep_bulletCells {w : Bool} {L : Int} {s : State} (h : Mid w L s ∧ ScoreOK s) :
    Mid w L (forCells scanTopDown bulletCell s) ∧
      ScoreOK (forCells scanTopDown bulletCell s) := by
  refine keep_cells _ _ (fun s p hp hs => ?_) h
  unfold bulletCell
  split
  · exact keep_bulletStep hs _ _ ((mem_scanTopDown p).mp hp).1
  · exact hs

theorem keep_bossFireCells {w : Bool} {L : Int} {s : State} (h : Mid w L s ∧ ScoreOK s) :
    Mid w L (forCells scanTopDown bossFireCell s) ∧
      ScoreOK (forCells scanTopDown bossFireCell s) := by
  refine keep_cells _ _ (fun s p _ hs => ?_) h
  unfold bossFireCell
  split
  · exact keep_bossFireStep hs _ _
  · exact hs

/-- The predicates `Mid` and `ScoreOK` only read the window flag, the HUD values, the lifecycle
state, the grid and the Player column. -/
theorem keep_of_eq {w : Bool} {L : Int} {s t : State} (h : Mid w L s ∧ ScoreOK s)
    (e1 : t.windowOpen = s.windowOpen) (e2 : t.level = s.level) (e3 : t.lives = s.lives)
    (e4 : t.score = s.score) (e5 : t.currentState = s.currentState) (e6 : t.grid = s.grid)
    (e7 : t.spaceshipCol = s.spaceshipCol) : Mid w L t ∧ ScoreOK t := by
  unfold Mid ScoreOK WF State.cell at *
  rw [e1, e2, e3, e4, e5, e6, e7]
  exact h

theorem keep_meteorMove {w : Bool} {L : Int} {s : State} (h : Mid w L s ∧ ScoreOK s) :
    Mid w L (meteorMove s) ∧ ScoreOK (meteorMove s) := by
  unfold meteorMove
  split
  · exact keep_of_eq (keep_meteorCells h) rfl rfl rfl rfl rfl rfl rfl
  · exact h

theorem keep_enemyMove {w : Bool} {L : Int} {s : State} (h : Mid w L s ∧ ScoreOK s) :
    Mid w L (enemyMove s) ∧ ScoreOK (enemyMove s) := by
  unfold enemyMove
  split
  · exact keep_of_eq (keep_enemyCells h) rfl rfl rfl rfl rfl rfl rfl
  · exact h

theorem keep_bossFire {w : Bool} {L : Int} {s : State} (h : Mid w L s ∧ ScoreOK s) :
    Mid w L (bossFire s) ∧ ScoreOK (bossFire s) := by
  have h1 : Mid w L { s with bossMoveCounter := s.bossMoveCounter + 1 } ∧
      ScoreOK { s with bossMoveCounter := s.bossMoveCounter + 1 } := h
  unfold bossFire
  dsimp only
  split
  · exact keep_of_eq (keep_bossFireCells h1) rfl rfl rfl rfl rfl rfl rfl
  · exact h

theorem keep_bossMove {w : Bool} {L : Int} {s : State} (h : Mid w L s ∧ ScoreOK s)
    (speed : Int) : Mid w L (bossMove s speed) ∧ ScoreOK (bossMove s speed) := by
  unfold bossMove
  split
  · exact keep_bossFire (keep_bossCells h)
  · exact h

theorem keep_bossBulletMove {w : Bool} {L : Int} {s : State} (h : Mid w L s ∧ ScoreOK s)
    (speed : Int) : Mid w L (bossBulletMove s speed) ∧ ScoreOK (bossBulletMove s speed) := by
  unfold bossBulletMove
  split
  · exact keep_of_eq (keep_bossBulletCells h) rfl rfl rfl rfl rfl rfl rfl
  · exact h

theorem keep_bulletMove {w : Bool} {L : Int} {s : State} (h : Mid w L s ∧ ScoreOK s) :
    Mid w L (bulletMove s) ∧ ScoreOK (bulletMove s) := by
  unfold bulletMove
  split
  · exact keep_of_eq (keep_bulletCells h) rfl rfl rfl rfl rfl rfl rfl
  · exact h

theorem keep_afterBulletMove {w : Bool} {L : Int} {s : State} (h : Mid w L s ∧ ScoreOK s) :
    Mid w L (afterBulletMove s) ∧ ScoreOK (afterBulletMove s) := by
  unfold afterBulletMove updateInvincibility updateHitEffects
  dsimp only
  split
  · exact keep_of_eq h rfl rfl rfl rfl rfl rfl rfl
  · exact keep_of_eq h rfl rfl rfl rfl rfl rfl rfl

theorem keep_afterEnemyMove {w : Bool} {L : Int} {s : State} (h : Mid w L s ∧ ScoreOK s) :
    Mid w L (afterEnemyMove s) ∧ ScoreOK (afterEnemyMove s) := by
  unfold afterEnemyMove
  exact keep_afterBulletMove (keep_bulletMove (keep_bossBulletMove (keep_bossMove h _) _))


theorem keep_pauseInput {w : Bool} {L : Int} {s : State} (h : Mid w L s ∧ ScoreOK s)
    (hp : s.currentState = STATE_PLAYING) (inp : Input) :
    Mid w L (pauseInput s inp) ∧ ScoreOK (pauseInput s inp) := by
  have hsc : s.score < 10 * s.level := by
    rcases h.2 with h2 | h2
    · exact h2
    · exact absurd hp h2.2.1
  obtain ⟨⟨hw, hL, hlives, hl1, hl5, hs0, hK, hB, hwf⟩, _⟩ := h
  unfold pauseInput
  split
  · split
    · exact ⟨⟨hw, hL, hlives, hl1, hl5, hs0, by intro e; simp at e, hB, hwf⟩, Or.inl hsc⟩
    · exact ⟨⟨hw, hL, hlives, hl1, hl5, hs0, hK, hB, hwf⟩, Or.inl hsc⟩
  · exact ⟨⟨hw, hL, hlives, hl1, hl5, hs0, hK, hB, hwf⟩, Or.inl hsc⟩

/-- Moving the Player from its column to column `c2` of the bottom row. -/
theorem keep_shipTo {w : Bool} {L : Int} {s : State} (h : Mid w L s ∧ ScoreOK s) (c2 : Nat)
    (hc2 : c2 < COLS) :
    Mid w L (State.setCell { s.setCell (ROWS - 1) s.spaceshipCol EMPTY with spaceshipCol := c2 }
        (ROWS - 1) c2 SPACESHIP) ∧
      ScoreOK (State.setCell
        { s.setCell (ROWS - 1) s.spaceshipCol EMPTY with spaceshipCol := c2 }
        (ROWS - 1) c2 SPACESHIP) := by
  obtain ⟨⟨hw, hL, hlives, hl1, hl5, hs0, hK, hB, hcol, hwf⟩, hJ⟩ := h
  refine ⟨⟨hw, hL, hlives, hl1, hl5, hs0, hK, ?_, hc2, ?_⟩, hJ⟩
  · intro r hr c hc hb
    simp only [State.cell, State.setCell, Grid.get_set] at hb
    split at hb
    · simp at hb
    · split at hb
      · simp at hb
      · exact hB r hr c hc hb
  · intro r hr c hc
    simp only [State.cell, State.setCell, Grid.get_set]
    split
    · rename_i hh
      exact ⟨by decide, fun _ => hh, fun e => absurd e (by decide)⟩
    · split
      · exact ⟨by decide, fun e => absurd e (by decide), fun e => absurd e (by decide)⟩
      · rename_i h1 h2
        have h3 := hwf r hr c hc
        simp only [State.cell] at h3
        refine ⟨h3.1, fun e => ?_, h3.2.2⟩
        exact absurd (h3.2.1 e) h2

theorem keep_playerMove {w : Bool} {L : Int} {s : State} (h : Mid w L s ∧ ScoreOK s)
    (inp : Input) : Mid w L (playerMove s inp) ∧ ScoreOK (playerMove s inp) := by
  have hcol : s.spaceshipCol < COLS := h.1.2.2.2.2.2.2.2.2.1
  unfold playerMove
  dsimp only
  split
  · split
    · have := keep_shipTo h (s.spaceshipCol - 1) (by omega)
      exact keep_of_eq this rfl rfl rfl rfl rfl rfl rfl
    · split
      · rename_i hh
        have := keep_shipTo h (s.spaceshipCol + 1) (by have := hh.2; simp only [COLS] at *; omega)
        exact keep_of_eq this rfl rfl rfl rfl rfl rfl rfl
      · exact h
  · exact h

theorem keep_playerFire {w : Bool} {L : Int} {s : State} (h : Mid w L s ∧ ScoreOK s)
    (inp : Input) : Mid w L (playerFire s inp) ∧ ScoreOK (playerFire s inp) := by
  unfold playerFire
  dsimp only
  split
  · split
    · exact keep_of_eq (keep_setCell h (ROWS - 2) s.spaceshipCol BULLET (by decide) (by decide)
        (by decide) (fun _ => by decide)) rfl rfl rfl rfl rfl rfl rfl
    · exact keep_of_eq h rfl rfl rfl rfl rfl rfl rfl
  · exact h

theorem keep_meteorSpawn {w : Bool} {L : Int} {s : State} (h : Mid w L s ∧ ScoreOK s)
    (inp : Input) : Mid w L (meteorSpawn s inp) ∧ ScoreOK (meteorSpawn s inp) := by
  unfold meteorSpawn
  dsimp only
  split
  · split
    · exact keep_of_eq (keep_put h 0 (inp.randMeteorCol % COLS) METEOR (by decide) (by decide)
        (by decide) (by decide)) rfl rfl rfl rfl rfl rfl rfl
    · exact keep_of_eq h rfl rfl rfl rfl rfl rfl rfl
  · exact h

theorem keep_enemySpawn {w : Bool} {L : Int} {s : State} (h : Mid w L s ∧ ScoreOK s)
    (inp : Input) : Mid w L (enemySpawn s inp) ∧ ScoreOK (enemySpawn s inp) := by
  unfold enemySpawn
  dsimp only
  split
  · split
    · exact keep_of_eq (keep_put h 0 (inp.randEnemyCol % COLS) ENEMY (by decide) (by decide)
        (by decide) (by decide)) rfl rfl rfl rfl rfl rfl rfl
    · exact keep_of_eq h rfl rfl rfl rfl rfl rfl rfl
  · exact h

theorem keep_bossSpawn {w : Bool} {L : Int} {s : State} (h : Mid w L s ∧ ScoreOK s)
    (inp : Input) : Mid w L (bossSpawn s inp) ∧ ScoreOK (bossSpawn s inp) := by
  unfold bossSpawn
  dsimp only
  split
  · rename_i hh
    split
    · have : Mid w L (s.setCell 0 (inp.randBossCol % COLS) BOSS) ∧
          ScoreOK (s.setCell 0 (inp.randBossCol % COLS) BOSS) :=
        ⟨mid_setBoss h.1 _ _ hh.1, h.2⟩
      exact keep_of_eq this rfl rfl rfl rfl rfl rfl rfl
    · exact keep_of_eq h rfl rfl rfl rfl rfl rfl rfl
  · exact h

theorem keep_playingFrame {w : Bool} {L : Int} {s : State} (h : Mid w L s ∧ ScoreOK s)
    (hp : s.currentState = STATE_PLAYING) (inp : Input) :
    Mid w L (playingFrame s inp) ∧ ScoreOK (playingFrame s inp) := by
  unfold playingFrame
  exact keep_afterEnemyMove (keep_enemyMove (keep_meteorMove (keep_bossSpawn (keep_enemySpawn
    (keep_meteorSpawn (keep_playerFire (keep_playerMove (keep_pauseInput h hp inp) inp) inp)
      inp) inp) inp)))


theorem inv_of_keep {w : Bool} {L : Int} {t : State} (h : Mid w L t ∧ ScoreOK t) : Inv t := by
  obtain ⟨⟨_, _, hlives, hl1, hl5, hs0, hK, hB, hwf⟩, hJ⟩ := h
  exact ⟨⟨rfl, hl1, hlives, hl1, hl5, hs0, hK, hB, hwf⟩, hJ⟩

theorem keep_of_inv {s : State} (h : Inv s) : Mid s.windowOpen s.level s ∧ ScoreOK s := by
  obtain ⟨⟨_, _, hlives, hl1, hl5, hs0, hK, hB, hwf⟩, hJ⟩ := h
  exact ⟨⟨rfl, le_refl _, hlives, hl1, hl5, hs0, hK, hB, hwf⟩, hJ⟩

/-- A frame that leaves the HUD values, the grid and the Player column alone
keeps the invariant, provided it does not enter Victory and only resumes play
from a state in play. -/
theorem inv_change {s t : State} (h : Inv s) (e2 : t.level = s.level) (e3 : t.lives = s.lives)
    (e4 : t.score = s.score) (e6 : t.grid = s.grid) (e7 : t.spaceshipCol = s.spaceshipCol)
    (hv : t.currentState = STATE_VICTORY → s.currentState = STATE_VICTORY)
    (hJ : (t.currentState = STATE_PLAYING ∨ t.currentState = STATE_PAUSED ∨
        t.currentState = STATE_LEVEL_UP) →
      (s.currentState = STATE_PLAYING ∨ s.currentState = STATE_PAUSED ∨
        s.currentState = STATE_LEVEL_UP)) : Inv t := by
  obtain ⟨⟨_, _, hlives, hl1, hl5, hs0, hK, hB, hwf⟩, hS⟩ := h
  unfold Inv Mid ScoreOK WF State.cell at *
  rw [e2, e3, e4, e6, e7]
  refine ⟨⟨rfl, hl1, hlives, hl1, hl5, hs0, fun e => hK (hv e), hB, hwf⟩, ?_⟩
  rcases hS with h1 | h1
  · exact Or.inl h1
  · refine Or.inr ⟨h1.1, fun e => ?_, fun e => ?_, fun e => ?_⟩
    · rcases hJ (Or.inl e) with x | x | x
      · exact h1.2.1 x
      · exact h1.2.2.1 x
      · exact h1.2.2.2 x
    · rcases hJ (Or.inr (Or.inl e)) with x | x | x
      · exact h1.2.1 x
      · exact h1.2.2.1 x
      · exact h1.2.2.2 x
    · rcases hJ (Or.inr (Or.inr e)) with x | x | x
      · exact h1.2.1 x
      · exact h1.2.2.1 x
      · exact h1.2.2.2 x

theorem cleanStart_get (r c : Nat) :
    ((Grid.cleared).set (ROWS - 1) (COLS / 2) SPACESHIP).get r c
      = if r = ROWS - 1 ∧ c = COLS / 2 then SPACESHIP else EMPTY := by
  rw [Grid.get_set, Grid.get_cleared]
  rfl

/-- A state whose grid is the freshly cleared one with the Player in the middle,
with lives at most 3, a level in 1..5 and score 0, satisfies the invariant. -/
theorem inv_fresh {t : State} (hg : t.grid = (Grid.cleared).set (ROWS - 1) (COLS / 2) SPACESHIP)
    (hcol : t.spaceshipCol = COLS / 2) (hlives : t.lives ≤ 3) (hl1 : 1 ≤ t.level)
    (hl5 : t.level ≤ 5) (hsc : t.score = 0) (hst : t.currentState ≠ STATE_VICTORY) : Inv t := by
  refine ⟨⟨rfl, hl1, hlives, hl1, hl5, by omega, fun e => absurd e hst, ?_, by rw [hcol]; decide,
    ?_⟩, Or.inl (by omega)⟩
  · intro r _ c _ hb
    rw [State.cell, hg, cleanStart_get] at hb
    split at hb <;> simp at hb
  · intro r _ c _
    rw [State.cell, hg, cleanStart_get, hcol]
    split
    · rename_i hh
      exact ⟨by decide, fun _ => hh, fun e => absurd e (by decide)⟩
    · exact ⟨by decide, fun e => absurd e (by decide), fun e => absurd e (by decide)⟩

theorem inv_initState (r1 r2 r3 : Nat) : Inv (initState r1 r2 r3) :=
  inv_fresh rfl rfl (show (3 : Int) ≤ 3 by decide) (show (1 : Int) ≤ 1 by decide)
    (show (1 : Int) ≤ 5 by decide) rfl (show STATE_MENU ≠ STATE_VICTORY by decide)

theorem inv_startGame (s : State) : Inv (startGame s) :=
  inv_fresh rfl rfl (show (3 : Int) ≤ 3 by decide) (show (1 : Int) ≤ 1 by decide)
    (show (1 : Int) ≤ 5 by decide) rfl (show STATE_PLAYING ≠ STATE_VICTORY by decide)

theorem inv_restartLevel {s : State} (h : Inv s) : Inv (restartLevel s) :=
  inv_fresh rfl rfl h.1.2.2.1 h.1.2.2.2.1 h.1.2.2.2.2.1 rfl
    (show STATE_PLAYING ≠ STATE_VICTORY by decide)

theorem inv_menuFrame {s : State} (h : Inv s) (inp : Input) : Inv (menuFrame s inp) := by
  unfold menuFrame
  dsimp only
  split
  · split
    · exact inv_change h rfl rfl rfl rfl rfl id id
    · split
      · exact inv_change h rfl rfl rfl rfl rfl id id
      · split
        · split
          · exact inv_change (inv_startGame s) rfl rfl rfl rfl rfl id id
          · split
            · exact inv_change h rfl rfl rfl rfl rfl (fun e => by simp at e)
                (fun e => by simp at e)
            · split
              · exact inv_change h rfl rfl rfl rfl rfl id id
              · exact inv_change h rfl rfl rfl rfl rfl id id
        · exact h
  · exact h

theorem inv_gameOverFrame {s : State} (h : Inv s) (inp : Input) : Inv (gameOverFrame s inp) := by
  unfold gameOverFrame
  dsimp only
  split
  · split
    · exact inv_change h rfl rfl rfl rfl rfl id id
    · split
      · exact inv_change h rfl rfl rfl rfl rfl id id
      · split
        · split
          · exact inv_change (inv_startGame s) rfl rfl rfl rfl rfl id id
          · split
            · exact inv_change h rfl rfl rfl rfl rfl (fun e => by simp at e)
                (fun e => by simp at e)
            · exact inv_change h rfl rfl rfl rfl rfl id id
        · exact h
  · exact h

theorem inv_instructionsFrame {s : State} (h : Inv s) (inp : Input) :
    Inv (instructionsFrame s inp) := by
  unfold instructionsFrame
  split
  · split
    · exact inv_change h rfl rfl rfl rfl rfl (fun e => by simp at e) (fun e => by simp at e)
    · exact h
  · exact h

theorem inv_levelUpFrame {s : State} (h : Inv s) (hs : s.currentState = STATE_LEVEL_UP) :
    Inv (levelUpFrame s) := by
  unfold levelUpFrame
  dsimp only
  split
  · split
    · exact inv_change h rfl rfl rfl rfl rfl (fun e => by simp at e)
        (fun _ => Or.inr (Or.inr hs))
    · exact inv_change h rfl rfl rfl rfl rfl id id
  · split
    · exact inv_change h rfl rfl rfl rfl rfl (fun e => by simp at e)
        (fun _ => Or.inr (Or.inr hs))
    · exact h

theorem inv_victoryFrame {s : State} (h : Inv s) (inp : Input) : Inv (victoryFrame s inp) := by
  unfold victoryFrame
  dsimp only
  split
  · split
    · exact inv_change h rfl rfl rfl rfl rfl id id
    · split
      · exact inv_change h rfl rfl rfl rfl rfl id id
      · split
        · split
          · exact inv_change (inv_startGame { s with isInvincible := false }) rfl rfl rfl rfl rfl
              id id
          · split
            · exact inv_change h rfl rfl rfl rfl rfl (fun e => by simp at e)
                (fun e => by simp at e)
            · exact inv_change h rfl rfl rfl rfl rfl id id
        · exact h
  · exact h

theorem inv_pausedFrame {s : State} (h : Inv s) (hs : s.currentState = STATE_PAUSED)
    (inp : Input) : Inv (pausedFrame s inp) := by
  have h' := h
  obtain ⟨⟨_, _, hlives, hl1, hl5, _, _, _, _⟩, _⟩ := h'
  unfold pausedFrame
  dsimp only
  split
  · split
    · exact inv_change h rfl rfl rfl rfl rfl id id
    · split
      · exact inv_change h rfl rfl rfl rfl rfl id id
      · split
        · split
          · exact inv_change h rfl rfl rfl rfl rfl (fun e => by simp at e)
              (fun _ => Or.inr (Or.inl hs))
          · split
            · exact inv_change (inv_restartLevel h) rfl rfl rfl rfl rfl id id
            · split
              · exact inv_change h rfl rfl rfl rfl rfl (fun e => by simp at e)
                  (fun e => by simp at e)
              · exact inv_change h rfl rfl rfl rfl rfl id id
        · split
          · exact inv_change h rfl rfl rfl rfl rfl (fun e => by simp at e)
              (fun _ => Or.inr (Or.inl hs))
          · exact h
  · exact h

theorem inv_updateBlock {s : State} (h : Inv s) (inp : Input) : Inv (updateBlock s inp) := by
  unfold updateBlock
  split
  · exact inv_menuFrame h inp
  · split
    · exact inv_gameOverFrame h inp
    · split
      · exact inv_instructionsFrame h inp
      · split
        · rename_i hs
          exact inv_of_keep (keep_playingFrame (keep_of_inv h) hs inp)
        · split
          · rename_i hs
            exact inv_levelUpFrame h hs
          · split
            · exact inv_victoryFrame h inp
            · split
              · rename_i hs
                exact inv_pausedFrame h hs inp
              · exact h

theorem inv_frame {s : State} (h : Inv s) (inp : Input) : Inv (frame s inp) := by
  unfold frame
  dsimp only
  apply inv_updateBlock
  split
  · exact inv_change h rfl rfl rfl rfl rfl id id
  · exact inv_change h rfl rfl rfl rfl rfl id id

theorem reachable_inv {s : State} (h : Reachable s) : Inv s := by
  induction h with
  | init r1 r2 r3 => exact inv_initState r1 r2 r3
  | step s inp _ _ ih => exact inv_frame ih inp


/-! ## Runs and reachability -/

theorem open_updateBlock {s : State} (h : Inv s) (inp : Input)
    (ho : (updateBlock s inp).windowOpen = true) : s.windowOpen = true := by
  unfold updateBlock at ho
  split at ho
  · unfold menuFrame at ho
    dsimp only at ho
    split at ho
    · split at ho
      · exact ho
      · split at ho
        · exact ho
        · split at ho
          · split at ho
            · exact ho
            · split at ho
              · exact ho
              · split at ho
                · exact absurd ho (by simp)
                · exact ho
          · exact ho
    · exact ho
  · split at ho
    · unfold gameOverFrame at ho
      dsimp only at ho
      split at ho
      · split at ho
        · exact ho
        · split at ho
          · exact ho
          · split at ho
            · split at ho
              · exact ho
              · split at ho
                · exact ho
                · exact ho
            · exact ho
      · exact ho
    · split at ho
      · unfold instructionsFrame at ho
        split at ho
        · split at ho
          · exact ho
          · exact ho
        · exact ho
      · split at ho
        · rename_i hs
          rw [← (keep_playingFrame (keep_of_inv h) hs inp).1.1]
          exact ho
        · split at ho
          · unfold levelUpFrame at ho
            dsimp only at ho
            split at ho
            · split at ho
              · exact ho
              · exact ho
            · split at ho
              · exact ho
              · exact ho
          · split at ho
            · unfold victoryFrame at ho
              dsimp only at ho
              split at ho
              · split at ho
                · exact ho
                · split at ho
                  · exact ho
                  · split at ho
                    · split at ho
                      · exact ho
                      · split at ho
                        · exact ho
                        · exact ho
                    · exact ho
              · exact ho
            · split at ho
              · unfold pausedFrame at ho
                dsimp only at ho
                split at ho
                · split at ho
                  · exact ho
                  · split at ho
                    · exact ho
                    · split at ho
                      · split at ho
                        · exact ho
                        · split at ho
                          · exact ho
                          · split at ho
                            · exact ho
                            · exact ho
                      · split at ho
                        · exact ho
                        · exact ho
                · exact ho
              · exact ho

theorem frame_eq (s : State) (inp : Input) :
    frame s inp = updateBlock (if inp.closed = true then
      { s.advanceClocks inp.dt with windowOpen := false } else s.advanceClocks inp.dt) inp := rfl

theorem open_frame {s : State} (h : Inv s) (inp : Input)
    (ho : (frame s inp).windowOpen = true) : s.windowOpen = true := by
  have h1 : Inv (s.advanceClocks inp.dt) := inv_change h rfl rfl rfl rfl rfl id id
  have h2 : Inv { s.advanceClocks inp.dt with windowOpen := false } :=
    inv_change h1 rfl rfl rfl rfl rfl id id
  rw [frame_eq] at ho
  by_cases hc : inp.closed = true
  · rw [if_pos hc] at ho
    have h3 : false = true := open_updateBlock h2 inp ho
    exact absurd h3 (by decide)
  · rw [if_neg hc] at ho
    have h3 := open_updateBlock h1 inp ho
    simpa only [State.advanceClocks] using h3

theorem inv_run {s : State} (h : Inv s) (inps : List Input) : Inv (run s inps) := by
  induction inps generalizing s with
  | nil => exact h
  | cons i is ih => exact ih (inv_frame h i)

theorem open_run {s : State} (h : Inv s) (inps : List Input)
    (ho : (run s inps).windowOpen = true) : s.windowOpen = true := by
  induction inps generalizing s with
  | nil => exact ho
  | cons i is ih => exact open_frame h i (ih (inv_frame h i) ho)

/-- A run that ends with the window open only passes through reachable states. -/
theorem reachable_run {s : State} (h : Reachable s) (inps : List Input)
    (ho : (run s inps).windowOpen = true) : Reachable (run s inps) := by
  induction inps generalizing s with
  | nil => exact h
  | cons i is ih =>
    have hi : Inv (frame s i) := inv_frame (reachable_inv h) i
    have h1 : (frame s i).windowOpen = true := open_run hi is ho
    have h0 : s.windowOpen = true := open_frame (reachable_inv h) i h1
    exact ih (Reachable.step s i h h0) ho


/-! ## The collision paths of the mover steps -/

/-- On a grid holding only the Player no cell of the board holds an entity. -/
theorem clean_ne {s : State} (hs : CleanGrid s) (p : Nat × Nat) (hp : p.1 < ROWS ∧ p.2 < COLS)
    (X : Nat) (hX : 2 ≤ X) : s.cell p.1 p.2 ≠ X := by
  rw [hs p.1 hp.1 p.2 hp.2]
  split
  · show 1 ≠ X; omega
  · show 0 ≠ X; omega

/-- A mover loop over cells of the board does nothing on a grid holding only
the Player. -/
theorem forCells_clean (body : State → Nat × Nat → State) (X : Nat) (hX : 2 ≤ X)
    (hbody : ∀ s p, s.cell p.1 p.2 ≠ X → body s p = s)
    (cells : List (Nat × Nat)) (hcells : ∀ p ∈ cells, p.1 < ROWS ∧ p.2 < COLS)
    (s : State) (hs : CleanGrid s) : forCells cells body s = s := by
  rw [forCells_eq]
  induction cells with
  | nil => rfl
  | cons p l ih =>
    rw [List.foldl_cons, hbody s p (clean_ne hs p (hcells p (List.mem_cons_self _ _)) X hX)]
    exact ih (fun q hq => hcells q (List.mem_cons_of_mem _ hq))

/-- The Enemy step onto a Player Bullet (lines 878-932). -/
theorem enemyStep_bullet (s : State) (r c : Nat) (hr : r ≠ ROWS - 1)
    (hb : s.cell (r + 1) c = BULLET) :
    enemyStep s r c = checkLevelUp (triggerHitEffect
      (State.setCell { s.setCell r c EMPTY with score := s.score + 1 } (r + 1) c EMPTY)
      (r + 1) c) := by
  have e : (s.setCell r c EMPTY).cell (r + 1) c = BULLET := by
    rw [cell_setCell, if_neg (by omega), hb]
  unfold enemyStep
  simp only [if_neg hr, e]
  rfl

/-- The Meteor step onto a Player Bullet (lines 799-816). -/
theorem meteorStep_bullet (s : State) (r c : Nat) (hr : r ≠ ROWS - 1)
    (hb : s.cell (r + 1) c = BULLET) :
    meteorStep s r c =
      triggerHitEffect ((s.setCell r c EMPTY).setCell (r + 1) c EMPTY) (r + 1) c := by
  have e : (s.setCell r c EMPTY).cell (r + 1) c = BULLET := by
    rw [cell_setCell, if_neg (by omega), hb]
  unfold meteorStep
  simp only [if_neg hr, e]
  rfl

/-- The Boss step onto a Player Bullet (lines 999-1053). -/
theorem bossStep_bullet (s : State) (r c : Nat) (hr : r ≠ ROWS - 1)
    (hb : s.cell (r + 1) c = BULLET) :
    bossStep s r c = checkLevelUp (triggerHitEffect
      (State.setCell { s.setCell r c EMPTY with score := s.score + 3 } (r + 1) c EMPTY)
      (r + 1) c) := by
  have e : (s.setCell r c EMPTY).cell (r + 1) c = BULLET := by
    rw [cell_setCell, if_neg (by omega), hb]
  unfold bossStep
  simp only [if_neg hr, e, hb]
  rfl

/-- The Player Bullet step onto an Enemy (lines 1230-1283). -/
theorem bulletStep_enemy (s : State) (r c : Nat) (hr : r ≠ 0)
    (hb : s.cell (r - 1) c = ENEMY) :
    bulletStep s r c = checkLevelUp (triggerHitEffect
      (State.setCell { s.setCell r c EMPTY with score := s.score + 1 } (r - 1) c EMPTY)
      (r - 1) c) := by
  have e : (s.setCell r c EMPTY).cell (r - 1) c = ENEMY := by
    rw [cell_setCell, if_neg (by omega), hb]
  unfold bulletStep
  simp only [if_neg hr, e]
  rfl

/-- The Player Bullet step onto a Boss (lines 1284-1337). -/
theorem bulletStep_boss (s : State) (r c : Nat) (hr : r ≠ 0)
    (hb : s.cell (r - 1) c = BOSS) :
    bulletStep s r c = checkLevelUp (triggerHitEffect
      (State.setCell { s.setCell r c EMPTY with score := s.score + 3 } (r - 1) c EMPTY)
      (r - 1) c) := by
  have e : (s.setCell r c EMPTY).cell (r - 1) c = BOSS := by
    rw [cell_setCell, if_neg (by omega), hb]
  unfold bulletStep
  simp only [if_neg hr, e]
  rfl

/-- The Player Bullet step onto a Meteor or a Boss Bullet (lines 1194-1229). -/
theorem bulletStep_meteor (s : State) (r c : Nat) (hr : r ≠ 0)
    (hb : s.cell (r - 1) c = METEOR ∨ s.cell (r - 1) c = BOSS_BULLET) :
    bulletStep s r c =
      triggerHitEffect ((s.setCell r c EMPTY).setCell (r - 1) c EMPTY) (r - 1) c := by
  have e : (s.setCell r c EMPTY).cell (r - 1) c = s.cell (r - 1) c := by
    rw [cell_setCell, if_neg (by omega)]
  unfold bulletStep
  rcases hb with hb | hb
  · simp only [if_neg hr, e, hb]
    rfl
  · simp only [if_neg hr, e, hb]
    rfl

/-- The first free slot takes the effect. -/
theorem triggerHitEffectFrom_free (s : State) (row col n i : Nat)
    (h : ∃ j, i ≤ j ∧ j < i + n ∧ s.hitEffectActive j = false) :
    ∃ j, i ≤ j ∧ j < i + n ∧ s.hitEffectActive j = false ∧
      triggerHitEffectFrom s row col n i =
        { s with
          hitEffectRow := setAt s.hitEffectRow j row
          hitEffectCol := setAt s.hitEffectCol j col
          hitEffectTimer := setAt s.hitEffectTimer j 0
          hitEffectActive := setAt s.hitEffectActive j true } := by
  induction n generalizing i with
  | zero =>
    obtain ⟨j, h1, h2, _⟩ := h
    omega
  | succ n ih =>
    unfold triggerHitEffectFrom
    split
    · rename_i hi
      exact ⟨i, le_refl _, by omega, hi, rfl⟩
    · rename_i hi
      obtain ⟨j, h1, h2, h3⟩ := h
      have hij : i ≠ j := fun e => hi (e ▸ h3)
      obtain ⟨k, k1, k2, k3, k4⟩ := ih (i + 1) ⟨j, by omega, by omega, h3⟩
      exact ⟨k, by omega, by omega, k3, k4⟩

/-- The activation loop only writes the hit-effect arrays. -/
theorem trigger_fields (s : State) (row col : Nat) :
    (triggerHitEffect s row col).grid = s.grid ∧
      (triggerHitEffect s row col).score = s.score ∧
      (triggerHitEffect s row col).level = s.level ∧
      (triggerHitEffect s row col).lives = s.lives ∧
      (triggerHitEffect s row col).currentState = s.currentState ∧
      (triggerHitEffect s row col).spaceshipCol = s.spaceshipCol := by
  obtain ⟨a, b, c, d, e⟩ := triggerHitEffect_eq s row col
  rw [e]
  exact ⟨rfl, rfl, rfl, rfl, rfl, rfl⟩

theorem trigger_cell (s : State) (row col r c : Nat) :
    (triggerHitEffect s row col).cell r c = s.cell r c := by
  simp only [State.cell, (trigger_fields s row col).1]

/-- With an inactive slot, the activation loop activates an effect at the given
cell. -/
theorem trigger_free (s : State) (row col : Nat) (h : ∃ i, i < MAX_HIT_EFFECTS ∧ s.hitEffectActive i = false) :
    ∃ i, i < MAX_HIT_EFFECTS ∧ s.hitEffectActive i = false ∧
      (triggerHitEffect s row col).hitEffectActive i = true ∧
      (triggerHitEffect s row col).hitEffectRow i = row ∧
      (triggerHitEffect s row col).hitEffectCol i = col ∧
      (triggerHitEffect s row col).hitEffectTimer i = 0 := by
  obtain ⟨i, hi, hf⟩ := h
  obtain ⟨j, _, j2, j3, j4⟩ :=
    triggerHitEffectFrom_free s row col MAX_HIT_EFFECTS 0 ⟨i, Nat.zero_le _, by omega, hf⟩
  refine ⟨j, by omega, j3, ?_⟩
  unfold triggerHitEffect
  rw [j4]
  simp [setAt]

/-! ## The progression check after a destruction -/

/-- The progression check leaves the hit-effect arrays and lives alone. -/
theorem checkLevelUp_hit (u : State) :
    (checkLevelUp u).hitEffectActive = u.hitEffectActive ∧
      (checkLevelUp u).hitEffectRow = u.hitEffectRow ∧
      (checkLevelUp u).hitEffectCol = u.hitEffectCol ∧
      (checkLevelUp u).hitEffectTimer = u.hitEffectTimer ∧
      (checkLevelUp u).lives = u.lives := by
  unfold checkLevelUp
  dsimp only
  split
  · exact ⟨rfl, rfl, rfl, rfl, rfl⟩
  · split
    · exact ⟨rfl, rfl, rfl, rfl, rfl⟩
    · exact ⟨rfl, rfl, rfl, rfl, rfl⟩

/-- The progression check below level 5 with the threshold reached. -/
theorem checkLevelUp_levelled {u : State} (hwf : WF u) (h4 : u.level ≤ 4)
    (hs : 10 * u.level ≤ u.score) : LevelledUp u.level (checkLevelUp u) := by
  unfold checkLevelUp
  dsimp only
  rw [if_pos ⟨by show u.level < 5; omega, by show u.score ≥ u.level * 10; omega⟩]
  refine ⟨rfl, rfl, ?_, rfl⟩
  intro r hr c hc
  exact levelUpGrid_get hwf r c hr hc

/-- A cell above the bottom row that is Empty stays Empty through the
progression check. -/
theorem checkLevelUp_empty {u : State} (hwf : WF u) (r c : Nat) (hr : r < ROWS) (hc : c < COLS)
    (he : u.cell r c = EMPTY) (hne : r ≠ ROWS - 1) : (checkLevelUp u).cell r c = EMPTY := by
  unfold checkLevelUp
  dsimp only
  split
  · show Grid.get _ r c = EMPTY
    rw [levelUpGrid_get hwf r c hr hc, if_neg (fun h => hne h.1)]
  · split
    · exact he
    · exact he

/-- When the progression check enters Victory, and what it keeps then. -/
theorem checkLevelUp_victory {u : State} (hv : u.currentState ≠ STATE_VICTORY)
    (h5 : u.level ≤ 5) :
    ((checkLevelUp u).currentState = STATE_VICTORY ↔ u.level = 5 ∧ 50 ≤ u.score) ∧
      ((checkLevelUp u).currentState = STATE_VICTORY →
        (checkLevelUp u).score = u.score ∧ (checkLevelUp u).level = u.level ∧
          (checkLevelUp u).grid = u.grid) := by
  unfold checkLevelUp
  dsimp only
  split
  · rename_i h
    have h1 : u.level < 5 := h.1
    have hne : STATE_LEVEL_UP ≠ STATE_VICTORY := by decide
    exact ⟨⟨fun e => absurd e hne, fun e => by omega⟩, fun e => absurd e hne⟩
  · split
    · rename_i h1 h2
      have h3 : u.level ≥ 5 := h2.1
      have h4 : u.score ≥ u.level * 10 := h2.2
      exact ⟨⟨fun _ => ⟨by omega, by omega⟩, fun _ => rfl⟩, fun _ => ⟨rfl, rfl, rfl⟩⟩
    · rename_i h1 h2
      refine ⟨⟨fun e => absurd e hv, fun e => ?_⟩, fun e => absurd e hv⟩
      exfalso
      apply h2
      exact ⟨by show u.level ≥ 5; omega, by show u.score ≥ u.level * 10; omega⟩

theorem wf_of_eq {s t : State} (h : WF s) (hg : t.grid = s.grid)
    (hc : t.spaceshipCol = s.spaceshipCol) : WF t := by
  unfold WF State.cell at *
  rw [hg, hc]
  exact h

theorem wf_setEmpty {s : State} (h : WF s) (r c : Nat) : WF (s.setCell r c EMPTY) := by
  refine ⟨h.1, fun r2 hr2 c2 hc2 => ?_⟩
  rw [cell_setCell]
  split
  · exact ⟨by decide, fun e => absurd e (by decide), fun e => absurd e (by decide)⟩
  · exact h.2 r2 hr2 c2 hc2

/-- The progression check of a destruction that brings the score of a level
below 5 to its threshold. -/
theorem levelled_destroy {s : State} (hwf : WF s) (h4 : s.level ≤ 4) (k : Int)
    (hs : 10 * s.level ≤ s.score + k) (r c r2 c2 row col : Nat) :
    LevelledUp s.level (checkLevelUp (triggerHitEffect
      (State.setCell { s.setCell r c EMPTY with score := s.score + k } r2 c2 EMPTY) row col)) := by
  have hwf2 : WF (triggerHitEffect
      (State.setCell { s.setCell r c EMPTY with score := s.score + k } r2 c2 EMPTY) row col) :=
    wf_of_eq (wf_setEmpty (wf_of_eq (wf_setEmpty hwf r c) rfl rfl) r2 c2)
      (trigger_fields _ row col).1 (trigger_fields _ row col).2.2.2.2.2
  have e := trigger_fields
    (State.setCell { s.setCell r c EMPTY with score := s.score + k } r2 c2 EMPTY) row col
  have h := checkLevelUp_levelled hwf2 (by rw [e.2.2.1]; exact h4)
    (by rw [e.2.2.1, e.2.1]; exact hs)
  rw [e.2.2.1] at h
  exact h

theorem victory_destroy {s : State} (hv : s.currentState ≠ STATE_VICTORY) (h5 : s.level ≤ 5)
    (k : Int) (r c r2 : Nat) :
    VictoryRule s (checkLevelUp (triggerHitEffect
      (State.setCell { s.setCell r c EMPTY with score := s.score + k } r2 c EMPTY) r2 c))
      r c r2 k := by
  have e := trigger_fields
    (State.setCell { s.setCell r c EMPTY with score := s.score + k } r2 c EMPTY) r2 c
  have h := checkLevelUp_victory (u := triggerHitEffect
      (State.setCell { s.setCell r c EMPTY with score := s.score + k } r2 c EMPTY) r2 c)
    (by rw [e.2.2.2.2.1]; exact hv) (by rw [e.2.2.1]; exact h5)
  rw [e.2.2.1, e.2.1, e.1] at h
  refine ⟨h.1, fun hh => ?_⟩
  have h2 := h.2 hh
  exact ⟨h2.1, by rw [h2.2.1]; exact (h.1.1 hh).1, h2.2.2⟩

theorem moved_setCell (s : State) (X r c r2 : Nat) (hne : r2 ≠ r) (hX : X < 8) :
    MovedTo s ((s.setCell r c EMPTY).setCell r2 c X) X r c r2 := by
  refine ⟨?_, ?_, fun r3 c3 h1 h2 => ?_, rfl, rfl, rfl, rfl, rfl, rfl, rfl, rfl⟩
  · rw [cell_setCell, if_neg (fun e => hne e.1.symm), cell_setCell, if_pos ⟨rfl, rfl⟩]
    rfl
  · rw [cell_setCell, if_pos ⟨rfl, rfl⟩, Nat.mod_eq_of_lt hX]
  · rw [cell_setCell, if_neg h2, cell_setCell, if_neg h1]

theorem destroyed_plain (s : State) (r c r2 : Nat) :
    Destroyed s (triggerHitEffect ((s.setCell r c EMPTY).setCell r2 c EMPTY) r2 c) r c r2 := by
  refine ⟨?_, ?_, fun hf => ?_⟩
  · rw [trigger_cell, cell_setCell]
    split
    · rfl
    · rw [cell_setCell, if_pos ⟨rfl, rfl⟩]
      rfl
  · rw [trigger_cell, cell_setCell, if_pos ⟨rfl, rfl⟩]
    rfl
  · exact trigger_free ((s.setCell r c EMPTY).setCell r2 c EMPTY) r2 c hf

theorem destroyed_scored {s : State} (hwf : WF s) (k : Int) (r c r2 : Nat) (hr : r < ROWS)
    (hc : c < COLS) (hr2 : r2 < ROWS) (hn : r ≠ ROWS - 1) (hn2 : r2 ≠ ROWS - 1) :
    Destroyed s (checkLevelUp (triggerHitEffect
      (State.setCell { s.setCell r c EMPTY with score := s.score + k } r2 c EMPTY) r2 c))
      r c r2 := by
  have hwf2 : WF (triggerHitEffect
      (State.setCell { s.setCell r c EMPTY with score := s.score + k } r2 c EMPTY) r2 c) :=
    wf_of_eq (wf_setEmpty (wf_of_eq (wf_setEmpty hwf r c) rfl rfl) r2 c)
      (trigger_fields _ r2 c).1 (trigger_fields _ r2 c).2.2.2.2.2
  have hd : Destroyed s (triggerHitEffect
      (State.setCell { s.setCell r c EMPTY with score := s.score + k } r2 c EMPTY) r2 c)
      r c r2 := by
    have h := destroyed_plain s r c r2
    refine ⟨?_, ?_, fun hf => ?_⟩
    · rw [trigger_cell]
      have := h.1
      rw [trigger_cell] at this
      exact this
    · rw [trigger_cell]
      have := h.2.1
      rw [trigger_cell] at this
      exact this
    · exact trigger_free
        (State.setCell { s.setCell r c EMPTY with score := s.score + k } r2 c EMPTY) r2 c hf
  refine ⟨checkLevelUp_empty hwf2 r c hr hc hd.1 hn, checkLevelUp_empty hwf2 r2 c hr2 hc hd.2.1 hn2,
    fun hf => ?_⟩
  obtain ⟨i, h1, h2, h3, h4, h5, h6⟩ := hd.2.2 hf
  have e := checkLevelUp_hit (triggerHitEffect
      (State.setCell { s.setCell r c EMPTY with score := s.score + k } r2 c EMPTY) r2 c)
  refine ⟨i, h1, h2, ?_, ?_, ?_, ?_⟩
  · rw [e.1]; exact h3
  · rw [e.2.1]; exact h4
  · rw [e.2.2.1]; exact h5
  · rw [e.2.2.2.1]; exact h6

theorem scoredBy_destroy (s : State) (k : Int) (r c r2 : Nat) :
    ScoredBy s (checkLevelUp (triggerHitEffect
      (State.setCell { s.setCell r c EMPTY with score := s.score + k } r2 c EMPTY) r2 c)) k := by
  have e := trigger_fields
    (State.setCell { s.setCell r c EMPTY with score := s.score + k } r2 c EMPTY) r2 c
  exact ⟨_, rfl, e.2.1, e.2.2.1, e.2.2.2.2.1⟩

theorem unscored_destroy (s : State) (r c r2 : Nat) :
    Unscored s (triggerHitEffect ((s.setCell r c EMPTY).setCell r2 c EMPTY) r2 c) := by
  have e := trigger_fields ((s.setCell r c EMPTY).setCell r2 c EMPTY) r2 c
  exact ⟨e.2.1, e.2.2.1, e.2.2.2.2.1⟩

/-! ## After a level-up the rest of the frame changes nothing -/

/-- The predicate `LevelledUp` only reads level, score, grid and lifecycle state. -/
theorem lv_of_eq {L : Int} {s t : State} (h : LevelledUp L s) (e1 : t.level = s.level)
    (e2 : t.score = s.score) (e3 : t.grid = s.grid) (e4 : t.currentState = s.currentState) :
    LevelledUp L t := by
  unfold LevelledUp CleanGrid State.cell at *
  rw [e1, e2, e3, e4]
  exact h

theorem lv_bossFire {L : Int} {t : State} (h : LevelledUp L t) : LevelledUp L (bossFire t) := by
  have h1 : LevelledUp L { t with bossMoveCounter := t.bossMoveCounter + 1 } :=
    lv_of_eq h rfl rfl rfl rfl
  unfold bossFire
  dsimp only
  split
  · rw [forCells_clean bossFireCell BOSS (by decide) (fun s p hp => if_neg hp) scanTopDown
      (fun p hp => (mem_scanTopDown p).1 hp) _ h1.2.2.1]
    exact lv_of_eq h rfl rfl rfl rfl
  · exact lv_of_eq h rfl rfl rfl rfl

theorem lv_bossMove {L : Int} {t : State} (h : LevelledUp L t) (speed : Int) :
    LevelledUp L (bossMove t speed) := by
  unfold bossMove
  split
  · rw [forCells_clean bossCell BOSS (by decide) (fun s p hp => if_neg hp) scanBottomUp
      (fun p hp => (mem_scanBottomUp p).1 hp) _ h.2.2.1]
    exact lv_bossFire h
  · exact h

theorem lv_bossBulletMove {L : Int} {t : State} (h : LevelledUp L t) (speed : Int) :
    LevelledUp L (bossBulletMove t speed) := by
  unfold bossBulletMove
  split
  · rw [forCells_clean bossBulletCell BOSS_BULLET (by decide) (fun s p hp => if_neg hp)
      scanBottomUp (fun p hp => (mem_scanBottomUp p).1 hp) _ h.2.2.1]
    exact lv_of_eq h rfl rfl rfl rfl
  · exact h

theorem lv_bulletMove {L : Int} {t : State} (h : LevelledUp L t) :
    LevelledUp L (bulletMove t) := by
  unfold bulletMove
  split
  · rw [forCells_clean bulletCell BULLET (by decide) (fun s p hp => if_neg hp)
      scanTopDown (fun p hp => (mem_scanTopDown p).1 hp) _ h.2.2.1]
    exact lv_of_eq h rfl rfl rfl rfl
  · exact h

theorem lv_afterBulletMove {L : Int} {t : State} (h : LevelledUp L t) :
    LevelledUp L (afterBulletMove t) := by
  have h1 : LevelledUp L (updateHitEffects t) := lv_of_eq h rfl rfl rfl rfl
  unfold afterBulletMove updateInvincibility
  split
  · exact lv_of_eq h1 rfl rfl rfl rfl
  · exact h1

theorem lv_afterEnemyMove {L : Int} {t : State} (h : LevelledUp L t) :
    LevelledUp L (afterEnemyMove t) :=
  lv_afterBulletMove (lv_bulletMove (lv_bossBulletMove (lv_bossMove h _) _))

/-! ## The blocks other than Playing -/

theorem quiet_same {s t : State} (e1 : t.currentState = s.currentState)
    (e2 : t.level = s.level) : Quiet s t :=
  ⟨Or.inl e1, Or.inl (by rw [e2])⟩

theorem quiet_to {s t : State}
    (e1 : t.currentState = STATE_PLAYING ∨ t.currentState = STATE_MENU ∨
      t.currentState = STATE_INSTRUCTIONS)
    (e2 : t.level = s.level) : Quiet s t :=
  ⟨Or.inr e1, Or.inl (by rw [e2])⟩

theorem quiet_fresh {s t : State} (e1 : t.currentState = STATE_PLAYING)
    (e2 : t.grid = (Grid.cleared).set (ROWS - 1) (COLS / 2) SPACESHIP) : Quiet s t := by
  refine ⟨Or.inr (Or.inl e1), Or.inr fun r _ c _ => ?_⟩
  rw [State.cell, e2]
  exact cleanStart_get r c

theorem quiet_menuFrame (s : State) (inp : Input) : Quiet s (menuFrame s inp) := by
  unfold menuFrame
  dsimp only
  repeat' split
  all_goals first
    | exact quiet_same rfl rfl
    | exact quiet_to (Or.inr (Or.inr rfl)) rfl
    | exact quiet_fresh rfl rfl

theorem quiet_gameOverFrame (s : State) (inp : Input) : Quiet s (gameOverFrame s inp) := by
  unfold gameOverFrame
  dsimp only
  repeat' split
  all_goals first
    | exact quiet_same rfl rfl
    | exact quiet_to (Or.inr (Or.inl rfl)) rfl
    | exact quiet_fresh rfl rfl

theorem quiet_instructionsFrame (s : State) (inp : Input) :
    Quiet s (instructionsFrame s inp) := by
  unfold instructionsFrame
  repeat' split
  all_goals first
    | exact quiet_same rfl rfl
    | exact quiet_to (Or.inr (Or.inl rfl)) rfl

theorem quiet_levelUpFrame (s : State) : Quiet s (levelUpFrame s) := by
  unfold levelUpFrame
  dsimp only
  repeat' split
  all_goals first
    | exact quiet_same rfl rfl
    | exact quiet_to (Or.inl rfl) rfl

theorem quiet_victoryFrame (s : State) (inp : Input) : Quiet s (victoryFrame s inp) := by
  unfold victoryFrame
  dsimp only
  repeat' split
  all_goals first
    | exact quiet_same rfl rfl
    | exact quiet_to (Or.inr (Or.inl rfl)) rfl
    | exact quiet_fresh rfl rfl

theorem quiet_pausedFrame (s : State) (inp : Input) : Quiet s (pausedFrame s inp) := by
  unfold pausedFrame
  dsimp only
  repeat' split
  all_goals first
    | exact quiet_same rfl rfl
    | exact quiet_to (Or.inl rfl) rfl
    | exact quiet_to (Or.inr (Or.inl rfl)) rfl

/-- Every block other than Playing is quiet. -/
theorem quiet_updateBlock (s : State) (inp : Input) (hp : s.currentState ≠ STATE_PLAYING) :
    Quiet s (updateBlock s inp) := by
  unfold updateBlock
  split
  · exact quiet_menuFrame s inp
  · split
    · exact quiet_gameOverFrame s inp
    · split
      · exact quiet_instructionsFrame s inp
      · split
        · exact quiet_levelUpFrame s
        · split
          · exact quiet_victoryFrame s inp
          · split
            · exact quiet_pausedFrame s inp
            · exact quiet_same rfl rfl

theorem quiet_frame (s : State) (inp : Input) (hp : s.currentState ≠ STATE_PLAYING) :
    Quiet s (frame s inp) := by
  rw [frame_eq]
  by_cases hc : inp.closed = true
  · rw [if_pos hc]
    have h := quiet_updateBlock { s.advanceClocks inp.dt with windowOpen := false } inp hp
    exact ⟨h.1, h.2⟩
  · rw [if_neg hc]
    have h := quiet_updateBlock (s.advanceClocks inp.dt) inp hp
    exact ⟨h.1, h.2⟩

theorem updateBlock_playing (s : State) (inp : Input) (hp : s.currentState = STATE_PLAYING) :
    updateBlock s inp = playingFrame s inp := by
  unfold updateBlock
  rw [hp]
  rfl

/-- A frame of play never lowers the level. -/
theorem level_frame {s : State} (h : Inv s) (inp : Input)
    (hp : s.currentState = STATE_PLAYING) : s.level ≤ (frame s inp).level := by
  have h1 : Inv (s.advanceClocks inp.dt) := inv_change h rfl rfl rfl rfl rfl id id
  have h2 : Inv { s.advanceClocks inp.dt with windowOpen := false } :=
    inv_change h1 rfl rfl rfl rfl rfl id id
  rw [frame_eq]
  by_cases hc : inp.closed = true
  · rw [if_pos hc,
      updateBlock_playing { s.advanceClocks inp.dt with windowOpen := false } inp hp]
    exact (keep_playingFrame (keep_of_inv h2) hp inp).1.2.1
  · rw [if_neg hc, updateBlock_playing (s.advanceClocks inp.dt) inp hp]
    exact (keep_playingFrame (keep_of_inv h1) hp inp).1.2.1

/-! ## Collisions with the Player and with Boss Bullets -/

/-- A row with a row below it is not the bottom row. -/
theorem not_last_row {r : Nat} (hr : r + 1 < ROWS) : r ≠ ROWS - 1 := by
  have : r + 1 < 23 := hr
  show r ≠ 23 - 1
  omega

theorem vanished_setCell (s : State) (r c : Nat) : Vanished s (s.setCell r c EMPTY) r c := by
  refine ⟨?_, fun r3 c3 h => ?_, rfl, rfl, rfl, rfl, rfl, rfl, rfl, rfl⟩
  · rw [cell_setCell, if_pos ⟨rfl, rfl⟩]
    rfl
  · rw [cell_setCell, if_neg h]

/-- The life-loss block loses a life. -/
theorem loseLife_lost (s : State) : LifeLost s (loseLife s) := by
  unfold loseLife
  dsimp only
  split
  · rename_i h
    have h1 : s.lives - 1 ≤ 0 := h
    refine ⟨rfl, rfl, rfl, fun _ => rfl, fun h2 => ?_⟩
    have h3 : 0 < s.lives - 1 := h2
    omega
  · rename_i h
    exact ⟨rfl, rfl, rfl, fun h2 => absurd h2 h, fun _ => rfl⟩

/-- The life-loss block leaves grid, score, level and hit effects alone. -/
theorem loseLife_fields (s : State) :
    (loseLife s).grid = s.grid ∧ (loseLife s).score = s.score ∧ (loseLife s).level = s.level ∧
      (loseLife s).hitEffectActive = s.hitEffectActive := by
  unfold loseLife
  dsimp only
  split
  · exact ⟨rfl, rfl, rfl, rfl⟩
  · exact ⟨rfl, rfl, rfl, rfl⟩

theorem loseLife_cell (s : State) (r c : Nat) : (loseLife s).cell r c = s.cell r c := by
  simp only [State.cell, (loseLife_fields s).1]

/-- The "if not invincible, lose a life" block on a state whose source cell
was just cleared. -/
theorem hit_block (s : State) (r c : Nat) :
    HitPlayer s (if (s.setCell r c EMPTY).isInvincible = false then
      loseLife (s.setCell r c EMPTY) else s.setCell r c EMPTY) r c := by
  have hc : (s.setCell r c EMPTY).cell r c = EMPTY := by
    rw [cell_setCell, if_pos ⟨rfl, rfl⟩]
    rfl
  by_cases hi : s.isInvincible = false
  · have hi2 : (s.setCell r c EMPTY).isInvincible = false := hi
    rw [if_pos hi2]
    have e := loseLife_fields (s.setCell r c EMPTY)
    refine ⟨by rw [loseLife_cell]; exact hc, e.2.1, e.2.2.1,
      fun _ => loseLife_lost (s.setCell r c EMPTY), fun h => ?_⟩
    rw [hi] at h
    exact absurd h (by decide)
  · have hi2 : ¬ (s.setCell r c EMPTY).isInvincible = false := hi
    rw [if_neg hi2]
    exact ⟨hc, rfl, rfl, fun h => absurd h hi, fun _ => ⟨rfl, rfl, rfl⟩⟩

theorem hitPlayer_of_eq {s t u : State} (r c : Nat) (h : HitPlayer s t r c)
    (e0 : u.cell r c = t.cell r c) (e1 : u.score = t.score) (e2 : u.level = t.level)
    (e3 : u.lives = t.lives) (e4 : u.isInvincible = t.isInvincible)
    (e5 : u.invincibilityTimer = t.invincibilityTimer)
    (e6 : u.currentState = t.currentState) : HitPlayer s u r c := by
  unfold HitPlayer LifeLost LifeKept at *
  rw [e0, e1, e2, e3, e4, e5, e6]
  exact h

theorem block_cell (s : State) (r c r2 c2 : Nat) (h : ¬(r2 = r ∧ c2 = c)) :
    (if (s.setCell r c EMPTY).isInvincible = false then
      loseLife (s.setCell r c EMPTY) else s.setCell r c EMPTY).cell r2 c2 = s.cell r2 c2 := by
  split
  · rw [loseLife_cell, cell_setCell, if_neg h]
  · rw [cell_setCell, if_neg h]

/-- The Meteor step into the Player (lines 781-798). -/
theorem meteorStep_player (s : State) (r c : Nat) (hr : r ≠ ROWS - 1)
    (hp : s.cell (r + 1) c = SPACESHIP) :
    meteorStep s r c = State.setCell (if (s.setCell r c EMPTY).isInvincible = false then
      loseLife (s.setCell r c EMPTY) else s.setCell r c EMPTY) (r + 1) c EMPTY := by
  have e : (s.setCell r c EMPTY).cell (r + 1) c = SPACESHIP := by
    rw [cell_setCell, if_neg (by omega), hp]
  unfold meteorStep
  simp only [if_neg hr, e]
  rfl

/-- The Enemy step into the Player (lines 860-877). -/
theorem enemyStep_player (s : State) (r c : Nat) (hr : r ≠ ROWS - 1)
    (hp : s.cell (r + 1) c = SPACESHIP) :
    enemyStep s r c = State.setCell (if (s.setCell r c EMPTY).isInvincible = false then
      loseLife (s.setCell r c EMPTY) else s.setCell r c EMPTY) (r + 1) c EMPTY := by
  have e : (s.setCell r c EMPTY).cell (r + 1) c = SPACESHIP := by
    rw [cell_setCell, if_neg (by omega), hp]
  unfold enemyStep
  simp only [if_neg hr, e]
  rfl

/-- The Boss step into the Player (lines 981-998). -/
theorem bossStep_player (s : State) (r c : Nat) (hr : r ≠ ROWS - 1)
    (hp : s.cell (r + 1) c = SPACESHIP) :
    bossStep s r c = State.setCell (if (s.setCell r c EMPTY).isInvincible = false then
      loseLife (s.setCell r c EMPTY) else s.setCell r c EMPTY) (r + 1) c EMPTY := by
  have e : (s.setCell r c EMPTY).cell (r + 1) c = SPACESHIP := by
    rw [cell_setCell, if_neg (by omega), hp]
  unfold bossStep
  simp only [if_neg hr, e, hp]
  rfl

/-- The Boss Bullet step into the Player (lines 1124-1152). -/
theorem bossBulletStep_player (s : State) (r c : Nat) (hr : r ≠ ROWS - 1)
    (hp : s.cell (r + 1) c = SPACESHIP) :
    bossBulletStep s r c = triggerHitEffect (if (s.setCell r c EMPTY).isInvincible = false then
      loseLife (s.setCell r c EMPTY) else s.setCell r c EMPTY) (r + 1) c := by
  have e : (s.setCell r c EMPTY).cell (r + 1) c = SPACESHIP := by
    rw [cell_setCell, if_neg (by omega), hp]
  unfold bossBulletStep
  simp only [if_neg hr, e]
  rfl

theorem hitPlayer_left (s : State) (r c : Nat) :
    HitPlayer s (State.setCell (if (s.setCell r c EMPTY).isInvincible = false then
      loseLife (s.setCell r c EMPTY) else s.setCell r c EMPTY) (r + 1) c EMPTY) r c :=
  hitPlayer_of_eq r c (hit_block s r c)
    (by rw [cell_setCell, if_neg (by omega)]) rfl rfl rfl rfl rfl rfl

theorem hitPlayer_trigger (s : State) (r c : Nat) :
    HitPlayer s (triggerHitEffect (if (s.setCell r c EMPTY).isInvincible = false then
      loseLife (s.setCell r c EMPTY) else s.setCell r c EMPTY) (r + 1) c) r c := by
  obtain ⟨a, b, d, f, e⟩ := triggerHitEffect_eq (if (s.setCell r c EMPTY).isInvincible = false
    then loseLife (s.setCell r c EMPTY) else s.setCell r c EMPTY) (r + 1) c
  rw [e]
  exact hitPlayer_of_eq r c (hit_block s r c) rfl rfl rfl rfl rfl rfl rfl

/-- The Boss Bullet step onto a Player Bullet or a Boss: no branch of lines
1124-1162 applies, only the source was cleared. -/
theorem bossBulletStep_blocked (s : State) (r c : Nat) (hr : r ≠ ROWS - 1)
    (hp : s.cell (r + 1) c = BULLET ∨ s.cell (r + 1) c = BOSS) :
    bossBulletStep s r c = s.setCell r c EMPTY := by
  have e : (s.setCell r c EMPTY).cell (r + 1) c = s.cell (r + 1) c := by
    rw [cell_setCell, if_neg (by omega)]
  unfold bossBulletStep
  rcases hp with hp | hp
  · simp only [if_neg hr, e, hp]
    rfl
  · simp only [if_neg hr, e, hp]
    rfl

/-- The Boss Bullet step onto a Meteor or an Enemy (lines 1154-1157). -/
theorem bossBulletStep_through (s : State) (r c : Nat) (hr : r ≠ ROWS - 1)
    (hp : s.cell (r + 1) c = METEOR ∨ s.cell (r + 1) c = ENEMY) :
    bossBulletStep s r c = (s.setCell r c EMPTY).setCell (r + 1) c BOSS_BULLET := by
  have e : (s.setCell r c EMPTY).cell (r + 1) c = s.cell (r + 1) c := by
    rw [cell_setCell, if_neg (by omega)]
  unfold bossBulletStep
  rcases hp with hp | hp
  · simp only [if_neg hr, e, hp]
    rfl
  · simp only [if_neg hr, e, hp]
    rfl

/-- The Meteor step onto a Boss Bullet: no branch of lines 776-817 applies. -/
theorem meteorStep_bossBullet (s : State) (r c : Nat) (hr : r ≠ ROWS - 1)
    (hp : s.cell (r + 1) c = BOSS_BULLET) : meteorStep s r c = s.setCell r c EMPTY := by
  have e : (s.setCell r c EMPTY).cell (r + 1) c = BOSS_BULLET := by
    rw [cell_setCell, if_neg (by omega), hp]
  unfold meteorStep
  simp only [if_neg hr, e]
  rfl

/-- The Enemy step onto a Boss Bullet: no branch of lines 855-932 applies. -/
theorem enemyStep_bossBullet (s : State) (r c : Nat) (hr : r ≠ ROWS - 1)
    (hp : s.cell (r + 1) c = BOSS_BULLET) : enemyStep s r c = s.setCell r c EMPTY := by
  have e : (s.setCell r c EMPTY).cell (r + 1) c = BOSS_BULLET := by
    rw [cell_setCell, if_neg (by omega), hp]
  unfold enemyStep
  simp only [if_neg hr, e]
  rfl

theorem calm_of_eq {L : Int} {s t : State} (h : Calm L s) (e1 : t.lives = s.lives)
    (e2 : t.isInvincible = s.isInvincible) : Calm L t := by
  unfold Calm at *
  rw [e1, e2]
  exact h

/-- With the flag set, the "if not invincible" block does nothing. -/
theorem calm_block {L : Int} {s : State} (h : Calm L s) :
    (if s.isInvincible = false then loseLife s else s) = s :=
  if_neg (by rw [h.2]; decide)

theorem calm_trigger {L : Int} {s : State} (h : Calm L s) (row col : Nat) :
    Calm L (triggerHitEffect s row col) := by
  obtain ⟨a, b, c, d, e⟩ := triggerHitEffect_eq s row col
  rw [e]
  exact h

theorem calm_checkLevelUp {L : Int} {s : State} (h : Calm L s) : Calm L (checkLevelUp s) := by
  unfold checkLevelUp
  dsimp only
  split
  · exact h
  · split
    · exact h
    · exact h

theorem calm_setCell {L : Int} {s : State} (h : Calm L s) (r c v : Nat) :
    Calm L (s.setCell r c v) := h

theorem calm_score {L : Int} {s : State} (h : Calm L s) (k : Int) :
    Calm L { s with score := s.score + k } := h

theorem calm_meteorStep {L : Int} {s : State} (h : Calm L s) (r c : Nat) :
    Calm L (meteorStep s r c) := by
  have h0 := calm_setCell h r c EMPTY
  unfold meteorStep
  dsimp only
  rw [calm_block h0]
  split
  · exact h0
  · split
    · exact calm_setCell h0 _ _ _
    · split
      · exact calm_setCell h0 _ _ _
      · split
        · exact calm_trigger (calm_setCell h0 _ _ _) _ _
        · exact h0

theorem calm_enemyStep {L : Int} {s : State} (h : Calm L s) (r c : Nat) (hr : r ≠ ROWS - 1) :
    Calm L (enemyStep s r c) := by
  have h0 := calm_setCell h r c EMPTY
  unfold enemyStep
  dsimp only
  rw [if_neg hr, calm_block h0]
  split
  · exact calm_setCell h0 _ _ _
  · split
    · exact calm_setCell h0 _ _ _
    · split
      · exact calm_checkLevelUp (calm_trigger (calm_setCell (calm_score h0 1) _ _ _) _ _)
      · exact h0

theorem calm_bossStep {L : Int} {s : State} (h : Calm L s) (r c : Nat) (hr : r ≠ ROWS - 1) :
    Calm L (bossStep s r c) := by
  have h0 := calm_setCell h r c EMPTY
  unfold bossStep
  dsimp only
  rw [if_neg hr, calm_block h0]
  split
  · exact calm_setCell h0 _ _ _
  · split
    · exact calm_setCell h0 _ _ _
    · split
      · exact calm_checkLevelUp (calm_trigger (calm_setCell (calm_score h0 3) _ _ _) _ _)
      · exact h0

theorem calm_bossBulletStep {L : Int} {s : State} (h : Calm L s) (r c : Nat) :
    Calm L (bossBulletStep s r c) := by
  have h0 := calm_setCell h r c EMPTY
  unfold bossBulletStep
  dsimp only
  rw [calm_block h0]
  split
  · exact h0
  · split
    · exact calm_trigger h0 _ _
    · split
      · exact calm_setCell h0 _ _ _
      · split
        · exact calm_setCell h0 _ _ _
        · exact h0

theorem calm_bossFireStep {L : Int} {s : State} (h : Calm L s) (r c : Nat) :
    Calm L (bossFireStep s r c) := by
  unfold bossFireStep
  dsimp only
  split
  · split
    · exact calm_setCell h _ _ _
    · exact h
  · exact h

/-- The bottom-up scan visits the bottom row first. -/
theorem scanBottomUp_split : scanBottomUp = bottomRow ++ upperRows := by
  decide!

theorem mem_bottomRow (p : Nat × Nat) : p ∈ bottomRow ↔ p.1 = ROWS - 1 ∧ p.2 < COLS := by
  obtain ⟨r, c⟩ := p
  simp only [bottomRow, List.mem_map, List.mem_range, Prod.mk.injEq]
  constructor
  · rintro ⟨a, h1, h2, h3⟩
    exact ⟨h2.symm, h3 ▸ h1⟩
  · rintro ⟨h1, h2⟩
    exact ⟨c, h2, h1.symm, rfl⟩

theorem mem_upperRows (p : Nat × Nat) : p ∈ upperRows → p.1 ≠ ROWS - 1 := by
  obtain ⟨r, c⟩ := p
  simp only [upperRows, List.mem_flatMap, List.mem_reverse, List.mem_range, List.mem_map,
    Prod.mk.injEq]
  rintro ⟨a, h1, b, _, h3, _⟩
  show r ≠ ROWS - 1
  omega

theorem forCells_append (a b : List (Nat × Nat)) (body : State → Nat × Nat → State)
    (s : State) : forCells (a ++ b) body s = forCells b body (forCells a body s) := by
  simp only [forCells_eq, List.foldl_append]

/-- A loop whose body does nothing at any of its cells does nothing. -/
theorem forCells_skip (cells : List (Nat × Nat)) (body : State → Nat × Nat → State)
    (s : State) (h : ∀ p ∈ cells, body s p = s) : forCells cells body s = s := by
  rw [forCells_eq]
  induction cells with
  | nil => rfl
  | cons p l ih =>
    rw [List.foldl_cons, h p (List.mem_cons_self _ _)]
    exact ih (fun q hq => h q (List.mem_cons_of_mem _ hq))

theorem calm_cells {L : Int} (body : State → Nat × Nat → State) (cells : List (Nat × Nat))
    (hbody : ∀ s p, p ∈ cells → Calm L s → Calm L (body s p)) {s : State} (h : Calm L s) :
    Calm L (forCells cells body s) := by
  rw [forCells_eq]
  exact foldl_keeps (Calm L) body cells hbody s h

theorem calm_meteorCells {L : Int} {s : State} (h : Calm L s) (cells : List (Nat × Nat)) :
    Calm L (forCells cells meteorCell s) := by
  refine calm_cells meteorCell cells (fun t p _ ht => ?_) h
  unfold meteorCell
  split
  · exact calm_meteorStep ht _ _
  · exact ht

theorem calm_bossBulletCells {L : Int} {s : State} (h : Calm L s) (cells : List (Nat × Nat)) :
    Calm L (forCells cells bossBulletCell s) := by
  refine calm_cells bossBulletCell cells (fun t p _ ht => ?_) h
  unfold bossBulletCell
  split
  · exact calm_bossBulletStep ht _ _
  · exact ht

theorem calm_bossFireCells {L : Int} {s : State} (h : Calm L s) (cells : List (Nat × Nat)) :
    Calm L (forCells cells bossFireCell s) := by
  refine calm_cells bossFireCell cells (fun t p _ ht => ?_) h
  unfold bossFireCell
  split
  · exact calm_bossFireStep ht _ _
  · exact ht

/-- With the flag set and no Enemy in the bottom row, the Enemy loop keeps
lives. -/
theorem calm_enemyScan {L : Int} {s : State} (h : Calm L s)
    (hb : ∀ c, c < COLS → s.cell (ROWS - 1) c ≠ ENEMY) :
    Calm L (forCells scanBottomUp enemyCell s) := by
  rw [scanBottomUp_split, forCells_append,
    forCells_skip bottomRow enemyCell s (fun p hp =>
      if_neg (by rw [((mem_bottomRow p).1 hp).1]; exact hb p.2 ((mem_bottomRow p).1 hp).2))]
  refine calm_cells enemyCell upperRows (fun t p hp ht => ?_) h
  unfold enemyCell
  split
  · exact calm_enemyStep ht _ _ (mem_upperRows p hp)
  · exact ht

/-- With the flag set and no Boss in the bottom row, the Boss loop keeps lives. -/
theorem calm_bossScan {L : Int} {s : State} (h : Calm L s)
    (hb : ∀ c, c < COLS → s.cell (ROWS - 1) c ≠ BOSS) :
    Calm L (forCells scanBottomUp bossCell s) := by
  rw [scanBottomUp_split, forCells_append,
    forCells_skip bottomRow bossCell s (fun p hp =>
      if_neg (by rw [((mem_bottomRow p).1 hp).1]; exact hb p.2 ((mem_bottomRow p).1 hp).2))]
  refine calm_cells bossCell upperRows (fun t p hp ht => ?_) h
  unfold bossCell
  split
  · exact calm_bossStep ht _ _ (mem_upperRows p hp)
  · exact ht

theorem calm_bossFire {L : Int} {s : State} (h : Calm L s) : Calm L (bossFire s) := by
  have h1 : Calm L { s with bossMoveCounter := s.bossMoveCounter + 1 } := h
  unfold bossFire
  dsimp only
  split
  · exact calm_of_eq (calm_bossFireCells h1 scanTopDown) rfl rfl
  · exact calm_of_eq h rfl rfl

/-! ## The firing block and the spawners -/

/-- The Boss mover runs one tick when its clock is due. -/
theorem bossMove_eq (s : State) (speed : Int) :
    bossMove s speed = if (s.bossMoveClock : Int) ≥ speed then bossTick s else s := rfl

/-- The firing block on a firing tick. -/
theorem bossFire_fires (s : State) (h : BossFires s) :
    bossFire s =
      { forCells scanTopDown bossFireCell { s with bossMoveCounter := s.bossMoveCounter + 1 } with
        bossMoveCounter := 0, bossMoveClock := 0 } := by
  have h2 : s.bossMoveCounter + 1 ≥ firingInterval s.level := h
  unfold bossFire
  dsimp only
  rw [if_pos h2]

/-- The firing block on a tick that does not fire. -/
theorem bossFire_idle (s : State) (h : ¬ BossFires s) :
    bossFire s = { s with bossMoveCounter := s.bossMoveCounter + 1, bossMoveClock := 0 } := by
  have h2 : ¬ s.bossMoveCounter + 1 ≥ firingInterval s.level := h
  unfold bossFire
  dsimp only
  rw [if_neg h2]

/-- The firing loop leaves lives, score and level alone. -/
theorem fire_fields (cells : List (Nat × Nat)) (s : State) :
    (forCells cells bossFireCell s).lives = s.lives ∧
      (forCells cells bossFireCell s).score = s.score ∧
      (forCells cells bossFireCell s).level = s.level := by
  rw [forCells_eq]
  refine foldl_keeps (fun t => t.lives = s.lives ∧ t.score = s.score ∧ t.level = s.level)
    bossFireCell cells (fun t p _ ht => ?_) s ⟨rfl, rfl, rfl⟩
  unfold bossFireCell bossFireStep
  dsimp only
  split
  · split
    · split
      · exact ht
      · exact ht
    · exact ht
  · exact ht

theorem bossFire_level (s : State) : (bossFire s).level = s.level := by
  by_cases h : BossFires s
  · rw [bossFire_fires s h]
    exact (fire_fields scanTopDown { s with bossMoveCounter := s.bossMoveCounter + 1 }).2.2
  · rw [bossFire_idle s h]

theorem bossFire_counter (s : State) :
    (bossFire s).bossMoveCounter = if BossFires s then 0 else s.bossMoveCounter + 1 := by
  by_cases h : BossFires s
  · rw [bossFire_fires s h, if_pos h]
  · rw [bossFire_idle s h, if_neg h]

/-- The grid after the body of the firing loop at one cell. -/
theorem bossFireCell_get (s : State) (p : Nat × Nat) (x y : Nat) :
    (bossFireCell s p).cell x y =
      if s.cell p.1 p.2 = BOSS ∧ p.1 < ROWS - 1 ∧ s.cell (p.1 + 1) p.2 = EMPTY ∧
          x = p.1 + 1 ∧ y = p.2 then BOSS_BULLET else s.cell x y := by
  unfold bossFireCell bossFireStep
  dsimp only
  by_cases h1 : s.cell p.1 p.2 = BOSS
  · rw [if_pos h1]
    by_cases h2 : p.1 < ROWS - 1
    · rw [if_pos h2]
      have h3 : p.1 + 1 < ROWS := by
        have : p.1 < 23 - 1 := h2
        show p.1 + 1 < 23
        omega
      by_cases h4 : s.cell (p.1 + 1) p.2 = EMPTY
      · rw [if_pos ⟨h3, h4⟩, cell_setCell]
        by_cases h5 : x = p.1 + 1 ∧ y = p.2
        · rw [if_pos h5, if_pos ⟨h1, h2, h4, h5⟩]
          rfl
        · rw [if_neg h5, if_neg (fun h => h5 h.2.2.2)]
      · rw [if_neg (fun h => h4 h.2), if_neg (fun h => h4 h.2.2.1)]
    · rw [if_neg h2, if_neg (fun h => h2 h.2.1)]
  · rw [if_neg h1, if_neg (fun h => h1 h.1)]

/-- The grid after the firing loop over the cells of `l`: a cell becomes a Boss
Bullet when it was Empty and the cell right above it is a cell of `l` holding
a Boss. -/
theorem fireFold_get (l : List (Nat × Nat)) (s : State) (r c : Nat) :
    (l.foldl bossFireCell s).cell r c =
      if s.cell r c = EMPTY ∧ 0 < r ∧ r < ROWS ∧ s.cell (r - 1) c = BOSS ∧ (r - 1, c) ∈ l
      then BOSS_BULLET else s.cell r c := by
  induction l generalizing s with
  | nil => simp
  | cons p l ih =>
    obtain ⟨pr, pc⟩ := p
    rw [List.foldl_cons, ih, bossFireCell_get, bossFireCell_get]
    simp only [List.mem_cons, Prod.mk.injEq]
    by_cases hW : s.cell pr pc = BOSS ∧ pr < ROWS - 1 ∧ s.cell (pr + 1) pc = EMPTY ∧
        r = pr + 1 ∧ c = pc
    · obtain ⟨w1, w2, w3, w4, w5⟩ := hW
      subst w4 w5
      have w6 : pr + 1 < ROWS := by
        have : pr < 23 - 1 := w2
        show pr + 1 < 23
        omega
      have e : pr + 1 - 1 = pr := by omega
      simp only [e, w1, w2, w3, w6, true_and, and_true, and_self, if_true, true_or]
      simp
    · rw [if_neg hW]
      by_cases hV : s.cell pr pc = BOSS ∧ pr < ROWS - 1 ∧ s.cell (pr + 1) pc = EMPTY ∧
          r - 1 = pr + 1 ∧ c = pc
      · obtain ⟨v1, v2, v3, v4, v5⟩ := hV
        subst v5
        have e : s.cell (r - 1) c = EMPTY := by rw [v4]; exact v3
        have hV2 : s.cell pr c = BOSS ∧ pr < ROWS - 1 ∧ s.cell (pr + 1) c = EMPTY ∧
            r - 1 = pr + 1 ∧ c = c := ⟨v1, v2, v3, v4, rfl⟩
        rw [if_pos hV2]
        simp [e]
      · rw [if_neg hV]
        by_cases hc : s.cell r c = EMPTY ∧ 0 < r ∧ r < ROWS ∧ s.cell (r - 1) c = BOSS
        · obtain ⟨c1, c2, c3, c4⟩ := hc
          have hne : ¬(r - 1 = pr ∧ c = pc) := by
            rintro ⟨a, b⟩
            apply hW
            subst b
            have hr : r = pr + 1 := by omega
            subst hr
            have hp : pr < ROWS - 1 := by
              have : pr + 1 < 23 := c3
              show pr < 23 - 1
              omega
            simp only [Nat.add_sub_cancel] at c4
            exact ⟨c4, hp, c1, rfl, rfl⟩
          simp only [c1, c2, c3, c4, hne, true_and, false_or]
        · have h1 : ¬(s.cell r c = EMPTY ∧ 0 < r ∧ r < ROWS ∧ s.cell (r - 1) c = BOSS ∧
              (r - 1, c) ∈ l) := fun h => hc ⟨h.1, h.2.1, h.2.2.1, h.2.2.2.1⟩
          have h2 : ¬(s.cell r c = EMPTY ∧ 0 < r ∧ r < ROWS ∧ s.cell (r - 1) c = BOSS ∧
              ((r - 1 = pr ∧ c = pc) ∨ (r - 1, c) ∈ l)) :=
            fun h => hc ⟨h.1, h.2.1, h.2.2.1, h.2.2.2.1⟩
          rw [if_neg h1, if_neg h2]

/-- The grid after a firing tick. -/
theorem bossFire_cell (s : State) (h : BossFires s) (r c : Nat) :
    (bossFire s).cell r c =
      if s.cell r c = EMPTY ∧ 0 < r ∧ r < ROWS ∧ s.cell (r - 1) c = BOSS ∧ c < COLS
      then BOSS_BULLET else s.cell r c := by
  rw [bossFire_fires s h]
  show (forCells scanTopDown bossFireCell
    { s with bossMoveCounter := s.bossMoveCounter + 1 }).cell r c = _
  rw [forCells_eq, fireFold_get]
  simp only [mem_scanTopDown]
  show (if s.cell r c = EMPTY ∧ 0 < r ∧ r < ROWS ∧ s.cell (r - 1) c = BOSS ∧
      (r - 1 < ROWS ∧ c < COLS) then BOSS_BULLET else s.cell r c) = _
  by_cases hr : 0 < r ∧ r < ROWS
  · have : r - 1 < ROWS := by omega
    simp only [this, true_and]
  · have h1 : ¬(s.cell r c = EMPTY ∧ 0 < r ∧ r < ROWS ∧ s.cell (r - 1) c = BOSS ∧
        (r - 1 < ROWS ∧ c < COLS)) := fun h => hr ⟨h.2.1, h.2.2.1⟩
    have h2 : ¬(s.cell r c = EMPTY ∧ 0 < r ∧ r < ROWS ∧ s.cell (r - 1) c = BOSS ∧ c < COLS) :=
      fun h => hr ⟨h.2.1, h.2.2.1⟩
    rw [if_neg h1, if_neg h2]

/-- The counter after `n` ticks when firing happens every `k`-th tick. -/
theorem cadence (L : Int) (k N : Nat) (hk : k = 1 ∨ k = 2 ∨ k = 3)
    (hL : firingInterval L = (k : Int)) (t u : Nat → State)
    (h0 : (t 0).bossMoveCounter = 0)
    (hu : ∀ n, n < N → (u n).level = L ∧ (u n).bossMoveCounter = (t n).bossMoveCounter)
    (ht : ∀ n, n < N → t (n + 1) = bossFire (u n)) :
    ∀ n, n ≤ N → (t n).bossMoveCounter = ((n % k : Nat) : Int) := by
  intro n
  induction n with
  | zero =>
    intro _
    rw [h0]
    simp
  | succ n ih =>
    intro hn
    have h1 := ih (by omega)
    have h2 := hu n (by omega)
    rw [ht n (by omega), bossFire_counter]
    unfold BossFires
    simp only [h2.1, h2.2, hL, h1]
    rcases hk with rfl | rfl | rfl
    · split <;> omega
    · split <;> omega
    · split <;> omega

/-- Which ticks fire when firing happens every `k`-th tick. -/
theorem cadence_fires (L : Int) (k N : Nat) (hk : k = 1 ∨ k = 2 ∨ k = 3)
    (hL : firingInterval L = (k : Int)) (t u : Nat → State)
    (h0 : (t 0).bossMoveCounter = 0)
    (hu : ∀ n, n < N → (u n).level = L ∧ (u n).bossMoveCounter = (t n).bossMoveCounter)
    (ht : ∀ n, n < N → t (n + 1) = bossFire (u n)) (n : Nat) (hn : n < N) :
    (BossFires (u n) ↔ (n + 1) % k = 0) ∧
      (t (n + 1)).bossMoveCounter = (((n + 1) % k : Nat) : Int) := by
  have h1 := cadence L k N hk hL t u h0 hu ht n (by omega)
  have h2 := hu n hn
  refine ⟨?_, cadence L k N hk hL t u h0 hu ht (n + 1) (by omega)⟩
  unfold BossFires
  rw [h2.1, h2.2, hL, h1]
  rcases hk with rfl | rfl | rfl
  · omega
  · omega
  · omega

/-- The Boss step never lowers the level, and it leaves the firing counter
alone unless the level rises. -/
theorem bossStep_counter (s : State) (r c : Nat) :
    s.level ≤ (bossStep s r c).level ∧
      ((bossStep s r c).level = s.level →
        (bossStep s r c).bossMoveCounter = s.bossMoveCounter) := by
  have hl : ∀ t : State, (loseLife t).level = t.level ∧
      (loseLife t).bossMoveCounter = t.bossMoveCounter := by
    intro t
    unfold loseLife
    dsimp only
    split <;> exact ⟨rfl, rfl⟩
  have hc : ∀ t : State, t.level ≤ (checkLevelUp t).level ∧
      ((checkLevelUp t).level = t.level →
        (checkLevelUp t).bossMoveCounter = t.bossMoveCounter) := by
    intro t
    unfold checkLevelUp
    dsimp only
    split
    · refine ⟨by show t.level ≤ t.level + 1; omega, fun e => ?_⟩
      have : t.level + 1 = t.level := e
      omega
    · split <;> exact ⟨le_refl _, fun _ => rfl⟩
  have ht : ∀ (t : State) (row col : Nat), (triggerHitEffect t row col).level = t.level ∧
      (triggerHitEffect t row col).bossMoveCounter = t.bossMoveCounter := by
    intro t row col
    obtain ⟨a, b, c2, d, e⟩ := triggerHitEffect_eq t row col
    rw [e]
    exact ⟨rfl, rfl⟩
  unfold bossStep
  dsimp only
  split
  · rw [(hl _).1, (hl _).2]
    exact ⟨le_refl _, fun _ => rfl⟩
  · split
    · exact ⟨le_refl _, fun _ => rfl⟩
    · split
      · split
        · refine ⟨?_, fun _ => ?_⟩
          · show s.level ≤ (loseLife (s.setCell r c EMPTY)).level
            rw [(hl _).1]
            exact le_refl _
          · show (loseLife (s.setCell r c EMPTY)).bossMoveCounter = s.bossMoveCounter
            rw [(hl _).2]
            rfl
        · exact ⟨le_refl _, fun _ => rfl⟩
      · split
        · have h1 := hc (triggerHitEffect
            (State.setCell { s.setCell r c EMPTY with score := (s.setCell r c EMPTY).score + 3 }
              (r + 1) c EMPTY) (r + 1) c)
          rw [(ht _ _ _).1, (ht _ _ _).2] at h1
          exact h1
        · exact ⟨le_refl _, fun _ => rfl⟩

/-- The Boss loop never lowers the level, and it leaves the firing counter
alone unless the level rises. -/
theorem bossScan_counter (cells : List (Nat × Nat)) (s : State) :
    s.level ≤ (forCells cells bossCell s).level ∧
      ((forCells cells bossCell s).level = s.level →
        (forCells cells bossCell s).bossMoveCounter = s.bossMoveCounter) := by
  rw [forCells_eq]
  refine foldl_keeps (fun t => s.level ≤ t.level ∧
    (t.level = s.level → t.bossMoveCounter = s.bossMoveCounter)) bossCell cells
    (fun t p _ h => ?_) s ⟨le_refl _, fun _ => rfl⟩
  unfold bossCell
  split
  · have h2 := bossStep_counter t p.1 p.2
    refine ⟨le_trans h.1 h2.1, fun e => ?_⟩
    have e1 : t.level = s.level := le_antisymm (by rw [← e]; exact h2.1) h.1
    rw [h2.2 (by rw [e, e1]), h.2 e1]
  · exact h

/-- The level after a tick of the Boss mover is the level after its Boss loop. -/
theorem bossTicks_level (s : State) (n : Nat) :
    (forCells scanBottomUp bossCell (bossTicks s n)).level = (bossTicks s (n + 1)).level := by
  show _ = (bossFire (forCells scanBottomUp bossCell (bossTicks s n))).level
  rw [bossFire_level]

/-- A state whose grid is that of the guarded write `grid[0][c] = X`. -/
theorem spawned_put (s t : State) (X c : Nat) (hc : c < COLS) (hX : X < 8)
    (hg : t.grid = (if s.cell 0 c = EMPTY then s.setCell 0 c X else s).grid)
    (e1 : t.lives = s.lives) (e2 : t.score = s.score) (e3 : t.level = s.level)
    (e4 : t.currentState = s.currentState) : Spawned s t X c := by
  refine ⟨hc, fun he => ?_, fun he => ?_, e1, e2, e3, e4⟩
  · rw [if_pos he] at hg
    refine ⟨?_, fun r3 c3 h3 => ?_⟩
    · rw [State.cell, hg]
      have := cell_setCell s 0 c X 0 c
      rw [if_pos ⟨rfl, rfl⟩, Nat.mod_eq_of_lt hX] at this
      exact this
    · rw [State.cell, hg]
      have := cell_setCell s 0 c X r3 c3
      rw [if_neg h3] at this
      exact this
  · rw [if_neg he] at hg
    exact hg

/-! ## The menu-class blocks on a selection -/

/-- The state in which the update block of a frame starts. -/
theorem frame_entry (s : State) (inp : Input) :
    ∃ s2, (s2 = s.advanceClocks inp.dt ∨
        s2 = { s.advanceClocks inp.dt with windowOpen := false }) ∧
      frame s inp = updateBlock s2 inp := by
  rw [frame_eq]
  by_cases hc : inp.closed = true
  · rw [if_pos hc]
    exact ⟨_, Or.inr rfl, rfl⟩
  · rw [if_neg hc]
    exact ⟨_, Or.inl rfl, rfl⟩

/-- The Menu block when its Enter branch runs. -/
theorem menuFrame_enter (s : State) (inp : Input) (hc : menuCooldown ≤ s.menuClock)
    (he : inp.keyEnter = true) (hu : (inp.keyUp || inp.keyW) = false)
    (hd : (inp.keyDown || inp.keyS) = false) :
    menuFrame s inp =
      { (if s.selectedMenuItem = 0 then startGame s
          else if s.selectedMenuItem = 2 then { s with currentState := STATE_INSTRUCTIONS }
          else if s.selectedMenuItem = 3 then { s with windowOpen := false }
          else s) with menuClock := 0 } := by
  have hc2 : s.menuClock ≥ menuCooldown := hc
  unfold menuFrame
  simp only [hc2, hu, hd, he, if_true, Bool.false_eq_true, if_false]

/-- The Game Over block when its Enter branch runs. -/
theorem gameOverFrame_enter (s : State) (inp : Input) (hc : menuCooldown ≤ s.menuClock)
    (he : inp.keyEnter = true) (hu : (inp.keyUp || inp.keyW) = false)
    (hd : (inp.keyDown || inp.keyS) = false) :
    gameOverFrame s inp =
      { (if s.selectedMenuItem = 0 then startGame s
          else if s.selectedMenuItem = 1 then
            { s with currentState := STATE_MENU, selectedMenuItem := 0 }
          else s) with menuClock := 0 } := by
  have hc2 : s.menuClock ≥ menuCooldown := hc
  unfold gameOverFrame
  simp only [hc2, hu, hd, he, if_true, Bool.false_eq_true, if_false]

/-- The Victory block when its Enter branch runs. -/
theorem victoryFrame_enter (s : State) (inp : Input) (hc : menuCooldown ≤ s.menuClock)
    (he : inp.keyEnter = true) (hu : (inp.keyUp || inp.keyW) = false)
    (hd : (inp.keyDown || inp.keyS) = false) :
    victoryFrame s inp =
      { (if s.selectedMenuItem = 0 then startGame { s with isInvincible := false }
          else if s.selectedMenuItem = 1 then
            { s with currentState := STATE_MENU, selectedMenuItem := 0 }
          else s) with menuClock := 0 } := by
  have hc2 : s.menuClock ≥ menuCooldown := hc
  unfold victoryFrame
  simp only [hc2, hu, hd, he, if_true, Bool.false_eq_true, if_false]

/-- The Paused block when its Enter branch runs. -/
theorem pausedFrame_enter (s : State) (inp : Input) (hc : menuCooldown ≤ s.menuClock)
    (he : inp.keyEnter = true) (hu : (inp.keyUp || inp.keyW) = false)
    (hd : (inp.keyDown || inp.keyS) = false) :
    pausedFrame s inp =
      { (if s.selectedMenuItem = 0 then { s with currentState := STATE_PLAYING }
          else if s.selectedMenuItem = 1 then restartLevel s
          else if s.selectedMenuItem = 2 then
            { s with currentState := STATE_MENU, selectedMenuItem := 0 }
          else s) with menuClock := 0 } := by
  have hc2 : s.menuClock ≥ menuCooldown := hc
  unfold pausedFrame
  simp only [hc2, hu, hd, he, if_true, Bool.false_eq_true, if_false]

theorem fresh_of_grid {t : State} (e1 : t.currentState = STATE_PLAYING) (e2 : t.lives = 3)
    (e3 : t.score = 0) (e4 : t.level = 1)
    (e5 : t.grid = (Grid.cleared).set (ROWS - 1) (COLS / 2) SPACESHIP)
    (e6 : t.spaceshipCol = COLS / 2) : FreshGame t := by
  refine ⟨e1, e2, e3, e4, fun r _ c _ => ?_, e6⟩
  rw [State.cell, e5]
  exact cleanStart_get r c

theorem updateBlock_menu (s : State) (inp : Input) (h : s.currentState = STATE_MENU) :
    updateBlock s inp = menuFrame s inp := by
  unfold updateBlock
  rw [h]
  rfl

theorem updateBlock_gameOver (s : State) (inp : Input) (h : s.currentState = STATE_GAME_OVER) :
    updateBlock s inp = gameOverFrame s inp := by
  unfold updateBlock
  rw [h]
  rfl

theorem updateBlock_victory (s : State) (inp : Input) (h : s.currentState = STATE_VICTORY) :
    updateBlock s inp = victoryFrame s inp := by
  unfold updateBlock
  rw [h]
  rfl

theorem updateBlock_paused (s : State) (inp : Input) (h : s.currentState = STATE_PAUSED) :
    updateBlock s inp = pausedFrame s inp := by
  unfold updateBlock
  rw [h]
  rfl

/-- Enter on cursor 0 in Menu, Game Over or Victory starts a fresh game. -/
theorem start_updateBlock (s : State) (inp : Input) (hc : menuCooldown ≤ s.menuClock)
    (he : inp.keyEnter = true) (hu : (inp.keyUp || inp.keyW) = false)
    (hd : (inp.keyDown || inp.keyS) = false) (h0 : s.selectedMenuItem = 0)
    (hst : s.currentState = STATE_MENU ∨ s.currentState = STATE_GAME_OVER ∨
      s.currentState = STATE_VICTORY) : FreshGame (updateBlock s inp) := by
  rcases hst with h | h | h
  · rw [updateBlock_menu s inp h, menuFrame_enter s inp hc he hu hd, if_pos h0]
    exact fresh_of_grid rfl rfl rfl rfl rfl rfl
  · rw [updateBlock_gameOver s inp h, gameOverFrame_enter s inp hc he hu hd, if_pos h0]
    exact fresh_of_grid rfl rfl rfl rfl rfl rfl
  · rw [updateBlock_victory s inp h, victoryFrame_enter s inp hc he hu hd, if_pos h0]
    exact fresh_of_grid rfl rfl rfl rfl rfl rfl

/-- The Paused block when its P branch runs. -/
theorem pausedFrame_p (s : State) (inp : Input) (hc : menuCooldown ≤ s.menuClock)
    (he : inp.keyEnter = false) (hp : inp.keyP = true) (hu : (inp.keyUp || inp.keyW) = false)
    (hd : (inp.keyDown || inp.keyS) = false) :
    pausedFrame s inp = { s with currentState := STATE_PLAYING, menuClock := 0 } := by
  have hc2 : s.menuClock ≥ menuCooldown := hc
  unfold pausedFrame
  simp only [hc2, hu, hd, he, hp, if_true, Bool.false_eq_true, if_false]

/-- Resuming from Paused keeps the board. -/
theorem resume_updateBlock (s : State) (inp : Input) (hst : s.currentState = STATE_PAUSED)
    (hc : menuCooldown ≤ s.menuClock) (hu : (inp.keyUp || inp.keyW) = false)
    (hd : (inp.keyDown || inp.keyS) = false)
    (hk : (inp.keyEnter = true ∧ s.selectedMenuItem = 0) ∨
      (inp.keyEnter = false ∧ inp.keyP = true)) :
    (updateBlock s inp).currentState = STATE_PLAYING ∧ SameBoard s (updateBlock s inp) := by
  rw [updateBlock_paused s inp hst]
  rcases hk with ⟨he, h0⟩ | ⟨he, hp⟩
  · rw [pausedFrame_enter s inp hc he hu hd, if_pos h0]
    exact ⟨rfl, rfl, rfl, rfl, rfl, rfl⟩
  · rw [pausedFrame_p s inp hc he hp hu hd]
    exact ⟨rfl, rfl, rfl, rfl, rfl, rfl⟩

/-- A Paused block that ends Paused keeps the board. -/
theorem idle_pausedFrame (s : State) (inp : Input)
    (hp : (pausedFrame s inp).currentState = STATE_PAUSED) :
    SameBoard s (pausedFrame s inp) := by
  unfold pausedFrame restartLevel restartGameClocks at hp ⊢
  dsimp only at hp ⊢
  repeat' split
  all_goals first
    | (exfalso; simp_all; done)
    | exact ⟨rfl, rfl, rfl, rfl, rfl⟩

theorem idle_updateBlock (s : State) (inp : Input) (hst : s.currentState = STATE_PAUSED)
    (hp : (updateBlock s inp).currentState = STATE_PAUSED) :
    SameBoard s (updateBlock s inp) := by
  rw [updateBlock_paused s inp hst] at hp ⊢
  exact idle_pausedFrame s inp hp

/-- Enter on cursor 1 in Paused restarts the level. -/
theorem restart_updateBlock (s : State) (inp : Input) (hst : s.currentState = STATE_PAUSED)
    (hc : menuCooldown ≤ s.menuClock) (he : inp.keyEnter = true)
    (hu : (inp.keyUp || inp.keyW) = false) (hd : (inp.keyDown || inp.keyS) = false)
    (h1 : s.selectedMenuItem = 1) :
    (updateBlock s inp).currentState = STATE_PLAYING ∧ (updateBlock s inp).score = 0 ∧
      CleanGrid (updateBlock s inp) ∧ (updateBlock s inp).spaceshipCol = COLS / 2 ∧
      (updateBlock s inp).level = s.level ∧ (updateBlock s inp).lives = s.lives := by
  have h0 : ¬ s.selectedMenuItem = 0 := by rw [h1]; decide
  rw [updateBlock_paused s inp hst, pausedFrame_enter s inp hc he hu hd, if_neg h0, if_pos h1]
  refine ⟨rfl, rfl, fun r _ c _ => ?_, rfl, rfl, rfl⟩
  exact cleanStart_get r c

/-- Enter on cursor 1 in the Menu changes nothing but the menu clock. -/
theorem load_menuFrame (s : State) (inp : Input) (h1 : s.selectedMenuItem = 1)
    (he : inp.keyEnter = true) (hu : (inp.keyUp || inp.keyW) = false)
    (hd : (inp.keyDown || inp.keyS) = false) :
    (menuFrame s inp).currentState = s.currentState ∧ (menuFrame s inp).selectedMenuItem = 1 ∧
      SameBoard s (menuFrame s inp) := by
  by_cases hc : menuCooldown ≤ s.menuClock
  · have n0 : ¬ s.selectedMenuItem = 0 := by rw [h1]; decide
    have n2 : ¬ s.selectedMenuItem = 2 := by rw [h1]; decide
    have n3 : ¬ s.selectedMenuItem = 3 := by rw [h1]; decide
    rw [menuFrame_enter s inp hc he hu hd, if_neg n0, if_neg n2, if_neg n3]
    exact ⟨rfl, h1, rfl, rfl, rfl, rfl, rfl⟩
  · have hc2 : ¬ s.menuClock ≥ menuCooldown := hc
    unfold menuFrame
    rw [if_neg hc2]
    exact ⟨rfl, h1, rfl, rfl, rfl, rfl, rfl⟩

/-! ## Properties kept by the Playing block -/

theorem kept_setCell {P : State → Prop} (hP : Kept P) {s : State} (h : P s) (r c v : Nat) :
    P (s.setCell r c v) :=
  hP.same s _ h rfl rfl rfl rfl rfl rfl rfl rfl rfl rfl

theorem kept_hit {P : State → Prop} (hP : Kept P) {s : State} (h : P s) :
    P (if s.isInvincible = false then loseLife s else s) := by
  split
  · exact hP.lose s h
  · exact h

theorem kept_scored {P : State → Prop} (hP : Kept P) {s : State} (h : P s) (k : Int) (hk : 0 < k)
    (r c row col : Nat) :
    P (checkLevelUp (triggerHitEffect
      (State.setCell { s with score := s.score + k } r c EMPTY) row col)) :=
  hP.check _ (hP.trigger _ _ _ (kept_setCell hP (hP.gain s k hk h) _ _ _))

theorem kept_meteorStep {P : State → Prop} (hP : Kept P) {s : State} (h : P s) (r c : Nat) :
    P (meteorStep s r c) := by
  have h0 := kept_setCell hP h r c EMPTY
  unfold meteorStep
  dsimp only
  split
  · exact h0
  · split
    · exact kept_setCell hP h0 _ _ _
    · split
      · exact kept_setCell hP (kept_hit hP h0) _ _ _
      · split
        · exact hP.trigger _ _ _ (kept_setCell hP h0 _ _ _)
        · exact h0

theorem kept_enemyStep {P : State → Prop} (hP : Kept P) {s : State} (h : P s) (r c : Nat) :
    P (enemyStep s r c) := by
  have h0 := kept_setCell hP h r c EMPTY
  unfold enemyStep
  dsimp only
  split
  · exact hP.lose _ h0
  · split
    · exact kept_setCell hP h0 _ _ _
    · split
      · exact kept_setCell hP (kept_hit hP h0) _ _ _
      · split
        · exact kept_scored hP h0 1 (by decide) _ _ _ _
        · exact h0

theorem kept_bossStep {P : State → Prop} (hP : Kept P) {s : State} (h : P s) (r c : Nat) :
    P (bossStep s r c) := by
  have h0 := kept_setCell hP h r c EMPTY
  unfold bossStep
  dsimp only
  split
  · exact hP.lose _ h0
  · split
    · exact kept_setCell hP h0 _ _ _
    · split
      · exact kept_setCell hP (kept_hit hP h0) _ _ _
      · split
        · exact kept_scored hP h0 3 (by decide) _ _ _ _
        · exact h0

theorem kept_bossBulletStep {P : State → Prop} (hP : Kept P) {s : State} (h : P s) (r c : Nat) :
    P (bossBulletStep s r c) := by
  have h0 := kept_setCell hP h r c EMPTY
  unfold bossBulletStep
  dsimp only
  split
  · exact h0
  · split
    · exact hP.trigger _ _ _ (kept_hit hP h0)
    · split
      · exact kept_setCell hP h0 _ _ _
      · split
        · exact kept_setCell hP h0 _ _ _
        · exact h0

theorem kept_bulletStep {P : State → Prop} (hP : Kept P) {s : State} (h : P s) (r c : Nat) :
    P (bulletStep s r c) := by
  have h0 := kept_setCell hP h r c EMPTY
  unfold bulletStep
  dsimp only
  split
  · exact h0
  · split
    · exact kept_setCell hP h0 _ _ _
    · split
      · exact hP.trigger _ _ _ (kept_setCell hP h0 _ _ _)
      · split
        · exact hP.trigger _ _ _ (kept_setCell hP h0 _ _ _)
        · split
          · exact kept_scored hP h0 1 (by decide) _ _ _ _
          · split
            · exact kept_scored hP h0 3 (by decide) _ _ _ _
            · exact h0

theorem kept_bossFireStep {P : State → Prop} (hP : Kept P) {s : State} (h : P s) (r c : Nat) :
    P (bossFireStep s r c) := by
  unfold bossFireStep
  dsimp only
  split
  · split
    · exact kept_setCell hP h _ _ _
    · exact h
  · exact h

/-- A kept property survives a loop whose body keeps it. -/
theorem kept_cells {P : State → Prop} (body : State → Nat × Nat → State) (cells : List (Nat × Nat))
    (hbody : ∀ s p, P s → P (body s p)) {s : State} (h : P s) :
    P (forCells cells body s) := by
  rw [forCells_eq]
  exact foldl_keeps P body cells (fun a b _ ha => hbody a b ha) s h

theorem kept_meteorCells {P : State → Prop} (hP : Kept P) {s : State} (h : P s) (cells : List (Nat × Nat)) :
    P (forCells cells meteorCell s) := by
  refine kept_cells meteorCell cells (fun t p ht => ?_) h
  unfold meteorCell
  split
  · exact kept_meteorStep hP ht _ _
  · exact ht

theorem kept_enemyCells {P : State → Prop} (hP : Kept P) {s : State} (h : P s) (cells : List (Nat × Nat)) :
    P (forCells cells enemyCell s) := by
  refine kept_cells enemyCell cells (fun t p ht => ?_) h
  unfold enemyCell
  split
  · exact kept_enemyStep hP ht _ _
  · exact ht

theorem kept_bossCells {P : State → Prop} (hP : Kept P) {s : State} (h : P s) (cells : List (Nat × Nat)) :
    P (forCells cells bossCell s) := by
  refine kept_cells bossCell cells (fun t p ht => ?_) h
  unfold bossCell
  split
  · exact kept_bossStep hP ht _ _
  · exact ht

theorem kept_bossBulletCells {P : State → Prop} (hP : Kept P) {s : State} (h : P s) (cells : List (Nat × Nat)) :
    P (forCells cells bossBulletCell s) := by
  refine kept_cells bossBulletCell cells (fun t p ht => ?_) h
  unfold bossBulletCell
  split
  · exact kept_bossBulletStep hP ht _ _
  · exact ht

theorem kept_bulletCells {P : State → Prop} (hP : Kept P) {s : State} (h : P s) (cells : List (Nat × Nat)) :
    P (forCells cells bulletCell s) := by
  refine kept_cells bulletCell cells (fun t p ht => ?_) h
  unfold bulletCell
  split
  · exact kept_bulletStep hP ht _ _
  · exact ht

theorem kept_bossFireCells {P : State → Prop} (hP : Kept P) {s : State} (h : P s) (cells : List (Nat × Nat)) :
    P (forCells cells bossFireCell s) := by
  refine kept_cells bossFireCell cells (fun t p ht => ?_) h
  unfold bossFireCell
  split
  · exact kept_bossFireStep hP ht _ _
  · exact ht

theorem kept_meteorMove {P : State → Prop} (hP : Kept P) {s : State} (h : P s) : P (meteorMove s) := by
  unfold meteorMove
  split
  · exact hP.same _ _ (kept_meteorCells hP h scanBottomUp) rfl rfl rfl rfl rfl rfl rfl rfl rfl rfl
  · exact h

theorem kept_enemyMove {P : State → Prop} (hP : Kept P) {s : State} (h : P s) : P (enemyMove s) := by
  unfold enemyMove
  split
  · exact hP.same _ _ (kept_enemyCells hP h scanBottomUp) rfl rfl rfl rfl rfl rfl rfl rfl rfl rfl
  · exact h

theorem kept_bossFire {P : State → Prop} (hP : Kept P) {s : State} (h : P s) : P (bossFire s) := by
  have h1 : P { s with bossMoveCounter := s.bossMoveCounter + 1 } :=
    hP.same _ _ h rfl rfl rfl rfl rfl rfl rfl rfl rfl rfl
  unfold bossFire
  dsimp only
  split
  · exact hP.same _ _ (kept_bossFireCells hP h1 scanTopDown) rfl rfl rfl rfl rfl rfl rfl rfl rfl rfl
  · exact hP.same _ _ h rfl rfl rfl rfl rfl rfl rfl rfl rfl rfl

theorem kept_bossMove {P : State → Prop} (hP : Kept P) {s : State} (h : P s) (speed : Int) :
    P (bossMove s speed) := by
  unfold bossMove
  split
  · exact kept_bossFire hP (kept_bossCells hP h scanBottomUp)
  · exact h

theorem kept_bossBulletMove {P : State → Prop} (hP : Kept P) {s : State} (h : P s) (speed : Int) :
    P (bossBulletMove s speed) := by
  unfold bossBulletMove
  split
  · exact hP.same _ _ (kept_bossBulletCells hP h scanBottomUp) rfl rfl rfl rfl rfl rfl rfl rfl
      rfl rfl
  · exact h

theorem kept_bulletMove {P : State → Prop} (hP : Kept P) {s : State} (h : P s) : P (bulletMove s) := by
  unfold bulletMove
  split
  · exact hP.same _ _ (kept_bulletCells hP h scanTopDown) rfl rfl rfl rfl rfl rfl rfl rfl rfl rfl
  · exact h

theorem kept_afterBulletMove {P : State → Prop} (hP : Kept P) {s : State} (h : P s) : P (afterBulletMove s) := by
  have h1 := hP.update s h
  unfold afterBulletMove updateInvincibility
  split
  · exact hP.same _ _ h1 rfl rfl rfl rfl rfl rfl rfl rfl rfl rfl
  · exact h1

theorem kept_afterEnemyMove {P : State → Prop} (hP : Kept P) {s : State} (h : P s) : P (afterEnemyMove s) :=
  kept_afterBulletMove hP (kept_bulletMove hP (kept_bossBulletMove hP (kept_bossMove hP h _) _))

theorem kept_playerMove {P : State → Prop} (hP : Kept P) {s : State} (h : P s) (inp : Input) :
    P (playerMove s inp) := by
  unfold playerMove
  dsimp only
  split
  · split
    · exact hP.same _ _ (hP.move s (s.spaceshipCol - 1) (Or.inr (Nat.sub_le _ _)) h)
        rfl rfl rfl rfl rfl rfl rfl rfl rfl rfl
    · split
      · rename_i hr
        have hr2 : s.spaceshipCol < COLS - 1 := hr.2
        exact hP.same _ _ (hP.move s (s.spaceshipCol + 1)
          (Or.inl (by have hC : COLS = 15 := rfl; omega)) h)
          rfl rfl rfl rfl rfl rfl rfl rfl rfl rfl
      · exact h
  · exact h

theorem kept_playerFire {P : State → Prop} (hP : Kept P) {s : State} (h : P s) (inp : Input) :
    P (playerFire s inp) := by
  unfold playerFire
  dsimp only
  split
  · split
    · exact hP.same _ _ h rfl rfl rfl rfl rfl rfl rfl rfl rfl rfl
    · exact hP.same _ _ h rfl rfl rfl rfl rfl rfl rfl rfl rfl rfl
  · exact h

theorem kept_meteorSpawn {P : State → Prop} (hP : Kept P) {s : State} (h : P s) (inp : Input) :
    P (meteorSpawn s inp) := by
  unfold meteorSpawn
  dsimp only
  split
  · split
    · exact hP.same _ _ h rfl rfl rfl rfl rfl rfl rfl rfl rfl rfl
    · exact hP.same _ _ h rfl rfl rfl rfl rfl rfl rfl rfl rfl rfl
  · exact h

theorem kept_enemySpawn {P : State → Prop} (hP : Kept P) {s : State} (h : P s) (inp : Input) :
    P (enemySpawn s inp) := by
  unfold enemySpawn
  dsimp only
  split
  · split
    · exact hP.same _ _ h rfl rfl rfl rfl rfl rfl rfl rfl rfl rfl
    · exact hP.same _ _ h rfl rfl rfl rfl rfl rfl rfl rfl rfl rfl
  · exact h

theorem kept_bossSpawn {P : State → Prop} (hP : Kept P) {s : State} (h : P s) (inp : Input) :
    P (bossSpawn s inp) := by
  unfold bossSpawn
  dsimp only
  split
  · split
    · exact hP.same _ _ h rfl rfl rfl rfl rfl rfl rfl rfl rfl rfl
    · exact hP.same _ _ h rfl rfl rfl rfl rfl rfl rfl rfl rfl rfl
  · exact h

/-- What the Playing block runs after the pause input keeps every kept property. -/
theorem kept_playingFrame {P : State → Prop} (hP : Kept P) (s : State) (inp : Input)
    (h : P (pauseInput s inp)) : P (playingFrame s inp) := by
  unfold playingFrame
  exact kept_afterEnemyMove hP (kept_enemyMove hP (kept_meteorMove hP (kept_bossSpawn hP
    (kept_enemySpawn hP (kept_meteorSpawn hP (kept_playerFire hP (kept_playerMove hP h inp)
      inp) inp) inp) inp)))

/-! ## The hit-effect pool -/

/-- The activation loop resumed at `i0` activates the first inactive slot `i`. -/
theorem triggerHitEffectFrom_first (s : State) (row col n i0 i : Nat) (h1 : i0 ≤ i)
    (h2 : i < i0 + n) (h3 : s.hitEffectActive i = false)
    (h4 : ∀ j, i0 ≤ j → j < i → s.hitEffectActive j = true) :
    triggerHitEffectFrom s row col n i0 = activateSlot s i row col := by
  induction n generalizing i0 with
  | zero => omega
  | succ n ih =>
    unfold triggerHitEffectFrom
    by_cases hi : i0 = i
    · subst hi
      rw [if_pos h3]
      rfl
    · have h5 : s.hitEffectActive i0 = true := h4 i0 (le_refl _) (by omega)
      rw [if_neg (by rw [h5]; decide)]
      exact ih (i0 + 1) (by omega) (by omega) (fun j hj1 hj2 => h4 j (by omega) hj2)

/-- The activation loop over active slots only changes nothing. -/
theorem triggerHitEffectFrom_full (s : State) (row col n i0 : Nat)
    (h : ∀ j, i0 ≤ j → j < i0 + n → s.hitEffectActive j = true) :
    triggerHitEffectFrom s row col n i0 = s := by
  induction n generalizing i0 with
  | zero => rfl
  | succ n ih =>
    unfold triggerHitEffectFrom
    have h5 : s.hitEffectActive i0 = true := h i0 (le_refl _) (by omega)
    rw [if_neg (by rw [h5]; decide)]
    exact ih (i0 + 1) (fun j hj1 hj2 => h j (by omega) (by omega))

theorem effects_of_eq {s t : State} (h : EffectsOK s)
    (e1 : t.hitEffectActive = s.hitEffectActive) (e2 : t.hitEffectTimer = s.hitEffectTimer) :
    EffectsOK t := by
  unfold EffectsOK at *
  rw [e1, e2]
  exact h

/-- The activation loop changes nothing or activates one slot. -/
theorem trigger_cases (s : State) (row col : Nat) :
    triggerHitEffect s row col = s ∨
      ∃ i, i < MAX_HIT_EFFECTS ∧ triggerHitEffect s row col = activateSlot s i row col := by
  by_cases h : ∀ i, i < MAX_HIT_EFFECTS → s.hitEffectActive i = true
  · exact Or.inl (triggerHitEffectFrom_full s row col MAX_HIT_EFFECTS 0
      (fun j _ hj => h j (by omega)))
  · right
    have h2 : ∃ i, i < MAX_HIT_EFFECTS ∧ s.hitEffectActive i = false := by
      by_contra hc
      apply h
      intro i hi
      by_contra hb
      exact hc ⟨i, hi, by simpa using hb⟩
    obtain ⟨j, _, j2, _, j4⟩ :=
      triggerHitEffectFrom_free s row col MAX_HIT_EFFECTS 0
        (by obtain ⟨i, hi, hf⟩ := h2; exact ⟨i, Nat.zero_le _, by omega, hf⟩)
    exact ⟨j, by omega, j4⟩

theorem effects_trigger {s : State} (h : EffectsOK s) (row col : Nat) :
    EffectsOK (triggerHitEffect s row col) := by
  rcases trigger_cases s row col with e | ⟨j, _, e⟩
  · rw [e]
    exact h
  · rw [e]
    intro i hi
    have hi2 := h i hi
    by_cases hij : i = j
    · subst hij
      simp [activateSlot, setAt, HIT_EFFECT_DURATION]
    · simp only [activateSlot, setAt, if_neg hij]
      exact hi2

theorem effects_update {s : State} (h : EffectsOK s) : EffectsOK (updateHitEffects s) := by
  intro i hi
  unfold updateHitEffects
  dsimp only
  by_cases ha : s.hitEffectActive i = true
  · by_cases hd : s.hitEffectTimer i + s.hitEffectClock ≥ HIT_EFFECT_DURATION
    · rw [if_pos ⟨hi, ha, hd⟩, if_pos ⟨hi, ha⟩]
      exact ⟨fun e => absurd e (by decide), fun _ => Or.inr hd⟩
    · rw [if_neg (fun h => hd h.2.2), if_pos ⟨hi, ha⟩]
      refine ⟨fun _ => by omega, fun e => ?_⟩
      rw [ha] at e
      exact absurd e (by decide)
  · rw [if_neg (fun h => ha h.2.1), if_neg (fun h => ha h.2)]
    exact h i hi

theorem kept_effects : Kept EffectsOK where
  same := fun _ _ h _ _ _ _ _ e6 _ _ e9 _ => effects_of_eq h e6 e9
  move := fun _ _ _ h => effects_of_eq h rfl rfl
  lose := fun s h => by
    unfold loseLife
    dsimp only
    split
    · exact effects_of_eq h rfl rfl
    · exact effects_of_eq h rfl rfl
  gain := fun _ _ _ h => effects_of_eq h rfl rfl
  check := fun s h => by
    unfold checkLevelUp
    dsimp only
    split
    · exact effects_of_eq h rfl rfl
    · split
      · exact effects_of_eq h rfl rfl
      · exact h
  trigger := fun _ row col h => effects_trigger h row col
  update := fun _ h => effects_update h

theorem pool_menuFrame (s : State) (inp : Input) : SamePool s (menuFrame s inp) := by
  unfold menuFrame
  dsimp only
  repeat' split
  all_goals exact ⟨rfl, rfl, rfl, rfl⟩

theorem pool_gameOverFrame (s : State) (inp : Input) : SamePool s (gameOverFrame s inp) := by
  unfold gameOverFrame
  dsimp only
  repeat' split
  all_goals exact ⟨rfl, rfl, rfl, rfl⟩

theorem pool_instructionsFrame (s : State) (inp : Input) :
    SamePool s (instructionsFrame s inp) := by
  unfold instructionsFrame
  repeat' split
  all_goals exact ⟨rfl, rfl, rfl, rfl⟩

theorem pool_levelUpFrame (s : State) : SamePool s (levelUpFrame s) := by
  unfold levelUpFrame
  dsimp only
  repeat' split
  all_goals exact ⟨rfl, rfl, rfl, rfl⟩

theorem pool_victoryFrame (s : State) (inp : Input) : SamePool s (victoryFrame s inp) := by
  unfold victoryFrame
  dsimp only
  repeat' split
  all_goals exact ⟨rfl, rfl, rfl, rfl⟩

theorem pool_pausedFrame (s : State) (inp : Input) : SamePool s (pausedFrame s inp) := by
  unfold pausedFrame
  dsimp only
  repeat' split
  all_goals exact ⟨rfl, rfl, rfl, rfl⟩

theorem pool_updateBlock (s : State) (inp : Input) (hp : s.currentState ≠ STATE_PLAYING) :
    SamePool s (updateBlock s inp) := by
  unfold updateBlock
  split
  · exact pool_menuFrame s inp
  · split
    · exact pool_gameOverFrame s inp
    · split
      · exact pool_instructionsFrame s inp
      · split
        · exact pool_levelUpFrame s
        · split
          · exact pool_victoryFrame s inp
          · split
            · exact pool_pausedFrame s inp
            · exact ⟨rfl, rfl, rfl, rfl⟩

theorem effects_pauseInput {s : State} (h : EffectsOK s) (inp : Input) :
    EffectsOK (pauseInput s inp) := by
  unfold pauseInput
  split
  · split
    · exact effects_of_eq h rfl rfl
    · exact h
  · exact h

theorem effects_updateBlock {s : State} (h : EffectsOK s) (inp : Input) :
    EffectsOK (updateBlock s inp) := by
  by_cases hp : s.currentState = STATE_PLAYING
  · rw [updateBlock_playing s inp hp]
    exact kept_playingFrame kept_effects s inp (effects_pauseInput h inp)
  · have e := pool_updateBlock s inp hp
    exact effects_of_eq h e.1 e.2.1

theorem effects_frame {s : State} (h : EffectsOK s) (inp : Input) :
    EffectsOK (frame s inp) := by
  rw [frame_eq]
  apply effects_updateBlock
  split
  · exact effects_of_eq h rfl rfl
  · exact effects_of_eq h rfl rfl

/-- Timers and flags of the pool agree in every reachable state. -/
theorem reachable_effects {s : State} (h : Reachable s) : EffectsOK s := by
  induction h with
  | init r1 r2 r3 =>
    intro i _
    exact ⟨fun e => absurd (show false = true from e) (by decide), fun _ => Or.inl rfl⟩
  | step s inp _ _ ih => exact effects_frame ih inp

/-! ## The pause input and the rest of the frame -/

theorem pausedOr_of_eq {L Lv S : Int} {s t : State} (h : PausedOr L Lv S s)
    (e1 : t.currentState = s.currentState) (e2 : t.selectedMenuItem = s.selectedMenuItem)
    (e3 : t.lives = s.lives) (e4 : t.score = s.score) (e5 : t.level = s.level) :
    PausedOr L Lv S t := by
  unfold PausedOr at *
  rw [e1, e2, e3, e4, e5]
  exact h

theorem kept_pausedOr (L Lv S : Int) : Kept (PausedOr L Lv S) where
  same := fun _ _ h e1 e2 e3 e4 e5 _ _ _ _ _ => pausedOr_of_eq h e1 e2 e3 e4 e5
  move := fun _ _ _ h => pausedOr_of_eq h rfl rfl rfl rfl rfl
  lose := fun s h => by
    obtain ⟨h1, h2, h3, h4, h5⟩ := h
    have hs : s.currentState = STATE_PAUSED ∨ s.currentState = STATE_GAME_OVER ∨
        s.currentState = STATE_LEVEL_UP ∨ s.currentState = STATE_VICTORY := by
      rcases h5 with x | x
      · exact x.2
      · exact Or.inl x.1
    unfold loseLife
    dsimp only
    split
    · exact ⟨rfl, by show s.lives - 1 ≤ L; omega, h3, h4,
        Or.inl ⟨Or.inl (by show s.lives - 1 < L; omega), Or.inr (Or.inl rfl)⟩⟩
    · exact ⟨h1, by show s.lives - 1 ≤ L; omega, h3, h4,
        Or.inl ⟨Or.inl (by show s.lives - 1 < L; omega), hs⟩⟩
  gain := fun s k hk h => by
    obtain ⟨h1, h2, h3, h4, h5⟩ := h
    have hs : s.currentState = STATE_PAUSED ∨ s.currentState = STATE_GAME_OVER ∨
        s.currentState = STATE_LEVEL_UP ∨ s.currentState = STATE_VICTORY := by
      rcases h5 with x | x
      · exact x.2
      · exact Or.inl x.1
    refine ⟨h1, h2, h3, fun e => by have := h4 e; show S ≤ s.score + k; omega, Or.inl ⟨?_, hs⟩⟩
    by_cases e : s.level = Lv
    · have := h4 e
      exact Or.inr (Or.inr (by show S < s.score + k; omega))
    · exact Or.inr (Or.inl (by show Lv < s.level; omega))
  check := fun s h => by
    obtain ⟨h1, h2, h3, h4, h5⟩ := h
    unfold checkLevelUp
    dsimp only
    split
    · exact ⟨h1, h2, by show Lv ≤ s.level + 1; omega,
        fun e => by have e2 : s.level + 1 = Lv := e; omega,
        Or.inl ⟨Or.inr (Or.inl (by show Lv < s.level + 1; omega)), Or.inr (Or.inr (Or.inl rfl))⟩⟩
    · split
      · rename_i hc
        have hc2 : s.score ≥ s.level * 10 := hc.2
        refine ⟨rfl, h2, h3, h4, ?_⟩
        rcases h5 with x | x
        · exact Or.inl ⟨x.1, Or.inr (Or.inr (Or.inr rfl))⟩
        · exfalso
          have := x.2
          omega
      · exact ⟨h1, h2, h3, h4, h5⟩
  trigger := fun s row col h => by
    obtain ⟨a, b, c, d, e2⟩ := triggerHitEffect_eq s row col
    rw [e2]
    exact pausedOr_of_eq h rfl rfl rfl rfl rfl
  update := fun _ h => pausedOr_of_eq h rfl rfl rfl rfl rfl

/-- The Playing block with the pause input taken. -/
theorem pause_updateBlock (s : State) (inp : Input) (hst : s.currentState = STATE_PLAYING)
    (hc : menuCooldown ≤ s.menuClock) (hp : inp.keyP = true) (hs : s.score < 10 * s.level) :
    PausedOr s.lives s.level s.score (updateBlock s inp) := by
  rw [updateBlock_playing s inp hst]
  apply kept_playingFrame (kept_pausedOr s.lives s.level s.score)
  have hc2 : s.menuClock ≥ menuCooldown := hc
  unfold pauseInput
  rw [if_pos hc2, if_pos hp]
  exact ⟨rfl, le_refl _, le_refl _, fun _ => le_refl _, Or.inr ⟨rfl, hs⟩⟩

/-! ## The flight of a Player Bullet -/

/-- The top-down scan visits the cells in scan order. -/
theorem scanTopDown_sorted : scanTopDown.Pairwise Before := by
  unfold scanTopDown
  rw [List.pairwise_flatMap]
  refine ⟨fun r _ => ?_, ?_⟩
  · rw [List.pairwise_map]
    exact (List.pairwise_lt_range COLS).imp (fun h => Or.inr ⟨rfl, h⟩)
  · refine (List.pairwise_lt_range ROWS).imp ?_
    intro a b hab x hx y hy
    simp only [List.mem_map, List.mem_range] at hx hy
    obtain ⟨_, _, rfl⟩ := hx
    obtain ⟨_, _, rfl⟩ := hy
    exact Or.inl hab

/-- When due, the Player Bullet mover runs one tick. -/
theorem bulletMove_due (s : State) (h : 50000 ≤ s.bulletMoveClock) :
    bulletMove s = bulletTick s := by
  unfold bulletMove bulletTick
  rw [if_pos h]

/-- The progression check puts no Player Bullet on the grid. -/
theorem checkLevelUp_noBullet (u : State) (r c : Nat) (h : u.cell r c ≠ BULLET) :
    (checkLevelUp u).cell r c ≠ BULLET := by
  unfold checkLevelUp
  dsimp only
  split
  · show Grid.get _ r c ≠ BULLET
    rw [Grid.get_set, Grid.get_set, clearEntities_get]
    have h2 : u.grid.get r c ≠ 3 := h
    repeat' split
    all_goals first | decide | omega | exact h2
  · split
    · exact h
    · exact h

/-- Below the threshold the progression check changes nothing. -/
theorem checkLevelUp_idle (u : State) (h : u.score < 10 * u.level) : checkLevelUp u = u := by
  unfold checkLevelUp
  dsimp only
  rw [if_neg (fun hh => by have := hh.2; omega), if_neg (fun hh => by have := hh.2; omega)]

/-- A bullet step leaves a cell other than its source and its target without
a Player Bullet if it held none. -/
theorem bulletStep_noBullet (s : State) (r c r2 c2 : Nat) (h1 : ¬(r2 = r ∧ c2 = c))
    (h2 : ¬(r2 = r - 1 ∧ c2 = c)) (h : s.cell r2 c2 ≠ BULLET) :
    (bulletStep s r c).cell r2 c2 ≠ BULLET := by
  have e1 : (s.setCell r c EMPTY).cell r2 c2 = s.cell r2 c2 := by
    rw [cell_setCell, if_neg h1]
  have e2 : ∀ (u : State) (v : Nat), u.cell r2 c2 = s.cell r2 c2 →
      (u.setCell (r - 1) c v).cell r2 c2 = s.cell r2 c2 := by
    intro u v hu
    rw [cell_setCell, if_neg h2, hu]
  unfold bulletStep
  dsimp only
  split
  · rw [e1]; exact h
  · split
    · rw [e2 _ _ e1]; exact h
    · split
      · rw [trigger_cell, e2 _ _ e1]; exact h
      · split
        · rw [trigger_cell, e2 _ _ e1]; exact h
        · split
          · apply checkLevelUp_noBullet
            rw [trigger_cell]
            exact (e2 _ _ e1).trans_ne h
          · split
            · apply checkLevelUp_noBullet
              rw [trigger_cell]
              exact (e2 _ _ e1).trans_ne h
            · rw [e1]; exact h

/-- With a single Player Bullet on the cells of a sorted scan, the loop is the
step of that bullet. -/
theorem bulletScan_single (l : List (Nat × Nat)) (hl : l.Pairwise Before) (s : State)
    (r p : Nat) (hm : (r, p) ∈ l) (hb : s.cell r p = BULLET)
    (ho : ∀ q ∈ l, q ≠ (r, p) → s.cell q.1 q.2 ≠ BULLET) :
    forCells l bulletCell s = bulletStep s r p := by
  induction l with
  | nil => cases hm
  | cons a l ih =>
    rw [forCells_eq, List.foldl_cons, ← forCells_eq]
    rw [List.pairwise_cons] at hl
    by_cases ha : a = (r, p)
    · subst ha
      have e : bulletCell s (r, p) = bulletStep s r p := by
        unfold bulletCell
        rw [if_pos hb]
      rw [e]
      apply forCells_skip
      intro q hq
      have hbq := hl.1 q hq
      have hne : (bulletStep s r p).cell q.1 q.2 ≠ BULLET := by
        apply bulletStep_noBullet
        · rintro ⟨h1, h2⟩
          rcases hbq with h | ⟨h, h3⟩
          · simp only at h; omega
          · simp only at h3; omega
        · rintro ⟨h1, h2⟩
          rcases hbq with h | ⟨h, h3⟩
          · simp only at h; omega
          · simp only at h3; omega
        · apply ho q (List.mem_cons_of_mem _ hq)
          rintro rfl
          rcases hbq with h | ⟨h, h3⟩
          · simp only at h; omega
          · simp only at h3; omega
      unfold bulletCell
      rw [if_neg hne]
    · have e : bulletCell s a = s := by
        unfold bulletCell
        rw [if_neg (ho a (List.mem_cons_self _ _) ha)]
      rw [e]
      apply ih hl.2
      · rcases List.mem_cons.1 hm with h | h
        · exact absurd h.symm ha
        · exact h
      · intro q hq
        exact ho q (List.mem_cons_of_mem _ hq)

/-- A tick of the Player Bullet mover with a single bullet on the board. -/
theorem bulletTick_single (s t : State) (r p : Nat) (hr : r < ROWS) (hp : p < COLS)
    (h : InFlight s t r p) (hn : NoBullets s) :
    bulletTick t = { bulletStep t r p with bulletMoveClock := 0 } := by
  unfold bulletTick
  rw [bulletScan_single scanTopDown scanTopDown_sorted t r p
    ((mem_scanTopDown _).2 ⟨hr, hp⟩)]
  · rw [h.1, if_pos ⟨rfl, rfl⟩]
  · intro q hq hne
    rw [h.1, if_neg]
    · exact hn q.1 ((mem_scanTopDown _).1 hq).1 q.2 ((mem_scanTopDown _).1 hq).2
    · rintro ⟨h1, h2⟩
      exact hne (Prod.ext h1 h2)

/-- Firing with the cell above the Player Empty puts a Player Bullet there. -/
theorem inFlight_fire (s : State) (inp : Input) (hk : inp.keySpace = true)
    (hc : bulletFireCooldown ≤ s.bulletFireClock)
    (he : s.cell (ROWS - 2) s.spaceshipCol = EMPTY) :
    InFlight s (playerFire s inp) (ROWS - 2) s.spaceshipCol := by
  unfold playerFire
  dsimp only
  rw [if_pos ⟨hk, hc⟩, if_pos he]
  refine ⟨fun r2 c2 => ?_, rfl, rfl, rfl, rfl, rfl, rfl, rfl, rfl, rfl⟩
  show (s.setCell (ROWS - 2) s.spaceshipCol BULLET).cell r2 c2 = _
  rw [cell_setCell]
  rfl

/-- A tick with the cell above the bullet Empty moves the bullet up. -/
theorem inFlight_tick (s t : State) (r p : Nat) (hr : r < ROWS) (hp : p < COLS) (h0 : 0 < r)
    (h : InFlight s t r p) (hn : NoBullets s) (he : s.cell r p = EMPTY)
    (ha : s.cell (r - 1) p = EMPTY) : InFlight s (bulletTick t) (r - 1) p := by
  rw [bulletTick_single s t r p hr hp h hn]
  have hne : ¬(r - 1 = r ∧ p = p) := by omega
  have e : bulletStep t r p = (t.setCell r p EMPTY).setCell (r - 1) p BULLET := by
    unfold bulletStep
    dsimp only
    rw [if_neg (by omega), if_pos]
    left
    rw [cell_setCell, if_neg hne, h.1, if_neg hne]
    exact ha
  rw [e]
  obtain ⟨h1, h2, h3, h4, h5, h6, h7, h8, h9, h10⟩ := h
  refine ⟨fun r2 c2 => ?_, h2, h3, h4, h5, h6, h7, h8, h9, h10⟩
  show ((t.setCell r p EMPTY).setCell (r - 1) p BULLET).cell r2 c2 = _
  rw [cell_setCell, cell_setCell, h1]
  by_cases c1 : r2 = r - 1 ∧ c2 = p
  · rw [if_pos c1, if_pos c1]; rfl
  · rw [if_neg c1, if_neg c1]
    by_cases c3 : r2 = r ∧ c2 = p
    · rw [if_pos c3, c3.1, c3.2, he]; rfl
    · rw [if_neg c3, if_neg c3]

theorem bulletTicks_succ (s : State) (n : Nat) :
    bulletTicks s (n + 1) = bulletTick (bulletTicks s n) := rfl

/-- While the cells above it are Empty the bullet climbs one row per tick. -/
theorem inFlight_ticks (s t : State) (e p : Nat) (hp : p < COLS)
    (h : InFlight s t (ROWS - 2) p) (hn : NoBullets s)
    (hb : ∀ r, r < ROWS - 1 → e < r → s.cell r p = EMPTY) (k : Nat) (hk : k + e ≤ 20) :
    InFlight s (bulletTicks t k) (ROWS - 2 - k) p := by
  have hR : ROWS = 23 := rfl
  induction k with
  | zero => exact h
  | succ k ih =>
    rw [bulletTicks_succ]
    have h2 := inFlight_tick s (bulletTicks t k) (ROWS - 2 - k) p (by omega) hp (by omega)
      (ih (by omega)) hn (hb _ (by omega) (by omega)) (hb _ (by omega) (by omega))
    have e2 : ROWS - 2 - k - 1 = ROWS - 2 - (k + 1) := by omega
    rw [e2] at h2
    exact h2

/-- The tick that brings the bullet onto an Enemy. -/
theorem inFlight_hit (s t : State) (e p : Nat) (hr : e + 1 < ROWS) (hp : p < COLS)
    (h : InFlight s t (e + 1) p) (hn : NoBullets s) (hen : s.cell e p = ENEMY) :
    bulletTick t = { checkLevelUp (triggerHitEffect
      (State.setCell { t.setCell (e + 1) p EMPTY with score := t.score + 1 } e p EMPTY)
      e p) with bulletMoveClock := 0 } := by
  rw [bulletTick_single s t (e + 1) p hr hp h hn]
  have e1 : t.cell (e + 1 - 1) p = ENEMY := by
    rw [h.1, if_neg (by omega)]
    exact hen
  rw [bulletStep_enemy t (e + 1) p (by omega) e1]
  rfl

/-- The hit tick, with the progression check idle and slot `i` the first
inactive one. -/
theorem inFlight_kill (s t : State) (e p i : Nat) (hr : e + 1 < ROWS) (hp : p < COLS)
    (h : InFlight s t (e + 1) p) (hn : NoBullets s) (hen : s.cell e p = ENEMY)
    (he : s.cell (e + 1) p = EMPTY)
    (hs : s.score + 1 < 10 * s.level) (hi : i < MAX_HIT_EFFECTS)
    (hf : s.hitEffectActive i = false) (hl : ∀ j, j < i → s.hitEffectActive j = true) :
    (∀ r c, (bulletTick t).cell r c = if r = e ∧ c = p then EMPTY else s.cell r c) ∧
      (bulletTick t).score = s.score + 1 ∧ (bulletTick t).level = s.level ∧
      (bulletTick t).lives = s.lives ∧ (bulletTick t).currentState = s.currentState ∧
      SamePool (activateSlot s i e p) (bulletTick t) := by
  rw [inFlight_hit s t e p hr hp h hn hen]
  obtain ⟨h1, h2, h3, h4, h5, h6, h7, h8, h9, h10⟩ := h
  have e1 : triggerHitEffect
      (State.setCell { t.setCell (e + 1) p EMPTY with score := t.score + 1 } e p EMPTY) e p
      = activateSlot
        (State.setCell { t.setCell (e + 1) p EMPTY with score := t.score + 1 } e p EMPTY)
        i e p := by
    unfold triggerHitEffect
    apply triggerHitEffectFrom_first _ _ _ _ _ _ (Nat.zero_le _) (by omega)
    · show t.hitEffectActive i = false
      rw [h7]; exact hf
    · intro j _ hj
      show t.hitEffectActive j = true
      rw [h7]; exact hl j hj
  rw [e1, checkLevelUp_idle]
  · refine ⟨fun r c => ?_, ?_, h4, h2, h5, ?_⟩
    · show ((t.setCell (e + 1) p EMPTY).setCell e p EMPTY).cell r c = _
      rw [cell_setCell, cell_setCell, h1]
      by_cases c1 : r = e ∧ c = p
      · rw [if_pos c1, if_pos c1]; rfl
      · rw [if_neg c1, if_neg c1]
        by_cases c3 : r = e + 1 ∧ c = p
        · rw [if_pos c3, c3.1, c3.2, he]; rfl
        · rw [if_neg c3, if_neg c3]
    · show t.score + 1 = s.score + 1
      rw [h3]
    · refine ⟨?_, ?_, ?_, ?_⟩
      · show setAt t.hitEffectActive i true = setAt s.hitEffectActive i true
        rw [h7]
      · show setAt t.hitEffectTimer i 0 = setAt s.hitEffectTimer i 0
        rw [h10]
      · show setAt t.hitEffectRow i e = setAt s.hitEffectRow i e
        rw [h8]
      · show setAt t.hitEffectCol i p = setAt s.hitEffectCol i p
        rw [h9]
  · show t.score + 1 < 10 * t.level
    rw [h3, h4]; exact hs

/-- The hit tick when the point completes a level below 5. -/
theorem inFlight_levelUp (s t : State) (e p : Nat) (hr : e + 1 < ROWS) (hp : p < COLS)
    (h : InFlight s t (e + 1) p) (hn : NoBullets s) (hen : s.cell e p = ENEMY)
    (h4 : s.level < MAX_LEVEL) (hs : 10 * s.level ≤ s.score + 1) :
    (bulletTick t).score = 0 ∧ (bulletTick t).level = s.level + 1 := by
  rw [inFlight_hit s t e p hr hp h hn hen]
  obtain ⟨_, _, h3, h5, _⟩ := h
  have f := trigger_fields
    (State.setCell { t.setCell (e + 1) p EMPTY with score := t.score + 1 } e p EMPTY) e p
  have f2 : (triggerHitEffect
      (State.setCell { t.setCell (e + 1) p EMPTY with score := t.score + 1 } e p EMPTY)
      e p).score = s.score + 1 := by
    rw [f.2.1, ← h3]; rfl
  have f3 : (triggerHitEffect
      (State.setCell { t.setCell (e + 1) p EMPTY with score := t.score + 1 } e p EMPTY)
      e p).level = s.level := by
    rw [f.2.2.1, ← h5]; rfl
  unfold checkLevelUp
  dsimp only
  rw [if_pos ⟨by rw [f3]; exact h4, by rw [f2, f3]; show s.score + 1 ≥ s.level * 10; omega⟩]
  exact ⟨rfl, by show _ + 1 = s.level + 1; rw [f3]⟩

/-! ## Checked accesses agree with the blocks -/

theorem getC_at (g : Grid) (r c : Int) (n m : Nat) (hr : r = n) (hc : c = m) (hn : n < ROWS)
    (hm : m < COLS) : g.getC r c = some (g.get n m) := by
  subst hr hc
  unfold Grid.getC
  rw [if_pos ⟨by omega, by omega, by omega, by omega⟩]
  rfl

theorem setC_at (g : Grid) (r c : Int) (n m : Nat) (hr : r = n) (hc : c = m) (hn : n < ROWS)
    (hm : m < COLS) (v : Nat) : g.setC r c v = some (g.set n m v) := by
  subst hr hc
  unfold Grid.setC
  rw [if_pos ⟨by omega, by omega, by omega, by omega⟩]
  rfl

theorem cellC_at (s : State) (r c : Int) (n m : Nat) (hr : r = n) (hc : c = m) (hn : n < ROWS)
    (hm : m < COLS) : s.cellC r c = some (s.cell n m) :=
  getC_at s.grid r c n m hr hc hn hm

theorem setCellC_at (s : State) (r c : Int) (n m : Nat) (hr : r = n) (hc : c = m)
    (hn : n < ROWS) (hm : m < COLS) (v : Nat) : s.setCellC r c v = some (s.setCell n m v) := by
  unfold State.setCellC
  rw [setC_at s.grid r c n m hr hc hn hm]
  rfl

theorem triggerHitEffectFromC_eq (s : State) (row col n i : Nat) (h : i + n ≤ MAX_HIT_EFFECTS) :
    triggerHitEffectFromC s row col n i = some (triggerHitEffectFrom s row col n i) := by
  induction n generalizing i with
  | zero => rfl
  | succ n ih =>
    unfold triggerHitEffectFromC triggerHitEffectFrom
    rw [if_pos (by omega)]
    split
    · rfl
    · exact ih (i + 1) (by omega)

theorem triggerHitEffectC_eq (s : State) (row col : Nat) :
    triggerHitEffectC s row col = some (triggerHitEffect s row col) :=
  triggerHitEffectFromC_eq s row col MAX_HIT_EFFECTS 0 (le_refl _)

theorem meteorStepC_eq (s : State) (r c : Nat) (hr : r < ROWS) (hc : c < COLS) :
    meteorStepC s r c = some (meteorStep s r c) := by
  have hR : ROWS = 23 := rfl
  unfold meteorStepC meteorStep
  dsimp only
  rw [setCellC_at s r c r c rfl rfl hr hc]
  split
  · rfl
  · have hr1 : r + 1 < ROWS := by omega
    rw [Option.some_bind, cellC_at _ (r + 1) c (r + 1) c (by omega) rfl hr1 hc,
      Option.some_bind]
    split
    · exact setCellC_at _ _ _ _ _ (by omega) rfl hr1 hc _
    · split
      · exact setCellC_at _ _ _ _ _ (by omega) rfl hr1 hc _
      · split
        · rw [setCellC_at _ _ _ (r + 1) c (by omega) rfl hr1 hc, Option.some_bind]
          exact triggerHitEffectC_eq _ _ _
        · rfl

/-- A checked loop agrees with the loop when its body does at every cell, under
an invariant the body keeps. -/
theorem loopC_eq {α : Type} (P : α → Prop) (cells : List (Nat × Nat))
    (body : α → Nat × Nat → α) (bodyC : α → Nat × Nat → Option α)
    (h : ∀ a p, P a → p ∈ cells → bodyC a p = some (body a p) ∧ P (body a p))
    (a : α) (ha : P a) : loopC cells bodyC a = some (cells.foldl body a) := by
  induction cells generalizing a with
  | nil => rfl
  | cons p rest ih =>
    unfold loopC
    rw [(h a p ha (List.mem_cons_self _ _)).1, Option.some_bind, List.foldl_cons]
    exact ih (fun b q hb hq => h b q hb (List.mem_cons_of_mem _ hq)) _
      (h a p ha (List.mem_cons_self _ _)).2

theorem clearEntitiesC_eq (g : Grid) : clearEntitiesC g = some (clearEntities g) := by
  unfold clearEntitiesC clearEntities
  apply loopC_eq (fun _ => True) _ _ _ _ g trivial
  intro a p _ hp
  have hb := (mem_scanTopDown p).1 hp
  refine ⟨?_, trivial⟩
  rw [getC_at a p.1 p.2 p.1 p.2 rfl rfl hb.1 hb.2, Option.some_bind]
  split
  · exact setC_at a _ _ _ _ rfl rfl hb.1 hb.2 _
  · rfl

theorem clearGridC_some (g : Grid) : ∃ g2, clearGridC g = some g2 := by
  unfold clearGridC
  exact ⟨_, loopC_eq (fun _ => True) scanTopDown (fun g1 p => g1.set p.1 p.2 EMPTY) _
    (fun a p _ hp => ⟨setC_at a _ _ _ _ rfl rfl ((mem_scanTopDown p).1 hp).1
      ((mem_scanTopDown p).1 hp).2 _, trivial⟩) g trivial⟩

theorem checkLevelUpC_eq (s : State) (h : OnBoard s) :
    checkLevelUpC s = some (checkLevelUp s) := by
  unfold checkLevelUpC checkLevelUp
  dsimp only
  split
  · rw [clearEntitiesC_eq, Option.some_bind,
      setC_at _ _ _ (ROWS - 1) s.spaceshipCol (by decide) rfl (by decide) h, Option.some_bind,
      setC_at _ _ _ (ROWS - 1) (COLS / 2) (by decide) rfl (by decide) (by decide)]
    rfl
  · split
    · rfl
    · rfl

theorem startGameC_eq (s : State) : startGameC s = some (startGame s) := by
  obtain ⟨g2, e⟩ := clearGridC_some s.grid
  unfold startGameC startGame
  rw [e, Option.some_bind,
    setC_at _ _ _ (ROWS - 1) (COLS / 2) (by decide) rfl (by decide) (by decide)]
  rfl

theorem restartLevelC_eq (s : State) : restartLevelC s = some (restartLevel s) := by
  obtain ⟨g2, e⟩ := clearGridC_some s.grid
  unfold restartLevelC restartLevel
  rw [e, Option.some_bind,
    setC_at _ _ _ (ROWS - 1) (COLS / 2) (by decide) rfl (by decide) (by decide)]
  rfl

/-- The scoring tail of a destruction step, checked. -/
theorem scoredC_eq (s : State) (h : OnBoard s) (k : Int) (r c : Int) (n m row col : Nat)
    (hr : r = n) (hc : c = m) (hn : n < ROWS) (hm : m < COLS) :
    ((State.setCellC { s with score := s.score + k } r c EMPTY).bind fun s2 =>
      (triggerHitEffectC s2 row col).bind checkLevelUpC)
    = some (checkLevelUp (triggerHitEffect
        (State.setCell { s with score := s.score + k } n m EMPTY) row col)) := by
  rw [setCellC_at _ r c n m hr hc hn hm, Option.some_bind, triggerHitEffectC_eq,
    Option.some_bind]
  apply checkLevelUpC_eq
  show (triggerHitEffect _ row col).spaceshipCol < COLS
  rw [(trigger_fields _ row col).2.2.2.2.2]
  exact h

theorem enemyStepC_eq (s : State) (h : OnBoard s) (r c : Nat) (hr : r < ROWS) (hc : c < COLS) :
    enemyStepC s r c = some (enemyStep s r c) := by
  have hR : ROWS = 23 := rfl
  unfold enemyStepC enemyStep
  dsimp only
  rw [setCellC_at s r c r c rfl rfl hr hc]
  split
  · rfl
  · have hr1 : r + 1 < ROWS := by omega
    rw [Option.some_bind, cellC_at _ (r + 1) c (r + 1) c (by omega) rfl hr1 hc,
      Option.some_bind]
    split
    · exact setCellC_at _ _ _ _ _ (by omega) rfl hr1 hc _
    · split
      · exact setCellC_at _ _ _ _ _ (by omega) rfl hr1 hc _
      · split
        · exact scoredC_eq (s.setCell r c EMPTY) h 1 _ _ (r + 1) c _ _ (by omega) rfl hr1 hc
        · rfl

theorem bossStepC_eq (s : State) (h : OnBoard s) (r c : Nat) (hr : r < ROWS) (hc : c < COLS) :
    bossStepC s r c = some (bossStep s r c) := by
  have hR : ROWS = 23 := rfl
  unfold bossStepC bossStep
  dsimp only
  split
  · rw [setCellC_at s r c r c rfl rfl hr hc]
    rfl
  · have hr1 : r + 1 < ROWS := by omega
    rw [cellC_at _ (r + 1) c (r + 1) c (by omega) rfl hr1 hc, Option.some_bind,
      setCellC_at s r c r c rfl rfl hr hc, Option.some_bind]
    split
    · exact setCellC_at _ _ _ _ _ (by omega) rfl hr1 hc _
    · rw [cellC_at _ (r + 1) c (r + 1) c (by omega) rfl hr1 hc, Option.some_bind]
      split
      · exact setCellC_at _ _ _ _ _ (by omega) rfl hr1 hc _
      · split
        · exact scoredC_eq (s.setCell r c EMPTY) h 3 _ _ (r + 1) c _ _ (by omega) rfl hr1 hc
        · rfl

theorem bossBulletStepC_eq (s : State) (r c : Nat) (hr : r < ROWS) (hc : c < COLS) :
    bossBulletStepC s r c = some (bossBulletStep s r c) := by
  have hR : ROWS = 23 := rfl
  unfold bossBulletStepC bossBulletStep
  dsimp only
  rw [setCellC_at s r c r c rfl rfl hr hc]
  split
  · rfl
  · have hr1 : r + 1 < ROWS := by omega
    rw [Option.some_bind, cellC_at _ (r + 1) c (r + 1) c (by omega) rfl hr1 hc,
      Option.some_bind]
    split
    · exact triggerHitEffectC_eq _ _ _
    · split
      · exact setCellC_at _ _ _ _ _ (by omega) rfl hr1 hc _
      · split
        · exact setCellC_at _ _ _ _ _ (by omega) rfl hr1 hc _
        · rfl

theorem bulletStepC_eq (s : State) (h : OnBoard s) (r c : Nat) (hr : r < ROWS) (hc : c < COLS) :
    bulletStepC s r c = some (bulletStep s r c) := by
  unfold bulletStepC
  rw [setCellC_at s r c r c rfl rfl hr hc]
  unfold bulletStep
  by_cases h0 : r = 0
  · rw [if_pos h0, if_pos h0]
  · rw [if_neg h0, if_neg h0]
    show _ = some (if (s.setCell r c EMPTY).cell (r - 1) c = EMPTY
        ∨ (s.setCell r c EMPTY).cell (r - 1) c = BULLET then _ else _)
    have hr1 : r - 1 < ROWS := by omega
    have e : ((r : Int) - 1) = ((r - 1 : Nat) : Int) := by omega
    rw [Option.some_bind, cellC_at _ (r - 1) c (r - 1) c e rfl hr1 hc, Option.some_bind]
    split
    · exact setCellC_at _ _ _ _ _ e rfl hr1 hc _
    · split
      · rw [setCellC_at _ _ _ (r - 1) c e rfl hr1 hc, Option.some_bind]
        exact triggerHitEffectC_eq _ _ _
      · split
        · rw [setCellC_at _ _ _ (r - 1) c e rfl hr1 hc, Option.some_bind]
          exact triggerHitEffectC_eq _ _ _
        · split
          · exact scoredC_eq (s.setCell r c EMPTY) h 1 _ _ (r - 1) c _ _ e rfl hr1 hc
          · split
            · exact scoredC_eq (s.setCell r c EMPTY) h 3 _ _ (r - 1) c _ _ e rfl hr1 hc
            · rfl

theorem bossFireStepC_eq (s : State) (r c : Nat) (hc : c < COLS) :
    bossFireStepC s r c = some (bossFireStep s r c) := by
  unfold bossFireStepC bossFireStep
  dsimp only
  split
  · split
    · rename_i hr1
      rw [cellC_at _ (r + 1) c (r + 1) c (by omega) rfl hr1 hc, Option.some_bind]
      split
      · rename_i he
        rw [if_pos ⟨hr1, he⟩]
        exact setCellC_at _ _ _ _ _ (by omega) rfl hr1 hc _
      · rename_i he
        rw [if_neg (fun hh => he hh.2)]
    · rename_i hr1
      rw [if_neg (fun hh => hr1 hh.1)]
  · rfl

/-- The Playing block keeps the Player column on the board. -/
theorem kept_onBoard : Kept OnBoard where
  same := fun s t h _ _ _ _ _ _ _ _ _ e => by
    unfold OnBoard at *
    rw [e]
    exact h
  move := fun s c hc h => by
    have h2 : s.spaceshipCol < COLS := h
    show c < COLS
    rcases hc with x | x
    · exact x
    · omega
  lose := fun s h => by
    unfold loseLife
    dsimp only
    split
    · exact h
    · exact h
  gain := fun _ _ _ h => h
  check := fun s h => by
    unfold checkLevelUp
    dsimp only
    split
    · show COLS / 2 < COLS
      decide
    · split
      · exact h
      · exact h
  trigger := fun s row col h => by
    unfold OnBoard at *
    rw [(trigger_fields s row col).2.2.2.2.2]
    exact h
  update := fun _ h => h

theorem meteorCellC_eq (s : State) (p : Nat × Nat) (_h : OnBoard s)
    (hp : p ∈ scanTopDown) :
    meteorCellC s p = some (meteorCell s p) := by
  have hb := (mem_scanTopDown p).1 hp
  unfold meteorCellC meteorCell
  rw [cellC_at s p.1 p.2 p.1 p.2 rfl rfl hb.1 hb.2, Option.some_bind]
  split
  · exact meteorStepC_eq s p.1 p.2 hb.1 hb.2
  · rfl

theorem enemyCellC_eq (s : State) (p : Nat × Nat) (h : OnBoard s)
    (hp : p ∈ scanTopDown) :
    enemyCellC s p = some (enemyCell s p) := by
  have hb := (mem_scanTopDown p).1 hp
  unfold enemyCellC enemyCell
  rw [cellC_at s p.1 p.2 p.1 p.2 rfl rfl hb.1 hb.2, Option.some_bind]
  split
  · exact enemyStepC_eq s h p.1 p.2 hb.1 hb.2
  · rfl

theorem bossCellC_eq (s : State) (p : Nat × Nat) (h : OnBoard s)
    (hp : p ∈ scanTopDown) :
    bossCellC s p = some (bossCell s p) := by
  have hb := (mem_scanTopDown p).1 hp
  unfold bossCellC bossCell
  rw [cellC_at s p.1 p.2 p.1 p.2 rfl rfl hb.1 hb.2, Option.some_bind]
  split
  · exact bossStepC_eq s h p.1 p.2 hb.1 hb.2
  · rfl

theorem bossBulletCellC_eq (s : State) (p : Nat × Nat) (_h : OnBoard s)
    (hp : p ∈ scanTopDown) :
    bossBulletCellC s p = some (bossBulletCell s p) := by
  have hb := (mem_scanTopDown p).1 hp
  unfold bossBulletCellC bossBulletCell
  rw [cellC_at s p.1 p.2 p.1 p.2 rfl rfl hb.1 hb.2, Option.some_bind]
  split
  · exact bossBulletStepC_eq s p.1 p.2 hb.1 hb.2
  · rfl

theorem bulletCellC_eq (s : State) (p : Nat × Nat) (h : OnBoard s)
    (hp : p ∈ scanTopDown) :
    bulletCellC s p = some (bulletCell s p) := by
  have hb := (mem_scanTopDown p).1 hp
  unfold bulletCellC bulletCell
  rw [cellC_at s p.1 p.2 p.1 p.2 rfl rfl hb.1 hb.2, Option.some_bind]
  split
  · exact bulletStepC_eq s h p.1 p.2 hb.1 hb.2
  · rfl

theorem bossFireCellC_eq (s : State) (p : Nat × Nat) (_h : OnBoard s)
    (hp : p ∈ scanTopDown) :
    bossFireCellC s p = some (bossFireCell s p) := by
  have hb := (mem_scanTopDown p).1 hp
  unfold bossFireCellC bossFireCell
  rw [cellC_at s p.1 p.2 p.1 p.2 rfl rfl hb.1 hb.2, Option.some_bind]
  split
  · exact bossFireStepC_eq s p.1 p.2 hb.2
  · rfl

/-- A checked loop over the board agrees with the loop, given that its body
does at every cell and keeps the Player column on the board. -/
theorem cellsC_eq (cells : List (Nat × Nat)) (body : State → Nat × Nat → State)
    (bodyC : State → Nat × Nat → Option State) (hm : ∀ p ∈ cells, p ∈ scanTopDown)
    (hC : ∀ s p, OnBoard s → p ∈ scanTopDown → bodyC s p = some (body s p))
    (hK : ∀ s p, OnBoard s → OnBoard (body s p)) (s : State) (h : OnBoard s) :
    loopC cells bodyC s = some (forCells cells body s) := by
  rw [forCells_eq]
  exact loopC_eq OnBoard cells body bodyC
    (fun a p ha hp => ⟨hC a p ha (hm p hp), hK a p ha⟩) s h

theorem bottomUp_mem : ∀ p ∈ scanBottomUp, p ∈ scanTopDown :=
  fun p hp => (mem_scanTopDown p).2 ((mem_scanBottomUp p).1 hp)

theorem meteorMoveC_eq (s : State) (h : OnBoard s) : meteorMoveC s = some (meteorMove s) := by
  unfold meteorMoveC meteorMove
  split
  · rw [cellsC_eq scanBottomUp meteorCell meteorCellC bottomUp_mem meteorCellC_eq
      (fun a p ha => by
        unfold meteorCell
        split
        · exact kept_meteorStep kept_onBoard ha _ _
        · exact ha) s h]
    rfl
  · rfl

theorem enemyMoveC_eq (s : State) (h : OnBoard s) : enemyMoveC s = some (enemyMove s) := by
  unfold enemyMoveC enemyMove
  split
  · rw [cellsC_eq scanBottomUp enemyCell enemyCellC bottomUp_mem enemyCellC_eq
      (fun a p ha => by
        unfold enemyCell
        split
        · exact kept_enemyStep kept_onBoard ha _ _
        · exact ha) s h]
    rfl
  · rfl

theorem bossBulletMoveC_eq (s : State) (h : OnBoard s) (speed : Int) :
    bossBulletMoveC s speed = some (bossBulletMove s speed) := by
  unfold bossBulletMoveC bossBulletMove
  split
  · rw [cellsC_eq scanBottomUp bossBulletCell bossBulletCellC bottomUp_mem bossBulletCellC_eq
      (fun a p ha => by
        unfold bossBulletCell
        split
        · exact kept_bossBulletStep kept_onBoard ha _ _
        · exact ha) s h]
    rfl
  · rfl

theorem bulletMoveC_eq (s : State) (h : OnBoard s) : bulletMoveC s = some (bulletMove s) := by
  unfold bulletMoveC bulletMove
  split
  · rw [cellsC_eq scanTopDown bulletCell bulletCellC (fun _ hp => hp) bulletCellC_eq
      (fun a p ha => by
        unfold bulletCell
        split
        · exact kept_bulletStep kept_onBoard ha _ _
        · exact ha) s h]
    rfl
  · rfl

theorem bossFireC_eq (s : State) (h : OnBoard s) : bossFireC s = some (bossFire s) := by
  unfold bossFireC bossFire
  dsimp only
  split
  · rw [cellsC_eq scanTopDown bossFireCell bossFireCellC (fun _ hp => hp) bossFireCellC_eq
      (fun a p ha => by
        unfold bossFireCell
        split
        · exact kept_bossFireStep kept_onBoard ha _ _
        · exact ha) { s with bossMoveCounter := s.bossMoveCounter + 1 } h]
    rfl
  · rfl

theorem bossMoveC_eq (s : State) (h : OnBoard s) (speed : Int) :
    bossMoveC s speed = some (bossMove s speed) := by
  unfold bossMoveC bossMove
  split
  · rw [cellsC_eq scanBottomUp bossCell bossCellC bottomUp_mem bossCellC_eq
      (fun a p ha => by
        unfold bossCell
        split
        · exact kept_bossStep kept_onBoard ha _ _
        · exact ha) s h, Option.some_bind]
    exact bossFireC_eq _ (kept_bossCells kept_onBoard h scanBottomUp)
  · rfl

theorem afterEnemyMoveC_eq (s : State) (h : OnBoard s) :
    afterEnemyMoveC s = some (afterEnemyMove s) := by
  unfold afterEnemyMoveC afterEnemyMove
  dsimp only
  have h1 := kept_bossMove kept_onBoard h (bossMoveSpeed s.level)
  have h2 := kept_bossBulletMove kept_onBoard h1 (bossMoveSpeed s.level / 2)
  rw [bossMoveC_eq s h, Option.some_bind, bossBulletMoveC_eq _ h1, Option.some_bind,
    bulletMoveC_eq _ h2]
  rfl

theorem playerMoveC_eq (s : State) (h : OnBoard s) (inp : Input) :
    playerMoveC s inp = some (playerMove s inp) := by
  have hC : COLS = 15 := rfl
  have h2 : s.spaceshipCol < COLS := h
  unfold playerMoveC playerMove
  dsimp only
  split
  · split
    · rename_i hl
      have hl2 : s.spaceshipCol > 0 := hl.2
      rw [setCellC_at s _ _ (ROWS - 1) s.spaceshipCol (by decide) rfl (by decide) h2,
        Option.some_bind,
        setCellC_at _ _ _ (ROWS - 1) (s.spaceshipCol - 1) (by decide)
          (by show ((s.spaceshipCol : Int) - 1) = ((s.spaceshipCol - 1 : Nat) : Int); omega)
          (by decide) (by omega)]
      rfl
    · split
      · rename_i hr
        have hr2 : s.spaceshipCol < COLS - 1 := hr.2
        rw [setCellC_at s _ _ (ROWS - 1) s.spaceshipCol (by decide) rfl (by decide) h2,
          Option.some_bind,
          setCellC_at _ _ _ (ROWS - 1) (s.spaceshipCol + 1) (by decide)
            (by show ((s.spaceshipCol : Int) + 1) = ((s.spaceshipCol + 1 : Nat) : Int); omega)
            (by decide) (by omega)]
        rfl
      · rfl
  · rfl

theorem playerFireC_eq (s : State) (h : OnBoard s) (inp : Input) :
    playerFireC s inp = some (playerFire s inp) := by
  have h2 : s.spaceshipCol < COLS := h
  unfold playerFireC playerFire
  dsimp only
  split
  · rw [if_pos (by decide),
      cellC_at s _ _ (ROWS - 2) s.spaceshipCol (by decide) rfl (by decide) h2, Option.some_bind]
    split
    · rw [setCellC_at s _ _ (ROWS - 2) s.spaceshipCol (by decide) rfl (by decide) h2]
      rfl
    · rfl
  · rfl

theorem meteorSpawnC_eq (s : State) (inp : Input) :
    meteorSpawnC s inp = some (meteorSpawn s inp) := by
  have hm : inp.randMeteorCol % COLS < COLS := Nat.mod_lt _ (by decide)
  unfold meteorSpawnC meteorSpawn
  dsimp only
  split
  · rw [cellC_at s 0 _ 0 (inp.randMeteorCol % COLS) rfl rfl (by decide) hm, Option.some_bind]
    by_cases he : s.cell 0 (inp.randMeteorCol % COLS) = EMPTY
    · rw [if_pos he, if_pos he,
        setCellC_at s 0 _ 0 (inp.randMeteorCol % COLS) rfl rfl (by decide) hm]
      rfl
    · rw [if_neg he, if_neg he]
      rfl
  · rfl

theorem enemySpawnC_eq (s : State) (inp : Input) :
    enemySpawnC s inp = some (enemySpawn s inp) := by
  have hm : inp.randEnemyCol % COLS < COLS := Nat.mod_lt _ (by decide)
  unfold enemySpawnC enemySpawn
  dsimp only
  split
  · rw [cellC_at s 0 _ 0 (inp.randEnemyCol % COLS) rfl rfl (by decide) hm, Option.some_bind]
    by_cases he : s.cell 0 (inp.randEnemyCol % COLS) = EMPTY
    · rw [if_pos he, if_pos he,
        setCellC_at s 0 _ 0 (inp.randEnemyCol % COLS) rfl rfl (by decide) hm]
      rfl
    · rw [if_neg he, if_neg he]
      rfl
  · rfl

theorem bossSpawnC_eq (s : State) (inp : Input) :
    bossSpawnC s inp = some (bossSpawn s inp) := by
  have hm : inp.randBossCol % COLS < COLS := Nat.mod_lt _ (by decide)
  unfold bossSpawnC bossSpawn
  dsimp only
  split
  · rw [cellC_at s 0 _ 0 (inp.randBossCol % COLS) rfl rfl (by decide) hm, Option.some_bind]
    by_cases he : s.cell 0 (inp.randBossCol % COLS) = EMPTY
    · rw [if_pos he, if_pos he,
        setCellC_at s 0 _ 0 (inp.randBossCol % COLS) rfl rfl (by decide) hm]
      rfl
    · rw [if_neg he, if_neg he]
      rfl
  · rfl

theorem onBoard_pauseInput (s : State) (h : OnBoard s) (inp : Input) :
    OnBoard (pauseInput s inp) := by
  unfold pauseInput
  split
  · split
    · exact h
    · exact h
  · exact h

/-- With the Player column on the board, the checked Playing block never fails
and returns the state of the Playing block. -/
theorem playingFrameC_eq (s : State) (h : OnBoard s) (inp : Input) :
    playingFrameC s inp = some (playingFrame s inp) := by
  have h1 := onBoard_pauseInput s h inp
  have h2 := kept_playerMove kept_onBoard h1 inp
  have h3 := kept_playerFire kept_onBoard h2 inp
  have h4 := kept_meteorSpawn kept_onBoard h3 inp
  have h5 := kept_enemySpawn kept_onBoard h4 inp
  have h6 := kept_bossSpawn kept_onBoard h5 inp
  have h7 := kept_meteorMove kept_onBoard h6
  have h8 := kept_enemyMove kept_onBoard h7
  unfold playingFrameC playingFrame
  dsimp only
  rw [playerMoveC_eq _ h1, Option.some_bind, playerFireC_eq _ h2, Option.some_bind,
    meteorSpawnC_eq, Option.some_bind, enemySpawnC_eq, Option.some_bind, bossSpawnC_eq,
    Option.some_bind, meteorMoveC_eq _ h6, Option.some_bind, enemyMoveC_eq _ h7,
    Option.some_bind]
  exact afterEnemyMoveC_eq _ h8

theorem onBoard_startGame (s : State) : OnBoard (startGame s) := by
  show COLS / 2 < COLS
  decide

theorem onBoard_restartLevel (s : State) : OnBoard (restartLevel s) := by
  show COLS / 2 < COLS
  decide

theorem onBoard_menuFrame (s : State) (h : OnBoard s) (inp : Input) :
    OnBoard (menuFrame s inp) := by
  unfold menuFrame
  dsimp only
  repeat' split
  all_goals first | exact h | (show COLS / 2 < COLS; decide)

theorem onBoard_gameOverFrame (s : State) (h : OnBoard s) (inp : Input) :
    OnBoard (gameOverFrame s inp) := by
  unfold gameOverFrame
  dsimp only
  repeat' split
  all_goals first | exact h | (show COLS / 2 < COLS; decide)

theorem onBoard_victoryFrame (s : State) (h : OnBoard s) (inp : Input) :
    OnBoard (victoryFrame s inp) := by
  unfold victoryFrame
  dsimp only
  repeat' split
  all_goals first | exact h | (show COLS / 2 < COLS; decide)

theorem onBoard_pausedFrame (s : State) (h : OnBoard s) (inp : Input) :
    OnBoard (pausedFrame s inp) := by
  unfold pausedFrame
  dsimp only
  repeat' split
  all_goals first | exact h | (show COLS / 2 < COLS; decide)

theorem onBoard_instructionsFrame (s : State) (h : OnBoard s) (inp : Input) :
    OnBoard (instructionsFrame s inp) := by
  unfold instructionsFrame
  repeat' split
  all_goals exact h

theorem onBoard_levelUpFrame (s : State) (h : OnBoard s) : OnBoard (levelUpFrame s) := by
  unfold levelUpFrame
  dsimp only
  repeat' split
  all_goals exact h

theorem onBoard_updateBlock (s : State) (h : OnBoard s) (inp : Input) :
    OnBoard (updateBlock s inp) := by
  unfold updateBlock
  repeat' split
  · exact onBoard_menuFrame s h inp
  · exact onBoard_gameOverFrame s h inp
  · exact onBoard_instructionsFrame s h inp
  · exact kept_playingFrame kept_onBoard s inp (onBoard_pauseInput s h inp)
  · exact onBoard_levelUpFrame s h
  · exact onBoard_victoryFrame s h inp
  · exact onBoard_pausedFrame s h inp
  · exact h

/-- A frame keeps the Player column on the board. -/
theorem onBoard_frame (s : State) (h : OnBoard s) (inp : Input) : OnBoard (frame s inp) := by
  obtain ⟨s2, hs2, e⟩ := frame_entry s inp
  rw [e]
  have h2 : OnBoard (s.advanceClocks inp.dt) := by
    unfold OnBoard State.advanceClocks
    exact h
  rcases hs2 with rfl | rfl
  · exact onBoard_updateBlock (s.advanceClocks inp.dt) h2 inp
  · exact onBoard_updateBlock { s.advanceClocks inp.dt with windowOpen := false } h2 inp

/-- The checks are live: with the Player column off the board the firing block
reads outside the grid. -/
theorem playerFireC_off_board :
    (playerFireC { dueState with spaceshipCol := COLS } (playInput true 0)).isNone = true := by
  decide!

/-! ## Steps onto a blocking entity, and the Player's move -/

/-- The Meteor step onto an Enemy or a Boss: no branch of lines 776-817 applies. -/
theorem meteorStep_blocked (s : State) (r c : Nat) (hr : r ≠ ROWS - 1)
    (hp : s.cell (r + 1) c = ENEMY ∨ s.cell (r + 1) c = BOSS) :
    meteorStep s r c = s.setCell r c EMPTY := by
  have e : (s.setCell r c EMPTY).cell (r + 1) c = s.cell (r + 1) c := by
    rw [cell_setCell, if_neg (by omega)]
  unfold meteorStep
  rcases hp with x | x
  · simp only [if_neg hr, e, x]
    rfl
  · simp only [if_neg hr, e, x]
    rfl

/-- The Enemy step onto a Meteor or a Boss: no branch of lines 855-932 applies. -/
theorem enemyStep_blocked (s : State) (r c : Nat) (hr : r ≠ ROWS - 1)
    (hp : s.cell (r + 1) c = METEOR ∨ s.cell (r + 1) c = BOSS) :
    enemyStep s r c = s.setCell r c EMPTY := by
  have e : (s.setCell r c EMPTY).cell (r + 1) c = s.cell (r + 1) c := by
    rw [cell_setCell, if_neg (by omega)]
  unfold enemyStep
  rcases hp with x | x
  · simp only [if_neg hr, e, x]
    rfl
  · simp only [if_neg hr, e, x]
    rfl

/-- The Boss step onto a Meteor or an Enemy (lines 968-979). -/
theorem bossStep_over (s : State) (r c : Nat) (hr : r ≠ ROWS - 1)
    (hp : s.cell (r + 1) c = METEOR ∨ s.cell (r + 1) c = ENEMY) :
    bossStep s r c = (s.setCell r c EMPTY).setCell (r + 1) c BOSS := by
  unfold bossStep
  rcases hp with x | x
  · simp only [if_neg hr, x]
    rfl
  · simp only [if_neg hr, x]
    rfl

/-- Moving the Player to column `c2`, another column of the board. -/
theorem shipMoved_to (s : State) (c2 : Nat) (hne : c2 ≠ s.spaceshipCol) (t : State)
    (e : t = { State.setCell { s.setCell (ROWS - 1) s.spaceshipCol EMPTY with spaceshipCol := c2 }
      (ROWS - 1) c2 SPACESHIP with moveClock := 0 }) : ShipMoved s t c2 := by
  subst e
  refine ⟨rfl, ?_, ?_, fun r3 c3 h1 h2 => ?_, rfl, rfl, rfl, rfl, rfl⟩
  · show (State.setCell _ (ROWS - 1) c2 SPACESHIP).cell (ROWS - 1) c2 = SPACESHIP
    rw [cell_setCell, if_pos ⟨rfl, rfl⟩]
    rfl
  · show (State.setCell _ (ROWS - 1) c2 SPACESHIP).cell (ROWS - 1) s.spaceshipCol = EMPTY
    rw [cell_setCell, if_neg (fun h => hne h.2.symm)]
    show (s.setCell (ROWS - 1) s.spaceshipCol EMPTY).cell (ROWS - 1) s.spaceshipCol = EMPTY
    rw [cell_setCell, if_pos ⟨rfl, rfl⟩]
    rfl
  · show (State.setCell _ (ROWS - 1) c2 SPACESHIP).cell r3 c3 = s.cell r3 c3
    rw [cell_setCell, if_neg h1]
    show (s.setCell (ROWS - 1) s.spaceshipCol EMPTY).cell r3 c3 = s.cell r3 c3
    rw [cell_setCell, if_neg h2]

/-! ## The menu cursor -/

/-- The cursor condition only reads the lifecycle state and the cursor. -/
theorem cursor_of_eq {s t : State} (h : CursorOK s) (e1 : t.currentState = s.currentState)
    (e2 : t.selectedMenuItem = s.selectedMenuItem) : CursorOK t := by
  unfold CursorOK at *
  rw [e1, e2]
  exact h

/-- A state outside the four menus has nothing to satisfy. -/
theorem cursor_free (X : Nat) {t : State} (e : t.currentState = X) (h1 : X ≠ STATE_MENU)
    (h2 : X ≠ STATE_PAUSED) (h3 : X ≠ STATE_GAME_OVER) (h4 : X ≠ STATE_VICTORY) :
    CursorOK t := by
  unfold CursorOK
  rw [e]
  exact ⟨fun e => absurd e h1, fun e => absurd e h2, fun e => absurd e h3,
    fun e => absurd e h4⟩

/-- Cursor 0 is within every menu. -/
theorem cursor_zero {t : State} (h : t.selectedMenuItem = 0) : CursorOK t := by
  unfold CursorOK
  rw [h]
  exact ⟨fun _ => by decide, fun _ => by decide, fun _ => by decide, fun _ => by decide⟩

/-- The cursor after Up or Down in a menu of `n` items. -/
theorem tmod_range (a n : Int) (ha : 0 ≤ a) (hn : 0 < n) : 0 ≤ a.tmod n ∧ a.tmod n ≤ n - 1 := by
  have h1 := Int.tmod_nonneg n ha
  have h2 := Int.tmod_lt_of_pos a hn
  exact ⟨h1, by omega⟩

/-- The Playing block keeps the cursor within the menu. -/
theorem kept_cursor : Kept CursorOK where
  same := fun _ _ h e1 e2 _ _ _ _ _ _ _ _ => cursor_of_eq h e1 e2
  move := fun _ _ _ h => cursor_of_eq h rfl rfl
  lose := fun s h => by
    unfold loseLife
    dsimp only
    split
    · exact cursor_zero rfl
    · exact cursor_of_eq h rfl rfl
  gain := fun _ _ _ h => cursor_of_eq h rfl rfl
  check := fun s h => by
    unfold checkLevelUp
    dsimp only
    split
    · exact cursor_free STATE_LEVEL_UP rfl (by decide) (by decide) (by decide) (by decide)
    · split
      · exact cursor_zero rfl
      · exact h
  trigger := fun s row col h => by
    have e := triggerHitEffect_eq s row col
    obtain ⟨a, b, c, d, e2⟩ := e
    rw [e2]
    exact cursor_of_eq h rfl rfl
  update := fun _ h => cursor_of_eq h rfl rfl

/-- The cursor after Up or Down stays within a menu of `n` items. -/
theorem cursor_step {s t : State} (n : Int) (hn : 0 < n) (hs : 0 ≤ s.selectedMenuItem)
    (e1 : t.currentState = s.currentState)
    (hst : s.currentState = STATE_MENU ∧ n = 4 ∨ s.currentState = STATE_PAUSED ∧ n = 3 ∨
      s.currentState = STATE_GAME_OVER ∧ n = 2 ∨ s.currentState = STATE_VICTORY ∧ n = 2)
    (hsel : t.selectedMenuItem = (s.selectedMenuItem - 1 + n).tmod n ∨
      t.selectedMenuItem = (s.selectedMenuItem + 1).tmod n) : CursorOK t := by
  have hr : 0 ≤ t.selectedMenuItem ∧ t.selectedMenuItem ≤ n - 1 := by
    rcases hsel with e | e
    · rw [e]
      exact tmod_range _ n (by omega) hn
    · rw [e]
      exact tmod_range _ n (by omega) hn
  unfold CursorOK
  rw [e1]
  rcases hst with ⟨h, rfl⟩ | ⟨h, rfl⟩ | ⟨h, rfl⟩ | ⟨h, rfl⟩
  all_goals
    rw [h]
    refine ⟨fun e => ?_, fun e => ?_, fun e => ?_, fun e => ?_⟩
    all_goals first
      | exact absurd e (by decide)
      | exact ⟨hr.1, by omega⟩

theorem cursor_menuFrame (s : State) (h : CursorOK s) (hst : s.currentState = STATE_MENU)
    (inp : Input) : CursorOK (menuFrame s inp) := by
  have h0 := (h.1 hst).1
  unfold menuFrame
  dsimp only
  split
  · split
    · exact cursor_step 4 (by decide) h0 rfl (Or.inl ⟨hst, rfl⟩) (Or.inl rfl)
    · split
      · exact cursor_step 4 (by decide) h0 rfl (Or.inl ⟨hst, rfl⟩) (Or.inr rfl)
      · split
        · split
          · exact cursor_free STATE_PLAYING (t := { startGame s with menuClock := 0 }) rfl (by decide)
              (by decide) (by decide) (by decide)
          · split
            · exact cursor_free STATE_INSTRUCTIONS
                (t := { s with currentState := STATE_INSTRUCTIONS, menuClock := 0 }) rfl (by decide) (by decide) (by decide) (by decide)
            · split
              · exact cursor_of_eq h rfl rfl
              · exact cursor_of_eq h rfl rfl
        · exact h
  · exact h

theorem cursor_gameOverFrame (s : State) (h : CursorOK s)
    (hst : s.currentState = STATE_GAME_OVER) (inp : Input) :
    CursorOK (gameOverFrame s inp) := by
  have h0 := (h.2.2.1 hst).1
  unfold gameOverFrame
  dsimp only
  split
  · split
    · exact cursor_step 2 (by decide) h0 rfl (Or.inr (Or.inr (Or.inl ⟨hst, rfl⟩))) (Or.inl rfl)
    · split
      · exact cursor_step 2 (by decide) h0 rfl (Or.inr (Or.inr (Or.inl ⟨hst, rfl⟩)))
          (Or.inr rfl)
      · split
        · split
          · exact cursor_free STATE_PLAYING (t := { startGame s with menuClock := 0 }) rfl (by decide)
              (by decide) (by decide) (by decide)
          · split
            · exact cursor_zero rfl
            · exact cursor_of_eq h rfl rfl
        · exact h
  · exact h

theorem cursor_victoryFrame (s : State) (h : CursorOK s)
    (hst : s.currentState = STATE_VICTORY) (inp : Input) :
    CursorOK (victoryFrame s inp) := by
  have h0 := (h.2.2.2 hst).1
  unfold victoryFrame
  dsimp only
  split
  · split
    · exact cursor_step 2 (by decide) h0 rfl (Or.inr (Or.inr (Or.inr ⟨hst, rfl⟩))) (Or.inl rfl)
    · split
      · exact cursor_step 2 (by decide) h0 rfl (Or.inr (Or.inr (Or.inr ⟨hst, rfl⟩)))
          (Or.inr rfl)
      · split
        · split
          · exact cursor_free STATE_PLAYING
              (t := { startGame { s with isInvincible := false } with menuClock := 0 }) rfl
              (by decide) (by decide) (by decide) (by decide)
          · split
            · exact cursor_zero rfl
            · exact cursor_of_eq h rfl rfl
        · exact h
  · exact h

theorem cursor_pausedFrame (s : State) (h : CursorOK s)
    (hst : s.currentState = STATE_PAUSED) (inp : Input) :
    CursorOK (pausedFrame s inp) := by
  have h0 := (h.2.1 hst).1
  unfold pausedFrame
  dsimp only
  split
  · split
    · exact cursor_step 3 (by decide) h0 rfl (Or.inr (Or.inl ⟨hst, rfl⟩)) (Or.inl rfl)
    · split
      · exact cursor_step 3 (by decide) h0 rfl (Or.inr (Or.inl ⟨hst, rfl⟩)) (Or.inr rfl)
      · split
        · split
          · exact cursor_free STATE_PLAYING (t := { s with currentState := STATE_PLAYING, menuClock := 0 })
              rfl (by decide) (by decide) (by decide) (by decide)
          · split
            · exact cursor_free STATE_PLAYING (t := { restartLevel s with menuClock := 0 }) rfl (by decide)
                (by decide) (by decide) (by decide)
            · split
              · exact cursor_zero rfl
              · exact cursor_of_eq h rfl rfl
        · split
          · exact cursor_free STATE_PLAYING (t := { s with currentState := STATE_PLAYING, menuClock := 0 })
              rfl (by decide) (by decide) (by decide) (by decide)
          · exact h
  · exact h

theorem cursor_instructionsFrame (s : State) (h : CursorOK s) (inp : Input) :
    CursorOK (instructionsFrame s inp) := by
  unfold instructionsFrame
  split
  · split
    · exact cursor_zero rfl
    · exact h
  · exact h

theorem cursor_levelUpFrame (s : State) (h : CursorOK s) : CursorOK (levelUpFrame s) := by
  unfold levelUpFrame
  dsimp only
  split
  · split
    · exact cursor_free STATE_PLAYING rfl (by decide) (by decide) (by decide) (by decide)
    · exact cursor_of_eq h rfl rfl
  · split
    · exact cursor_free STATE_PLAYING rfl (by decide) (by decide) (by decide) (by decide)
    · exact h

theorem cursor_pauseInput (s : State) (hst : s.currentState = STATE_PLAYING) (inp : Input) :
    CursorOK (pauseInput s inp) := by
  unfold pauseInput
  split
  · split
    · exact cursor_zero rfl
    · exact cursor_free STATE_PLAYING hst (by decide) (by decide) (by decide) (by decide)
  · exact cursor_free STATE_PLAYING hst (by decide) (by decide) (by decide) (by decide)

theorem cursor_updateBlock (s : State) (h : CursorOK s) (inp : Input) :
    CursorOK (updateBlock s inp) := by
  unfold updateBlock
  split
  · rename_i e
    exact cursor_menuFrame s h e inp
  · split
    · rename_i e
      exact cursor_gameOverFrame s h e inp
    · split
      · exact cursor_instructionsFrame s h inp
      · split
        · rename_i e
          exact kept_playingFrame kept_cursor s inp (cursor_pauseInput s e inp)
        · split
          · exact cursor_levelUpFrame s h
          · split
            · rename_i e
              exact cursor_victoryFrame s h e inp
            · split
              · rename_i e
                exact cursor_pausedFrame s h e inp
              · exact h

/-- A frame keeps the cursor within the menu. -/
theorem cursor_frame (s : State) (h : CursorOK s) (inp : Input) : CursorOK (frame s inp) := by
  obtain ⟨s2, hs2, e⟩ := frame_entry s inp
  rw [e]
  have h2 : CursorOK (s.advanceClocks inp.dt) := cursor_of_eq h rfl rfl
  rcases hs2 with rfl | rfl
  · exact cursor_updateBlock (s.advanceClocks inp.dt) h2 inp
  · exact cursor_updateBlock { s.advanceClocks inp.dt with windowOpen := false }
      (cursor_of_eq h rfl rfl) inp

/-- The cursor lies within the menu in every reachable state. -/
theorem reachable_cursor {s : State} (h : Reachable s) : CursorOK s := by
  induction h with
  | init r1 r2 r3 => exact cursor_zero rfl
  | step s inp _ _ ih => exact cursor_frame s ih inp

/-! ## The edges of the bottom row, and the frames outside play -/

/-- The movement block with no key of the other direction held, at the edge. -/
theorem playerMove_edge (s : State) (inp : Input) :
    (s.spaceshipCol = 0 → (inp.keyRight || inp.keyD) = false → playerMove s inp = s) ∧
    (s.spaceshipCol = COLS - 1 → (inp.keyLeft || inp.keyA) = false → playerMove s inp = s) := by
  refine ⟨fun h0 hr => ?_, fun h14 hl => ?_⟩
  · unfold playerMove
    split
    · rw [if_neg (fun h => by have := h.2; omega), if_neg (fun h => by rw [hr] at h; exact absurd h.1 (by decide))]
    · rfl
  · unfold playerMove
    split
    · rw [if_neg (fun h => by rw [hl] at h; exact absurd h.1 (by decide)),
        if_neg (fun h => by have := h.2; omega)]
    · rfl

/-- The Menu block keeps the board unless its Enter branch runs on item 0. -/
theorem board_menuFrame (s : State) (inp : Input)
    (h : ¬(menuCooldown ≤ s.menuClock ∧ inp.keyEnter = true ∧
      (inp.keyUp || inp.keyW) = false ∧ (inp.keyDown || inp.keyS) = false ∧
      s.selectedMenuItem = 0)) : SameBoard s (menuFrame s inp) := by
  unfold menuFrame
  dsimp only
  repeat' split
  all_goals first
    | (exfalso; apply h; simp_all; done)
    | exact ⟨rfl, rfl, rfl, rfl, rfl⟩

/-- The Game Over block keeps the board unless its Enter branch runs on item 0. -/
theorem board_gameOverFrame (s : State) (inp : Input)
    (h : ¬(menuCooldown ≤ s.menuClock ∧ inp.keyEnter = true ∧
      (inp.keyUp || inp.keyW) = false ∧ (inp.keyDown || inp.keyS) = false ∧
      s.selectedMenuItem = 0)) : SameBoard s (gameOverFrame s inp) := by
  unfold gameOverFrame
  dsimp only
  repeat' split
  all_goals first
    | (exfalso; apply h; simp_all; done)
    | exact ⟨rfl, rfl, rfl, rfl, rfl⟩

/-- The Victory block keeps the board unless its Enter branch runs on item 0. -/
theorem board_victoryFrame (s : State) (inp : Input)
    (h : ¬(menuCooldown ≤ s.menuClock ∧ inp.keyEnter = true ∧
      (inp.keyUp || inp.keyW) = false ∧ (inp.keyDown || inp.keyS) = false ∧
      s.selectedMenuItem = 0)) : SameBoard s (victoryFrame s inp) := by
  unfold victoryFrame
  dsimp only
  repeat' split
  all_goals first
    | (exfalso; apply h; simp_all; done)
    | exact ⟨rfl, rfl, rfl, rfl, rfl⟩

/-- The Instructions block keeps the board. -/
theorem board_instructionsFrame (s : State) (inp : Input) :
    SameBoard s (instructionsFrame s inp) := by
  unfold instructionsFrame
  repeat' split
  all_goals exact ⟨rfl, rfl, rfl, rfl, rfl⟩

/-- The Level Up block keeps the board, stays in Level Up or resumes play, and
resumes exactly when the hold timer has reached 2 s. -/
theorem levelUpFrame_hold (s : State) (hst : s.currentState = STATE_LEVEL_UP) :
    SameBoard s (levelUpFrame s) ∧
      ((levelUpFrame s).currentState = STATE_LEVEL_UP ∨
        (levelUpFrame s).currentState = STATE_PLAYING) ∧
      ((levelUpFrame s).currentState = STATE_PLAYING ↔ 2000000 ≤ s.levelUpTimer) := by
  unfold levelUpFrame
  dsimp only
  by_cases hb : s.levelUpBlinkClock ≥ 300000
  · rw [if_pos hb]
    by_cases ht : s.levelUpTimer ≥ 2000000
    · rw [if_pos ht]
      exact ⟨⟨rfl, rfl, rfl, rfl, rfl⟩, Or.inr rfl, fun _ => ht, fun _ => rfl⟩
    · rw [if_neg ht]
      refine ⟨⟨rfl, rfl, rfl, rfl, rfl⟩, Or.inl hst, fun e => ?_, fun e => absurd e ht⟩
      have e2 : s.currentState = STATE_PLAYING := e
      rw [hst] at e2
      exact absurd e2 (by decide)
  · rw [if_neg hb]
    by_cases ht : s.levelUpTimer ≥ 2000000
    · rw [if_pos ht]
      exact ⟨⟨rfl, rfl, rfl, rfl, rfl⟩, Or.inr rfl, fun _ => ht, fun _ => rfl⟩
    · rw [if_neg ht]
      refine ⟨⟨rfl, rfl, rfl, rfl, rfl⟩, Or.inl hst, fun e => ?_, fun e => absurd e ht⟩
      rw [hst] at e
      exact absurd e (by decide)

theorem updateBlock_instructions (s : State) (inp : Input)
    (h : s.currentState = STATE_INSTRUCTIONS) : updateBlock s inp = instructionsFrame s inp := by
  unfold updateBlock
  rw [h]
  rfl

theorem updateBlock_levelUp (s : State) (inp : Input) (h : s.currentState = STATE_LEVEL_UP) :
    updateBlock s inp = levelUpFrame s := by
  unfold updateBlock
  rw [h]
  rfl

/-- The menus of Menu, Game Over and Victory keep the board unless Enter runs on
item 0. -/
theorem board_updateBlock (s : State) (inp : Input)
    (hst : s.currentState = STATE_MENU ∨ s.currentState = STATE_GAME_OVER ∨
      s.currentState = STATE_VICTORY)
    (h : ¬(menuCooldown ≤ s.menuClock ∧ inp.keyEnter = true ∧
      (inp.keyUp || inp.keyW) = false ∧ (inp.keyDown || inp.keyS) = false ∧
      s.selectedMenuItem = 0)) : SameBoard s (updateBlock s inp) := by
  rcases hst with e | e | e
  · rw [updateBlock_menu s inp e]
    exact board_menuFrame s inp h
  · rw [updateBlock_gameOver s inp e]
    exact board_gameOverFrame s inp h
  · rw [updateBlock_victory s inp e]
    exact board_victoryFrame s inp h

/-! ## The descent of an Enemy -/

/-- The bottom-up scan visits the cells in scan order. -/
theorem scanBottomUp_sorted : scanBottomUp.Pairwise After := by
  unfold scanBottomUp
  rw [List.pairwise_flatMap]
  refine ⟨fun r _ => ?_, ?_⟩
  · rw [List.pairwise_map]
    exact (List.pairwise_lt_range COLS).imp (fun h => Or.inr ⟨rfl, h⟩)
  · rw [List.pairwise_reverse]
    refine (List.pairwise_lt_range ROWS).imp ?_
    intro a b hab x hx y hy
    simp only [List.mem_map, List.mem_range] at hx hy
    obtain ⟨_, _, rfl⟩ := hx
    obtain ⟨_, _, rfl⟩ := hy
    exact Or.inl hab

/-- A loop over a sorted scan in which only the cell `p` makes the body act,
and after it no later cell does, is the body at `p`. -/
theorem scan_single {R : Nat × Nat → Nat × Nat → Prop} (l : List (Nat × Nat))
    (hl : l.Pairwise R) (body : State → Nat × Nat → State) (s t : State) (p : Nat × Nat)
    (hm : p ∈ l) (hp : body s p = t) (hb : ∀ q ∈ l, q ≠ p → body s q = s)
    (ha : ∀ q ∈ l, R p q → body t q = t) : forCells l body s = t := by
  induction l with
  | nil => cases hm
  | cons a l ih =>
    rw [forCells_eq, List.foldl_cons, ← forCells_eq]
    rw [List.pairwise_cons] at hl
    by_cases e : a = p
    · subst e
      rw [hp]
      exact forCells_skip l body t
        (fun q hq => ha q (List.mem_cons_of_mem _ hq) (hl.1 q hq))
    · rw [hb a (List.mem_cons_self _ _) e]
      apply ih hl.2
      · rcases List.mem_cons.1 hm with h | h
        · exact absurd h.symm e
        · exact h
      · exact fun q hq => hb q (List.mem_cons_of_mem _ hq)
      · exact fun q hq => ha q (List.mem_cons_of_mem _ hq)

/-- When due, the Enemy mover runs one tick. -/
theorem enemyMove_due (s : State) (h : enemyMoveSpeed s.level ≤ (s.enemyMoveClock : Int)) :
    enemyMove s = enemyTick s := by
  unfold enemyMove enemyTick
  rw [if_pos h]

/-- The progression check puts no entity of a class other than the Player on
the grid. -/
theorem checkLevelUp_without (X : Nat) (h0 : X ≠ EMPTY) (h1 : X ≠ SPACESHIP) (u : State)
    (r c : Nat) (h : u.cell r c ≠ X) : (checkLevelUp u).cell r c ≠ X := by
  unfold checkLevelUp
  dsimp only
  split
  · show Grid.get _ r c ≠ X
    rw [Grid.get_set, Grid.get_set, clearEntities_get]
    have h2 : u.grid.get r c ≠ X := h
    repeat' split
    all_goals first
      | exact fun e => h1 e.symm
      | exact fun e => h0 e.symm
      | exact h2
  · split
    · exact h
    · exact h

/-- An Enemy step leaves a cell other than its source and its target without
an Enemy if it held none. -/
theorem enemyStep_noEnemy (s : State) (r c r2 c2 : Nat) (h1 : ¬(r2 = r ∧ c2 = c))
    (h2 : ¬(r2 = r + 1 ∧ c2 = c)) (h : s.cell r2 c2 ≠ ENEMY) :
    (enemyStep s r c).cell r2 c2 ≠ ENEMY := by
  have e1 : (s.setCell r c EMPTY).cell r2 c2 = s.cell r2 c2 := by
    rw [cell_setCell, if_neg h1]
  have e2 : ∀ (u : State) (v : Nat), u.cell r2 c2 = s.cell r2 c2 →
      (u.setCell (r + 1) c v).cell r2 c2 = s.cell r2 c2 := by
    intro u v hu
    rw [cell_setCell, if_neg h2, hu]
  unfold enemyStep
  dsimp only
  split
  · rw [loseLife_cell, e1]; exact h
  · split
    · rw [e2 _ _ e1]; exact h
    · split
      · split
        · rw [e2 _ _ ((loseLife_cell _ _ _).trans e1)]; exact h
        · rw [e2 _ _ e1]; exact h
      · split
        · apply checkLevelUp_without ENEMY (by decide) (by decide)
          rw [trigger_cell]
          exact (e2 _ _ e1).trans_ne h
        · rw [e1]; exact h

/-- A tick of the Enemy mover with a single Enemy on the board. -/
theorem enemyTick_single (s t : State) (r p : Nat) (hr : r < ROWS) (hp : p < COLS)
    (h : EnemyAt s t r p) (hn : NoEnemies s) :
    enemyTick t = { enemyStep t r p with enemyMoveClock := 0 } := by
  have hc : t.cell r p = ENEMY := by rw [h.1, if_pos ⟨rfl, rfl⟩]
  have ho : ∀ q : Nat × Nat, q ∈ scanBottomUp → q ≠ (r, p) → t.cell q.1 q.2 ≠ ENEMY := by
    intro q hq hne
    rw [h.1, if_neg (fun x => hne (Prod.ext x.1 x.2))]
    exact hn q.1 ((mem_scanBottomUp _).1 hq).1 q.2 ((mem_scanBottomUp _).1 hq).2
  unfold enemyTick
  rw [scan_single scanBottomUp scanBottomUp_sorted enemyCell t (enemyStep t r p) (r, p)
    ((mem_scanBottomUp _).2 ⟨hr, hp⟩) (if_pos hc)
    (fun q hq hne => if_neg (ho q hq hne))]
  intro q hq hR
  apply if_neg
  apply enemyStep_noEnemy
  · rintro ⟨a, b⟩
    rcases hR with x | ⟨x, y⟩
    · simp only at x; omega
    · simp only at y; omega
  · rintro ⟨a, b⟩
    rcases hR with x | ⟨x, y⟩
    · simp only at x; omega
    · simp only at x; omega
  · apply ho q hq
    rintro rfl
    rcases hR with x | ⟨x, y⟩
    · simp only at x; omega
    · simp only at y; omega

/-- Putting an Enemy on an Empty cell. -/
theorem enemyAt_put (s : State) (r p : Nat) : EnemyAt s (s.setCell r p ENEMY) r p := by
  refine ⟨fun r2 c2 => ?_, rfl, rfl, rfl, rfl, rfl, rfl, rfl, rfl, rfl⟩
  rw [cell_setCell]
  rfl

/-- A tick with the cell below the Enemy Empty moves the Enemy down. -/
theorem enemyAt_tick (s t : State) (r p : Nat) (hr : r + 1 < ROWS) (hp : p < COLS)
    (h : EnemyAt s t r p) (hn : NoEnemies s) (he : s.cell r p = EMPTY)
    (hb : s.cell (r + 1) p = EMPTY) : EnemyAt s (enemyTick t) (r + 1) p := by
  rw [enemyTick_single s t r p (by omega) hp h hn]
  have hne : ¬(r + 1 = r ∧ p = p) := by omega
  have e : enemyStep t r p = (t.setCell r p EMPTY).setCell (r + 1) p ENEMY := by
    unfold enemyStep
    dsimp only
    rw [if_neg (not_last_row hr), if_pos]
    left
    rw [cell_setCell, if_neg hne, h.1, if_neg hne]
    exact hb
  rw [e]
  obtain ⟨h1, h2, h3, h4, h5, h6, h7, h8, h9, h10⟩ := h
  refine ⟨fun r2 c2 => ?_, h2, h3, h4, h5, h6, h7, h8, h9, h10⟩
  show ((t.setCell r p EMPTY).setCell (r + 1) p ENEMY).cell r2 c2 = _
  rw [cell_setCell, cell_setCell, h1]
  by_cases c1 : r2 = r + 1 ∧ c2 = p
  · rw [if_pos c1, if_pos c1]; rfl
  · rw [if_neg c1, if_neg c1]
    by_cases c3 : r2 = r ∧ c2 = p
    · rw [if_pos c3, c3.1, c3.2, he]; rfl
    · rw [if_neg c3, if_neg c3]

/-- The ticks of the Enemy mover, one more. -/
theorem enemyTicks_succ (s : State) (n : Nat) :
    enemyTicks s (n + 1) = enemyTick (enemyTicks s n) := rfl

/-- Down an Empty column the Enemy descends one row per tick. -/
theorem enemyAt_ticks (s : State) (p : Nat) (hp : p < COLS) (hn : NoEnemies s)
    (hcol : ∀ r, r < ROWS → s.cell r p = EMPTY) (k : Nat) (hk : k < ROWS) :
    EnemyAt s (enemyTicks (s.setCell 0 p ENEMY) k) k p := by
  induction k with
  | zero => exact enemyAt_put s 0 p
  | succ k ih =>
    rw [enemyTicks_succ]
    exact enemyAt_tick s _ k p hk hp (ih (by omega)) hn (hcol k (by omega)) (hcol (k + 1) hk)

/-- The tick that takes the Enemy out of the bottom row. -/
theorem enemyAt_exit (s t : State) (p : Nat) (hp : p < COLS) (h : EnemyAt s t (ROWS - 1) p)
    (hn : NoEnemies s) (he : s.cell (ROWS - 1) p = EMPTY) :
    (∀ r2 c2, (enemyTick t).cell r2 c2 = s.cell r2 c2) ∧ LifeLost s (enemyTick t) ∧
      (enemyTick t).score = s.score ∧ (enemyTick t).level = s.level := by
  rw [enemyTick_single s t (ROWS - 1) p (by decide) hp h hn]
  have e : enemyStep t (ROWS - 1) p = loseLife (t.setCell (ROWS - 1) p EMPTY) := by
    unfold enemyStep
    rw [if_pos rfl]
  rw [e]
  obtain ⟨h1, h2, h3, h4, h5, h6, _⟩ := h
  have f := loseLife_fields (t.setCell (ROWS - 1) p EMPTY)
  have g := loseLife_lost (t.setCell (ROWS - 1) p EMPTY)
  refine ⟨fun r2 c2 => ?_, ⟨?_, g.2.1, g.2.2.1, g.2.2.2.1, fun x => ?_⟩, ?_, ?_⟩
  · show (loseLife (t.setCell (ROWS - 1) p EMPTY)).cell r2 c2 = _
    rw [loseLife_cell, cell_setCell, h1]
    by_cases c1 : r2 = ROWS - 1 ∧ c2 = p
    · rw [if_pos c1, c1.1, c1.2, he]; rfl
    · rw [if_neg c1, if_neg c1]
  · exact g.1.trans (by show t.lives - 1 = s.lives - 1; rw [h2])
  · exact (g.2.2.2.2 x).trans h5
  · exact f.2.1.trans h3
  · exact f.2.2.1.trans h4

/-! ## A tick of the Meteor mover on a grid of Meteors -/

/-- Where the cell `p` stands in a bottom-up scan that has come to it. -/
theorem bottomUp_split (done rest : List (Nat × Nat)) (p : Nat × Nat)
    (e : done ++ p :: rest = scanBottomUp) :
    (p.1 < ROWS ∧ p.2 < COLS) ∧ p ∉ done ∧ (p.1 + 1 < ROWS → (p.1 + 1, p.2) ∈ done) ∧
      (0 < p.1 → (p.1 - 1, p.2) ∉ done) := by
  have hs := scanBottomUp_sorted
  rw [← e, List.pairwise_append, List.pairwise_cons] at hs
  obtain ⟨_, ⟨h2, _⟩, h3⟩ := hs
  have hd : ∀ a ∈ done, After a p := fun a ha => h3 a ha p (List.mem_cons_self _ _)
  have hp : p ∈ scanBottomUp := by rw [← e]; simp
  have hb := (mem_scanBottomUp p).1 hp
  refine ⟨hb, fun hm => ?_, fun hr => ?_, fun h0 hm => ?_⟩
  · rcases hd p hm with x | ⟨_, x⟩ <;> omega
  · have hq : (p.1 + 1, p.2) ∈ scanBottomUp := (mem_scanBottomUp _).2 ⟨hr, hb.2⟩
    rw [← e] at hq
    rcases List.mem_append.1 hq with x | x
    · exact x
    · exfalso
      rcases List.mem_cons.1 x with y | y
      · have := congrArg Prod.fst y
        simp only at this
        omega
      · rcases h2 _ y with z | ⟨z, _⟩
        · simp only at z; omega
        · simp only at z; omega
  · rcases hd _ hm with x | ⟨x, _⟩
    · simp only at x; omega
    · simp only at x; omega

/-- One more cell of the Meteor loop. -/
theorem shiftedDown_step (s0 s : State) (done : List (Nat × Nat)) (p : Nat × Nat)
    (hf : MeteorField s0) (hb : p.1 < ROWS ∧ p.2 < COLS) (h1 : p ∉ done)
    (h2 : p.1 + 1 < ROWS → (p.1 + 1, p.2) ∈ done) (h3 : 0 < p.1 → (p.1 - 1, p.2) ∉ done)
    (h : ShiftedDown s0 done s) : ShiftedDown s0 (done ++ [p]) (meteorCell s p) := by
  obtain ⟨r, c⟩ := p
  simp only at hb h2 h3
  obtain ⟨hg, hh⟩ := h
  have hs : s.cell r c = s0.cell r c := by rw [hg r hb.1 c hb.2, if_neg h1]
  have hbelow : r + 1 < ROWS → s.cell (r + 1) c = EMPTY := by
    intro hr
    rw [hg (r + 1) hr c hb.2, if_pos (h2 hr), if_neg]
    rintro ⟨_, x⟩
    exact h1 x
  -- what the grid has to be once `(r, c)` is visited
  have want : ∀ r2, r2 < ROWS → ∀ c2, c2 < COLS →
      (if (r2, c2) ∈ done ++ [(r, c)] then
          (if 0 < r2 ∧ (r2 - 1, c2) ∈ done ++ [(r, c)] then s0.cell (r2 - 1) c2 else EMPTY)
        else s0.cell r2 c2)
      = if r2 = r ∧ c2 = c then EMPTY
        else if r2 = r + 1 ∧ c2 = c then s0.cell r c else s.cell r2 c2 := by
    intro r2 hr2 c2 hc2
    by_cases e1 : r2 = r ∧ c2 = c
    · rw [e1.1, e1.2]
      have m1 : (r, c) ∈ done ++ [(r, c)] := by simp
      have m2 : ¬(0 < r ∧ (r - 1, c) ∈ done ++ [(r, c)]) := by
        rintro ⟨x, y⟩
        rcases List.mem_append.1 y with z | z
        · exact h3 x z
        · have := congrArg Prod.fst (List.mem_singleton.1 z)
          simp only at this
          omega
      have m3 : r = r ∧ c = c := ⟨rfl, rfl⟩
      rw [if_pos m1, if_neg m2, if_pos m3]
    · rw [if_neg e1]
      by_cases e2 : r2 = r + 1 ∧ c2 = c
      · rw [e2.1, e2.2]
        rw [e2.1] at hr2
        have m1 : (r + 1, c) ∈ done ++ [(r, c)] := List.mem_append_left _ (h2 hr2)
        have m2 : 0 < r + 1 ∧ (r + 1 - 1, c) ∈ done ++ [(r, c)] := ⟨by omega, by simp⟩
        have m3 : r + 1 = r + 1 ∧ c = c := ⟨rfl, rfl⟩
        rw [if_pos m1, if_pos m2, if_pos m3]
        rfl
      · rw [if_neg e2, hg r2 hr2 c2 hc2]
        have m1 : (r2, c2) ∈ done ++ [(r, c)] ↔ (r2, c2) ∈ done := by
          simp only [List.mem_append, List.mem_singleton, Prod.mk.injEq]
          exact ⟨fun x => x.resolve_right e1, Or.inl⟩
        have m2 : (0 < r2 ∧ (r2 - 1, c2) ∈ done ++ [(r, c)]) ↔
            (0 < r2 ∧ (r2 - 1, c2) ∈ done) := by
          simp only [List.mem_append, List.mem_singleton, Prod.mk.injEq]
          constructor
          · rintro ⟨x, y | y⟩
            · exact ⟨x, y⟩
            · exact absurd ⟨by omega, y.2⟩ e2
          · rintro ⟨x, y⟩
            exact ⟨x, Or.inl y⟩
        simp only [m1, m2]
  have hud : ∀ t : State, t.lives = s.lives → t.score = s.score → t.level = s.level →
      t.currentState = s.currentState → t.isInvincible = s.isInvincible →
      t.hitEffectActive = s.hitEffectActive → t.hitEffectTimer = s.hitEffectTimer →
      t.hitEffectRow = s.hitEffectRow → t.hitEffectCol = s.hitEffectCol → SameHud s0 t := by
    intro t a1 a2 a3 a4 a5 a6 a7 a8 a9
    obtain ⟨b1, b2, b3, b4, b5, b6, b7, b8, b9⟩ := hh
    exact ⟨a1.trans b1, a2.trans b2, a3.trans b3, a4.trans b4, a5.trans b5, a6.trans b6,
      a7.trans b7, a8.trans b8, a9.trans b9⟩
  by_cases hm : s.cell r c = METEOR
  · have e : meteorCell s (r, c) = meteorStep s r c := if_pos hm
    rw [e]
    by_cases hl : r = ROWS - 1
    · have e2 : meteorStep s r c = s.setCell r c EMPTY := by
        unfold meteorStep
        rw [if_pos hl]
      rw [e2]
      refine ⟨fun r2 hr2 c2 hc2 => ?_, hud _ rfl rfl rfl rfl rfl rfl rfl rfl rfl⟩
      rw [want r2 hr2 c2 hc2, cell_setCell]
      by_cases e1 : r2 = r ∧ c2 = c
      · rw [if_pos e1, if_pos e1]; rfl
      · rw [if_neg e1, if_neg e1, if_neg]
        rintro ⟨x, _⟩
        have hR : ROWS = 23 := rfl
        omega
    · have hr1 : r + 1 < ROWS := by
        have hR : ROWS = 23 := rfl
        omega
      have e2 : meteorStep s r c = (s.setCell r c EMPTY).setCell (r + 1) c METEOR := by
        unfold meteorStep
        dsimp only
        rw [if_neg hl, if_pos]
        left
        rw [cell_setCell, if_neg (by omega), hbelow hr1]
      rw [e2]
      refine ⟨fun r2 hr2 c2 hc2 => ?_, hud _ rfl rfl rfl rfl rfl rfl rfl rfl rfl⟩
      rw [want r2 hr2 c2 hc2, cell_setCell, cell_setCell, ← hs, hm]
      by_cases e1 : r2 = r ∧ c2 = c
      · rw [if_pos e1, if_neg (by omega), if_pos e1]; rfl
      · rw [if_neg e1, if_neg e1]
        by_cases e3 : r2 = r + 1 ∧ c2 = c
        · rw [if_pos e3, if_pos e3]; rfl
        · rw [if_neg e3, if_neg e3]
  · have e : meteorCell s (r, c) = s := if_neg hm
    rw [e]
    have h0 : s0.cell r c = EMPTY := by
      rcases hf r hb.1 c hb.2 with x | x
      · exact x
      · exact absurd (hs.trans x) hm
    refine ⟨fun r2 hr2 c2 hc2 => ?_, hh⟩
    rw [want r2 hr2 c2 hc2]
    by_cases e1 : r2 = r ∧ c2 = c
    · rw [if_pos e1, e1.1, e1.2, hs, h0]
    · rw [if_neg e1]
      by_cases e3 : r2 = r + 1 ∧ c2 = c
      · rw [if_pos e3, e3.1, e3.2, h0, hbelow (by omega)]
      · rw [if_neg e3]

/-- The Meteor loop from any point of the scan to its end. -/
theorem shiftedDown_scan (s0 : State) (hf : MeteorField s0) (rest : List (Nat × Nat)) :
    ∀ (done : List (Nat × Nat)) (s : State), done ++ rest = scanBottomUp →
      ShiftedDown s0 done s → ShiftedDown s0 scanBottomUp (rest.foldl meteorCell s) := by
  induction rest with
  | nil =>
    intro done s e h
    rw [List.append_nil] at e
    rw [← e]
    exact h
  | cons p rest ih =>
    intro done s e h
    obtain ⟨hb, h1, h2, h3⟩ := bottomUp_split done rest p e
    rw [List.foldl_cons]
    apply ih (done ++ [p]) _ (by rw [List.append_assoc]; exact e)
    exact shiftedDown_step s0 s done p hf hb h1 h2 h3 h

/-- When due, the Meteor mover runs one tick. -/
theorem meteorMove_due (s : State) (h : 833000 ≤ s.meteorMoveClock) :
    meteorMove s = meteorTick s := by
  unfold meteorMove meteorTick
  rw [if_pos h]

/-! ## A tick of the Player Bullet mover on a grid of Player Bullets -/

/-- Where the cell `p` stands in a top-down scan that has come to it. -/
theorem topDown_split (done rest : List (Nat × Nat)) (p : Nat × Nat)
    (e : done ++ p :: rest = scanTopDown) :
    (p.1 < ROWS ∧ p.2 < COLS) ∧ p ∉ done ∧ (0 < p.1 → (p.1 - 1, p.2) ∈ done) ∧
      (p.1 + 1, p.2) ∉ done := by
  have hs := scanTopDown_sorted
  rw [← e, List.pairwise_append, List.pairwise_cons] at hs
  obtain ⟨_, ⟨h2, _⟩, h3⟩ := hs
  have hd : ∀ a ∈ done, Before a p := fun a ha => h3 a ha p (List.mem_cons_self _ _)
  have hp : p ∈ scanTopDown := by rw [← e]; simp
  have hb := (mem_scanTopDown p).1 hp
  refine ⟨hb, fun hm => ?_, fun hr => ?_, fun hm => ?_⟩
  · rcases hd p hm with x | ⟨_, x⟩ <;> omega
  · have hq : (p.1 - 1, p.2) ∈ scanTopDown := (mem_scanTopDown _).2 ⟨by omega, hb.2⟩
    rw [← e] at hq
    rcases List.mem_append.1 hq with x | x
    · exact x
    · exfalso
      rcases List.mem_cons.1 x with y | y
      · have := congrArg Prod.fst y
        simp only at this
        omega
      · rcases h2 _ y with z | ⟨z, _⟩
        · simp only at z; omega
        · simp only at z; omega
  · rcases hd _ hm with x | ⟨x, _⟩
    · simp only at x; omega
    · simp only at x; omega

/-- One more cell of the Player Bullet loop. -/
theorem shiftedUp_step (s0 s : State) (done : List (Nat × Nat)) (p : Nat × Nat)
    (hf : BulletField s0) (hb : p.1 < ROWS ∧ p.2 < COLS) (h1 : p ∉ done)
    (h2 : 0 < p.1 → (p.1 - 1, p.2) ∈ done) (h3 : (p.1 + 1, p.2) ∉ done)
    (h : ShiftedUp s0 done s) : ShiftedUp s0 (done ++ [p]) (bulletCell s p) := by
  have hR : ROWS = 23 := rfl
  obtain ⟨r, c⟩ := p
  simp only at hb h2 h3
  obtain ⟨hg, hh⟩ := h
  have hs : s.cell r c = s0.cell r c := by rw [hg r hb.1 c hb.2, if_neg h1]
  -- the cell above, already visited, has lost its bullet
  have habove : 0 < r → s.cell (r - 1) c
      = if s0.cell (r - 1) c = BULLET then EMPTY else s0.cell (r - 1) c := by
    intro hr
    have m : ¬((r - 1 + 1, c) ∈ done ∧ s0.cell (r - 1 + 1) c = BULLET) := by
      rintro ⟨x, _⟩
      have e : r - 1 + 1 = r := by omega
      rw [e] at x
      exact h1 x
    rw [hg (r - 1) (by omega) c hb.2, if_pos (h2 hr), if_neg m]
  -- what the grid has to be once `(r, c)` is visited
  have want : ∀ r2, r2 < ROWS → ∀ c2, c2 < COLS →
      (if (r2, c2) ∈ done ++ [(r, c)] then
          (if (r2 + 1, c2) ∈ done ++ [(r, c)] ∧ s0.cell (r2 + 1) c2 = BULLET then BULLET
            else if s0.cell r2 c2 = BULLET then EMPTY else s0.cell r2 c2)
        else s0.cell r2 c2)
      = if r2 = r ∧ c2 = c then (if s0.cell r c = BULLET then EMPTY else s0.cell r c)
        else if r2 + 1 = r ∧ c2 = c then (if s0.cell r c = BULLET then BULLET else s.cell r2 c2)
        else s.cell r2 c2 := by
    intro r2 hr2 c2 hc2
    by_cases e1 : r2 = r ∧ c2 = c
    · rw [e1.1, e1.2]
      have m1 : (r, c) ∈ done ++ [(r, c)] := by simp
      have m2 : ¬((r + 1, c) ∈ done ++ [(r, c)] ∧ s0.cell (r + 1) c = BULLET) := by
        rintro ⟨y, _⟩
        rcases List.mem_append.1 y with z | z
        · exact h3 z
        · have := congrArg Prod.fst (List.mem_singleton.1 z)
          simp only at this
          omega
      have m3 : r = r ∧ c = c := ⟨rfl, rfl⟩
      rw [if_pos m1, if_neg m2, if_pos m3]
    · rw [if_neg e1]
      by_cases e2 : r2 + 1 = r ∧ c2 = c
      · have hr0 : 0 < r := by omega
        have e3 : r2 = r - 1 := by omega
        rw [if_pos e2, e3, e2.2]
        have e4 : r - 1 + 1 = r := by omega
        have m1 : (r - 1, c) ∈ done ++ [(r, c)] := List.mem_append_left _ (h2 hr0)
        have m0 : (r - 1 + 1, c) ∈ done ++ [(r, c)] := by rw [e4]; simp
        rw [if_pos m1, e4]
        rw [e4] at m0
        by_cases hbul : s0.cell r c = BULLET
        · rw [if_pos ⟨m0, hbul⟩, if_pos hbul]
        · rw [if_neg (fun x => hbul x.2), if_neg hbul, habove hr0]
      · rw [if_neg e2, hg r2 hr2 c2 hc2]
        have m1 : (r2, c2) ∈ done ++ [(r, c)] ↔ (r2, c2) ∈ done := by
          simp only [List.mem_append, List.mem_singleton, Prod.mk.injEq]
          exact ⟨fun x => x.resolve_right e1, Or.inl⟩
        have m2 : ((r2 + 1, c2) ∈ done ++ [(r, c)] ∧ s0.cell (r2 + 1) c2 = BULLET) ↔
            ((r2 + 1, c2) ∈ done ∧ s0.cell (r2 + 1) c2 = BULLET) := by
          simp only [List.mem_append, List.mem_singleton, Prod.mk.injEq]
          constructor
          · rintro ⟨y | y, x⟩
            · exact ⟨y, x⟩
            · exact absurd y e2
          · rintro ⟨y, x⟩
            exact ⟨Or.inl y, x⟩
        simp only [m1, m2]
  have hud : ∀ t : State, t.lives = s.lives → t.score = s.score → t.level = s.level →
      t.currentState = s.currentState → t.isInvincible = s.isInvincible →
      t.hitEffectActive = s.hitEffectActive → t.hitEffectTimer = s.hitEffectTimer →
      t.hitEffectRow = s.hitEffectRow → t.hitEffectCol = s.hitEffectCol → SameHud s0 t := by
    intro t a1 a2 a3 a4 a5 a6 a7 a8 a9
    obtain ⟨b1, b2, b3, b4, b5, b6, b7, b8, b9⟩ := hh
    exact ⟨a1.trans b1, a2.trans b2, a3.trans b3, a4.trans b4, a5.trans b5, a6.trans b6,
      a7.trans b7, a8.trans b8, a9.trans b9⟩
  by_cases hm : s.cell r c = BULLET
  · have hm0 : s0.cell r c = BULLET := hs.symm.trans hm
    have hrl : r < ROWS - 1 := by
      by_contra hx
      have e : r = ROWS - 1 := by omega
      rw [e] at hm0
      exact hf.2 c hb.2 hm0
    have e : bulletCell s (r, c) = bulletStep s r c := if_pos hm
    rw [e]
    by_cases hl : r = 0
    · have e2 : bulletStep s r c = s.setCell r c EMPTY := by
        unfold bulletStep
        rw [if_pos hl]
      rw [e2]
      refine ⟨fun r2 hr2 c2 hc2 => ?_, hud _ rfl rfl rfl rfl rfl rfl rfl rfl rfl⟩
      rw [want r2 hr2 c2 hc2, cell_setCell, if_pos hm0]
      by_cases e1 : r2 = r ∧ c2 = c
      · rw [if_pos e1, if_pos e1]; rfl
      · rw [if_neg e1, if_neg e1, if_neg]
        rintro ⟨x, _⟩
        omega
    · have hr0 : 0 < r := by omega
      have hup : s.cell (r - 1) c = EMPTY := by
        rw [habove hr0]
        rcases hf.1 (r - 1) (by omega) c hb.2 with x | x
        · rw [if_neg (by rw [x]; decide), x]
        · rw [if_pos x]
      have e2 : bulletStep s r c = (s.setCell r c EMPTY).setCell (r - 1) c BULLET := by
        unfold bulletStep
        dsimp only
        rw [if_neg hl, if_pos]
        left
        rw [cell_setCell, if_neg (by omega), hup]
      rw [e2]
      refine ⟨fun r2 hr2 c2 hc2 => ?_, hud _ rfl rfl rfl rfl rfl rfl rfl rfl rfl⟩
      rw [want r2 hr2 c2 hc2, cell_setCell, cell_setCell, if_pos hm0, if_pos hm0]
      by_cases e1 : r2 = r ∧ c2 = c
      · rw [if_pos e1, if_neg (by omega), if_pos e1]; rfl
      · rw [if_neg e1, if_neg e1]
        by_cases e3 : r2 + 1 = r ∧ c2 = c
        · rw [if_pos e3, if_pos ⟨by omega, e3.2⟩]; rfl
        · rw [if_neg e3, if_neg (fun x => e3 ⟨by omega, x.2⟩)]
  · have hm0 : ¬ s0.cell r c = BULLET := fun x => hm (hs.trans x)
    have e : bulletCell s (r, c) = s := if_neg hm
    rw [e]
    refine ⟨fun r2 hr2 c2 hc2 => ?_, hh⟩
    rw [want r2 hr2 c2 hc2, if_neg hm0, if_neg hm0]
    by_cases e1 : r2 = r ∧ c2 = c
    · rw [if_pos e1, e1.1, e1.2, hs]
    · rw [if_neg e1]
      by_cases e3 : r2 + 1 = r ∧ c2 = c
      · rw [if_pos e3]
      · rw [if_neg e3]

/-- The Player Bullet loop from any point of the scan to its end. -/
theorem shiftedUp_scan (s0 : State) (hf : BulletField s0) (rest : List (Nat × Nat)) :
    ∀ (done : List (Nat × Nat)) (s : State), done ++ rest = scanTopDown →
      ShiftedUp s0 done s → ShiftedUp s0 scanTopDown (rest.foldl bulletCell s) := by
  induction rest with
  | nil =>
    intro done s e h
    rw [List.append_nil] at e
    rw [← e]
    exact h
  | cons p rest ih =>
    intro done s e h
    obtain ⟨hb, h1, h2, h3⟩ := topDown_split done rest p e
    rw [List.foldl_cons]
    apply ih (done ++ [p]) _ (by rw [List.append_assoc]; exact e)
    exact shiftedUp_step s0 s done p hf hb h1 h2 h3 h

/-! ## The column order under the writes of the Playing block -/

/-- Cells may be emptied, or given to the Player, as long as no Boss that
stands above a Boss Bullet is taken away. -/
theorem cols_remove {g g2 : Grid} {ok : Nat → Nat → Nat → Prop} (h : Cols g ok)
    (hc : ∀ r, r < ROWS → ∀ c, c < COLS → g2.get r c = g.get r c ∨
      ((g2.get r c = EMPTY ∨ g2.get r c = SPACESHIP) ∧
        (g.get r c = BOSS →
          r = ROWS - 1 ∨ (r + 2 = ROWS ∧ g.get (ROWS - 1) c ≠ BOSS_BULLET)))) :
    Cols g2 ok := by
  have hR : ROWS = 23 := rfl
  have ent : ∀ r, r < ROWS → ∀ c, c < COLS → ∀ X, 2 ≤ X → g2.get r c = X → g.get r c = X := by
    intro r hr c hcc X hX e
    rcases hc r hr c hcc with x | ⟨x | x, _⟩
    · rw [← x]; exact e
    · rw [x] at e
      have : (0 : Nat) = X := e
      omega
    · rw [x] at e
      have : (1 : Nat) = X := e
      omega
  have cov : ∀ c, c < COLS → ∀ b, b < ROWS → g.get b c = BOSS_BULLET → ∀ k, k < b →
      g.get k c = BOSS → g2.get k c = BOSS := by
    intro c hcc b hb eb k hk ek
    rcases hc k (by omega) c hcc with x | ⟨_, x⟩
    · rw [x]; exact ek
    · exfalso
      rcases x ek with y | ⟨y, z⟩
      · omega
      · have e : b = ROWS - 1 := by omega
        rw [e] at eb
        exact z eb
  obtain ⟨h1, h2⟩ := h
  refine ⟨fun c hcc b hb eb => ?_, fun c hcc k hk ek p hp ep => ?_⟩
  · have eb2 := ent b hb c hcc BOSS_BULLET (by decide) eb
    obtain ⟨a1, a2, a3⟩ := h1 c hcc b hb eb2
    refine ⟨?_, fun p hp ep => a2 p hp (ent p (by omega) c hcc BULLET (by decide) ep),
      fun r hr er => ?_⟩
    · rcases a1 with x | ⟨k, hk, ek⟩
      · exact Or.inl x
      · exact Or.inr ⟨k, hk, cov c hcc b hb eb2 k hk ek⟩
    · have er1 : g.get r c = g2.get r c := by
        rcases er with x | x
        · rw [x]; exact ent r (by omega) c hcc METEOR (by decide) x
        · rw [x]; exact ent r (by omega) c hcc ENEMY (by decide) x
      have er2 : g.get r c = METEOR ∨ g.get r c = ENEMY := by rw [er1]; exact er
      rcases a3 r hr er2 with ⟨k, hk1, hk2, ek⟩ | ⟨x, y⟩
      · exact Or.inl ⟨k, hk1, hk2, cov c hcc b hb eb2 k hk2 ek⟩
      · exact Or.inr ⟨x, by rw [← er1]; exact y⟩
  · exact h2 c hcc k hk (ent k hk c hcc BOSS (by decide) ek) p hp
      (ent p (by omega) c hcc BULLET (by decide) ep)

/-- The column order only reads the cells of the board. -/
theorem cols_congr {g g2 : Grid} {ok : Nat → Nat → Nat → Prop} (h : Cols g ok)
    (hc : ∀ r, r < ROWS → ∀ c, c < COLS → g2.get r c = g.get r c) : Cols g2 ok :=
  cols_remove h (fun r hr c hcc => Or.inl (hc r hr c hcc))

/-- C1 (fails on the code): a reachable Playing state without any Player cell.
It is the state 23 frames into the game of `lostGameInputs`: one frame
earlier the Player is at (22, 7) with a Meteor right above it, and the Meteor
mover, stepping the Meteor into the Player, writes 0 over the Player cell
(line 797). -/
theorem C1_player_cell_erased :
    Reachable (run (initState 0 0 0) (lostGameInputs.take 24)) ∧
      (run (initState 0 0 0) (lostGameInputs.take 23)).cell 22 7 = SPACESHIP ∧
      (run (initState 0 0 0) (lostGameInputs.take 23)).cell 21 7 = METEOR ∧
      (run (initState 0 0 0) (lostGameInputs.take 24)).currentState = STATE_PLAYING ∧
      ∀ r, r < ROWS → ∀ c, c < COLS →
        (run (initState 0 0 0) (lostGameInputs.take 24)).cell r c ≠ SPACESHIP := by
  have h : (run (initState 0 0 0) (lostGameInputs.take 24)).windowOpen = true ∧
      (run (initState 0 0 0) (lostGameInputs.take 23)).cell 22 7 = SPACESHIP ∧
      (run (initState 0 0 0) (lostGameInputs.take 23)).cell 21 7 = METEOR ∧
      (run (initState 0 0 0) (lostGameInputs.take 24)).currentState = STATE_PLAYING ∧
      ∀ r, r < ROWS → ∀ c, c < COLS →
        (run (initState 0 0 0) (lostGameInputs.take 24)).cell r c ≠ SPACESHIP := by
    decide!
  exact ⟨reachable_run (Reachable.init 0 0 0) _ h.1, h.2⟩

/-- C2 (as stated, fails): the game of `lostGameInputs` ends in a reachable
state with lives = -1. -/
theorem C2_lives_negative :
    Reachable (run (initState 0 0 0) lostGameInputs) ∧
      (run (initState 0 0 0) lostGameInputs).lives = -1 := by
  have h : (run (initState 0 0 0) lostGameInputs).windowOpen = true ∧
      (run (initState 0 0 0) lostGameInputs).lives = -1 := by
    decide!
  exact ⟨reachable_run (Reachable.init 0 0 0) _ h.1, h.2⟩

/-- C2 (amended): in every reachable state lives is at most 3. -/
theorem C2_lives_le_three (s : State) (h : Reachable s) : s.lives ≤ 3 :=
  (reachable_inv h).1.2.2.1

theorem C2_lives_le_three_witness :
    Reachable (frame (initState 0 0 0) startInput) ∧
      (frame (initState 0 0 0) startInput).lives ≤ 3 :=
  ⟨Reachable.step _ _ (Reachable.init 0 0 0) rfl,
    C2_lives_le_three _ (Reachable.step _ _ (Reachable.init 0 0 0) rfl)⟩

/-- C3 (fails on the code): the game of `lastLifeInputs` is, after its first 40
inputs (Start and frames 1..39), in a reachable Playing state with one life,
score 9 at level 1, an Enemy in the bottom row at `(22, 0)` and an Enemy at
`(1, 7)` right above a Player Bullet.  In frame 40 the first enemy leaves the
bottom row, so lives falls to 0 and the state becomes Game Over; later in the
same enemy scan the other enemy steps onto the bullet, the score reaches 10 and
the state is overwritten with LevelUp.  The frame ends with lives 0 in LevelUp, and
three frames later the game is Playing again, still reachable, with lives 0. -/
theorem C3_zero_lives_not_game_over :
    Reachable (run (initState 0 0 0) (lastLifeInputs.take 40)) ∧
      Reachable (run (initState 0 0 0) lastLifeInputs) ∧
      (run (initState 0 0 0) (lastLifeInputs.take 40)).currentState = STATE_PLAYING ∧
      (run (initState 0 0 0) (lastLifeInputs.take 40)).lives = 1 ∧
      (run (initState 0 0 0) (lastLifeInputs.take 40)).score = 9 ∧
      (run (initState 0 0 0) (lastLifeInputs.take 40)).level = 1 ∧
      (run (initState 0 0 0) (lastLifeInputs.take 40)).cell 22 0 = ENEMY ∧
      (run (initState 0 0 0) (lastLifeInputs.take 40)).cell 1 7 = ENEMY ∧
      (run (initState 0 0 0) (lastLifeInputs.take 40)).cell 2 7 = BULLET ∧
      (run (initState 0 0 0) (lastLifeInputs.take 41)).lives = 0 ∧
      (run (initState 0 0 0) (lastLifeInputs.take 41)).currentState = STATE_LEVEL_UP ∧
      (run (initState 0 0 0) lastLifeInputs).lives = 0 ∧
      (run (initState 0 0 0) lastLifeInputs).currentState = STATE_PLAYING := by
  have h : (run (initState 0 0 0) (lastLifeInputs.take 40)).windowOpen = true ∧
      (run (initState 0 0 0) lastLifeInputs).windowOpen = true ∧
      (run (initState 0 0 0) (lastLifeInputs.take 40)).currentState = STATE_PLAYING ∧
      (run (initState 0 0 0) (lastLifeInputs.take 40)).lives = 1 ∧
      (run (initState 0 0 0) (lastLifeInputs.take 40)).score = 9 ∧
      (run (initState 0 0 0) (lastLifeInputs.take 40)).level = 1 ∧
      (run (initState 0 0 0) (lastLifeInputs.take 40)).cell 22 0 = ENEMY ∧
      (run (initState 0 0 0) (lastLifeInputs.take 40)).cell 1 7 = ENEMY ∧
      (run (initState 0 0 0) (lastLifeInputs.take 40)).cell 2 7 = BULLET ∧
      (run (initState 0 0 0) (lastLifeInputs.take 41)).lives = 0 ∧
      (run (initState 0 0 0) (lastLifeInputs.take 41)).currentState = STATE_LEVEL_UP ∧
      (run (initState 0 0 0) lastLifeInputs).lives = 0 ∧
      (run (initState 0 0 0) lastLifeInputs).currentState = STATE_PLAYING := by
    decide!
  exact ⟨reachable_run (Reachable.init 0 0 0) _ h.1,
    reachable_run (Reachable.init 0 0 0) _ h.2.1, h.2.2⟩

/-- C4: in every reachable state whose lifecycle is Playing, the level is in
1..5 and the score is at least 0 and below 10 times the level. -/
theorem C4_playing_level_score (s : State) (h : Reachable s)
    (hp : s.currentState = STATE_PLAYING) :
    1 ≤ s.level ∧ s.level ≤ 5 ∧ 0 ≤ s.score ∧ s.score < 10 * s.level := by
  obtain ⟨⟨_, _, _, hl1, hl5, hs0, _, _, _⟩, hJ⟩ := reachable_inv h
  refine ⟨hl1, hl5, hs0, ?_⟩
  rcases hJ with h1 | h1
  · exact h1
  · exact absurd hp h1.2.1

theorem C4_playing_level_score_witness :
    1 ≤ (frame (initState 0 0 0) startInput).level ∧
      (frame (initState 0 0 0) startInput).level ≤ 5 ∧
      0 ≤ (frame (initState 0 0 0) startInput).score ∧
      (frame (initState 0 0 0) startInput).score <
        10 * (frame (initState 0 0 0) startInput).level :=
  C4_playing_level_score _ (Reachable.step _ _ (Reachable.init 0 0 0) rfl) (by decide)

/-- C5: let the grid be well formed and the level at most 4 (so for every level
in 1..4).  When an Enemy or a Boss at `(r, c)` steps onto the Player Bullet at
`(r + 1, c)`, or the Player Bullet at `(r + 1, c)` steps onto the Enemy or Boss
at `(r, c)`, and the points of the destruction (1 for an Enemy, 3 for a Boss)
bring the score to at least 10 times the level, then the step leaves level + 1,
score 0, a grid holding only the Player at (22, 7) and lifecycle LevelUp; and
the same holds once the loop has visited the remaining cells `rest` of its scan
and the Playing block has run to its end. -/
theorem C5_level_up (s : State) (r c : Nat) (rest : List (Nat × Nat)) (speed : Int)
    (hwf : WF s) (h4 : s.level ≤ 4) (hr : r + 1 < ROWS)
    (hrest : ∀ p ∈ rest, p.1 < ROWS ∧ p.2 < COLS) :
    (s.cell r c = ENEMY → s.cell (r + 1) c = BULLET → 10 * s.level ≤ s.score + 1 →
      LevelledUp s.level (enemyCell s (r, c)) ∧
      LevelledUp s.level (afterEnemyMove
        { forCells rest enemyCell (enemyCell s (r, c)) with enemyMoveClock := 0 })) ∧
    (s.cell r c = BOSS → s.cell (r + 1) c = BULLET → 10 * s.level ≤ s.score + 3 →
      LevelledUp s.level (bossCell s (r, c)) ∧
      LevelledUp s.level (afterBulletMove (bulletMove (bossBulletMove
        (bossFire (forCells rest bossCell (bossCell s (r, c)))) speed)))) ∧
    (s.cell (r + 1) c = BULLET → s.cell r c = ENEMY → 10 * s.level ≤ s.score + 1 →
      LevelledUp s.level (bulletCell s (r + 1, c)) ∧
      LevelledUp s.level (afterBulletMove
        { forCells rest bulletCell (bulletCell s (r + 1, c)) with bulletMoveClock := 0 })) ∧
    (s.cell (r + 1) c = BULLET → s.cell r c = BOSS → 10 * s.level ≤ s.score + 3 →
      LevelledUp s.level (bulletCell s (r + 1, c)) ∧
      LevelledUp s.level (afterBulletMove
        { forCells rest bulletCell (bulletCell s (r + 1, c)) with bulletMoveClock := 0 })) := by
  have hr2 : r ≠ ROWS - 1 := by
    have : r + 1 < 23 := hr
    show r ≠ 23 - 1
    omega
  refine ⟨fun he hb hs => ?_, fun he hb hs => ?_, fun hb he hs => ?_, fun hb he hs => ?_⟩
  · have h : LevelledUp s.level (enemyCell s (r, c)) := by
      unfold enemyCell
      rw [if_pos he, enemyStep_bullet s r c hr2 hb]
      exact levelled_destroy hwf h4 1 hs _ _ _ _ _ _
    refine ⟨h, lv_afterEnemyMove ?_⟩
    rw [forCells_clean enemyCell ENEMY (by decide) (fun s p hp => if_neg hp) rest hrest _ h.2.2.1]
    exact lv_of_eq h rfl rfl rfl rfl
  · have h : LevelledUp s.level (bossCell s (r, c)) := by
      unfold bossCell
      rw [if_pos he, bossStep_bullet s r c hr2 hb]
      exact levelled_destroy hwf h4 3 hs _ _ _ _ _ _
    refine ⟨h, lv_afterBulletMove (lv_bulletMove (lv_bossBulletMove (lv_bossFire ?_) _))⟩
    rw [forCells_clean bossCell BOSS (by decide) (fun s p hp => if_neg hp) rest hrest _ h.2.2.1]
    exact h
  · have h : LevelledUp s.level (bulletCell s (r + 1, c)) := by
      unfold bulletCell
      rw [if_pos hb, bulletStep_enemy s (r + 1) c (Nat.succ_ne_zero r) he]
      exact levelled_destroy hwf h4 1 hs _ _ _ _ _ _
    refine ⟨h, lv_afterBulletMove ?_⟩
    rw [forCells_clean bulletCell BULLET (by decide) (fun s p hp => if_neg hp) rest hrest _
      h.2.2.1]
    exact lv_of_eq h rfl rfl rfl rfl
  · have h : LevelledUp s.level (bulletCell s (r + 1, c)) := by
      unfold bulletCell
      rw [if_pos hb, bulletStep_boss s (r + 1) c (Nat.succ_ne_zero r) he]
      exact levelled_destroy hwf h4 3 hs _ _ _ _ _ _
    refine ⟨h, lv_afterBulletMove ?_⟩
    rw [forCells_clean bulletCell BULLET (by decide) (fun s p hp => if_neg hp) rest hrest _
      h.2.2.1]
    exact lv_of_eq h rfl rfl rfl rfl

theorem C5_level_up_witness :
    (enemyCell (duelState 1 9) (5, 3)).level = 2 ∧
      (enemyCell (duelState 1 9) (5, 3)).score = 0 ∧
      CleanGrid (enemyCell (duelState 1 9) (5, 3)) ∧
      (enemyCell (duelState 1 9) (5, 3)).currentState = STATE_LEVEL_UP ∧
      LevelledUp 1 (afterEnemyMove
        { forCells scanBottomUp enemyCell (enemyCell (duelState 1 9) (5, 3)) with
          enemyMoveClock := 0 }) :=
  have h := (C5_level_up (duelState 1 9) 5 3 scanBottomUp 0 (by decide!) (by decide!) (by decide)
    (fun p hp => (mem_scanBottomUp p).1 hp)).1 (by decide!) (by decide!) (by decide!)
  ⟨h.1.1, h.1.2.1, h.1.2.2.1, h.1.2.2.2, h.2⟩

/-- C6: from a state that is not in Victory, with level at most 5, each of the
four scoring destructions (Enemy or Boss stepping onto a Player Bullet, Player
Bullet stepping onto an Enemy or Boss) leaves the lifecycle in Victory exactly
when the level is 5 and the score with the points added is at least 50; the
score then keeps the points and the grid is the old one with the two cells
emptied.  And a frame that starts in a reachable state outside Victory and ends
in Victory started in Playing, ends at level 5 with a score of at least 50, and
raised the score. -/
theorem C6_victory (s : State) (r c : Nat) (hv : s.currentState ≠ STATE_VICTORY)
    (h5 : s.level ≤ 5) (hr : r + 1 < ROWS) :
    (s.cell r c = ENEMY → s.cell (r + 1) c = BULLET →
      VictoryRule s (enemyCell s (r, c)) r c (r + 1) 1) ∧
    (s.cell r c = BOSS → s.cell (r + 1) c = BULLET →
      VictoryRule s (bossCell s (r, c)) r c (r + 1) 3) ∧
    (s.cell (r + 1) c = BULLET → s.cell r c = ENEMY →
      VictoryRule s (bulletCell s (r + 1, c)) (r + 1) c r 1) ∧
    (s.cell (r + 1) c = BULLET → s.cell r c = BOSS →
      VictoryRule s (bulletCell s (r + 1, c)) (r + 1) c r 3) ∧
    (∀ s0 inp, Reachable s0 → s0.currentState ≠ STATE_VICTORY →
      (frame s0 inp).currentState = STATE_VICTORY →
        s0.currentState = STATE_PLAYING ∧ (frame s0 inp).level = 5 ∧
          50 ≤ (frame s0 inp).score ∧ s0.score < (frame s0 inp).score) := by
  have hr2 : r ≠ ROWS - 1 := by
    have : r + 1 < 23 := hr
    show r ≠ 23 - 1
    omega
  refine ⟨fun he hb => ?_, fun he hb => ?_, fun hb he => ?_, fun hb he => ?_, ?_⟩
  · unfold enemyCell
    rw [if_pos he, enemyStep_bullet s r c hr2 hb]
    exact victory_destroy hv h5 1 r c (r + 1)
  · unfold bossCell
    rw [if_pos he, bossStep_bullet s r c hr2 hb]
    exact victory_destroy hv h5 3 r c (r + 1)
  · unfold bulletCell
    rw [if_pos hb, bulletStep_enemy s (r + 1) c (Nat.succ_ne_zero r) he]
    exact victory_destroy hv h5 1 (r + 1) c r
  · unfold bulletCell
    rw [if_pos hb, bulletStep_boss s (r + 1) c (Nat.succ_ne_zero r) he]
    exact victory_destroy hv h5 3 (r + 1) c r
  · intro s0 inp h0 hv0 hv1
    have hp : s0.currentState = STATE_PLAYING := by
      by_contra hp
      rcases (quiet_frame s0 inp hp).1 with e | e | e | e
      · exact hv0 (e ▸ hv1)
      · rw [e] at hv1; exact absurd hv1 (by decide)
      · rw [e] at hv1; exact absurd hv1 (by decide)
      · rw [e] at hv1; exact absurd hv1 (by decide)
    obtain ⟨⟨_, _, _, _, hl5, _, hK, _⟩, _⟩ := inv_frame (reachable_inv h0) inp
    obtain ⟨⟨_, _, _, _, hm5, _, _, _⟩, hJ⟩ := reachable_inv h0
    have hK2 := hK hv1
    have hs : s0.score < 10 * s0.level := by
      rcases hJ with x | x
      · exact x
      · exact absurd hp x.2.1
    exact ⟨hp, by omega, by omega, by omega⟩

theorem C6_victory_witness :
    (enemyCell (duelState 5 49) (5, 3)).currentState = STATE_VICTORY ∧
      (enemyCell (duelState 5 49) (5, 3)).score = 50 ∧
      (enemyCell (duelState 5 49) (5, 3)).level = 5 :=
  have h := (C6_victory (duelState 5 49) 5 3 (by decide) (by decide) (by decide)).1
    (by decide!) (by decide!)
  ⟨h.1.2 ⟨rfl, by decide⟩, (h.2 (h.1.2 ⟨rfl, by decide⟩)).1, (h.2 (h.1.2 ⟨rfl, by decide⟩)).2.1⟩

/-- C7: in a reachable state a Boss on the board means level 3 or more; a cell
that holds a Boss after the Boss spawner held one before, or the level is at
least 3; and a frame that lowers the level leaves a grid holding only the
Player at (22, 7). -/
theorem C7_boss_level (s : State) (inp : Input) (h : Reachable s) :
    (∀ r, r < ROWS → ∀ c, c < COLS → s.cell r c = BOSS → 3 ≤ s.level) ∧
    (∀ t r c, (bossSpawn t inp).cell r c = BOSS → t.cell r c = BOSS ∨ 3 ≤ t.level) ∧
    ((frame s inp).level < s.level → CleanGrid (frame s inp)) := by
  refine ⟨(reachable_inv h).1.2.2.2.2.2.2.2.1, fun t r c hb => ?_, fun hl => ?_⟩
  · unfold bossSpawn at hb
    split at hb
    · rename_i hc
      exact Or.inr hc.1
    · exact Or.inl hb
  · by_cases hp : s.currentState = STATE_PLAYING
    · have := level_frame (reachable_inv h) inp hp
      omega
    · rcases (quiet_frame s inp hp).2 with x | x
      · omega
      · exact x

theorem C7_boss_level_witness :
    Reachable (frame (initState 0 0 0) startInput) ∧
      (((duelState 3 0).advanceClocks 8000000).cell 0 0 = BOSS ∨
        3 ≤ ((duelState 3 0).advanceClocks 8000000).level) :=
  ⟨Reachable.step _ _ (Reachable.init 0 0 0) rfl,
    (C7_boss_level (frame (initState 0 0 0) startInput) (Input.idle 0)
      (Reachable.step _ _ (Reachable.init 0 0 0) rfl)).2.1
      ((duelState 3 0).advanceClocks 8000000) 0 0 (by decide!)⟩

/-- C8: for Meteor, Enemy, Boss and Boss Bullet at `(r, c)` with `r + 1 < ROWS`,
and for the Player Bullet at `(r, c)` with `0 < r`: when the target cell
(`(r + 1, c)`, for the Player Bullet `(r - 1, c)`) is Empty or holds the same
class, the step empties the source, writes the class at the target, and leaves
every other cell, lives, score, level, lifecycle state and the hit-effect
arrays unchanged. -/
theorem C8_mover_step (s : State) (r c : Nat) :
    (r + 1 < ROWS → s.cell r c = METEOR →
      s.cell (r + 1) c = EMPTY ∨ s.cell (r + 1) c = METEOR →
        MovedTo s (meteorCell s (r, c)) METEOR r c (r + 1)) ∧
    (r + 1 < ROWS → s.cell r c = ENEMY →
      s.cell (r + 1) c = EMPTY ∨ s.cell (r + 1) c = ENEMY →
        MovedTo s (enemyCell s (r, c)) ENEMY r c (r + 1)) ∧
    (r + 1 < ROWS → s.cell r c = BOSS →
      s.cell (r + 1) c = EMPTY ∨ s.cell (r + 1) c = BOSS →
        MovedTo s (bossCell s (r, c)) BOSS r c (r + 1)) ∧
    (r + 1 < ROWS → s.cell r c = BOSS_BULLET →
      s.cell (r + 1) c = EMPTY ∨ s.cell (r + 1) c = BOSS_BULLET →
        MovedTo s (bossBulletCell s (r, c)) BOSS_BULLET r c (r + 1)) ∧
    (0 < r → s.cell r c = BULLET →
      s.cell (r - 1) c = EMPTY ∨ s.cell (r - 1) c = BULLET →
        MovedTo s (bulletCell s (r, c)) BULLET r c (r - 1)) := by
  have e1 : (s.setCell r c EMPTY).cell (r + 1) c = s.cell (r + 1) c := by
    rw [cell_setCell, if_neg (by omega)]
  refine ⟨fun hr hs ht => ?_, fun hr hs ht => ?_, fun hr hs ht => ?_, fun hr hs ht => ?_,
    fun hr hs ht => ?_⟩
  · have hr2 : r ≠ ROWS - 1 := by
      have : r + 1 < 23 := hr
      show r ≠ 23 - 1
      omega
    have e : meteorCell s (r, c) = (s.setCell r c EMPTY).setCell (r + 1) c METEOR := by
      unfold meteorCell meteorStep
      simp only [if_pos hs, if_neg hr2, e1, if_pos ht]
    rw [e]
    exact moved_setCell s METEOR r c (r + 1) (by omega) (by decide)
  · have hr2 : r ≠ ROWS - 1 := by
      have : r + 1 < 23 := hr
      show r ≠ 23 - 1
      omega
    have e : enemyCell s (r, c) = (s.setCell r c EMPTY).setCell (r + 1) c ENEMY := by
      unfold enemyCell enemyStep
      simp only [if_pos hs, if_neg hr2, e1, if_pos ht]
    rw [e]
    exact moved_setCell s ENEMY r c (r + 1) (by omega) (by decide)
  · have hr2 : r ≠ ROWS - 1 := by
      have : r + 1 < 23 := hr
      show r ≠ 23 - 1
      omega
    have ht2 : s.cell (r + 1) c = EMPTY ∨ s.cell (r + 1) c = BOSS ∨
        s.cell (r + 1) c = BOSS_BULLET ∨ s.cell (r + 1) c = METEOR ∨
        s.cell (r + 1) c = ENEMY := by
      rcases ht with x | x
      · exact Or.inl x
      · exact Or.inr (Or.inl x)
    have e : bossCell s (r, c) = (s.setCell r c EMPTY).setCell (r + 1) c BOSS := by
      unfold bossCell bossStep
      simp only [if_pos hs, if_neg hr2, if_pos ht2]
    rw [e]
    exact moved_setCell s BOSS r c (r + 1) (by omega) (by decide)
  · have hr2 : r ≠ ROWS - 1 := by
      have : r + 1 < 23 := hr
      show r ≠ 23 - 1
      omega
    have n1 : ¬ s.cell (r + 1) c = SPACESHIP := by
      rcases ht with x | x <;> rw [x] <;> decide
    have n2 : ¬ (s.cell (r + 1) c = METEOR ∨ s.cell (r + 1) c = ENEMY) := by
      rcases ht with x | x <;> rw [x] <;> decide
    have e : bossBulletCell s (r, c) = (s.setCell r c EMPTY).setCell (r + 1) c BOSS_BULLET := by
      unfold bossBulletCell bossBulletStep
      simp only [if_pos hs, if_neg hr2, e1, if_neg n1, if_neg n2, if_pos ht]
    rw [e]
    exact moved_setCell s BOSS_BULLET r c (r + 1) (by omega) (by decide)
  · have e2 : (s.setCell r c EMPTY).cell (r - 1) c = s.cell (r - 1) c := by
      rw [cell_setCell, if_neg (by omega)]
    have e : bulletCell s (r, c) = (s.setCell r c EMPTY).setCell (r - 1) c BULLET := by
      unfold bulletCell bulletStep
      simp only [if_pos hs, if_neg (Nat.pos_iff_ne_zero.1 hr), e2, if_pos ht]
    rw [e]
    exact moved_setCell s BULLET r c (r - 1) (by omega) (by decide)

theorem C8_mover_step_witness :
    MovedTo shotState (bulletCell shotState (21, 7)) BULLET 21 7 20 :=
  (C8_mover_step shotState 21 7).2.2.2.2 (by decide) (by decide!) (Or.inl (by decide!))

/-- C9: on a well-formed grid, when the Player Bullet at `(r, c)`, `0 < r`, takes
its step and `(r - 1, c)` holds a Meteor, Boss Bullet, Enemy or Boss, both
cells are Empty afterwards and, if a hit-effect slot was inactive, an effect is
active at `(r - 1, c)`.  For a Meteor or Boss Bullet score, level and lifecycle
state are unchanged; for an Enemy (Boss) the progression check runs on a state
whose score is the old one plus 1 (plus 3). -/
theorem C9_bullet_hits (s : State) (r c : Nat) (hwf : WF s) (hr0 : 0 < r) (hr : r < ROWS)
    (hc : c < COLS) (hb : s.cell r c = BULLET) :
    (s.cell (r - 1) c = METEOR →
      Destroyed s (bulletCell s (r, c)) r c (r - 1) ∧ Unscored s (bulletCell s (r, c))) ∧
    (s.cell (r - 1) c = BOSS_BULLET →
      Destroyed s (bulletCell s (r, c)) r c (r - 1) ∧ Unscored s (bulletCell s (r, c))) ∧
    (s.cell (r - 1) c = ENEMY →
      Destroyed s (bulletCell s (r, c)) r c (r - 1) ∧ ScoredBy s (bulletCell s (r, c)) 1) ∧
    (s.cell (r - 1) c = BOSS →
      Destroyed s (bulletCell s (r, c)) r c (r - 1) ∧ ScoredBy s (bulletCell s (r, c)) 3) := by
  have hr1 : r ≠ 0 := by omega
  have hn : r ≠ ROWS - 1 := (hwf.2 r hr c hc).2.2 hb
  have hr2 : r - 1 < ROWS := by omega
  have hn2 : r - 1 ≠ ROWS - 1 := by
    have : r < 23 := hr
    show r - 1 ≠ 23 - 1
    omega
  have e : bulletCell s (r, c) = bulletStep s r c := if_pos hb
  rw [e]
  refine ⟨fun ht => ?_, fun ht => ?_, fun ht => ?_, fun ht => ?_⟩
  · rw [bulletStep_meteor s r c hr1 (Or.inl ht)]
    exact ⟨destroyed_plain s r c (r - 1), unscored_destroy s r c (r - 1)⟩
  · rw [bulletStep_meteor s r c hr1 (Or.inr ht)]
    exact ⟨destroyed_plain s r c (r - 1), unscored_destroy s r c (r - 1)⟩
  · rw [bulletStep_enemy s r c hr1 ht]
    exact ⟨destroyed_scored hwf 1 r c (r - 1) hr hc hr2 hn hn2, scoredBy_destroy s 1 r c (r - 1)⟩
  · rw [bulletStep_boss s r c hr1 ht]
    exact ⟨destroyed_scored hwf 3 r c (r - 1) hr hc hr2 hn hn2, scoredBy_destroy s 3 r c (r - 1)⟩

theorem C9_bullet_hits_witness :
    Destroyed (duelState 1 0) (bulletCell (duelState 1 0) (6, 3)) 6 3 5 ∧
      ScoredBy (duelState 1 0) (bulletCell (duelState 1 0) (6, 3)) 1 :=
  (C9_bullet_hits (duelState 1 0) 6 3 (by decide!) (by decide) (by decide) (by decide)
    (by decide!)).2.2.1 (by decide!)

/-- C10: on a well-formed grid, when a Meteor, Enemy or Boss at `(r, c)`,
`r + 1 < ROWS`, takes its step and `(r + 1, c)` holds a Player Bullet, both
cells are Empty afterwards and, if a hit-effect slot was inactive, an effect is
active at `(r + 1, c)`.  For a Meteor score, level and lifecycle state are
unchanged; for an Enemy (Boss) the progression check runs on a state whose
score is the old one plus 1 (plus 3). -/
theorem C10_mover_hits_bullet (s : State) (r c : Nat) (hwf : WF s) (hr : r + 1 < ROWS)
    (hc : c < COLS) (hb : s.cell (r + 1) c = BULLET) :
    (s.cell r c = METEOR →
      Destroyed s (meteorCell s (r, c)) r c (r + 1) ∧ Unscored s (meteorCell s (r, c))) ∧
    (s.cell r c = ENEMY →
      Destroyed s (enemyCell s (r, c)) r c (r + 1) ∧ ScoredBy s (enemyCell s (r, c)) 1) ∧
    (s.cell r c = BOSS →
      Destroyed s (bossCell s (r, c)) r c (r + 1) ∧ ScoredBy s (bossCell s (r, c)) 3) := by
  have hr1 : r < ROWS := by omega
  have hn : r ≠ ROWS - 1 := by
    have : r + 1 < 23 := hr
    show r ≠ 23 - 1
    omega
  have hn2 : r + 1 ≠ ROWS - 1 := (hwf.2 (r + 1) hr c hc).2.2 hb
  refine ⟨fun hs => ?_, fun hs => ?_, fun hs => ?_⟩
  · have e : meteorCell s (r, c) = meteorStep s r c := if_pos hs
    rw [e, meteorStep_bullet s r c hn hb]
    exact ⟨destroyed_plain s r c (r + 1), unscored_destroy s r c (r + 1)⟩
  · have e : enemyCell s (r, c) = enemyStep s r c := if_pos hs
    rw [e, enemyStep_bullet s r c hn hb]
    exact ⟨destroyed_scored hwf 1 r c (r + 1) hr1 hc hr hn hn2, scoredBy_destroy s 1 r c (r + 1)⟩
  · have e : bossCell s (r, c) = bossStep s r c := if_pos hs
    rw [e, bossStep_bullet s r c hn hb]
    exact ⟨destroyed_scored hwf 3 r c (r + 1) hr1 hc hr hn hn2, scoredBy_destroy s 3 r c (r + 1)⟩

theorem C10_mover_hits_bullet_witness :
    Destroyed (duelState 1 0) (enemyCell (duelState 1 0) (5, 3)) 5 3 6 ∧
      ScoredBy (duelState 1 0) (enemyCell (duelState 1 0) (5, 3)) 1 :=
  (C10_mover_hits_bullet (duelState 1 0) 5 3 (by decide!) (by decide) (by decide)
    (by decide!)).2.1 (by decide!)

/-- C12: when a Meteor, Enemy, Boss or Boss Bullet at `(r, c)`, `r + 1 < ROWS`,
takes its step and `(r + 1, c)` holds the Player, the source cell becomes Empty
and score and level are unchanged; if the invincibility flag is clear, lives
decreases by one, the flag is set with its timer restarted, and the lifecycle
becomes Game Over when lives is then at most 0 (and is unchanged otherwise); if
the flag is set, lives, the flag and the lifecycle are unchanged. -/
theorem C12_mover_hits_player (s : State) (r c : Nat) (hr : r + 1 < ROWS)
    (hp : s.cell (r + 1) c = SPACESHIP) :
    (s.cell r c = METEOR → HitPlayer s (meteorCell s (r, c)) r c) ∧
    (s.cell r c = ENEMY → HitPlayer s (enemyCell s (r, c)) r c) ∧
    (s.cell r c = BOSS → HitPlayer s (bossCell s (r, c)) r c) ∧
    (s.cell r c = BOSS_BULLET → HitPlayer s (bossBulletCell s (r, c)) r c) := by
  have hn := not_last_row hr
  refine ⟨fun hs => ?_, fun hs => ?_, fun hs => ?_, fun hs => ?_⟩
  · have e : meteorCell s (r, c) = meteorStep s r c := if_pos hs
    rw [e, meteorStep_player s r c hn hp]
    exact hitPlayer_left s r c
  · have e : enemyCell s (r, c) = enemyStep s r c := if_pos hs
    rw [e, enemyStep_player s r c hn hp]
    exact hitPlayer_left s r c
  · have e : bossCell s (r, c) = bossStep s r c := if_pos hs
    rw [e, bossStep_player s r c hn hp]
    exact hitPlayer_left s r c
  · have e : bossBulletCell s (r, c) = bossBulletStep s r c := if_pos hs
    rw [e, bossBulletStep_player s r c hn hp]
    exact hitPlayer_trigger s r c

theorem C12_mover_hits_player_witness :
    HitPlayer (boardState 21 7 METEOR) (meteorCell (boardState 21 7 METEOR) (21, 7)) 21 7 :=
  (C12_mover_hits_player (boardState 21 7 METEOR) 21 7 (by decide) (by decide!)).1 (by decide!)

/-- C13 (fails on the code for three of the four movers): when a Meteor, Enemy
or Boss at `(r, c)`, `r + 1 < ROWS`, steps into the cell `(r + 1, c)` holding
the Player, that cell is Empty after the step; only after the step of a Boss
Bullet does it still hold the Player. -/
theorem C13_player_cell_after_hit (s : State) (r c : Nat) (hr : r + 1 < ROWS)
    (hp : s.cell (r + 1) c = SPACESHIP) :
    (s.cell r c = METEOR → (meteorCell s (r, c)).cell (r + 1) c = EMPTY) ∧
    (s.cell r c = ENEMY → (enemyCell s (r, c)).cell (r + 1) c = EMPTY) ∧
    (s.cell r c = BOSS → (bossCell s (r, c)).cell (r + 1) c = EMPTY) ∧
    (s.cell r c = BOSS_BULLET → (bossBulletCell s (r, c)).cell (r + 1) c = SPACESHIP) := by
  have hn := not_last_row hr
  refine ⟨fun hs => ?_, fun hs => ?_, fun hs => ?_, fun hs => ?_⟩
  · have e : meteorCell s (r, c) = meteorStep s r c := if_pos hs
    rw [e, meteorStep_player s r c hn hp, cell_setCell, if_pos ⟨rfl, rfl⟩]
    rfl
  · have e : enemyCell s (r, c) = enemyStep s r c := if_pos hs
    rw [e, enemyStep_player s r c hn hp, cell_setCell, if_pos ⟨rfl, rfl⟩]
    rfl
  · have e : bossCell s (r, c) = bossStep s r c := if_pos hs
    rw [e, bossStep_player s r c hn hp, cell_setCell, if_pos ⟨rfl, rfl⟩]
    rfl
  · have e : bossBulletCell s (r, c) = bossBulletStep s r c := if_pos hs
    rw [e, bossBulletStep_player s r c hn hp, trigger_cell, block_cell s r c _ _ (by omega), hp]

theorem C13_player_cell_after_hit_witness :
    (boardState 21 7 METEOR).cell 22 7 = SPACESHIP ∧
      (meteorCell (boardState 21 7 METEOR) (21, 7)).cell (21 + 1) 7 = EMPTY :=
  ⟨by decide!, (C13_player_cell_after_hit (boardState 21 7 METEOR) 21 7 (by decide)
    (by decide!)).1 (by decide!)⟩

/-- C14: when the Enemy loop finds an Enemy, or the Boss loop a Boss, in the
bottom row at column `c`, that cell becomes Empty and no other cell changes,
score and level are unchanged, lives decreases by one, the invincibility flag
is set with its timer restarted, and the lifecycle becomes Game Over when lives
is then at most 0 (and is unchanged otherwise). -/
theorem C14_bottom_row_escape (s : State) (c : Nat) :
    (s.cell (ROWS - 1) c = ENEMY → Escaped s (enemyCell s (ROWS - 1, c)) c) ∧
    (s.cell (ROWS - 1) c = BOSS → Escaped s (bossCell s (ROWS - 1, c)) c) := by
  have h : Escaped s (loseLife (s.setCell (ROWS - 1) c EMPTY)) c := by
    have e := loseLife_fields (s.setCell (ROWS - 1) c EMPTY)
    refine ⟨?_, fun r3 c3 h3 => ?_, e.2.1, e.2.2.1, loseLife_lost (s.setCell (ROWS - 1) c EMPTY)⟩
    · rw [loseLife_cell, cell_setCell, if_pos ⟨rfl, rfl⟩]
      rfl
    · rw [loseLife_cell, cell_setCell, if_neg h3]
  refine ⟨fun hs => ?_, fun hs => ?_⟩
  · have e : enemyCell s (ROWS - 1, c) = loseLife (s.setCell (ROWS - 1) c EMPTY) := by
      unfold enemyCell enemyStep
      simp only [if_pos hs, if_true]
    rw [e]
    exact h
  · have e : bossCell s (ROWS - 1, c) = loseLife (s.setCell (ROWS - 1) c EMPTY) := by
      unfold bossCell bossStep
      simp only [if_pos hs, if_true]
    rw [e]
    exact h

theorem C14_bottom_row_escape_witness :
    Escaped (boardState 22 0 ENEMY) (enemyCell (boardState 22 0 ENEMY) (ROWS - 1, 0)) 0 :=
  (C14_bottom_row_escape (boardState 22 0 ENEMY) 0).1 (by decide!)

/-- C15 (as stated, fails): after the first 25 inputs of `lostGameInputs` the
game is in a reachable Playing state with the invincibility flag set, 2 lives
and an Enemy in the bottom row at `(22, 0)`.  A tick of the Enemy mover 0.833 s
later takes a life although the flag is set, and so does the next frame of the
game: it ends with 1 life. -/
theorem C15_escape_ignores_flag :
    Reachable (run (initState 0 0 0) (lostGameInputs.take 25)) ∧
      (run (initState 0 0 0) (lostGameInputs.take 25)).currentState = STATE_PLAYING ∧
      (run (initState 0 0 0) (lostGameInputs.take 25)).isInvincible = true ∧
      (run (initState 0 0 0) (lostGameInputs.take 25)).cell 22 0 = ENEMY ∧
      (run (initState 0 0 0) (lostGameInputs.take 25)).lives = 2 ∧
      (enemyMove ((run (initState 0 0 0) (lostGameInputs.take 25)).advanceClocks 833000)).lives
        = 1 ∧
      (run (initState 0 0 0) (lostGameInputs.take 26)).lives = 1 := by
  have h : (run (initState 0 0 0) (lostGameInputs.take 25)).windowOpen = true ∧
      (run (initState 0 0 0) (lostGameInputs.take 25)).currentState = STATE_PLAYING ∧
      (run (initState 0 0 0) (lostGameInputs.take 25)).isInvincible = true ∧
      (run (initState 0 0 0) (lostGameInputs.take 25)).cell 22 0 = ENEMY ∧
      (run (initState 0 0 0) (lostGameInputs.take 25)).lives = 2 ∧
      (enemyMove ((run (initState 0 0 0) (lostGameInputs.take 25)).advanceClocks 833000)).lives
        = 1 ∧
      (run (initState 0 0 0) (lostGameInputs.take 26)).lives = 1 := by
    decide!
  exact ⟨reachable_run (Reachable.init 0 0 0) _ h.1, h.2⟩

/-- C15 (amended): in a state where the invincibility flag is set, a tick of
the Meteor mover and a tick of the Boss Bullet mover leave lives unchanged, a
tick of the Enemy mover leaves lives unchanged when the bottom row holds no
Enemy, and a tick of the Boss mover leaves lives unchanged when the bottom row
holds no Boss.  (An Enemy or Boss in the bottom row takes a life whatever the
flag.) -/
theorem C15_flag_blocks_collisions (s : State) (speed : Int) (hf : s.isInvincible = true) :
    (meteorMove s).lives = s.lives ∧ (bossBulletMove s speed).lives = s.lives ∧
    ((∀ c, c < COLS → s.cell (ROWS - 1) c ≠ ENEMY) → (enemyMove s).lives = s.lives) ∧
    ((∀ c, c < COLS → s.cell (ROWS - 1) c ≠ BOSS) → (bossMove s speed).lives = s.lives) := by
  have h : Calm s.lives s := ⟨rfl, hf⟩
  refine ⟨?_, ?_, fun hb => ?_, fun hb => ?_⟩
  · unfold meteorMove
    split
    · exact (calm_of_eq (calm_meteorCells h scanBottomUp) rfl rfl).1
    · rfl
  · unfold bossBulletMove
    split
    · exact (calm_of_eq (calm_bossBulletCells h scanBottomUp) rfl rfl).1
    · rfl
  · unfold enemyMove
    split
    · exact (calm_of_eq (calm_enemyScan h hb) rfl rfl).1
    · rfl
  · unfold bossMove
    split
    · exact (calm_bossFire (calm_bossScan h hb)).1
    · rfl

theorem C15_flag_blocks_collisions_witness :
    shieldedState.isInvincible = true ∧ shieldedState.cell 21 7 = METEOR ∧
      shieldedState.cell 22 7 = SPACESHIP ∧ (meteorMove shieldedState).cell 21 7 = EMPTY ∧
      (meteorMove shieldedState).lives = shieldedState.lives :=
  ⟨rfl, by decide!, by decide!, by decide!, (C15_flag_blocks_collisions shieldedState 0 rfl).1⟩

/-- C17 (fails on the code): when a Boss Bullet at `(r, c)`, `r + 1 < ROWS`,
takes its step and `(r + 1, c)` holds a Meteor or an Enemy, the source becomes
Empty and the target then holds the Boss Bullet, no other cell changing: the
Meteor or Enemy that was at the target is no longer on the grid. -/
theorem C17_boss_bullet_overwrites (s : State) (r c : Nat) (hr : r + 1 < ROWS)
    (hs : s.cell r c = BOSS_BULLET)
    (ht : s.cell (r + 1) c = METEOR ∨ s.cell (r + 1) c = ENEMY) :
    MovedTo s (bossBulletCell s (r, c)) BOSS_BULLET r c (r + 1) ∧
      (bossBulletCell s (r, c)).cell (r + 1) c ≠ s.cell (r + 1) c := by
  have e : bossBulletCell s (r, c) = bossBulletStep s r c := if_pos hs
  rw [e, bossBulletStep_through s r c (not_last_row hr) ht]
  have h := moved_setCell s BOSS_BULLET r c (r + 1) (by omega) (by decide)
  refine ⟨h, ?_⟩
  rw [h.2.1]
  rcases ht with x | x <;> rw [x] <;> decide

theorem C17_boss_bullet_overwrites_witness :
    (pairState BOSS_BULLET METEOR).cell 6 3 = METEOR ∧
      (bossBulletCell (pairState BOSS_BULLET METEOR) (5, 3)).cell (5 + 1) 3 = BOSS_BULLET :=
  ⟨by decide!, (C17_boss_bullet_overwrites (pairState BOSS_BULLET METEOR) 5 3 (by decide)
    (by decide!) (Or.inl (by decide!))).1.2.1⟩

/-- C18: let the firing counter of `s` be 0 and let the level be the same after
each of the first `N` ticks of the Boss mover run from `s` (`bossTicks`, each
tick being the Boss loop followed by the firing block).  Then among these ticks
the firing condition of the firing block holds exactly on every 3rd one at
level 3, on every 2nd one at level 4 and on every one at level 5, and the
counter after tick `n + 1` is `(n + 1)` modulo that interval.  On a firing tick
the counter ends at 0 and the grid left by the Boss loop gets a Boss Bullet in
every Empty cell of the board right below a Boss; on any other tick the counter
grows by one and the firing block leaves the grid alone. -/
theorem C18_firing_cadence (s : State) (N : Nat) (h0 : s.bossMoveCounter = 0)
    (hL : ∀ n, n ≤ N → (bossTicks s n).level = s.level) :
    ∀ n, n < N →
      (s.level = 3 →
        (BossFires (forCells scanBottomUp bossCell (bossTicks s n)) ↔ (n + 1) % 3 = 0) ∧
        (bossTicks s (n + 1)).bossMoveCounter = (((n + 1) % 3 : Nat) : Int)) ∧
      (s.level = 4 →
        (BossFires (forCells scanBottomUp bossCell (bossTicks s n)) ↔ (n + 1) % 2 = 0) ∧
        (bossTicks s (n + 1)).bossMoveCounter = (((n + 1) % 2 : Nat) : Int)) ∧
      (s.level = 5 → BossFires (forCells scanBottomUp bossCell (bossTicks s n)) ∧
        (bossTicks s (n + 1)).bossMoveCounter = 0) ∧
      (BossFires (forCells scanBottomUp bossCell (bossTicks s n)) →
        (bossTicks s (n + 1)).bossMoveCounter = 0 ∧
        ∀ r c, (bossTicks s (n + 1)).cell r c =
          if (forCells scanBottomUp bossCell (bossTicks s n)).cell r c = EMPTY ∧ 0 < r ∧
              r < ROWS ∧ (forCells scanBottomUp bossCell (bossTicks s n)).cell (r - 1) c = BOSS ∧
              c < COLS
          then BOSS_BULLET else (forCells scanBottomUp bossCell (bossTicks s n)).cell r c) ∧
      (¬ BossFires (forCells scanBottomUp bossCell (bossTicks s n)) →
        (bossTicks s (n + 1)).bossMoveCounter = (bossTicks s n).bossMoveCounter + 1 ∧
        (bossTicks s (n + 1)).grid = (forCells scanBottomUp bossCell (bossTicks s n)).grid) := by
  have hu : ∀ n, n < N →
      (forCells scanBottomUp bossCell (bossTicks s n)).level = s.level ∧
        (forCells scanBottomUp bossCell (bossTicks s n)).bossMoveCounter =
          (bossTicks s n).bossMoveCounter := by
    intro n hn
    have e1 : (forCells scanBottomUp bossCell (bossTicks s n)).level = s.level := by
      rw [bossTicks_level, hL (n + 1) (by omega)]
    exact ⟨e1, (bossScan_counter scanBottomUp (bossTicks s n)).2 (by rw [e1, hL n (by omega)])⟩
  have ht : ∀ n, n < N →
      bossTicks s (n + 1) = bossFire (forCells scanBottomUp bossCell (bossTicks s n)) :=
    fun _ _ => rfl
  intro n hn
  refine ⟨fun e => ?_, fun e => ?_, fun e => ?_, fun hf => ?_, fun hf => ?_⟩
  · exact cadence_fires s.level 3 N (Or.inr (Or.inr rfl)) (by rw [e]; rfl) (bossTicks s)
      (fun n => forCells scanBottomUp bossCell (bossTicks s n)) h0 hu ht n hn
  · exact cadence_fires s.level 2 N (Or.inr (Or.inl rfl)) (by rw [e]; rfl) (bossTicks s)
      (fun n => forCells scanBottomUp bossCell (bossTicks s n)) h0 hu ht n hn
  · have h := cadence_fires s.level 1 N (Or.inl rfl) (by rw [e]; rfl) (bossTicks s)
      (fun n => forCells scanBottomUp bossCell (bossTicks s n)) h0 hu ht n hn
    refine ⟨h.1.2 (Nat.mod_one _), ?_⟩
    rw [h.2, Nat.mod_one]
    rfl
  · rw [ht n hn]
    exact ⟨by rw [bossFire_counter, if_pos hf], fun r c => bossFire_cell _ hf r c⟩
  · rw [ht n hn, bossFire_idle _ hf]
    exact ⟨by rw [← (hu n hn).2], rfl⟩

theorem C18_firing_cadence_witness :
    ¬ BossFires (forCells scanBottomUp bossCell (bossState 5 4 0)) ∧
      (bossTicks (bossState 5 4 0) 1).bossMoveCounter = 1 ∧
      (∀ r, r < ROWS → ∀ c, c < COLS →
        (bossTicks (bossState 5 4 0) 1).cell r c ≠ BOSS_BULLET) ∧
      BossFires (forCells scanBottomUp bossCell (bossTicks (bossState 5 4 0) 1)) ∧
      (bossTicks (bossState 5 4 0) 2).bossMoveCounter = 0 ∧
      (bossTicks (bossState 5 4 0) 2).cell 7 7 = BOSS ∧
      (bossTicks (bossState 5 4 0) 2).cell 8 7 = BOSS_BULLET :=
  have h := C18_firing_cadence (bossState 5 4 0) 2 rfl (by decide!)
  ⟨fun hf => absurd ((((h 0 (by decide)).2.1 rfl).1).1 hf) (by decide),
    ((h 0 (by decide)).2.1 rfl).2, by decide!,
    (((h 1 (by decide)).2.1 rfl).1).2 (by decide), ((h 1 (by decide)).2.1 rfl).2,
    by decide!, by decide!⟩

/-- C19: on a firing tick, `s` being the state after the Boss loop: for every
Boss at `(r, c)` with `r + 1 < ROWS` the cell `(r + 1, c)` becomes a Boss Bullet
if it was Empty and is unchanged otherwise; a cell that is not on the board
right below a Boss is unchanged (so a Boss in the bottom row fires nothing);
lives, score and level are unchanged and the counter is reset to 0. -/
theorem C19_boss_firing (s : State) (hf : BossFires s) :
    (∀ r c, r + 1 < ROWS → c < COLS → s.cell r c = BOSS →
      (bossFire s).cell (r + 1) c =
        if s.cell (r + 1) c = EMPTY then BOSS_BULLET else s.cell (r + 1) c) ∧
    (∀ r c, ¬(0 < r ∧ r < ROWS ∧ c < COLS ∧ s.cell (r - 1) c = BOSS) →
      (bossFire s).cell r c = s.cell r c) ∧
    (bossFire s).lives = s.lives ∧ (bossFire s).score = s.score ∧
    (bossFire s).level = s.level ∧ (bossFire s).bossMoveCounter = 0 := by
  refine ⟨fun r c hr hc hb => ?_, fun r c hn => ?_, ?_, ?_, bossFire_level s, ?_⟩
  · rw [bossFire_cell s hf]
    by_cases he : s.cell (r + 1) c = EMPTY
    · rw [if_pos he, if_pos ⟨he, by omega, hr, by simpa using hb, hc⟩]
    · rw [if_neg he, if_neg (fun h => he h.1)]
  · rw [bossFire_cell s hf, if_neg (fun h => hn ⟨h.2.1, h.2.2.1, h.2.2.2.2, h.2.2.2.1⟩)]
  · rw [bossFire_fires s hf]
    exact (fire_fields scanTopDown { s with bossMoveCounter := s.bossMoveCounter + 1 }).1
  · rw [bossFire_fires s hf]
    exact (fire_fields scanTopDown { s with bossMoveCounter := s.bossMoveCounter + 1 }).2.1
  · rw [bossFire_counter, if_pos hf]

theorem C19_boss_firing_witness :
    (bossState 7 4 1).cell 7 7 = BOSS ∧ (bossState 7 4 1).cell 8 7 = EMPTY ∧
      (bossFire (bossState 7 4 1)).cell 8 7 = BOSS_BULLET ∧
      (bossFire (bossState 7 4 1)).lives = (bossState 7 4 1).lives ∧
      (bossFire (bossState 7 4 1)).bossMoveCounter = 0 :=
  have h := C19_boss_firing (bossState 7 4 1) (by decide)
  ⟨by decide!, by decide!, by decide!, h.2.2.1, h.2.2.2.2.2⟩

/-- C20: a due Meteor spawn, a due Enemy spawn and, at level 3 or more, a due
Boss spawn draw a column `c = rand() % COLS` of the board; if `(0, c)` is Empty
it receives the class and no other cell changes, otherwise the grid is
unchanged; lives, score, level and lifecycle state are unchanged; the spawn
clock is restarted and the next interval is drawn anew: 1 s plus `rand() % 3`
seconds for Meteors; 2.1 s and 1.7 s plus `rand() % 2` seconds at levels 1 and
2, and 1.3 s, 0.9 s and 0.5 s at levels 3, 4 and 5 for Enemies; 10 s, 8.5 s
and 7 s at levels 3, 4 and 5 plus `rand() % 4` seconds for Bosses. -/
theorem C20_spawn (s : State) (inp : Input) :
    ((s.meteorSpawnClock : Int) ≥ s.nextSpawnTime →
      Spawned s (meteorSpawn s inp) METEOR (inp.randMeteorCol % COLS) ∧
      (meteorSpawn s inp).meteorSpawnClock = 0 ∧
      (meteorSpawn s inp).nextSpawnTime =
        1000000 + ((inp.randMeteorNext % 3 : Nat) : Int) * 1000000) ∧
    ((s.enemySpawnClock : Int) ≥ s.nextEnemySpawnTime →
      Spawned s (enemySpawn s inp) ENEMY (inp.randEnemyCol % COLS) ∧
      (enemySpawn s inp).enemySpawnClock = 0 ∧
      (s.level = 1 → (enemySpawn s inp).nextEnemySpawnTime =
        2100000 + ((inp.randEnemyNext % 2 : Nat) : Int) * 1000000) ∧
      (s.level = 2 → (enemySpawn s inp).nextEnemySpawnTime =
        1700000 + ((inp.randEnemyNext % 2 : Nat) : Int) * 1000000) ∧
      (s.level = 3 → (enemySpawn s inp).nextEnemySpawnTime = 1300000) ∧
      (s.level = 4 → (enemySpawn s inp).nextEnemySpawnTime = 900000) ∧
      (s.level = 5 → (enemySpawn s inp).nextEnemySpawnTime = 500000)) ∧
    (s.level ≥ 3 → (s.bossSpawnClock : Int) ≥ s.nextBossSpawnTime →
      Spawned s (bossSpawn s inp) BOSS (inp.randBossCol % COLS) ∧
      (bossSpawn s inp).bossSpawnClock = 0 ∧
      (s.level = 3 → (bossSpawn s inp).nextBossSpawnTime =
        10000000 + ((inp.randBossNext % 4 : Nat) : Int) * 1000000) ∧
      (s.level = 4 → (bossSpawn s inp).nextBossSpawnTime =
        8500000 + ((inp.randBossNext % 4 : Nat) : Int) * 1000000) ∧
      (s.level = 5 → (bossSpawn s inp).nextBossSpawnTime =
        7000000 + ((inp.randBossNext % 4 : Nat) : Int) * 1000000)) := by
  have em2 : ∀ n : Nat, (n : Int).tmod 2 = ((n % 2 : Nat) : Int) := by
    intro n
    rw [Int.tmod_eq_emod (by omega) (by omega)]
    omega
  have em1 : ∀ n : Nat, (n : Int).tmod 1 = 0 := by
    intro n
    rw [Int.tmod_eq_emod (by omega) (by omega)]
    omega
  refine ⟨fun h => ?_, fun h => ?_, fun h3 h => ?_⟩
  · unfold meteorSpawn
    rw [if_pos h]
    dsimp only
    refine ⟨spawned_put s _ METEOR _ (Nat.mod_lt _ (by decide)) (by decide) rfl ?_ ?_ ?_ ?_,
      rfl, rfl⟩ <;> split <;> rfl
  · have hlev : (if s.cell 0 (inp.randEnemyCol % COLS) = EMPTY then
        s.setCell 0 (inp.randEnemyCol % COLS) ENEMY else s).level = s.level := by
      split <;> rfl
    have hnext : (enemySpawn s inp).nextEnemySpawnTime =
        enemySpawnInterval s.level inp.randEnemyNext := by
      unfold enemySpawn
      rw [if_pos h]
      dsimp only
      rw [hlev]
    refine ⟨?_, ?_, fun e => ?_, fun e => ?_, fun e => ?_, fun e => ?_, fun e => ?_⟩
    · unfold enemySpawn
      rw [if_pos h]
      dsimp only
      refine spawned_put s _ ENEMY _ (Nat.mod_lt _ (by decide)) (by decide) rfl ?_ ?_ ?_ ?_
        <;> split <;> rfl
    · unfold enemySpawn
      rw [if_pos h]
    · rw [hnext, e]
      show (2100000 : Int) + ((inp.randEnemyNext : Int).tmod 2) * 1000000 = _
      rw [em2]
    · rw [hnext, e]
      show (1700000 : Int) + ((inp.randEnemyNext : Int).tmod 2) * 1000000 = _
      rw [em2]
    · rw [hnext, e]
      show (1300000 : Int) + ((inp.randEnemyNext : Int).tmod 1) * 1000000 = _
      rw [em1]
      rfl
    · rw [hnext, e]
      show (900000 : Int) + ((inp.randEnemyNext : Int).tmod 1) * 1000000 = _
      rw [em1]
      rfl
    · rw [hnext, e]
      show (500000 : Int) + ((inp.randEnemyNext : Int).tmod 1) * 1000000 = _
      rw [em1]
      rfl
  · have hlev : (if s.cell 0 (inp.randBossCol % COLS) = EMPTY then
        s.setCell 0 (inp.randBossCol % COLS) BOSS else s).level = s.level := by
      split <;> rfl
    have hnext : (bossSpawn s inp).nextBossSpawnTime =
        bossSpawnInterval s.level inp.randBossNext := by
      unfold bossSpawn
      rw [if_pos ⟨h3, h⟩]
      dsimp only
      rw [hlev]
    refine ⟨?_, ?_, fun e => ?_, fun e => ?_, fun e => ?_⟩
    · unfold bossSpawn
      rw [if_pos ⟨h3, h⟩]
      dsimp only
      refine spawned_put s _ BOSS _ (Nat.mod_lt _ (by decide)) (by decide) rfl ?_ ?_ ?_ ?_
        <;> split <;> rfl
    · unfold bossSpawn
      rw [if_pos ⟨h3, h⟩]
    · rw [hnext, e]
      rfl
    · rw [hnext, e]
      rfl
    · rw [hnext, e]
      rfl

theorem C20_spawn_witness :
    (spawnState 3).cell 0 4 = EMPTY ∧ (spawnState 3).cell 0 7 = EMPTY ∧
      Spawned (spawnState 3) (meteorSpawn (spawnState 3) spawnInput) METEOR 4 ∧
      (meteorSpawn (spawnState 3) spawnInput).nextSpawnTime = 2000000 ∧
      Spawned (spawnState 3) (enemySpawn (spawnState 3) spawnInput) ENEMY 4 ∧
      (enemySpawn (spawnState 3) spawnInput).enemySpawnClock = 0 ∧
      (enemySpawn (spawnState 3) spawnInput).nextEnemySpawnTime = 1300000 ∧
      Spawned (spawnState 3) (bossSpawn (spawnState 3) spawnInput) BOSS 7 ∧
      (bossSpawn (spawnState 3) spawnInput).bossSpawnClock = 0 ∧
      (bossSpawn (spawnState 3) spawnInput).nextBossSpawnTime = 12000000 :=
  have h := C20_spawn (spawnState 3) spawnInput
  have hm := h.1 (by decide)
  have he := h.2.1 (by decide)
  have hb := h.2.2 (by decide) (by decide)
  ⟨by decide!, by decide!, hm.1, hm.2.2, he.1, he.2.1, he.2.2.2.2.1 rfl, hb.1, hb.2.1,
    hb.2.2.1 rfl⟩

/-- C21: a frame in which Menu, Game Over or Victory runs its Enter branch with
the cursor on item 0 ends in a fresh game - Playing, lives 3, score 0, level 1,
the grid holding only the Player at `(22, 7)` - whatever grid and HUD values
the state had before. -/
theorem C21_start_resets (s : State) (inp : Input) (hsel : Selects s inp)
    (h0 : s.selectedMenuItem = 0)
    (hst : s.currentState = STATE_MENU ∨ s.currentState = STATE_GAME_OVER ∨
      s.currentState = STATE_VICTORY) : FreshGame (frame s inp) := by
  obtain ⟨hc, he, hu, hd⟩ := hsel
  obtain ⟨s2, hs2, e⟩ := frame_entry s inp
  rw [e]
  rcases hs2 with rfl | rfl
  · exact start_updateBlock _ inp hc he hu hd h0 hst
  · exact start_updateBlock _ inp hc he hu hd h0 hst

theorem C21_start_resets_witness :
    messyState.cell 5 3 = BOSS ∧ FreshGame (frame messyState startInput) :=
  ⟨by decide!, C21_start_resets messyState startInput ⟨by decide, rfl, rfl, rfl⟩ rfl
    (Or.inr (Or.inl rfl))⟩

/-- C22: from Paused, a frame that resumes - the cooldown elapsed, no cursor key
held, and Enter held with the cursor on item 0, or P held without Enter - ends
Playing with grid, lives, score, level and Player column as they were; and a
frame that starts and ends Paused leaves all five as they were. -/
theorem C22_pause_resume (s : State) (inp : Input) (hst : s.currentState = STATE_PAUSED) :
    (menuCooldown ≤ s.menuClock + inp.dt → (inp.keyUp || inp.keyW) = false →
      (inp.keyDown || inp.keyS) = false →
      (inp.keyEnter = true ∧ s.selectedMenuItem = 0) ∨
        (inp.keyEnter = false ∧ inp.keyP = true) →
      (frame s inp).currentState = STATE_PLAYING ∧ SameBoard s (frame s inp)) ∧
    ((frame s inp).currentState = STATE_PAUSED → SameBoard s (frame s inp)) := by
  obtain ⟨s2, hs2, e⟩ := frame_entry s inp
  rw [e]
  refine ⟨fun hc hu hd hk => ?_, fun hp => ?_⟩
  · rcases hs2 with rfl | rfl
    · exact resume_updateBlock _ inp hst hc hu hd hk
    · exact resume_updateBlock _ inp hst hc hu hd hk
  · rcases hs2 with rfl | rfl
    · have h := idle_updateBlock (s.advanceClocks inp.dt) inp hst hp
      exact ⟨h.1, h.2.1, h.2.2.1, h.2.2.2.1, h.2.2.2.2⟩
    · have h := idle_updateBlock { s.advanceClocks inp.dt with windowOpen := false } inp hst hp
      exact ⟨h.1, h.2.1, h.2.2.1, h.2.2.2.1, h.2.2.2.2⟩

theorem C22_pause_resume_witness :
    (frame pausedState { Input.idle 200000 with keyP := true }).currentState = STATE_PLAYING ∧
      SameBoard pausedState (frame pausedState { Input.idle 200000 with keyP := true }) :=
  (C22_pause_resume pausedState { Input.idle 200000 with keyP := true } rfl).1
    (by decide) rfl rfl (Or.inr ⟨rfl, rfl⟩)

/-- C23: a frame in which Paused runs its Enter branch with the cursor on item
1 ends Playing with score 0 and the grid holding only the Player at `(22, 7)`,
level and lives being what they were. -/
theorem C23_paused_restart (s : State) (inp : Input) (hst : s.currentState = STATE_PAUSED)
    (hsel : Selects s inp) (h1 : s.selectedMenuItem = 1) :
    (frame s inp).currentState = STATE_PLAYING ∧ (frame s inp).score = 0 ∧
      CleanGrid (frame s inp) ∧ (frame s inp).spaceshipCol = COLS / 2 ∧
      (frame s inp).level = s.level ∧ (frame s inp).lives = s.lives := by
  obtain ⟨hc, he, hu, hd⟩ := hsel
  obtain ⟨s2, hs2, e⟩ := frame_entry s inp
  rw [e]
  rcases hs2 with rfl | rfl
  · exact restart_updateBlock _ inp hst hc he hu hd h1
  · exact restart_updateBlock _ inp hst hc he hu hd h1

theorem C23_paused_restart_witness :
    pausedState.score = 5 ∧ pausedState.cell 5 3 = ENEMY ∧
      (frame pausedState startInput).currentState = STATE_PLAYING ∧
      (frame pausedState startInput).score = 0 ∧ CleanGrid (frame pausedState startInput) ∧
      (frame pausedState startInput).level = 2 ∧ (frame pausedState startInput).lives = 2 :=
  have h := C23_paused_restart pausedState startInput rfl ⟨by decide, rfl, rfl, rfl⟩ rfl
  ⟨rfl, by decide!, h.1, h.2.1, h.2.2.1, h.2.2.2.2.1, h.2.2.2.2.2⟩

/-- C24 (as stated, fails): after 28 frames of `lostGameInputs` the state is
reachable and Playing with the menu cooldown elapsed; the next frame, with P
held, ends in Game Over.  The pause input sets Paused, the rest of the Playing
block still runs, and the Meteor that steps into the Player takes the last
life. -/
theorem C24_pause_overridden :
    Reachable (run (initState 0 0 0) (lostGameInputs.take 28)) ∧
      (run (initState 0 0 0) (lostGameInputs.take 28)).currentState = STATE_PLAYING ∧
      menuCooldown ≤ (run (initState 0 0 0) (lostGameInputs.take 28)).menuClock ∧
      (frame (run (initState 0 0 0) (lostGameInputs.take 28))
        { tickInput 14 2 with keyP := true }).currentState = STATE_GAME_OVER := by
  have h : (run (initState 0 0 0) (lostGameInputs.take 28)).windowOpen = true ∧
      (run (initState 0 0 0) (lostGameInputs.take 28)).currentState = STATE_PLAYING ∧
      menuCooldown ≤ (run (initState 0 0 0) (lostGameInputs.take 28)).menuClock ∧
      (frame (run (initState 0 0 0) (lostGameInputs.take 28))
        { tickInput 14 2 with keyP := true }).currentState = STATE_GAME_OVER := by
    decide!
  exact ⟨reachable_run (Reachable.init 0 0 0) _ h.1, h.2⟩

/-- C24 (amended): a frame that starts Playing in a reachable state, with the
menu cooldown elapsed and P held, ends with the cursor on item 0 and in Paused,
Game Over, Level Up or Victory; it ends Paused whenever lives, level and score
end as they started. -/
theorem C24_pause_frame (s : State) (inp : Input) (h : Reachable s)
    (hst : s.currentState = STATE_PLAYING) (hc : menuCooldown ≤ s.menuClock + inp.dt)
    (hp : inp.keyP = true) :
    (frame s inp).selectedMenuItem = 0 ∧
      ((frame s inp).currentState = STATE_PAUSED ∨
        (frame s inp).currentState = STATE_GAME_OVER ∨
        (frame s inp).currentState = STATE_LEVEL_UP ∨
        (frame s inp).currentState = STATE_VICTORY) ∧
      ((frame s inp).lives = s.lives → (frame s inp).level = s.level →
        (frame s inp).score = s.score → (frame s inp).currentState = STATE_PAUSED) := by
  have hs : s.score < 10 * s.level := by
    rcases (reachable_inv h).2 with x | x
    · exact x
    · exact absurd hst x.2.1
  have key : PausedOr s.lives s.level s.score (frame s inp) := by
    obtain ⟨s2, hs2, e⟩ := frame_entry s inp
    rw [e]
    rcases hs2 with rfl | rfl
    · exact pause_updateBlock (s.advanceClocks inp.dt) inp hst hc hp hs
    · exact pause_updateBlock { s.advanceClocks inp.dt with windowOpen := false } inp hst hc hp hs
  obtain ⟨k1, k2, k3, k4, k5⟩ := key
  refine ⟨k1, ?_, fun e1 e2 e3 => ?_⟩
  · rcases k5 with x | x
    · exact x.2
    · exact Or.inl x.1
  · rcases k5 with x | x
    · exfalso
      rcases x.1 with y | y | y <;> omega
    · exact x.1

theorem C24_pause_frame_witness :
    (frame (frame (initState 0 0 0) startInput)
        { Input.idle 200000 with keyP := true }).selectedMenuItem = 0 ∧
      (frame (frame (initState 0 0 0) startInput)
        { Input.idle 200000 with keyP := true }).currentState = STATE_PAUSED :=
  have h := C24_pause_frame (frame (initState 0 0 0) startInput)
    { Input.idle 200000 with keyP := true } (Reachable.step _ _ (Reachable.init 0 0 0) rfl)
    (by decide!) (by decide!) rfl
  ⟨h.1, h.2.2 (by decide!) (by decide!) (by decide!)⟩

/-- C25: a frame of the Menu with the cursor on item 1 and Enter held (no cursor
key held) leaves the lifecycle at Menu, the cursor on item 1, and grid, lives,
score, level and Player column as they were. -/
theorem C25_load_is_inert (s : State) (inp : Input) (hst : s.currentState = STATE_MENU)
    (h1 : s.selectedMenuItem = 1) (he : inp.keyEnter = true)
    (hu : (inp.keyUp || inp.keyW) = false) (hd : (inp.keyDown || inp.keyS) = false) :
    (frame s inp).currentState = STATE_MENU ∧ (frame s inp).selectedMenuItem = 1 ∧
      SameBoard s (frame s inp) := by
  obtain ⟨s2, hs2, e⟩ := frame_entry s inp
  rw [e]
  rcases hs2 with rfl | rfl
  · rw [updateBlock_menu (s.advanceClocks inp.dt) inp hst]
    have h := load_menuFrame (s.advanceClocks inp.dt) inp h1 he hu hd
    exact ⟨h.1.trans hst, h.2.1, h.2.2⟩
  · rw [updateBlock_menu { s.advanceClocks inp.dt with windowOpen := false } inp hst]
    have h := load_menuFrame { s.advanceClocks inp.dt with windowOpen := false } inp h1 he hu hd
    exact ⟨h.1.trans hst, h.2.1, h.2.2⟩

theorem C25_load_is_inert_witness :
    (frame { initState 0 0 0 with selectedMenuItem := 1 } startInput).currentState = STATE_MENU ∧
      (frame { initState 0 0 0 with selectedMenuItem := 1 } startInput).selectedMenuItem = 1 ∧
      SameBoard { initState 0 0 0 with selectedMenuItem := 1 }
        (frame { initState 0 0 0 with selectedMenuItem := 1 } startInput) :=
  C25_load_is_inert { initState 0 0 0 with selectedMenuItem := 1 } startInput rfl rfl rfl rfl rfl

/-- C26: when slot `i` is the lowest-indexed inactive slot, the activation loop
sets it active with the given row and column and timer 0 and leaves every other
slot as it was; when all 50 slots are active the state is unchanged. -/
theorem C26_hit_effect_activation (s : State) (row col : Nat) :
    (∀ i, i < MAX_HIT_EFFECTS → s.hitEffectActive i = false →
      (∀ j, j < i → s.hitEffectActive j = true) →
      triggerHitEffect s row col = activateSlot s i row col ∧
        (activateSlot s i row col).hitEffectActive i = true ∧
        (activateSlot s i row col).hitEffectRow i = row ∧
        (activateSlot s i row col).hitEffectCol i = col ∧
        (activateSlot s i row col).hitEffectTimer i = 0 ∧
        ∀ j, j ≠ i →
          (activateSlot s i row col).hitEffectActive j = s.hitEffectActive j ∧
          (activateSlot s i row col).hitEffectRow j = s.hitEffectRow j ∧
          (activateSlot s i row col).hitEffectCol j = s.hitEffectCol j ∧
          (activateSlot s i row col).hitEffectTimer j = s.hitEffectTimer j) ∧
    ((∀ i, i < MAX_HIT_EFFECTS → s.hitEffectActive i = true) →
      triggerHitEffect s row col = s) := by
  refine ⟨fun i hi h3 h4 => ⟨?_, ?_, ?_, ?_, ?_, fun j hj => ?_⟩, fun h => ?_⟩
  · exact triggerHitEffectFrom_first s row col MAX_HIT_EFFECTS 0 i (Nat.zero_le _) (by omega) h3
      (fun j _ hj => h4 j hj)
  · simp [activateSlot, setAt]
  · simp [activateSlot, setAt]
  · simp [activateSlot, setAt]
  · simp [activateSlot, setAt]
  · simp [activateSlot, setAt, hj]
  · exact triggerHitEffectFrom_full s row col MAX_HIT_EFFECTS 0 (fun j _ hj => h j (by omega))

theorem C26_hit_effect_activation_witness :
    triggerHitEffect busyState 4 9 = activateSlot busyState 2 4 9 ∧
      (activateSlot busyState 2 4 9).hitEffectActive 2 = true ∧
      (activateSlot busyState 2 4 9).hitEffectRow 2 = 4 :=
  have h := (C26_hit_effect_activation busyState 4 9).1 2 (by decide) (by decide)
    (by decide)
  ⟨h.1, h.2.1, h.2.2.1⟩

/-- C27: the update of the pool adds the elapsed time `hitEffectClock` to the
timer of every active slot, which stays active exactly when the new timer is
below 0.3 s; the timer and the flag of an inactive slot, and all rows and
columns, are unchanged.  Timers are exact, in microseconds. -/
theorem C27_hit_effect_advance (s : State) (i : Nat) (hi : i < MAX_HIT_EFFECTS) :
    (s.hitEffectActive i = true →
      (updateHitEffects s).hitEffectTimer i = s.hitEffectTimer i + s.hitEffectClock ∧
      ((updateHitEffects s).hitEffectActive i = true ↔
        s.hitEffectTimer i + s.hitEffectClock < HIT_EFFECT_DURATION)) ∧
    (s.hitEffectActive i = false →
      (updateHitEffects s).hitEffectTimer i = s.hitEffectTimer i ∧
      (updateHitEffects s).hitEffectActive i = false) ∧
    (updateHitEffects s).hitEffectRow = s.hitEffectRow ∧
    (updateHitEffects s).hitEffectCol = s.hitEffectCol := by
  unfold updateHitEffects
  dsimp only
  refine ⟨fun ha => ⟨?_, ?_⟩, fun ha => ⟨?_, ?_⟩, rfl, rfl⟩
  · rw [if_pos ⟨hi, ha⟩]
  · by_cases hd : s.hitEffectTimer i + s.hitEffectClock ≥ HIT_EFFECT_DURATION
    · rw [if_pos ⟨hi, ha, hd⟩]
      constructor
      · intro h
        exact absurd h (by decide)
      · intro h
        omega
    · rw [if_neg (fun h => hd h.2.2), ha]
      constructor
      · intro _
        omega
      · intro _
        rfl
  · rw [if_neg (fun h => by rw [ha] at h; exact absurd h.2 (by decide))]
  · rw [if_neg (fun h => by rw [ha] at h; exact absurd h.2.1 (by decide)), ha]

theorem C27_hit_effect_advance_witness :
    (updateHitEffects { busyState with hitEffectClock := 300000 }).hitEffectTimer 1 = 300000 ∧
      ¬ (updateHitEffects { busyState with hitEffectClock := 300000 }).hitEffectActive 1 = true :=
  have h := (C27_hit_effect_advance { busyState with hitEffectClock := 300000 } 1
    (by decide)).1 (by decide)
  ⟨h.1, fun e => absurd (h.2.1 e) (by decide)⟩

/-- C28 (as stated, fails): in the initial state, which is reachable, slot 0 is
inactive although its timer, 0, is below 0.3 s. -/
theorem C28_idle_slot_breaks_iff :
    Reachable (initState 0 0 0) ∧ (initState 0 0 0).hitEffectActive 0 = false ∧
      (initState 0 0 0).hitEffectTimer 0 < HIT_EFFECT_DURATION :=
  ⟨Reachable.init 0 0 0, rfl, by decide⟩

/-- C28 (amended): in every reachable state an active slot has its timer below
0.3 s, and an inactive slot has timer 0 or a timer of at least 0.3 s. -/
theorem C28_active_slot_timer (s : State) (h : Reachable s) (i : Nat)
    (hi : i < MAX_HIT_EFFECTS) :
    (s.hitEffectActive i = true → s.hitEffectTimer i < HIT_EFFECT_DURATION) ∧
    (s.hitEffectActive i = false →
      s.hitEffectTimer i = 0 ∨ HIT_EFFECT_DURATION ≤ s.hitEffectTimer i) :=
  reachable_effects h i hi

theorem C28_active_slot_timer_witness :
    (((frame (initState 0 0 0) startInput).hitEffectActive 3 = true →
        (frame (initState 0 0 0) startInput).hitEffectTimer 3 < HIT_EFFECT_DURATION) ∧
      ((frame (initState 0 0 0) startInput).hitEffectActive 3 = false →
        (frame (initState 0 0 0) startInput).hitEffectTimer 3 = 0 ∨
          HIT_EFFECT_DURATION ≤ (frame (initState 0 0 0) startInput).hitEffectTimer 3)) :=
  C28_active_slot_timer _ (Reachable.step _ _ (Reachable.init 0 0 0) rfl) 3 (by decide)

/-- C29: with the Player column on the board, the Playing block - player move,
fire, the three spawners (whose column is `rand() % COLS`), the five movers and
the Boss firing - the progression check with its level reset, the two restarts
and the activation loop, run with every grid access and every slot index
checked, never fail and return the state of the unchecked blocks; and the
frame leaves the Player column on the board. -/
theorem C29_accesses_in_bounds (s : State) (inp : Input) (h : s.spaceshipCol < COLS) :
    playingFrameC s inp = some (playingFrame s inp) ∧
      checkLevelUpC s = some (checkLevelUp s) ∧
      startGameC s = some (startGame s) ∧
      restartLevelC s = some (restartLevel s) ∧
      (∀ row col, triggerHitEffectC s row col = some (triggerHitEffect s row col)) ∧
      (frame s inp).spaceshipCol < COLS :=
  ⟨playingFrameC_eq s h inp, checkLevelUpC_eq s h, startGameC_eq s, restartLevelC_eq s,
    triggerHitEffectC_eq s, onBoard_frame s h inp⟩

theorem C29_accesses_in_bounds_witness :
    (duelState 1 9).spaceshipCol < COLS ∧
      playingFrameC (duelState 1 9) (playInput true 3)
        = some (playingFrame (duelState 1 9) (playInput true 3)) ∧
      checkLevelUpC (duelState 1 9) = some (checkLevelUp (duelState 1 9)) :=
  have h := C29_accesses_in_bounds (duelState 1 9) (playInput true 3) (by decide!)
  ⟨by decide!, h.1, h.2.1⟩

/-- C30 (as stated, fails): level 1, score 9, the Player at `(22, 7)`, an Enemy at
`(0, 7)` and the cells between Empty.  Firing puts a Player Bullet at `(21, 7)`;
after 21 ticks of the Player Bullet mover the score is 0, not 10, and the level
is 2: the tenth point completes the level. -/
theorem C30_tenth_point_resets_score :
    (aimState 9).spaceshipCol = 7 ∧ (aimState 9).cell 21 7 = EMPTY ∧
      (aimState 9).cell 0 7 = ENEMY ∧
      (∀ r, r < ROWS - 1 → 0 < r → (aimState 9).cell r 7 = EMPTY) ∧
      (playerFire (aimState 9) (playInput true 0)).cell 21 7 = BULLET ∧
      (aimState 9).score = 9 ∧
      (bulletTicks (playerFire (aimState 9) (playInput true 0)) 21).score = 0 ∧
      (bulletTicks (playerFire (aimState 9) (playInput true 0)) 21).level = 2 := by
  have a1 : (aimState 9).spaceshipCol = 7 := by decide!
  have a2 : bulletFireCooldown ≤ (aimState 9).bulletFireClock := by decide!
  have a3 : (aimState 9).cell 0 7 = ENEMY := by decide!
  have a4 : ∀ r, r < ROWS - 1 → 0 < r → (aimState 9).cell r 7 = EMPTY := by decide!
  have a5 : NoBullets (aimState 9) := by decide!
  have a6 : (aimState 9).cell 21 7 = EMPTY := by decide!
  have h0 : InFlight (aimState 9) (playerFire (aimState 9) (playInput true 0)) (ROWS - 2) 7 :=
    inFlight_fire (aimState 9) (playInput true 0) rfl a2 a6
  have h20 := inFlight_ticks (aimState 9) _ 0 7 (by decide) h0 a5 a4 20 (by decide)
  have h21 := inFlight_levelUp (aimState 9) _ 0 7 (by decide) (by decide) h20 a5 a3
    (by decide!) (by decide!)
  exact ⟨a1, a6, a3, a4, ((h0.1 21 7).trans (by decide!)), by decide!, h21.1, h21.2⟩

/-- C30 (amended): the Player at column `p`, an Enemy at `(e, p)` with `e ≤ 20`,
the cells `(e + 1, p)` .. `(21, p)` Empty, no Player Bullet on the board, the
score more than one point below the level's threshold, and `i` the lowest
inactive slot of the pool.  Firing puts a Player Bullet at `(21, p)`; after `k`
ticks of the Player Bullet mover, `k ≤ 20 - e`, the state is the one before the
shot with the bullet at `(21 - k, p)`; after `21 - e` ticks the bullet and the
Enemy are gone and every other cell is as before the shot, the score has risen
by 1, level, lives and lifecycle state are unchanged, and the pool is the one
before the shot with slot `i` activated at `(e, p)`. -/
theorem C30_shot_destroys_enemy (s : State) (inp : Input) (e p i : Nat)
    (hp : s.spaceshipCol = p) (hpc : p < COLS) (he : e ≤ 20)
    (hk : inp.keySpace = true) (hc : bulletFireCooldown ≤ s.bulletFireClock)
    (hen : s.cell e p = ENEMY) (hb : ∀ r, r < ROWS - 1 → e < r → s.cell r p = EMPTY)
    (hn : NoBullets s) (hs : s.score + 1 < 10 * s.level)
    (hi : i < MAX_HIT_EFFECTS) (hf : s.hitEffectActive i = false)
    (hl : ∀ j, j < i → s.hitEffectActive j = true) :
    (∀ k, k ≤ 20 - e → InFlight s (bulletTicks (playerFire s inp) k) (21 - k) p) ∧
      (∀ r c, (bulletTicks (playerFire s inp) (21 - e)).cell r c
        = if r = e ∧ c = p then EMPTY else s.cell r c) ∧
      (bulletTicks (playerFire s inp) (21 - e)).score = s.score + 1 ∧
      (bulletTicks (playerFire s inp) (21 - e)).level = s.level ∧
      (bulletTicks (playerFire s inp) (21 - e)).lives = s.lives ∧
      (bulletTicks (playerFire s inp) (21 - e)).currentState = s.currentState ∧
      SamePool (activateSlot s i e p) (bulletTicks (playerFire s inp) (21 - e)) := by
  have hR : ROWS = 23 := rfl
  subst hp
  have h0 : InFlight s (playerFire s inp) (ROWS - 2) s.spaceshipCol :=
    inFlight_fire s inp hk hc (hb _ (by omega) (by omega))
  have hfl : ∀ k, k ≤ 20 - e →
      InFlight s (bulletTicks (playerFire s inp) k) (21 - k) s.spaceshipCol :=
    fun k hk2 => inFlight_ticks s _ e _ hpc h0 hn hb k (by omega)
  refine ⟨hfl, ?_⟩
  have e2 : 21 - e = (20 - e) + 1 := by omega
  have h1 := hfl (20 - e) (le_refl _)
  have e3 : 21 - (20 - e) = e + 1 := by omega
  rw [e3] at h1
  rw [e2, bulletTicks_succ]
  exact inFlight_kill s _ e _ i (by omega) hpc h1 hn hen (hb _ (by omega) (by omega)) hs hi hf hl

theorem C30_shot_destroys_enemy_witness :
    (playerFire (aimState 0) (playInput true 0)).cell 21 7 = BULLET ∧
      (bulletTicks (playerFire (aimState 0) (playInput true 0)) 20).cell 0 7 = ENEMY ∧
      (bulletTicks (playerFire (aimState 0) (playInput true 0)) 21).cell 0 7 = EMPTY ∧
      (bulletTicks (playerFire (aimState 0) (playInput true 0)) 21).score = 1 ∧
      (bulletTicks (playerFire (aimState 0) (playInput true 0)) 21).hitEffectActive 0 = true :=
  have a1 : (aimState 0).spaceshipCol = 7 := by decide!
  have a2 : bulletFireCooldown ≤ (aimState 0).bulletFireClock := by decide!
  have a3 : (aimState 0).cell 0 7 = ENEMY := by decide!
  have a4 : ∀ r, r < ROWS - 1 → 0 < r → (aimState 0).cell r 7 = EMPTY := by decide!
  have a5 : NoBullets (aimState 0) := by decide!
  have a6 : (aimState 0).score + 1 < 10 * (aimState 0).level := by decide!
  have a7 : (aimState 0).hitEffectActive 0 = false := by decide!
  have h := C30_shot_destroys_enemy (aimState 0) (playInput true 0) 0 7 0 a1
    (by decide) (by decide) rfl a2 a3 a4 a5 a6 (by decide) a7 (fun j hj => absurd hj (by omega))
  ⟨((h.1 0 (by decide)).1 21 7).trans (by decide!),
    ((h.1 20 (by decide)).1 0 7).trans (by decide!),
    (h.2.1 0 7).trans (by decide!), h.2.2.1.trans (by decide!),
    (congrFun h.2.2.2.2.2.2.1 0).trans (by decide!)⟩

/-- C31 (as stated, fails): level 1, score 9, the Player at `(22, 7)`, an Enemy
at `(5, 3)` right above a Player Bullet at `(6, 3)`, column 0 Empty, and an Enemy
injected at `(0, 0)`.  After one tick of the Enemy mover no Enemy is left on the
board: the bottom-up scan first takes the Enemy of column 3 onto the bullet,
the tenth point completes the level and the level reset clears the grid, the
injected Enemy included. -/
theorem C31_other_enemy_levels_up :
    (duelState 1 9).spaceshipCol = 7 ∧
      (∀ r, r < ROWS → (duelState 1 9).cell r 0 = EMPTY) ∧
      ((duelState 1 9).setCell 0 0 ENEMY).cell 0 0 = ENEMY ∧
      (∀ r, r < ROWS → ∀ c, c < COLS →
        (enemyTicks ((duelState 1 9).setCell 0 0 ENEMY) 1).cell r c ≠ ENEMY) ∧
      (enemyTicks ((duelState 1 9).setCell 0 0 ENEMY) 1).level = 2 := by
  decide!

/-- C31 (amended): in a state with no Enemy on the board and column `c` Empty
(so `c` is not the Player's column), an Enemy injected at `(0, c)` is at `(k, c)`
after `k` ticks of the Enemy mover for every `k ≤ 22`, nothing else having
changed; the 23rd tick removes it, which leaves the grid as it was before the
injection, lives reduced by exactly one, the invincibility flag set with its
timer restarted, score and level unchanged, and the lifecycle at Game Over if
lives is then at most 0 (unchanged otherwise). -/
theorem C31_enemy_descent (s : State) (c : Nat) (hc : c < COLS) (hn : NoEnemies s)
    (hcol : ∀ r, r < ROWS → s.cell r c = EMPTY) :
    (∀ k, k ≤ 22 → EnemyAt s (enemyTicks (s.setCell 0 c ENEMY) k) k c) ∧
      (∀ r2 c2, (enemyTicks (s.setCell 0 c ENEMY) 23).cell r2 c2 = s.cell r2 c2) ∧
      LifeLost s (enemyTicks (s.setCell 0 c ENEMY) 23) ∧
      (enemyTicks (s.setCell 0 c ENEMY) 23).score = s.score ∧
      (enemyTicks (s.setCell 0 c ENEMY) 23).level = s.level := by
  have hR : ROWS = 23 := rfl
  refine ⟨fun k hk => enemyAt_ticks s c hc hn hcol k (by omega), ?_⟩
  have h22 := enemyAt_ticks s c hc hn hcol 22 (by decide)
  exact enemyAt_exit s _ c hc h22 hn (hcol _ (by decide))

theorem C31_enemy_descent_witness :
    (boardState 0 0 ENEMY).cell 0 0 = ENEMY ∧
      (enemyTicks (boardState 0 0 ENEMY) 22).cell 22 0 = ENEMY ∧
      (enemyTicks (boardState 0 0 ENEMY) 23).cell 22 0 = EMPTY ∧
      (enemyTicks (boardState 0 0 ENEMY) 23).lives = 2 ∧
      (enemyTicks (boardState 0 0 ENEMY) 23).isInvincible = true :=
  have a1 : NoEnemies (startGame (initState 0 0 0)) := by decide!
  have a2 : ∀ r, r < ROWS → (startGame (initState 0 0 0)).cell r 0 = EMPTY := by decide!
  have h := C31_enemy_descent (startGame (initState 0 0 0)) 0 (by decide) a1 a2
  ⟨by decide!, ((h.1 22 (by decide)).1 22 0).trans (by decide!),
    (h.2.1 22 0).trans (by decide!), h.2.2.1.1.trans (by decide!), h.2.2.1.2.1⟩

/-- C32: on a grid whose cells are all Empty or Meteor, one tick of the Meteor
mover shifts the grid down by one row - `new (r, c) = old (r - 1, c)` for
`1 ≤ r ≤ 22` and `new (0, c)` = Empty - so the Meteors of row 22 are gone and no
Meteor is moved twice or skipped; lives, score, level, lifecycle state, the
invincibility flag and the hit-effect arrays are unchanged. -/
theorem C32_meteor_shift (s : State) (hf : MeteorField s) :
    (∀ r, 1 ≤ r → r < ROWS → ∀ c, c < COLS →
      (meteorTick s).cell r c = s.cell (r - 1) c) ∧
    (∀ c, c < COLS → (meteorTick s).cell 0 c = EMPTY) ∧
    SameHud s (meteorTick s) := by
  have h0 : ShiftedDown s [] s :=
    ⟨fun r _ c _ => by rw [if_neg (List.not_mem_nil _)],
      rfl, rfl, rfl, rfl, rfl, rfl, rfl, rfl, rfl⟩
  have h := shiftedDown_scan s hf scanBottomUp [] s rfl h0
  rw [← forCells_eq] at h
  obtain ⟨hg, hh⟩ := h
  unfold meteorTick
  generalize forCells scanBottomUp meteorCell s = u at hg hh
  refine ⟨fun r h1 hr c hc => ?_, fun c hc => ?_, hh⟩
  · show u.cell r c = _
    rw [hg r hr c hc, if_pos ((mem_scanBottomUp _).2 ⟨hr, hc⟩), if_pos]
    exact ⟨h1, (mem_scanBottomUp _).2 ⟨by omega, hc⟩⟩
  · show u.cell 0 c = _
    have h0r : 0 < ROWS := by decide
    rw [hg 0 h0r c hc, if_pos ((mem_scanBottomUp _).2 ⟨h0r, hc⟩), if_neg]
    rintro ⟨x, _⟩
    omega

theorem C32_meteor_shift_witness :
    meteorState.cell 21 4 = METEOR ∧ meteorState.cell 22 4 = METEOR ∧
      (meteorTick meteorState).cell 22 4 = METEOR ∧ (meteorTick meteorState).cell 21 4 = EMPTY ∧
      (meteorTick meteorState).cell 4 9 = METEOR ∧ (meteorTick meteorState).lives = 3 :=
  have hf : MeteorField meteorState := by decide!
  have h := C32_meteor_shift meteorState hf
  ⟨by decide!, by decide!, (h.1 22 (by decide) (by decide) 4 (by decide)).trans (by decide!),
    (h.1 21 (by decide) (by decide) 4 (by decide)).trans (by decide!),
    (h.1 4 (by decide) (by decide) 9 (by decide)).trans (by decide!),
    h.2.2.1.trans (by decide!)⟩

/-- C33: on a grid whose rows 0..21 hold only Empty cells and Player Bullets and
whose row 22 holds no Player Bullet, one tick of the Player Bullet mover shifts
the bullets up by one row - `new (r, c) = old (r + 1, c)` for `0 ≤ r ≤ 20`, row
21 is Empty, row 22 is unchanged - so the bullets of row 0 are gone; lives,
score, level, lifecycle state, the invincibility flag and the hit-effect arrays
are unchanged. -/
theorem C33_bullet_shift (s : State) (hf : BulletField s) :
    (∀ r, r + 1 < ROWS - 1 → ∀ c, c < COLS → (bulletTick s).cell r c = s.cell (r + 1) c) ∧
    (∀ c, c < COLS → (bulletTick s).cell (ROWS - 2) c = EMPTY) ∧
    (∀ c, c < COLS → (bulletTick s).cell (ROWS - 1) c = s.cell (ROWS - 1) c) ∧
    SameHud s (bulletTick s) := by
  have hR : ROWS = 23 := rfl
  have h0 : ShiftedUp s [] s :=
    ⟨fun r _ c _ => by rw [if_neg (List.not_mem_nil _)],
      rfl, rfl, rfl, rfl, rfl, rfl, rfl, rfl, rfl⟩
  have h := shiftedUp_scan s hf scanTopDown [] s rfl h0
  rw [← forCells_eq] at h
  obtain ⟨hg, hh⟩ := h
  unfold bulletTick
  generalize forCells scanTopDown bulletCell s = u at hg hh
  have strip : ∀ r, r < ROWS - 1 → ∀ c, c < COLS →
      (if s.cell r c = BULLET then EMPTY else s.cell r c) = EMPTY := by
    intro r hr c hc
    rcases hf.1 r hr c hc with x | x
    · rw [if_neg (by rw [x]; decide), x]
    · rw [if_pos x]
  refine ⟨fun r hr c hc => ?_, fun c hc => ?_, fun c hc => ?_, hh⟩
  · show u.cell r c = _
    have hr2 : r < ROWS := by omega
    have hr3 : r + 1 < ROWS := by omega
    rw [hg r hr2 c hc, if_pos ((mem_scanTopDown _).2 ⟨hr2, hc⟩)]
    rcases hf.1 (r + 1) hr c hc with x | x
    · rw [if_neg (fun y => by rw [x] at y; exact absurd y.2 (by decide)),
        strip r (by omega) c hc, x]
    · rw [if_pos ⟨(mem_scanTopDown _).2 ⟨hr3, hc⟩, x⟩, x]
  · show u.cell (ROWS - 2) c = _
    have hr2 : ROWS - 2 < ROWS := by decide
    rw [hg _ hr2 c hc, if_pos ((mem_scanTopDown _).2 ⟨hr2, hc⟩),
      if_neg (fun y => hf.2 c hc y.2), strip _ (by decide) c hc]
  · show u.cell (ROWS - 1) c = _
    have hr2 : ROWS - 1 < ROWS := by decide
    rw [hg _ hr2 c hc, if_pos ((mem_scanTopDown _).2 ⟨hr2, hc⟩), if_neg, if_neg (hf.2 c hc)]
    rintro ⟨y, _⟩
    have := ((mem_scanTopDown _).1 y).1
    simp only at this
    omega

theorem C33_bullet_shift_witness :
    volleyState.cell 0 3 = BULLET ∧ volleyState.cell 5 3 = BULLET ∧
      volleyState.cell 21 7 = BULLET ∧
      (bulletTick volleyState).cell 0 3 = EMPTY ∧ (bulletTick volleyState).cell 4 3 = BULLET ∧
      (bulletTick volleyState).cell 20 7 = BULLET ∧ (bulletTick volleyState).cell 21 7 = EMPTY ∧
      (bulletTick volleyState).cell 22 7 = SPACESHIP ∧ (bulletTick volleyState).score = 0 :=
  have hf : BulletField volleyState := by decide!
  have h := C33_bullet_shift volleyState hf
  ⟨by decide!, by decide!, by decide!,
    (h.1 0 (by decide) 3 (by decide)).trans (by decide!),
    (h.1 4 (by decide) 3 (by decide)).trans (by decide!),
    (h.1 20 (by decide) 7 (by decide)).trans (by decide!),
    h.2.1 7 (by decide), (h.2.2.1 7 (by decide)).trans (by decide!),
    h.2.2.2.2.1.trans (by decide!)⟩

/-- C34: in every reachable state the cursor is in 0..3 when the lifecycle is
Menu, in 0..2 when it is Paused, and in 0..1 when it is Game Over or Victory. -/
theorem C34_cursor_in_menu (s : State) (h : Reachable s) :
    (s.currentState = STATE_MENU → 0 ≤ s.selectedMenuItem ∧ s.selectedMenuItem ≤ 3) ∧
    (s.currentState = STATE_PAUSED → 0 ≤ s.selectedMenuItem ∧ s.selectedMenuItem ≤ 2) ∧
    (s.currentState = STATE_GAME_OVER → 0 ≤ s.selectedMenuItem ∧ s.selectedMenuItem ≤ 1) ∧
    (s.currentState = STATE_VICTORY → 0 ≤ s.selectedMenuItem ∧ s.selectedMenuItem ≤ 1) :=
  reachable_cursor h

theorem C34_cursor_in_menu_witness :
    (run (initState 0 0 0) lostGameInputs).currentState = STATE_GAME_OVER ∧
      0 ≤ (run (initState 0 0 0) lostGameInputs).selectedMenuItem ∧
      (run (initState 0 0 0) lostGameInputs).selectedMenuItem ≤ 1 :=
  have hr : (run (initState 0 0 0) lostGameInputs).windowOpen = true ∧
      (run (initState 0 0 0) lostGameInputs).currentState = STATE_GAME_OVER := by decide!
  have h := (C34_cursor_in_menu _ (reachable_run (Reachable.init 0 0 0) _ hr.1)).2.2.1 hr.2
  ⟨hr.2, h.1, h.2⟩

/-- C35: in every reachable state the Player column is below `COLS`, a cell of
the board that holds the Player is `(22, spaceshipCol)`, so no two cells hold
the Player; and the movement block changes nothing at column 0 unless Right or
D is held, nor at column 14 unless Left or A is held. -/
theorem C35_player_column (s : State) (h : Reachable s) :
    s.spaceshipCol < COLS ∧
    (∀ r, r < ROWS → ∀ c, c < COLS → s.cell r c = SPACESHIP →
      r = ROWS - 1 ∧ c = s.spaceshipCol) ∧
    (∀ r1 c1 r2 c2, r1 < ROWS → c1 < COLS → r2 < ROWS → c2 < COLS →
      s.cell r1 c1 = SPACESHIP → s.cell r2 c2 = SPACESHIP → r1 = r2 ∧ c1 = c2) ∧
    (∀ inp : Input, s.spaceshipCol = 0 → (inp.keyRight || inp.keyD) = false →
      playerMove s inp = s) ∧
    (∀ inp : Input, s.spaceshipCol = COLS - 1 → (inp.keyLeft || inp.keyA) = false →
      playerMove s inp = s) := by
  have hwf : WF s := (reachable_inv h).1.2.2.2.2.2.2.2.2
  refine ⟨hwf.1, fun r hr c hc e => (hwf.2 r hr c hc).2.1 e, ?_,
    fun inp => (playerMove_edge s inp).1, fun inp => (playerMove_edge s inp).2⟩
  intro r1 c1 r2 c2 h1 h2 h3 h4 e1 e2
  have a := (hwf.2 r1 h1 c1 h2).2.1 e1
  have b := (hwf.2 r2 h3 c2 h4).2.1 e2
  exact ⟨a.1.trans b.1.symm, a.2.trans b.2.symm⟩

theorem C35_player_column_witness :
    (run (initState 0 0 0) (lostGameInputs.take 25)).spaceshipCol < COLS ∧
      (run (initState 0 0 0) (lostGameInputs.take 25)).spaceshipCol = 8 :=
  have hr : (run (initState 0 0 0) (lostGameInputs.take 25)).windowOpen = true ∧
      (run (initState 0 0 0) (lostGameInputs.take 25)).spaceshipCol = 8 := by decide!
  ⟨(C35_player_column _ (reachable_run (Reachable.init 0 0 0) _ hr.1)).1, hr.2⟩

/-- C36: with `r + 1 < ROWS`, the step of a Meteor at `(r, c)` whose target
`(r + 1, c)` holds an Enemy or a Boss, of an Enemy whose target holds a Meteor
or a Boss, and of a Boss Bullet whose target holds a Boss only empties the
source cell: the target and every other cell, lives, score, level, lifecycle
state and the hit-effect arrays are unchanged. -/
theorem C36_blocked_step_vanishes (s : State) (r c : Nat) (hr : r + 1 < ROWS) :
    (s.cell r c = METEOR → s.cell (r + 1) c = ENEMY ∨ s.cell (r + 1) c = BOSS →
      Vanished s (meteorCell s (r, c)) r c ∧
        (meteorCell s (r, c)).cell (r + 1) c = s.cell (r + 1) c) ∧
    (s.cell r c = ENEMY → s.cell (r + 1) c = METEOR ∨ s.cell (r + 1) c = BOSS →
      Vanished s (enemyCell s (r, c)) r c ∧
        (enemyCell s (r, c)).cell (r + 1) c = s.cell (r + 1) c) ∧
    (s.cell r c = BOSS_BULLET → s.cell (r + 1) c = BOSS →
      Vanished s (bossBulletCell s (r, c)) r c ∧
        (bossBulletCell s (r, c)).cell (r + 1) c = s.cell (r + 1) c) := by
  have hn := not_last_row hr
  have h := vanished_setCell s r c
  have h2 : (s.setCell r c EMPTY).cell (r + 1) c = s.cell (r + 1) c :=
    h.2.1 (r + 1) c (by omega)
  refine ⟨fun hs ht => ?_, fun hs ht => ?_, fun hs ht => ?_⟩
  · have e : meteorCell s (r, c) = meteorStep s r c := if_pos hs
    rw [e, meteorStep_blocked s r c hn ht]
    exact ⟨h, h2⟩
  · have e : enemyCell s (r, c) = enemyStep s r c := if_pos hs
    rw [e, enemyStep_blocked s r c hn ht]
    exact ⟨h, h2⟩
  · have e : bossBulletCell s (r, c) = bossBulletStep s r c := if_pos hs
    rw [e, bossBulletStep_blocked s r c hn (Or.inr ht)]
    exact ⟨h, h2⟩

theorem C36_blocked_step_vanishes_witness :
    Vanished (pairState METEOR ENEMY) (meteorCell (pairState METEOR ENEMY) (5, 3)) 5 3 ∧
      (meteorCell (pairState METEOR ENEMY) (5, 3)).cell (5 + 1) 3 = ENEMY :=
  have h := (C36_blocked_step_vanishes (pairState METEOR ENEMY) 5 3 (by decide)).1
    (by decide!) (Or.inl (by decide!))
  ⟨h.1, h.2.trans (by decide!)⟩

/-- C37: with `r + 1 < ROWS`, the step of a Boss at `(r, c)` whose target
`(r + 1, c)` holds a Meteor or an Enemy empties the source and puts the Boss on
the target; every other cell, lives, score, level, lifecycle state, the
invincibility flag and the hit-effect arrays are unchanged. -/
theorem C37_boss_overwrites (s : State) (r c : Nat) (hr : r + 1 < ROWS)
    (hs : s.cell r c = BOSS)
    (ht : s.cell (r + 1) c = METEOR ∨ s.cell (r + 1) c = ENEMY) :
    MovedTo s (bossCell s (r, c)) BOSS r c (r + 1) ∧
      (bossCell s (r, c)).isInvincible = s.isInvincible := by
  have e : bossCell s (r, c) = bossStep s r c := if_pos hs
  rw [e, bossStep_over s r c (not_last_row hr) ht]
  exact ⟨moved_setCell s BOSS r c (r + 1) (by omega) (by decide), rfl⟩

theorem C37_boss_overwrites_witness :
    (pairState BOSS ENEMY).cell 6 3 = ENEMY ∧
      (bossCell (pairState BOSS ENEMY) (5, 3)).cell (5 + 1) 3 = BOSS ∧
      (bossCell (pairState BOSS ENEMY) (5, 3)).score = (pairState BOSS ENEMY).score :=
  have h := (C37_boss_overwrites (pairState BOSS ENEMY) 5 3 (by decide) (by decide!)
    (Or.inr (by decide!))).1
  ⟨by decide!, h.2.1, h.2.2.2.2.1⟩

/-- C38: when the movement block moves the Player, to the left (Left or A held,
column above 0) or to the right (that not being the case, Right or D held,
column below 14), the cell it enters holds the Player whatever it held before,
the cell it leaves is Empty, and no other cell, nor lives, score, level,
lifecycle state or the invincibility flag changes. -/
theorem C38_player_move_overwrites (s : State) (inp : Input)
    (hc : moveCooldown ≤ s.moveClock) :
    ((inp.keyLeft || inp.keyA) = true → 0 < s.spaceshipCol →
      ShipMoved s (playerMove s inp) (s.spaceshipCol - 1)) ∧
    (¬((inp.keyLeft || inp.keyA) = true ∧ 0 < s.spaceshipCol) →
      (inp.keyRight || inp.keyD) = true → s.spaceshipCol < COLS - 1 →
      ShipMoved s (playerMove s inp) (s.spaceshipCol + 1)) := by
  have hc2 : s.moveClock ≥ moveCooldown := hc
  refine ⟨fun hl h0 => ?_, fun hn hr h14 => ?_⟩
  · apply shipMoved_to s (s.spaceshipCol - 1) (by omega)
    unfold playerMove
    rw [if_pos hc2, if_pos ⟨hl, h0⟩]
    rfl
  · apply shipMoved_to s (s.spaceshipCol + 1) (by omega)
    unfold playerMove
    rw [if_pos hc2, if_neg hn, if_pos ⟨hr, h14⟩]
    rfl

theorem C38_player_move_overwrites_witness :
    besideState.cell 22 6 = ENEMY ∧ besideState.lives = 3 ∧
      (playerMove besideState { Input.idle 0 with keyLeft := true }).cell 22 6 = SPACESHIP ∧
      (playerMove besideState { Input.idle 0 with keyLeft := true }).lives = 3 ∧
      (playingFrame besideState { Input.idle 0 with keyLeft := true }).lives = 3 ∧
      (playingFrame besideState (Input.idle 0)).lives = 2 :=
  have h := (C38_player_move_overwrites besideState { Input.idle 0 with keyLeft := true }
    (by decide!)).1 rfl (by decide!)
  ⟨by decide!, by decide!, h.2.1, h.2.2.2.2.1.trans (by decide!), by decide!, by decide!⟩

/-- C39: a frame that starts in Menu, Game Over or Victory leaves grid, lives,
score, level and Player column as they were unless its Enter branch runs with
the cursor on item 0; a frame that starts in Instructions or Level Up always
does; and a frame that starts in Level Up ends in Level Up or Playing, in
Playing exactly when the hold timer, advanced by the frame, has reached 2 s. -/
theorem C39_menu_frames_keep_board (s : State) (inp : Input) :
    ((s.currentState = STATE_MENU ∨ s.currentState = STATE_GAME_OVER ∨
        s.currentState = STATE_VICTORY) →
      ¬(Selects s inp ∧ s.selectedMenuItem = 0) → SameBoard s (frame s inp)) ∧
    (s.currentState = STATE_INSTRUCTIONS → SameBoard s (frame s inp)) ∧
    (s.currentState = STATE_LEVEL_UP →
      SameBoard s (frame s inp) ∧
      ((frame s inp).currentState = STATE_LEVEL_UP ∨
        (frame s inp).currentState = STATE_PLAYING) ∧
      ((frame s inp).currentState = STATE_PLAYING ↔ 2000000 ≤ s.levelUpTimer + inp.dt)) := by
  obtain ⟨s2, hs2, e⟩ := frame_entry s inp
  rw [e]
  refine ⟨fun hst hn => ?_, fun hst => ?_, fun hst => ?_⟩
  · have hn2 : ¬(menuCooldown ≤ s.menuClock + inp.dt ∧ inp.keyEnter = true ∧
        (inp.keyUp || inp.keyW) = false ∧ (inp.keyDown || inp.keyS) = false ∧
        s.selectedMenuItem = 0) :=
      fun x => hn ⟨⟨x.1, x.2.1, x.2.2.1, x.2.2.2.1⟩, x.2.2.2.2⟩
    rcases hs2 with rfl | rfl
    · have k := board_updateBlock (s.advanceClocks inp.dt) inp hst hn2
      exact ⟨k.1, k.2.1, k.2.2.1, k.2.2.2.1, k.2.2.2.2⟩
    · have k := board_updateBlock { s.advanceClocks inp.dt with windowOpen := false } inp hst hn2
      exact ⟨k.1, k.2.1, k.2.2.1, k.2.2.2.1, k.2.2.2.2⟩
  · rcases hs2 with rfl | rfl
    · rw [updateBlock_instructions (s.advanceClocks inp.dt) inp hst]
      have k := board_instructionsFrame (s.advanceClocks inp.dt) inp
      exact ⟨k.1, k.2.1, k.2.2.1, k.2.2.2.1, k.2.2.2.2⟩
    · rw [updateBlock_instructions { s.advanceClocks inp.dt with windowOpen := false } inp hst]
      have k := board_instructionsFrame { s.advanceClocks inp.dt with windowOpen := false } inp
      exact ⟨k.1, k.2.1, k.2.2.1, k.2.2.2.1, k.2.2.2.2⟩
  · rcases hs2 with rfl | rfl
    · rw [updateBlock_levelUp (s.advanceClocks inp.dt) inp hst]
      have k := levelUpFrame_hold (s.advanceClocks inp.dt) hst
      exact ⟨⟨k.1.1, k.1.2.1, k.1.2.2.1, k.1.2.2.2.1, k.1.2.2.2.2⟩, k.2.1, k.2.2⟩
    · rw [updateBlock_levelUp { s.advanceClocks inp.dt with windowOpen := false } inp hst]
      have k := levelUpFrame_hold { s.advanceClocks inp.dt with windowOpen := false } hst
      exact ⟨⟨k.1.1, k.1.2.1, k.1.2.2.1, k.1.2.2.2.1, k.1.2.2.2.2⟩, k.2.1, k.2.2⟩

theorem C39_menu_frames_keep_board_witness :
    heldState.cell 5 3 = ENEMY ∧ SameBoard heldState (frame heldState (Input.idle 400000)) ∧
      (frame heldState (Input.idle 400000)).currentState = STATE_LEVEL_UP ∧
      (frame heldState (Input.idle 500000)).currentState = STATE_PLAYING :=
  have h4 := (C39_menu_frames_keep_board heldState (Input.idle 400000)).2.2 rfl
  have h5 := (C39_menu_frames_keep_board heldState (Input.idle 500000)).2.2 rfl
  ⟨by decide!, h4.1,
    h4.2.1.resolve_right (fun e => absurd (h4.2.2.1 e) (by decide)),
    h5.2.2.2 (by decide)⟩

end SpaceShooter
